import Mathlib

/-!
The LR35902 core of gbtest and its bus: a shallow embedding of
`src/cpu/LR35902.cpp` and `src/platform/bus/Bus.cpp`.

Conventions of the embedding:

* machine integers are `Nat`, truncated with `% 256` (`uint8_t`), `% 65536`
  (`uint16_t`) or `% 4294967296` (`unsigned`) exactly where the C++ stores them;
* a C++ exception is a value: a member function that may throw returns
  `Except _ _` together with the state reached when the exception left it
  (C++ does not roll anything back);
* `uint8_t&` parameters that are only read are passed by value, those that are
  written are passed as value in / value out, and `ADD_HL_r16`, which reads its
  reference after writing `hl`, takes a getter on the current register file;
* operands of `|` that both call `fetch()` or `m_bus.read` are evaluated left
  to right.
-/

namespace gbtest

/-! ## Bus (`src/platform/bus/Bus.cpp`) -/

/-- Modelled from the spec: `BusRequestSource` (declared in the missing `Bus.h`),
"`source` is one of `{CPU, PPU, DMA}`". -/
inductive BusRequestSource where
  | CPU
  | PPU
  | DMA
deriving DecidableEq, Repr

/-- Modelled from the spec: the provider contract of §6 (`BusProvider.h` is missing).
Each operation takes the state `μ` of the devices behind the bus, the address and
the current content of `val`, and returns whether it handled the request together
with the new content of `val` (reads) or the new device state (writes). -/
structure BusProvider (μ : Type) where
  busRead : μ → Nat → Nat → BusRequestSource → Bool × Nat
  busWrite : μ → Nat → Nat → BusRequestSource → Bool × μ
  busReadOverride : μ → Nat → Nat → BusRequestSource → Bool × Nat
  busWriteOverride : μ → Nat → Nat → BusRequestSource → Bool × μ

/-- Modelled from the spec: `BusNoHandlerException(addr, isWrite)` (its header is
missing), the error `NoHandler(addr, isWrite)` of §7. -/
structure BusNoHandlerException where
  addr : Nat
  isWrite : Bool
deriving DecidableEq, Repr

/-- The bus: `m_busProviders` in registration order, and the state of the devices
the providers point to. -/
structure Bus (μ : Type) where
  busProviders : List (BusProvider μ)
  store : μ

/-- First loop of `Bus::read`: the first provider whose `busReadOverride` returns
`true` ends the read; `val` is threaded through the calls. -/
def Bus.readOverridePass {μ : Type} :
    List (BusProvider μ) → μ → Nat → Nat → BusRequestSource → Bool × Nat
  | [], _, _, val, _ => (false, val)
  | p :: ps, m, addr, val, src =>
    match p.busReadOverride m addr val src with
    | (true, v) => (true, v % 256)
    | (false, v) => Bus.readOverridePass ps m addr (v % 256) src

/-- Second loop of `Bus::read`: `while (i < size) { if (busRead(..)) break; ++i; }`;
the result is `false` exactly when `i == m_busProviders.size()` at the end. -/
def Bus.readPass {μ : Type} :
    List (BusProvider μ) → μ → Nat → Nat → BusRequestSource → Bool × Nat
  | [], _, _, val, _ => (false, val)
  | p :: ps, m, addr, val, src =>
    match p.busRead m addr val src with
    | (true, v) => (true, v % 256)
    | (false, v) => Bus.readPass ps m addr (v % 256) src

/-- `Bus::read(uint16_t addr, BusRequestSource)`; `val` starts at 0. -/
def Bus.read {μ : Type} (bus : Bus μ) (addr : Nat) (src : BusRequestSource) :
    Except BusNoHandlerException Nat :=
  match Bus.readOverridePass bus.busProviders bus.store (addr % 65536) 0 src with
  | (true, val) => .ok val
  | (false, val) =>
    match Bus.readPass bus.busProviders bus.store (addr % 65536) val src with
    | (true, val) => .ok val
    | (false, _) => .error ⟨addr % 65536, false⟩

/-- First loop of `Bus::write`. -/
def Bus.writeOverridePass {μ : Type} :
    List (BusProvider μ) → μ → Nat → Nat → BusRequestSource → Bool × μ
  | [], m, _, _, _ => (false, m)
  | p :: ps, m, addr, val, src =>
    match p.busWriteOverride m addr val src with
    | (true, m1) => (true, m1)
    | (false, m1) => Bus.writeOverridePass ps m1 addr val src

/-- Second loop of `Bus::write`. -/
def Bus.writePass {μ : Type} :
    List (BusProvider μ) → μ → Nat → Nat → BusRequestSource → Bool × μ
  | [], m, _, _, _ => (false, m)
  | p :: ps, m, addr, val, src =>
    match p.busWrite m addr val src with
    | (true, m1) => (true, m1)
    | (false, m1) => Bus.writePass ps m1 addr val src

/-- `Bus::write(uint16_t addr, uint8_t val, BusRequestSource)`. -/
def Bus.write {μ : Type} (bus : Bus μ) (addr val : Nat) (src : BusRequestSource) :
    Except BusNoHandlerException Unit × Bus μ :=
  match Bus.writeOverridePass bus.busProviders bus.store (addr % 65536) (val % 256) src with
  | (true, m1) => (.ok (), { bus with store := m1 })
  | (false, m1) =>
    match Bus.writePass bus.busProviders m1 (addr % 65536) (val % 256) src with
    | (true, m2) => (.ok (), { bus with store := m2 })
    | (false, m2) => (.error ⟨addr % 65536, true⟩, { bus with store := m2 })

/-- Modelled from the spec: `Memory` (`memory/Memory.h` is missing), the
`m_wholeMemory` provider of `GameBoy.h`: a simple byte array over the whole address
space that handles every normal read and write and overrides nothing. -/
def wholeMemory : BusProvider (Nat → Nat) where
  busRead := fun m addr _ _ => (true, m addr)
  busWrite := fun m addr val _ => (true, fun a => if a = addr then val else m a)
  busReadOverride := fun _ _ val _ => (false, val)
  busWriteOverride := fun m _ _ _ => (false, m)

/-- A bus whose only provider is the whole-memory byte array holding `m`. -/
def ramBus (m : Nat → Nat) : Bus (Nat → Nat) :=
  { busProviders := [wholeMemory], store := m }

/-! ## Register file and interrupt controller -/

/-- Modelled from the spec: the flag register `F` (`LR35902Registers.h` is missing):
four 1-bit flags and four unused bits. The code assigns and reads `f.z`, `f.n`,
`f.h`, `f.c` as 1-bit fields. -/
structure Flags where
  z : Bool
  n : Bool
  h : Bool
  c : Bool
  unused : Nat
deriving DecidableEq, Repr

/-- Modelled from the spec: the byte view of `F`. The flags sit in the high nibble
(`Z` bit 7, `N` bit 6, `H` bit 5, `C` bit 4) and the unused bits are the low nibble,
the layout under which `POP AF`, which masks the popped byte with `0xF0`, restores
all four flags and clears the low nibble, and under which `F = 0xB0` is the boot
value. -/
def Flags.raw (f : Flags) : Nat :=
  f.z.toNat * 128 + f.n.toNat * 64 + f.h.toNat * 32 + f.c.toNat * 16 + f.unused % 16

/-- The flags held by a byte written to `F`; inverse of `Flags.raw`. -/
def Flags.ofRaw (v : Nat) : Flags :=
  { z := v / 128 % 2 != 0, n := v / 64 % 2 != 0, h := v / 32 % 2 != 0,
    c := v / 16 % 2 != 0, unused := v % 16 }

/-- Modelled from the spec: `LR35902Registers` (its header is missing): eight 8-bit
registers pairable as `AF`, `BC`, `DE`, `HL` with the high register in the upper
byte, and the 16-bit `SP` and `PC`. -/
structure LR35902Registers where
  a : Nat
  f : Flags
  b : Nat
  c : Nat
  d : Nat
  e : Nat
  h : Nat
  l : Nat
  sp : Nat
  pc : Nat
deriving DecidableEq, Repr

namespace LR35902Registers

def af (r : LR35902Registers) : Nat := r.a % 256 * 256 + r.f.raw
def bc (r : LR35902Registers) : Nat := r.b % 256 * 256 + r.c % 256
def de (r : LR35902Registers) : Nat := r.d % 256 * 256 + r.e % 256
def hl (r : LR35902Registers) : Nat := r.h % 256 * 256 + r.l % 256

def setAf (r : LR35902Registers) (v : Nat) : LR35902Registers :=
  { r with a := v / 256 % 256, f := Flags.ofRaw (v % 256) }
def setBc (r : LR35902Registers) (v : Nat) : LR35902Registers :=
  { r with b := v / 256 % 256, c := v % 256 }
def setDe (r : LR35902Registers) (v : Nat) : LR35902Registers :=
  { r with d := v / 256 % 256, e := v % 256 }
def setHl (r : LR35902Registers) (v : Nat) : LR35902Registers :=
  { r with h := v / 256 % 256, l := v % 256 }

end LR35902Registers

/-- The interrupt controller. `m_interruptMasterEnable` and
`m_delayedInterruptEnableCountdown` are the members of `InterruptController.h`;
`interruptRequest` (`IF`) and `interruptEnable` (`IE`) are the latches read by
`getInterruptRequest()` and `getInterruptEnable()`. The header under `src/` declares
neither latch and `InterruptController.cpp` is missing: the latches are kept here as
members of the controller, and their exposure on the bus at 0xFF0F and 0xFFFF is not
modelled, so that no bus access of the CPU reads or changes them. -/
structure InterruptController where
  interruptMasterEnable : Bool
  delayedInterruptEnableCountdown : Int
  interruptRequest : Nat
  interruptEnable : Nat
deriving DecidableEq, Repr

namespace InterruptController

/-- Modelled from the spec: `InterruptController.cpp` is missing; the setter of
`m_interruptMasterEnable`. -/
def setInterruptMasterEnable (ic : InterruptController) (v : Bool) : InterruptController :=
  { ic with interruptMasterEnable := v }

/-- Modelled from the spec: `InterruptController.cpp` is missing; the getter of
`m_interruptMasterEnable`. -/
def isInterruptMasterEnabled (ic : InterruptController) : Bool := ic.interruptMasterEnable

/-- Modelled from the spec: `InterruptController.cpp` is missing; the setter of
`m_delayedInterruptEnableCountdown`. -/
def setDelayedInterruptEnableCountdown (ic : InterruptController) (v : Int) :
    InterruptController :=
  { ic with delayedInterruptEnableCountdown := v }

/-- Modelled from the spec: `InterruptController.cpp` is missing. "At each instruction
boundary: if `delayedEnable > 0`, decrement it; if it hit 0 this step, set
`IME ← true`." -/
def handleDelayedInterrupt (ic : InterruptController) : InterruptController :=
  if 0 < ic.delayedInterruptEnableCountdown then
    let ic1 := { ic with delayedInterruptEnableCountdown := ic.delayedInterruptEnableCountdown - 1 }
    if ic1.delayedInterruptEnableCountdown = 0 then
      { ic1 with interruptMasterEnable := true }
    else ic1
  else ic

/-- Modelled from the spec: `InterruptController.cpp` is missing. "The controller
itself performs no work on a bare tick." -/
def tick (ic : InterruptController) : InterruptController := ic

/-- Modelled from the spec: `InterruptController.cpp` is missing; the 8-bit `IF`
latch. -/
def getInterruptRequest (ic : InterruptController) : Nat := ic.interruptRequest % 256

/-- Modelled from the spec: `InterruptController.cpp` is missing; the 8-bit `IE`
mask. -/
def getInterruptEnable (ic : InterruptController) : Nat := ic.interruptEnable % 256

/-- Modelled from the spec: `InterruptController.cpp` is missing. The request bits
of `IF` selected by the mask `interruptType` (`1 << i` at the call in
`handleInterrupt`) are set when `requested`, cleared otherwise ("Clear `IF[i]`"). The
header of the enumeration `InterruptType` is missing as well: the argument is the
integer that `handleInterrupt` casts to it, read as a mask, the reading under which
that call clears `IF[i]`; `Bus::setInterruptLineHigh` uses an `InterruptType` as a bit
position instead. -/
def setInterruptRequested (ic : InterruptController) (interruptType : Nat) (requested : Bool) :
    InterruptController :=
  if requested then
    { ic with interruptRequest := (ic.interruptRequest ||| interruptType) % 256 }
  else
    { ic with interruptRequest := (ic.interruptRequest % 256) &&& (255 - interruptType % 256) }

end InterruptController

/-! ## CPU state (`src/cpu/LR35902.cpp`) -/

/-- The members of `LR35902`: `m_bus`, `m_registers`, `m_interruptController`,
`m_cyclesToWait` (`uint8_t`), `m_halted`, `m_stopped`, `m_tickCounter` (`unsigned`). -/
structure LR35902 (μ : Type) where
  bus : Bus μ
  registers : LR35902Registers
  interruptController : InterruptController
  cyclesToWait : Nat
  halted : Bool
  stopped : Bool
  tickCounter : Nat

/-- A member function of `LR35902` returning `α` that can be left by a
`BusNoHandlerException`: the result, and the state it leaves. -/
def CPU (μ : Type) (α : Type) : Type := LR35902 μ → Except BusNoHandlerException α × LR35902 μ

namespace CPU

def pure {μ α : Type} (a : α) : CPU μ α := fun s => (.ok a, s)

def bind {μ α β : Type} (m : CPU μ α) (f : α → CPU μ β) : CPU μ β := fun s =>
  match m s with
  | (.ok a, s1) => f a s1
  | (.error e, s1) => (.error e, s1)

instance {μ : Type} : Monad (CPU μ) where
  pure := CPU.pure
  bind := CPU.bind

/-- Run a sequence of assignments to the members. -/
def modify {μ : Type} (f : LR35902 μ → LR35902 μ) : CPU μ Unit := fun s => (.ok (), f s)

/-- Read the members. -/
def get {μ : Type} : CPU μ (LR35902 μ) := fun s => (.ok s, s)

/-- Run a computation on the members that cannot throw and produces a value. -/
def modifyGet {μ α : Type} (f : LR35902 μ → α × LR35902 μ) : CPU μ α := fun s =>
  ((.ok (f s).1, (f s).2))

end CPU

/-- What can leave `lookUp`: the `std::runtime_error` thrown by the handlers of the
undefined opcodes ("Opcode not implemented!"), or the exception of a bus access.
Modelled from the spec: `BusNoHandlerException` is not a `std::runtime_error`
("No internal component recovers from `NoHandler`; it propagates"). -/
inductive Exception where
  | runtime_error
  | busNoHandler (e : BusNoHandlerException)
deriving DecidableEq, Repr

/-- The value that an `int` leaves in a 1-bit field: its lowest bit. -/
def bit1 (v : Nat) : Bool := v % 2 != 0

/-- The operator `~` on an `int` holding a non-negative value (32-bit two's
complement, as an unsigned bit pattern). -/
def bitNot (v : Nat) : Nat := 4294967295 - v % 4294967296

/-- The value of `(int8_t) u` for a byte `u`. -/
def int8 (u : Nat) : Int := if u % 256 < 128 then (u % 256 : Nat) else ((u % 256 : Nat) : Int) - 256

/-- The 16-bit result of `x + (int8_t) u` stored in a `uint16_t`. -/
def addInt8 (x u : Nat) : Nat := (((x : Int) + int8 u) % 65536).toNat

namespace LR35902

variable {μ : Type}

/-! ### Assignments to the members; each truncates to the width of the member -/

def setA (s : LR35902 μ) (v : Nat) : LR35902 μ :=
  { s with registers := { s.registers with a := v % 256 } }
def setB (s : LR35902 μ) (v : Nat) : LR35902 μ :=
  { s with registers := { s.registers with b := v % 256 } }
def setC (s : LR35902 μ) (v : Nat) : LR35902 μ :=
  { s with registers := { s.registers with c := v % 256 } }
def setD (s : LR35902 μ) (v : Nat) : LR35902 μ :=
  { s with registers := { s.registers with d := v % 256 } }
def setE (s : LR35902 μ) (v : Nat) : LR35902 μ :=
  { s with registers := { s.registers with e := v % 256 } }
def setH (s : LR35902 μ) (v : Nat) : LR35902 μ :=
  { s with registers := { s.registers with h := v % 256 } }
def setL (s : LR35902 μ) (v : Nat) : LR35902 μ :=
  { s with registers := { s.registers with l := v % 256 } }
def setSp (s : LR35902 μ) (v : Nat) : LR35902 μ :=
  { s with registers := { s.registers with sp := v % 65536 } }
def setPc (s : LR35902 μ) (v : Nat) : LR35902 μ :=
  { s with registers := { s.registers with pc := v % 65536 } }
def setAf (s : LR35902 μ) (v : Nat) : LR35902 μ :=
  { s with registers := s.registers.setAf (v % 65536) }
def setBc (s : LR35902 μ) (v : Nat) : LR35902 μ :=
  { s with registers := s.registers.setBc (v % 65536) }
def setDe (s : LR35902 μ) (v : Nat) : LR35902 μ :=
  { s with registers := s.registers.setDe (v % 65536) }
def setHl (s : LR35902 μ) (v : Nat) : LR35902 μ :=
  { s with registers := s.registers.setHl (v % 65536) }
def setFz (s : LR35902 μ) (v : Bool) : LR35902 μ :=
  { s with registers := { s.registers with f := { s.registers.f with z := v } } }
def setFn (s : LR35902 μ) (v : Bool) : LR35902 μ :=
  { s with registers := { s.registers with f := { s.registers.f with n := v } } }
def setFh (s : LR35902 μ) (v : Bool) : LR35902 μ :=
  { s with registers := { s.registers with f := { s.registers.f with h := v } } }
def setFc (s : LR35902 μ) (v : Bool) : LR35902 μ :=
  { s with registers := { s.registers with f := { s.registers.f with c := v } } }
def setCyclesToWait (s : LR35902 μ) (v : Nat) : LR35902 μ :=
  { s with cyclesToWait := v % 256 }
def setHalted (s : LR35902 μ) (v : Bool) : LR35902 μ := { s with halted := v }
def setStopped (s : LR35902 μ) (v : Bool) : LR35902 μ := { s with stopped := v }
def setInterruptController (s : LR35902 μ) (ic : InterruptController) : LR35902 μ :=
  { s with interruptController := ic }

/-! ### Bus accesses of the CPU -/

/-- The call `m_bus.read(addr, BusRequestSource::CPU)`. -/
def busRead (addr : Nat) : CPU μ Nat := fun s =>
  (s.bus.read addr BusRequestSource.CPU, s)

/-- The call `m_bus.write(addr, val, BusRequestSource::CPU)`. -/
def busWrite (addr val : Nat) : CPU μ Unit := fun s =>
  ((s.bus.write addr val BusRequestSource.CPU).1,
    { s with bus := (s.bus.write addr val BusRequestSource.CPU).2 })

/-- `LR35902::fetch`: `return m_bus.read(m_registers.pc++, CPU)`; `pc` is incremented
before the bus is called. -/
def fetch : CPU μ Nat := do
  let s ← CPU.get
  CPU.modify fun s => s.setPc (s.registers.pc + 1)
  busRead s.registers.pc

/-- The expression `m_bus.read(m_registers.sp++, CPU)`. -/
def readSpPostInc : CPU μ Nat := do
  let s ← CPU.get
  CPU.modify fun s => s.setSp (s.registers.sp + 1)
  busRead s.registers.sp

/-- The statement `m_bus.write(--m_registers.sp, val, CPU)`. -/
def writeSpPreDec (val : LR35902 μ → Nat) : CPU μ Unit := do
  CPU.modify fun s => s.setSp (s.registers.sp + 65535)
  let s ← CPU.get
  busWrite s.registers.sp (val s)

/-! ### The shared bodies (`LR35902.cpp`, lines 2248-2537) -/

def RLC (dest : Nat) (s : LR35902 μ) : Nat × LR35902 μ :=
  let s := s.setFc (bit1 ((dest >>> 7) &&& 0x1))
  let dest := ((dest <<< 1) ||| s.registers.f.c.toNat) % 256
  let s := s.setFz (decide (dest = 0))
  let s := s.setFn false
  let s := s.setFh false
  (dest, s.setCyclesToWait 8)

def RRC (dest : Nat) (s : LR35902 μ) : Nat × LR35902 μ :=
  let s := s.setFc (bit1 (dest &&& 0x1))
  let dest := ((dest >>> 1) ||| (s.registers.f.c.toNat <<< 7)) % 256
  let s := s.setFz (decide (dest = 0))
  let s := s.setFn false
  let s := s.setFh false
  (dest, s.setCyclesToWait 8)

def RL (dest : Nat) (s : LR35902 μ) : Nat × LR35902 μ :=
  let newCarry := ((dest >>> 7) &&& 0x1) % 256
  let dest := ((dest <<< 1) ||| (s.registers.f.c.toNat &&& 0x1)) % 256
  let s := s.setFz (decide (dest = 0))
  let s := s.setFn false
  let s := s.setFh false
  let s := s.setFc (bit1 newCarry)
  (dest, s.setCyclesToWait 8)

def RR (dest : Nat) (s : LR35902 μ) : Nat × LR35902 μ :=
  let newCarry := (dest &&& 0x1) % 256
  let dest := ((dest >>> 1) ||| (s.registers.f.c.toNat <<< 7)) % 256
  let s := s.setFz (decide (dest = 0))
  let s := s.setFn false
  let s := s.setFh false
  let s := s.setFc (bit1 newCarry)
  (dest, s.setCyclesToWait 8)

def SLA (dest : Nat) (s : LR35902 μ) : Nat × LR35902 μ :=
  let s := s.setFc (bit1 ((dest >>> 7) &&& 0x1))
  let dest := (dest <<< 1) % 256
  let s := s.setFz (decide (dest = 0))
  let s := s.setFn false
  let s := s.setFh false
  (dest, s.setCyclesToWait 8)

def SRA (dest : Nat) (s : LR35902 μ) : Nat × LR35902 μ :=
  let s := s.setFc (bit1 (dest &&& 0x1))
  let dest := (dest >>> 1) % 256
  let dest := (dest ||| ((dest &&& 0x40) <<< 1)) % 256
  let s := s.setFz (decide (dest = 0))
  let s := s.setFn false
  let s := s.setFh false
  (dest, s.setCyclesToWait 8)

def SWAP (dest : Nat) (s : LR35902 μ) : Nat × LR35902 μ :=
  let newUpper := (dest <<< 4) % 256
  let dest := ((dest >>> 4) ||| newUpper) % 256
  let s := s.setFz (decide (dest = 0))
  let s := s.setFn false
  let s := s.setFh false
  let s := s.setFc false
  (dest, s.setCyclesToWait 8)

def SRL (dest : Nat) (s : LR35902 μ) : Nat × LR35902 μ :=
  let s := s.setFc (bit1 (dest &&& 0x1))
  let dest := (dest >>> 1) % 256
  let s := s.setFz (decide (dest = 0))
  let s := s.setFn false
  let s := s.setFh false
  (dest, s.setCyclesToWait 8)

def BIT (bitToTest : Nat) (src : Nat) (s : LR35902 μ) : LR35902 μ :=
  let s := s.setFz (decide (src &&& (1 <<< bitToTest) = 0))
  let s := s.setFn false
  let s := s.setFh true
  s.setCyclesToWait 8

/-- `RES`: `dest &= ~(1 << bitToClear)`; no assignment to `m_cyclesToWait`. -/
def RES (bitToClear : Nat) (dest : Nat) (s : LR35902 μ) : Nat × LR35902 μ :=
  ((dest &&& bitNot (1 <<< bitToClear)) % 256, s)

/-- `SET`: `dest |= 1 << bitToSet`; no assignment to `m_cyclesToWait`. -/
def SET (bitToSet : Nat) (dest : Nat) (s : LR35902 μ) : Nat × LR35902 μ :=
  ((dest ||| (1 <<< bitToSet)) % 256, s)

def ADD_A (src : Nat) (s : LR35902 μ) : LR35902 μ :=
  let res := (s.registers.a + src) % 65536
  let s := s.setFh (decide ((((s.registers.a &&& 0x0F) + (src &&& 0x0F)) &&& 0x10) = 0x10))
  let s := s.setA res
  let s := s.setFz (decide (s.registers.a = 0))
  let s := s.setFn false
  let s := s.setFc (decide (res > 0xFF))
  s.setCyclesToWait 4

def ADC_A (src : Nat) (s : LR35902 μ) : LR35902 μ :=
  let res := (s.registers.a + src + s.registers.f.c.toNat) % 65536
  let s := s.setFh (decide ((((s.registers.a &&& 0x0F) + (src &&& 0x0F)
    + (s.registers.f.c.toNat &&& 0x0F)) &&& 0x10) = 0x10))
  let s := s.setA res
  let s := s.setFz (decide (s.registers.a = 0))
  let s := s.setFn false
  let s := s.setFc (decide (res > 0xFF))
  s.setCyclesToWait 4

def SUB_A (src : Nat) (s : LR35902 μ) : LR35902 μ :=
  let s := s.setFh (decide ((src &&& 0x0F) > (s.registers.a &&& 0x0F)))
  let s := s.setFc (decide (src > s.registers.a))
  let s := s.setA (s.registers.a + 256 - src)
  let s := s.setFz (decide (s.registers.a = 0))
  let s := s.setFn true
  s.setCyclesToWait 4

def SBC_A (src : Nat) (s : LR35902 μ) : LR35902 μ :=
  let oldCarry := s.registers.f.c.toNat
  let s := s.setFh (decide (((src &&& 0x0F) + (oldCarry &&& 0x0F)) > (s.registers.a &&& 0x0F)))
  let s := s.setFc (decide ((src + oldCarry) > s.registers.a))
  let s := s.setA (s.registers.a + 512 - (src + oldCarry))
  let s := s.setFz (decide (s.registers.a = 0))
  let s := s.setFn true
  s.setCyclesToWait 4

def AND_A (src : Nat) (s : LR35902 μ) : LR35902 μ :=
  let s := s.setA (s.registers.a &&& src)
  let s := s.setFz (decide (s.registers.a = 0))
  let s := s.setFn false
  let s := s.setFh true
  let s := s.setFc false
  s.setCyclesToWait 4

def XOR_A (src : Nat) (s : LR35902 μ) : LR35902 μ :=
  let s := s.setA (s.registers.a ^^^ src)
  let s := s.setFz (decide (s.registers.a = 0))
  let s := s.setFn false
  let s := s.setFh false
  let s := s.setFc false
  s.setCyclesToWait 4

def OR_A (src : Nat) (s : LR35902 μ) : LR35902 μ :=
  let s := s.setA (s.registers.a ||| src)
  let s := s.setFz (decide (s.registers.a = 0))
  let s := s.setFn false
  let s := s.setFh false
  let s := s.setFc false
  s.setCyclesToWait 4

def CP_A (src : Nat) (s : LR35902 μ) : LR35902 μ :=
  let s := s.setFz (decide (s.registers.a = src))
  let s := s.setFn true
  let s := s.setFh (decide ((src &&& 0x0F) > (s.registers.a &&& 0x0F)))
  let s := s.setFc (decide (src > s.registers.a))
  s.setCyclesToWait 4

/-- `INC_r8(uint8_t& reg)`: returns the new content of `reg`. -/
def INC_r8 (reg : Nat) (s : LR35902 μ) : Nat × LR35902 μ :=
  let oldVal := reg
  let reg := (reg + 1) % 256
  let s := s.setFz (decide (reg = 0))
  let s := s.setFn false
  let s := s.setFh (decide ((oldVal &&& 0x08) ≠ 0) && !decide ((reg &&& 0x08) ≠ 0))
  (reg, s.setCyclesToWait 4)

/-- `DEC_r8(uint8_t& reg)`: returns the new content of `reg`. -/
def DEC_r8 (reg : Nat) (s : LR35902 μ) : Nat × LR35902 μ :=
  let oldVal := reg
  let reg := (reg + 255) % 256
  let s := s.setFz (decide (reg = 0))
  let s := s.setFn true
  let s := s.setFh (decide ((oldVal &&& 0x10) ≠ (reg &&& 0x10)))
  (reg, s.setCyclesToWait 4)

/-- `ADD_HL_r16(uint16_t& reg)`: `reg` is read on the register file as it is after
`m_registers.hl += reg`. -/
def ADD_HL_r16 (reg : LR35902Registers → Nat) (s : LR35902 μ) : LR35902 μ :=
  let oldVal := s.registers.hl
  let s := s.setHl (s.registers.hl + reg s.registers)
  let s := s.setFn false
  let s := s.setFh (decide ((((oldVal &&& 0x0FFF) + (reg s.registers &&& 0x0FFF)) &&& 0x1000) = 0x1000))
  let s := s.setFc (decide ((((oldVal &&& 0xFFFF) + (reg s.registers &&& 0xFFFF)) &&& 0x10000) = 0x10000))
  s.setCyclesToWait 8

/-! ### The handlers of the primary opcodes (`LR35902.cpp`, lines 156-2246) -/

/-- Instruction `NOP`. -/
def opcode00h : CPU μ Unit := do
  CPU.modify fun s => s.setCyclesToWait 4

/-- Instruction `LD BC, d16`. -/
def opcode01h : CPU μ Unit := do
  let v ← fetch
  CPU.modify fun s => s.setC v
  let v ← fetch
  CPU.modify fun s => s.setB v
  CPU.modify fun s => s.setCyclesToWait 12

/-- Instruction `LD (BC), A`. -/
def opcode02h : CPU μ Unit := do
  let s ← CPU.get
  busWrite s.registers.bc s.registers.a
  CPU.modify fun s => s.setCyclesToWait 8

/-- Instruction `INC BC`. -/
def opcode03h : CPU μ Unit := do
  CPU.modify fun s => s.setBc (s.registers.bc + 1)
  CPU.modify fun s => s.setCyclesToWait 8

/-- Instruction `INC B`. -/
def opcode04h : CPU μ Unit := do
  CPU.modify fun s => let (reg, s) := INC_r8 s.registers.b s; s.setB reg

/-- Instruction `DEC B`. -/
def opcode05h : CPU μ Unit := do
  CPU.modify fun s => let (reg, s) := DEC_r8 s.registers.b s; s.setB reg

/-- Instruction `LD B, d8`. -/
def opcode06h : CPU μ Unit := do
  let v ← fetch
  CPU.modify fun s => s.setB v
  CPU.modify fun s => s.setCyclesToWait 8

/-- Instruction `RLCA`. -/
def opcode07h : CPU μ Unit := do
  CPU.modify fun s => s.setFc (bit1 ((s.registers.a >>> 7) &&& 0x1))
  CPU.modify fun s => s.setA ((s.registers.a <<< 1) ||| s.registers.f.c.toNat)
  CPU.modify fun s => s.setFz false
  CPU.modify fun s => s.setFn false
  CPU.modify fun s => s.setFh false
  CPU.modify fun s => s.setCyclesToWait 4

/-- Instruction `LD (a16), SP`. -/
def opcode08h : CPU μ Unit := do
  let lo ← fetch
  let hi ← fetch
  let addr := (lo ||| (hi <<< 8)) % 65536
  let s ← CPU.get
  busWrite addr s.registers.sp
  let s ← CPU.get
  busWrite (addr + 1) (s.registers.sp >>> 8)
  CPU.modify fun s => s.setCyclesToWait 20

/-- Instruction `ADD HL, BC`. -/
def opcode09h : CPU μ Unit := do
  CPU.modify fun s => ADD_HL_r16 (fun r => r.bc) s

/-- Instruction `LD A, (BC)`. -/
def opcode0Ah : CPU μ Unit := do
  let s ← CPU.get
  let v ← busRead s.registers.bc
  CPU.modify fun s => s.setA v
  CPU.modify fun s => s.setCyclesToWait 8

/-- Instruction `DEC BC`. -/
def opcode0Bh : CPU μ Unit := do
  CPU.modify fun s => s.setBc (s.registers.bc + 65535)
  CPU.modify fun s => s.setCyclesToWait 8

/-- Instruction `INC C`. -/
def opcode0Ch : CPU μ Unit := do
  CPU.modify fun s => let (reg, s) := INC_r8 s.registers.c s; s.setC reg

/-- Instruction `DEC C`. -/
def opcode0Dh : CPU μ Unit := do
  CPU.modify fun s => let (reg, s) := DEC_r8 s.registers.c s; s.setC reg

/-- Instruction `LD C, d8`. -/
def opcode0Eh : CPU μ Unit := do
  let v ← fetch
  CPU.modify fun s => s.setC v
  CPU.modify fun s => s.setCyclesToWait 8

/-- Instruction `RRCA`. -/
def opcode0Fh : CPU μ Unit := do
  CPU.modify fun s => s.setFc (bit1 (s.registers.a &&& 0x1))
  CPU.modify fun s => s.setA ((s.registers.a >>> 1) ||| (s.registers.f.c.toNat <<< 7))
  CPU.modify fun s => s.setFz false
  CPU.modify fun s => s.setFn false
  CPU.modify fun s => s.setFh false
  CPU.modify fun s => s.setCyclesToWait 4

/-- Instruction `STOP`. -/
def opcode10h : CPU μ Unit := do
  CPU.modify fun s => s.setHalted true
  CPU.modify fun s => s.setStopped true
  CPU.modify fun s => s.setCyclesToWait 4

/-- Instruction `LD DE, d16`. -/
def opcode11h : CPU μ Unit := do
  let v ← fetch
  CPU.modify fun s => s.setE v
  let v ← fetch
  CPU.modify fun s => s.setD v
  CPU.modify fun s => s.setCyclesToWait 12

/-- Instruction `LD (DE), A`. -/
def opcode12h : CPU μ Unit := do
  let s ← CPU.get
  busWrite s.registers.de s.registers.a
  CPU.modify fun s => s.setCyclesToWait 8

/-- Instruction `INC DE`. -/
def opcode13h : CPU μ Unit := do
  CPU.modify fun s => s.setDe (s.registers.de + 1)
  CPU.modify fun s => s.setCyclesToWait 8

/-- Instruction `INC D`. -/
def opcode14h : CPU μ Unit := do
  CPU.modify fun s => let (reg, s) := INC_r8 s.registers.d s; s.setD reg

/-- Instruction `DEC D`. -/
def opcode15h : CPU μ Unit := do
  CPU.modify fun s => let (reg, s) := DEC_r8 s.registers.d s; s.setD reg

/-- Instruction `LD D, d8`. -/
def opcode16h : CPU μ Unit := do
  let v ← fetch
  CPU.modify fun s => s.setD v
  CPU.modify fun s => s.setCyclesToWait 8

/-- Instruction `RLA`. -/
def opcode17h : CPU μ Unit := do
  let s ← CPU.get
  let newCarry := ((s.registers.a >>> 7) &&& 0x1) % 256
  CPU.modify fun s => s.setA ((s.registers.a <<< 1) ||| s.registers.f.c.toNat)
  CPU.modify fun s => s.setFz false
  CPU.modify fun s => s.setFn false
  CPU.modify fun s => s.setFh false
  CPU.modify fun s => s.setFc (bit1 newCarry)
  CPU.modify fun s => s.setCyclesToWait 4

/-- Instruction `JR r8`. -/
def opcode18h : CPU μ Unit := do
  let val ← fetch
  CPU.modify fun s => s.setPc (addInt8 s.registers.pc val)
  CPU.modify fun s => s.setCyclesToWait 12

/-- Instruction `ADD HL, DE`. -/
def opcode19h : CPU μ Unit := do
  CPU.modify fun s => ADD_HL_r16 (fun r => r.de) s

/-- Instruction `LD A, (DE)`. -/
def opcode1Ah : CPU μ Unit := do
  let s ← CPU.get
  let v ← busRead s.registers.de
  CPU.modify fun s => s.setA v
  CPU.modify fun s => s.setCyclesToWait 8

/-- Instruction `DEC DE`. -/
def opcode1Bh : CPU μ Unit := do
  CPU.modify fun s => s.setDe (s.registers.de + 65535)
  CPU.modify fun s => s.setCyclesToWait 8

/-- Instruction `INC E`. -/
def opcode1Ch : CPU μ Unit := do
  CPU.modify fun s => let (reg, s) := INC_r8 s.registers.e s; s.setE reg

/-- Instruction `DEC E`. -/
def opcode1Dh : CPU μ Unit := do
  CPU.modify fun s => let (reg, s) := DEC_r8 s.registers.e s; s.setE reg

/-- Instruction `LD E, d8`. -/
def opcode1Eh : CPU μ Unit := do
  let v ← fetch
  CPU.modify fun s => s.setE v
  CPU.modify fun s => s.setCyclesToWait 8

/-- Instruction `RRA`. -/
def opcode1Fh : CPU μ Unit := do
  let s ← CPU.get
  let newCarry := (s.registers.a &&& 0x1) % 256
  CPU.modify fun s => s.setA ((s.registers.a >>> 1) ||| (s.registers.f.c.toNat <<< 7))
  CPU.modify fun s => s.setFz false
  CPU.modify fun s => s.setFn false
  CPU.modify fun s => s.setFh false
  CPU.modify fun s => s.setFc (bit1 newCarry)
  CPU.modify fun s => s.setCyclesToWait 4

/-- Instruction `JR NZ, r8`. -/
def opcode20h : CPU μ Unit := do
  let val ← fetch
  let s ← CPU.get
  if s.registers.f.z then
    CPU.modify fun s => s.setCyclesToWait 8
  else
    CPU.modify fun s => s.setPc (addInt8 s.registers.pc val)
    CPU.modify fun s => s.setCyclesToWait 12

/-- Instruction `LD HL, d16`. -/
def opcode21h : CPU μ Unit := do
  let v ← fetch
  CPU.modify fun s => s.setL v
  let v ← fetch
  CPU.modify fun s => s.setH v
  CPU.modify fun s => s.setCyclesToWait 12

/-- Instruction `LD (HL+), A`. -/
def opcode22h : CPU μ Unit := do
  let s ← CPU.get
  CPU.modify fun s => s.setHl (s.registers.hl + 1)
  busWrite s.registers.hl s.registers.a
  CPU.modify fun s => s.setCyclesToWait 8

/-- Instruction `INC HL`. -/
def opcode23h : CPU μ Unit := do
  CPU.modify fun s => s.setHl (s.registers.hl + 1)
  CPU.modify fun s => s.setCyclesToWait 8

/-- Instruction `INC H`. -/
def opcode24h : CPU μ Unit := do
  CPU.modify fun s => let (reg, s) := INC_r8 s.registers.h s; s.setH reg

/-- Instruction `DEC H`. -/
def opcode25h : CPU μ Unit := do
  CPU.modify fun s => let (reg, s) := DEC_r8 s.registers.h s; s.setH reg

/-- Instruction `LD H, d8`. -/
def opcode26h : CPU μ Unit := do
  let v ← fetch
  CPU.modify fun s => s.setH v
  CPU.modify fun s => s.setCyclesToWait 8

/-- Instruction `DAA`. -/
def opcode27h : CPU μ Unit := do
  let s ← CPU.get
  if s.registers.f.n = false then
    let s ← CPU.get
    if s.registers.f.c || decide (s.registers.a > 0x99) then
      CPU.modify fun s => s.setA (s.registers.a + 0x60)
      CPU.modify fun s => s.setFc true
    let s ← CPU.get
    if s.registers.f.h || decide ((s.registers.a &&& 0x0F) > 0x09) then
      CPU.modify fun s => s.setA (s.registers.a + 0x06)
  else
    let s ← CPU.get
    if s.registers.f.c then
      CPU.modify fun s => s.setA (s.registers.a + 256 - 0x60)
    let s ← CPU.get
    if s.registers.f.h then
      CPU.modify fun s => s.setA (s.registers.a + 256 - 0x06)
  CPU.modify fun s => s.setFz (decide (s.registers.a = 0x00))
  CPU.modify fun s => s.setFh false

/-- Instruction `JR Z, r8`. -/
def opcode28h : CPU μ Unit := do
  let val ← fetch
  let s ← CPU.get
  if !s.registers.f.z then
    CPU.modify fun s => s.setCyclesToWait 8
  else
    CPU.modify fun s => s.setPc (addInt8 s.registers.pc val)
    CPU.modify fun s => s.setCyclesToWait 12

/-- Instruction `ADD HL, HL`. -/
def opcode29h : CPU μ Unit := do
  CPU.modify fun s => ADD_HL_r16 (fun r => r.hl) s

/-- Instruction `LD A, (HL+)`. -/
def opcode2Ah : CPU μ Unit := do
  let s ← CPU.get
  CPU.modify fun s => s.setHl (s.registers.hl + 1)
  let v ← busRead s.registers.hl
  CPU.modify fun s => s.setA v
  CPU.modify fun s => s.setCyclesToWait 8

/-- Instruction `DEC HL`. -/
def opcode2Bh : CPU μ Unit := do
  CPU.modify fun s => s.setHl (s.registers.hl + 65535)
  CPU.modify fun s => s.setCyclesToWait 8

/-- Instruction `INC L`. -/
def opcode2Ch : CPU μ Unit := do
  CPU.modify fun s => let (reg, s) := INC_r8 s.registers.l s; s.setL reg

/-- Instruction `DEC L`. -/
def opcode2Dh : CPU μ Unit := do
  CPU.modify fun s => let (reg, s) := DEC_r8 s.registers.l s; s.setL reg

/-- Instruction `LD L, d8`. -/
def opcode2Eh : CPU μ Unit := do
  let v ← fetch
  CPU.modify fun s => s.setL v
  CPU.modify fun s => s.setCyclesToWait 8

/-- Instruction `CPL`. -/
def opcode2Fh : CPU μ Unit := do
  CPU.modify fun s => s.setA (bitNot s.registers.a)
  CPU.modify fun s => s.setFn true
  CPU.modify fun s => s.setFh true
  CPU.modify fun s => s.setCyclesToWait 4

/-- Instruction `JR NC, r8`. -/
def opcode30h : CPU μ Unit := do
  let val ← fetch
  let s ← CPU.get
  if s.registers.f.c then
    CPU.modify fun s => s.setCyclesToWait 8
  else
    CPU.modify fun s => s.setPc (addInt8 s.registers.pc val)
    CPU.modify fun s => s.setCyclesToWait 12

/-- Instruction `LD SP, d16`. -/
def opcode31h : CPU μ Unit := do
  let lo ← fetch
  let hi ← fetch
  CPU.modify fun s => s.setSp (lo ||| (hi <<< 8))
  CPU.modify fun s => s.setCyclesToWait 12

/-- Instruction `LD (HL-), A`. -/
def opcode32h : CPU μ Unit := do
  let s ← CPU.get
  CPU.modify fun s => s.setHl (s.registers.hl + 65535)
  busWrite s.registers.hl s.registers.a
  CPU.modify fun s => s.setCyclesToWait 8

/-- Instruction `INC SP`. -/
def opcode33h : CPU μ Unit := do
  CPU.modify fun s => s.setSp (s.registers.sp + 1)
  CPU.modify fun s => s.setCyclesToWait 8

/-- Instruction `INC (HL)`. -/
def opcode34h : CPU μ Unit := do
  let s ← CPU.get
  let v ← busRead s.registers.hl
  let val := (v + 1) % 256
  let s ← CPU.get
  busWrite s.registers.hl val
  CPU.modify fun s => s.setFz (decide (val = 0))
  CPU.modify fun s => s.setFn false
  CPU.modify fun s => s.setFh (decide (val = 0x00) || decide (val = 0x10))
  CPU.modify fun s => s.setCyclesToWait 12

/-- Instruction `DEC (HL)`. -/
def opcode35h : CPU μ Unit := do
  let s ← CPU.get
  let v ← busRead s.registers.hl
  let val := (v + 255) % 256
  let s ← CPU.get
  busWrite s.registers.hl val
  CPU.modify fun s => s.setFz (decide (val = 0))
  CPU.modify fun s => s.setFn true
  CPU.modify fun s => s.setFh (decide (val = 0xF))
  CPU.modify fun s => s.setCyclesToWait 12

/-- Instruction `LD (HL), d8`. -/
def opcode36h : CPU μ Unit := do
  let s ← CPU.get
  let v ← fetch
  busWrite s.registers.hl v
  CPU.modify fun s => s.setCyclesToWait 12

/-- Instruction `SCF`. -/
def opcode37h : CPU μ Unit := do
  CPU.modify fun s => s.setFn false
  CPU.modify fun s => s.setFh false
  CPU.modify fun s => s.setFc true
  CPU.modify fun s => s.setCyclesToWait 4

/-- Instruction `JR C, r8`. -/
def opcode38h : CPU μ Unit := do
  let val ← fetch
  let s ← CPU.get
  if !s.registers.f.c then
    CPU.modify fun s => s.setCyclesToWait 8
  else
    CPU.modify fun s => s.setPc (addInt8 s.registers.pc val)
    CPU.modify fun s => s.setCyclesToWait 12

/-- Instruction `ADD HL, SP`. -/
def opcode39h : CPU μ Unit := do
  CPU.modify fun s => ADD_HL_r16 (fun r => r.sp) s

/-- Instruction `LD A, (HL-)`. -/
def opcode3Ah : CPU μ Unit := do
  let s ← CPU.get
  CPU.modify fun s => s.setHl (s.registers.hl + 65535)
  let v ← busRead s.registers.hl
  CPU.modify fun s => s.setA v
  CPU.modify fun s => s.setCyclesToWait 8

/-- Instruction `DEC SP`. -/
def opcode3Bh : CPU μ Unit := do
  CPU.modify fun s => s.setSp (s.registers.sp + 65535)
  CPU.modify fun s => s.setCyclesToWait 8

/-- Instruction `INC A`. -/
def opcode3Ch : CPU μ Unit := do
  CPU.modify fun s => let (reg, s) := INC_r8 s.registers.a s; s.setA reg

/-- Instruction `DEC A`. -/
def opcode3Dh : CPU μ Unit := do
  CPU.modify fun s => let (reg, s) := DEC_r8 s.registers.a s; s.setA reg

/-- Instruction `LD A, d8`. -/
def opcode3Eh : CPU μ Unit := do
  let v ← fetch
  CPU.modify fun s => s.setA v
  CPU.modify fun s => s.setCyclesToWait 8

/-- Instruction `CCF`. -/
def opcode3Fh : CPU μ Unit := do
  CPU.modify fun s => s.setFn false
  CPU.modify fun s => s.setFh false
  CPU.modify fun s => s.setFc (bit1 (bitNot s.registers.f.c.toNat))
  CPU.modify fun s => s.setCyclesToWait 4

/-- Instruction `LD B, B`. -/
def opcode40h : CPU μ Unit := do
  CPU.modify fun s => s.setB s.registers.b
  CPU.modify fun s => s.setCyclesToWait 4

/-- Instruction `LD B, C`. -/
def opcode41h : CPU μ Unit := do
  CPU.modify fun s => s.setB s.registers.c
  CPU.modify fun s => s.setCyclesToWait 4

/-- Instruction `LD B, D`. -/
def opcode42h : CPU μ Unit := do
  CPU.modify fun s => s.setB s.registers.d
  CPU.modify fun s => s.setCyclesToWait 4

/-- Instruction `LD B, E`. -/
def opcode43h : CPU μ Unit := do
  CPU.modify fun s => s.setB s.registers.e
  CPU.modify fun s => s.setCyclesToWait 4

/-- Instruction `LD B, H`. -/
def opcode44h : CPU μ Unit := do
  CPU.modify fun s => s.setB s.registers.h
  CPU.modify fun s => s.setCyclesToWait 4

/-- Instruction `LD B, L`. -/
def opcode45h : CPU μ Unit := do
  CPU.modify fun s => s.setB s.registers.l
  CPU.modify fun s => s.setCyclesToWait 4

/-- Instruction `LD B, (HL)`. -/
def opcode46h : CPU μ Unit := do
  let s ← CPU.get
  let v ← busRead s.registers.hl
  CPU.modify fun s => s.setB v
  CPU.modify fun s => s.setCyclesToWait 8

/-- Instruction `LD B, A`. -/
def opcode47h : CPU μ Unit := do
  CPU.modify fun s => s.setB s.registers.a
  CPU.modify fun s => s.setCyclesToWait 4

/-- Instruction `LD C, B`. -/
def opcode48h : CPU μ Unit := do
  CPU.modify fun s => s.setC s.registers.b
  CPU.modify fun s => s.setCyclesToWait 4

/-- Instruction `LD C, C`. -/
def opcode49h : CPU μ Unit := do
  CPU.modify fun s => s.setC s.registers.c
  CPU.modify fun s => s.setCyclesToWait 4

/-- Instruction `LD C, D`. -/
def opcode4Ah : CPU μ Unit := do
  CPU.modify fun s => s.setC s.registers.d
  CPU.modify fun s => s.setCyclesToWait 4

/-- Instruction `LD C, E`. -/
def opcode4Bh : CPU μ Unit := do
  CPU.modify fun s => s.setC s.registers.e
  CPU.modify fun s => s.setCyclesToWait 4

/-- Instruction `LD C, H`. -/
def opcode4Ch : CPU μ Unit := do
  CPU.modify fun s => s.setC s.registers.h
  CPU.modify fun s => s.setCyclesToWait 4

/-- Instruction `LD C, L`. -/
def opcode4Dh : CPU μ Unit := do
  CPU.modify fun s => s.setC s.registers.l
  CPU.modify fun s => s.setCyclesToWait 4

/-- Instruction `LD C, (HL)`. -/
def opcode4Eh : CPU μ Unit := do
  let s ← CPU.get
  let v ← busRead s.registers.hl
  CPU.modify fun s => s.setC v
  CPU.modify fun s => s.setCyclesToWait 8

/-- Instruction `LD C, A`. -/
def opcode4Fh : CPU μ Unit := do
  CPU.modify fun s => s.setC s.registers.a
  CPU.modify fun s => s.setCyclesToWait 4

/-- Instruction `LD D, B`. -/
def opcode50h : CPU μ Unit := do
  CPU.modify fun s => s.setD s.registers.b
  CPU.modify fun s => s.setCyclesToWait 4

/-- Instruction `LD D, C`. -/
def opcode51h : CPU μ Unit := do
  CPU.modify fun s => s.setD s.registers.c
  CPU.modify fun s => s.setCyclesToWait 4

/-- Instruction `LD D, D`. -/
def opcode52h : CPU μ Unit := do
  CPU.modify fun s => s.setD s.registers.d
  CPU.modify fun s => s.setCyclesToWait 4

/-- Instruction `LD D, E`. -/
def opcode53h : CPU μ Unit := do
  CPU.modify fun s => s.setD s.registers.e
  CPU.modify fun s => s.setCyclesToWait 4

/-- Instruction `LD D, H`. -/
def opcode54h : CPU μ Unit := do
  CPU.modify fun s => s.setD s.registers.h
  CPU.modify fun s => s.setCyclesToWait 4

/-- Instruction `LD D, L`. -/
def opcode55h : CPU μ Unit := do
  CPU.modify fun s => s.setD s.registers.l
  CPU.modify fun s => s.setCyclesToWait 4

/-- Instruction `LD D, (HL)`. -/
def opcode56h : CPU μ Unit := do
  let s ← CPU.get
  let v ← busRead s.registers.hl
  CPU.modify fun s => s.setD v
  CPU.modify fun s => s.setCyclesToWait 8

/-- Instruction `LD D, A`. -/
def opcode57h : CPU μ Unit := do
  CPU.modify fun s => s.setD s.registers.a
  CPU.modify fun s => s.setCyclesToWait 4

/-- Instruction `LD E, B`. -/
def opcode58h : CPU μ Unit := do
  CPU.modify fun s => s.setE s.registers.b
  CPU.modify fun s => s.setCyclesToWait 4

/-- Instruction `LD E, C`. -/
def opcode59h : CPU μ Unit := do
  CPU.modify fun s => s.setE s.registers.c
  CPU.modify fun s => s.setCyclesToWait 4

/-- Instruction `LD E, D`. -/
def opcode5Ah : CPU μ Unit := do
  CPU.modify fun s => s.setE s.registers.d
  CPU.modify fun s => s.setCyclesToWait 4

/-- Instruction `LD E, E`. -/
def opcode5Bh : CPU μ Unit := do
  CPU.modify fun s => s.setE s.registers.e
  CPU.modify fun s => s.setCyclesToWait 4

/-- Instruction `LD E, H`. -/
def opcode5Ch : CPU μ Unit := do
  CPU.modify fun s => s.setE s.registers.h
  CPU.modify fun s => s.setCyclesToWait 4

/-- Instruction `LD E, L`. -/
def opcode5Dh : CPU μ Unit := do
  CPU.modify fun s => s.setE s.registers.l
  CPU.modify fun s => s.setCyclesToWait 4

/-- Instruction `LD E, (HL)`. -/
def opcode5Eh : CPU μ Unit := do
  let s ← CPU.get
  let v ← busRead s.registers.hl
  CPU.modify fun s => s.setE v
  CPU.modify fun s => s.setCyclesToWait 8

/-- Instruction `LD E, A`. -/
def opcode5Fh : CPU μ Unit := do
  CPU.modify fun s => s.setE s.registers.a
  CPU.modify fun s => s.setCyclesToWait 4

/-- Instruction `LD H, B`. -/
def opcode60h : CPU μ Unit := do
  CPU.modify fun s => s.setH s.registers.b
  CPU.modify fun s => s.setCyclesToWait 4

/-- Instruction `LD H, C`. -/
def opcode61h : CPU μ Unit := do
  CPU.modify fun s => s.setH s.registers.c
  CPU.modify fun s => s.setCyclesToWait 4

/-- Instruction `LD H, D`. -/
def opcode62h : CPU μ Unit := do
  CPU.modify fun s => s.setH s.registers.d
  CPU.modify fun s => s.setCyclesToWait 4

/-- Instruction `LD H, E`. -/
def opcode63h : CPU μ Unit := do
  CPU.modify fun s => s.setH s.registers.e
  CPU.modify fun s => s.setCyclesToWait 4

/-- Instruction `LD H, H`. -/
def opcode64h : CPU μ Unit := do
  CPU.modify fun s => s.setH s.registers.h
  CPU.modify fun s => s.setCyclesToWait 4

/-- Instruction `LD H, L`. -/
def opcode65h : CPU μ Unit := do
  CPU.modify fun s => s.setH s.registers.l
  CPU.modify fun s => s.setCyclesToWait 4

/-- Instruction `LD H, (HL)`. -/
def opcode66h : CPU μ Unit := do
  let s ← CPU.get
  let v ← busRead s.registers.hl
  CPU.modify fun s => s.setH v
  CPU.modify fun s => s.setCyclesToWait 8

/-- Instruction `LD H, A`. -/
def opcode67h : CPU μ Unit := do
  CPU.modify fun s => s.setH s.registers.a
  CPU.modify fun s => s.setCyclesToWait 4

/-- Instruction `LD L, B`. -/
def opcode68h : CPU μ Unit := do
  CPU.modify fun s => s.setL s.registers.b
  CPU.modify fun s => s.setCyclesToWait 4

/-- Instruction `LD L, C`. -/
def opcode69h : CPU μ Unit := do
  CPU.modify fun s => s.setL s.registers.c
  CPU.modify fun s => s.setCyclesToWait 4

/-- Instruction `LD L, D`. -/
def opcode6Ah : CPU μ Unit := do
  CPU.modify fun s => s.setL s.registers.d
  CPU.modify fun s => s.setCyclesToWait 4

/-- Instruction `LD L, E`. -/
def opcode6Bh : CPU μ Unit := do
  CPU.modify fun s => s.setL s.registers.e
  CPU.modify fun s => s.setCyclesToWait 4

/-- Instruction `LD L, H`. -/
def opcode6Ch : CPU μ Unit := do
  CPU.modify fun s => s.setL s.registers.h
  CPU.modify fun s => s.setCyclesToWait 4

/-- Instruction `LD L, L`. -/
def opcode6Dh : CPU μ Unit := do
  CPU.modify fun s => s.setL s.registers.l
  CPU.modify fun s => s.setCyclesToWait 4

/-- Instruction `LD L, (HL)`. -/
def opcode6Eh : CPU μ Unit := do
  let s ← CPU.get
  let v ← busRead s.registers.hl
  CPU.modify fun s => s.setL v
  CPU.modify fun s => s.setCyclesToWait 4

/-- Instruction `LD L, A`. -/
def opcode6Fh : CPU μ Unit := do
  CPU.modify fun s => s.setL s.registers.a
  CPU.modify fun s => s.setCyclesToWait 4

/-- Instruction `LD (HL), B`. -/
def opcode70h : CPU μ Unit := do
  let s ← CPU.get
  busWrite s.registers.hl s.registers.b
  CPU.modify fun s => s.setCyclesToWait 8

/-- Instruction `LD (HL), C`. -/
def opcode71h : CPU μ Unit := do
  let s ← CPU.get
  busWrite s.registers.hl s.registers.c
  CPU.modify fun s => s.setCyclesToWait 8

/-- Instruction `LD (HL), D`. -/
def opcode72h : CPU μ Unit := do
  let s ← CPU.get
  busWrite s.registers.hl s.registers.d
  CPU.modify fun s => s.setCyclesToWait 8

/-- Instruction `LD (HL), E`. -/
def opcode73h : CPU μ Unit := do
  let s ← CPU.get
  busWrite s.registers.hl s.registers.e
  CPU.modify fun s => s.setCyclesToWait 8

/-- Instruction `LD (HL), H`. -/
def opcode74h : CPU μ Unit := do
  let s ← CPU.get
  busWrite s.registers.hl s.registers.h
  CPU.modify fun s => s.setCyclesToWait 8

/-- Instruction `LD (HL), L`. -/
def opcode75h : CPU μ Unit := do
  let s ← CPU.get
  busWrite s.registers.hl s.registers.l
  CPU.modify fun s => s.setCyclesToWait 8

/-- Instruction `HALT`. -/
def opcode76h : CPU μ Unit := do
  CPU.modify fun s => s.setHalted true
  CPU.modify fun s => s.setCyclesToWait 4

/-- Instruction `LD (HL), A`. -/
def opcode77h : CPU μ Unit := do
  let s ← CPU.get
  busWrite s.registers.hl s.registers.a
  CPU.modify fun s => s.setCyclesToWait 8

/-- Instruction `LD A, B`. -/
def opcode78h : CPU μ Unit := do
  CPU.modify fun s => s.setA s.registers.b
  CPU.modify fun s => s.setCyclesToWait 4

/-- Instruction `LD A, C`. -/
def opcode79h : CPU μ Unit := do
  CPU.modify fun s => s.setA s.registers.c
  CPU.modify fun s => s.setCyclesToWait 4

/-- Instruction `LD A, D`. -/
def opcode7Ah : CPU μ Unit := do
  CPU.modify fun s => s.setA s.registers.d
  CPU.modify fun s => s.setCyclesToWait 4

/-- Instruction `LD A, E`. -/
def opcode7Bh : CPU μ Unit := do
  CPU.modify fun s => s.setA s.registers.e
  CPU.modify fun s => s.setCyclesToWait 4

/-- Instruction `LD A, H`. -/
def opcode7Ch : CPU μ Unit := do
  CPU.modify fun s => s.setA s.registers.h
  CPU.modify fun s => s.setCyclesToWait 4

/-- Instruction `LD A, L`. -/
def opcode7Dh : CPU μ Unit := do
  CPU.modify fun s => s.setA s.registers.l
  CPU.modify fun s => s.setCyclesToWait 4

/-- Instruction `LD A, (HL)`. -/
def opcode7Eh : CPU μ Unit := do
  let s ← CPU.get
  let v ← busRead s.registers.hl
  CPU.modify fun s => s.setA v
  CPU.modify fun s => s.setCyclesToWait 8

/-- Instruction `LD A, A`. -/
def opcode7Fh : CPU μ Unit := do
  CPU.modify fun s => s.setCyclesToWait 4

/-- Instruction `ADD A, B`. -/
def opcode80h : CPU μ Unit := do
  CPU.modify fun s => ADD_A s.registers.b s

/-- Instruction `ADD A, C`. -/
def opcode81h : CPU μ Unit := do
  CPU.modify fun s => ADD_A s.registers.c s

/-- Instruction `ADD A, D`. -/
def opcode82h : CPU μ Unit := do
  CPU.modify fun s => ADD_A s.registers.d s

/-- Instruction `ADD A, E`. -/
def opcode83h : CPU μ Unit := do
  CPU.modify fun s => ADD_A s.registers.e s

/-- Instruction `ADD A, H`. -/
def opcode84h : CPU μ Unit := do
  CPU.modify fun s => ADD_A s.registers.h s

/-- Instruction `ADD A, L`. -/
def opcode85h : CPU μ Unit := do
  CPU.modify fun s => ADD_A s.registers.l s

/-- Instruction `ADD A, (HL)`. -/
def opcode86h : CPU μ Unit := do
  let s ← CPU.get
  let v ← busRead s.registers.hl
  CPU.modify fun s => ADD_A v s
  CPU.modify fun s => s.setCyclesToWait (s.cyclesToWait + 4)

/-- Instruction `ADD A, A`. -/
def opcode87h : CPU μ Unit := do
  CPU.modify fun s => ADD_A s.registers.a s

/-- Instruction `ADC A, B`. -/
def opcode88h : CPU μ Unit := do
  CPU.modify fun s => ADC_A s.registers.b s

/-- Instruction `ADC A, C`. -/
def opcode89h : CPU μ Unit := do
  CPU.modify fun s => ADC_A s.registers.c s

/-- Instruction `ADC A, D`. -/
def opcode8Ah : CPU μ Unit := do
  CPU.modify fun s => ADC_A s.registers.d s

/-- Instruction `ADC A, E`. -/
def opcode8Bh : CPU μ Unit := do
  CPU.modify fun s => ADC_A s.registers.e s

/-- Instruction `ADC A, H`. -/
def opcode8Ch : CPU μ Unit := do
  CPU.modify fun s => ADC_A s.registers.h s

/-- Instruction `ADC A, L`. -/
def opcode8Dh : CPU μ Unit := do
  CPU.modify fun s => ADC_A s.registers.l s

/-- Instruction `ADC A, (HL)`. -/
def opcode8Eh : CPU μ Unit := do
  let s ← CPU.get
  let v ← busRead s.registers.hl
  CPU.modify fun s => ADC_A v s
  CPU.modify fun s => s.setCyclesToWait (s.cyclesToWait + 4)

/-- Instruction `ADC A, A`. -/
def opcode8Fh : CPU μ Unit := do
  CPU.modify fun s => ADC_A s.registers.a s

/-- Instruction `SUB A, B`. -/
def opcode90h : CPU μ Unit := do
  CPU.modify fun s => SUB_A s.registers.b s

/-- Instruction `SUB A, C`. -/
def opcode91h : CPU μ Unit := do
  CPU.modify fun s => SUB_A s.registers.c s

/-- Instruction `SUB A, D`. -/
def opcode92h : CPU μ Unit := do
  CPU.modify fun s => SUB_A s.registers.d s

/-- Instruction `SUB A, E`. -/
def opcode93h : CPU μ Unit := do
  CPU.modify fun s => SUB_A s.registers.e s

/-- Instruction `SUB A, H`. -/
def opcode94h : CPU μ Unit := do
  CPU.modify fun s => SUB_A s.registers.h s

/-- Instruction `SUB A, L`. -/
def opcode95h : CPU μ Unit := do
  CPU.modify fun s => SUB_A s.registers.l s

/-- Instruction `SUB A, (HL)`. -/
def opcode96h : CPU μ Unit := do
  let s ← CPU.get
  let v ← busRead s.registers.hl
  CPU.modify fun s => SUB_A v s
  CPU.modify fun s => s.setCyclesToWait (s.cyclesToWait + 4)

/-- Instruction `SUB A, A`. -/
def opcode97h : CPU μ Unit := do
  CPU.modify fun s => s.setA 0
  CPU.modify fun s => s.setFz true
  CPU.modify fun s => s.setFn true
  CPU.modify fun s => s.setFh false
  CPU.modify fun s => s.setFc false
  CPU.modify fun s => s.setCyclesToWait 4

/-- Instruction `SBC A, B`. -/
def opcode98h : CPU μ Unit := do
  CPU.modify fun s => SBC_A s.registers.b s

/-- Instruction `SBC A, C`. -/
def opcode99h : CPU μ Unit := do
  CPU.modify fun s => SBC_A s.registers.c s

/-- Instruction `SBC A, D`. -/
def opcode9Ah : CPU μ Unit := do
  CPU.modify fun s => SBC_A s.registers.d s

/-- Instruction `SBC A, E`. -/
def opcode9Bh : CPU μ Unit := do
  CPU.modify fun s => SBC_A s.registers.e s

/-- Instruction `SBC A, H`. -/
def opcode9Ch : CPU μ Unit := do
  CPU.modify fun s => SBC_A s.registers.h s

/-- Instruction `SBC A, L`. -/
def opcode9Dh : CPU μ Unit := do
  CPU.modify fun s => SBC_A s.registers.l s

/-- Instruction `SBC A, (HL)`. -/
def opcode9Eh : CPU μ Unit := do
  let s ← CPU.get
  let v ← busRead s.registers.hl
  CPU.modify fun s => SBC_A v s
  CPU.modify fun s => s.setCyclesToWait (s.cyclesToWait + 4)

/-- Instruction `SBC A, A`. -/
def opcode9Fh : CPU μ Unit := do
  CPU.modify fun s => SBC_A s.registers.a s

/-- Instruction `AND A, B`. -/
def opcodeA0h : CPU μ Unit := do
  CPU.modify fun s => AND_A s.registers.b s

/-- Instruction `AND A, C`. -/
def opcodeA1h : CPU μ Unit := do
  CPU.modify fun s => AND_A s.registers.c s

/-- Instruction `AND A, D`. -/
def opcodeA2h : CPU μ Unit := do
  CPU.modify fun s => AND_A s.registers.d s

/-- Instruction `AND A, E`. -/
def opcodeA3h : CPU μ Unit := do
  CPU.modify fun s => AND_A s.registers.e s

/-- Instruction `AND A, H`. -/
def opcodeA4h : CPU μ Unit := do
  CPU.modify fun s => AND_A s.registers.h s

/-- Instruction `AND A, L`. -/
def opcodeA5h : CPU μ Unit := do
  CPU.modify fun s => AND_A s.registers.l s

/-- Instruction `AND A, (HL)`. -/
def opcodeA6h : CPU μ Unit := do
  let s ← CPU.get
  let v ← busRead s.registers.hl
  CPU.modify fun s => AND_A v s
  CPU.modify fun s => s.setCyclesToWait (s.cyclesToWait + 4)

/-- Instruction `AND A, A`. -/
def opcodeA7h : CPU μ Unit := do
  CPU.modify fun s => AND_A s.registers.a s

/-- Instruction `XOR A, B`. -/
def opcodeA8h : CPU μ Unit := do
  CPU.modify fun s => XOR_A s.registers.b s

/-- Instruction `XOR A, C`. -/
def opcodeA9h : CPU μ Unit := do
  CPU.modify fun s => XOR_A s.registers.c s

/-- Instruction `XOR A, D`. -/
def opcodeAAh : CPU μ Unit := do
  CPU.modify fun s => XOR_A s.registers.d s

/-- Instruction `XOR A, E`. -/
def opcodeABh : CPU μ Unit := do
  CPU.modify fun s => XOR_A s.registers.e s

/-- Instruction `XOR A, H`. -/
def opcodeACh : CPU μ Unit := do
  CPU.modify fun s => XOR_A s.registers.h s

/-- Instruction `XOR A, L`. -/
def opcodeADh : CPU μ Unit := do
  CPU.modify fun s => XOR_A s.registers.l s

/-- Instruction `XOR A, (HL)`. -/
def opcodeAEh : CPU μ Unit := do
  let s ← CPU.get
  let v ← busRead s.registers.hl
  CPU.modify fun s => XOR_A v s
  CPU.modify fun s => s.setCyclesToWait (s.cyclesToWait + 4)

/-- Instruction `XOR A, A`. -/
def opcodeAFh : CPU μ Unit := do
  CPU.modify fun s => XOR_A s.registers.a s

/-- Instruction `OR A, B`. -/
def opcodeB0h : CPU μ Unit := do
  CPU.modify fun s => OR_A s.registers.b s

/-- Instruction `OR A, C`. -/
def opcodeB1h : CPU μ Unit := do
  CPU.modify fun s => OR_A s.registers.c s

/-- Instruction `OR A, D`. -/
def opcodeB2h : CPU μ Unit := do
  CPU.modify fun s => OR_A s.registers.d s

/-- Instruction `OR A, E`. -/
def opcodeB3h : CPU μ Unit := do
  CPU.modify fun s => OR_A s.registers.e s

/-- Instruction `OR A, H`. -/
def opcodeB4h : CPU μ Unit := do
  CPU.modify fun s => OR_A s.registers.h s

/-- Instruction `OR A, L`. -/
def opcodeB5h : CPU μ Unit := do
  CPU.modify fun s => OR_A s.registers.l s

/-- Instruction `OR A, (HL)`. -/
def opcodeB6h : CPU μ Unit := do
  let s ← CPU.get
  let v ← busRead s.registers.hl
  CPU.modify fun s => OR_A v s
  CPU.modify fun s => s.setCyclesToWait (s.cyclesToWait + 4)

/-- Instruction `OR A, A`. -/
def opcodeB7h : CPU μ Unit := do
  CPU.modify fun s => OR_A s.registers.a s

/-- Instruction `CP A, B`. -/
def opcodeB8h : CPU μ Unit := do
  CPU.modify fun s => CP_A s.registers.b s

/-- Instruction `CP A, C`. -/
def opcodeB9h : CPU μ Unit := do
  CPU.modify fun s => CP_A s.registers.c s

/-- Instruction `CP A, D`. -/
def opcodeBAh : CPU μ Unit := do
  CPU.modify fun s => CP_A s.registers.d s

/-- Instruction `CP A, E`. -/
def opcodeBBh : CPU μ Unit := do
  CPU.modify fun s => CP_A s.registers.e s

/-- Instruction `CP A, H`. -/
def opcodeBCh : CPU μ Unit := do
  CPU.modify fun s => CP_A s.registers.h s

/-- Instruction `CP A, L`. -/
def opcodeBDh : CPU μ Unit := do
  CPU.modify fun s => CP_A s.registers.l s

/-- Instruction `CP A, (HL)`. -/
def opcodeBEh : CPU μ Unit := do
  let s ← CPU.get
  let val ← busRead s.registers.hl
  CPU.modify fun s => CP_A val s
  CPU.modify fun s => s.setCyclesToWait (s.cyclesToWait + 4)

/-- Instruction `CP A, A`. -/
def opcodeBFh : CPU μ Unit := do
  CPU.modify fun s => s.setFz true
  CPU.modify fun s => s.setFn true
  CPU.modify fun s => s.setFh false
  CPU.modify fun s => s.setFc false
  CPU.modify fun s => s.setCyclesToWait 4

/-- Instruction `RET NZ`. -/
def opcodeC0h : CPU μ Unit := do
  let s ← CPU.get
  if s.registers.f.z then
    CPU.modify fun s => s.setCyclesToWait 8
  else
    let lo ← readSpPostInc
    let hi ← readSpPostInc
    CPU.modify fun s => s.setPc (lo ||| (hi <<< 8))
    CPU.modify fun s => s.setCyclesToWait 20

/-- Instruction `POP BC`. -/
def opcodeC1h : CPU μ Unit := do
  let lo ← readSpPostInc
  let hi ← readSpPostInc
  CPU.modify fun s => s.setBc (lo ||| (hi <<< 8))
  CPU.modify fun s => s.setCyclesToWait 12

/-- Instruction `JP NZ, a16`. -/
def opcodeC2h : CPU μ Unit := do
  let lo ← fetch
  let hi ← fetch
  let val := (lo ||| (hi <<< 8)) % 65536
  let s ← CPU.get
  if s.registers.f.z then
    CPU.modify fun s => s.setCyclesToWait 12
  else
    CPU.modify fun s => s.setPc val
    CPU.modify fun s => s.setCyclesToWait 16

/-- Instruction `JP a16`. -/
def opcodeC3h : CPU μ Unit := do
  let lo ← fetch
  let hi ← fetch
  CPU.modify fun s => s.setPc (lo ||| (hi <<< 8))
  CPU.modify fun s => s.setCyclesToWait 16

/-- Instruction `CALL NZ, a16`. -/
def opcodeC4h : CPU μ Unit := do
  let lo ← fetch
  let hi ← fetch
  let val := (lo ||| (hi <<< 8)) % 65536
  let s ← CPU.get
  if s.registers.f.z then
    CPU.modify fun s => s.setCyclesToWait 12
  else
    writeSpPreDec fun s => s.registers.pc >>> 8
    writeSpPreDec fun s => s.registers.pc
    CPU.modify fun s => s.setPc val
    CPU.modify fun s => s.setCyclesToWait 24

/-- Instruction `PUSH BC`. -/
def opcodeC5h : CPU μ Unit := do
  writeSpPreDec fun s => s.registers.b
  writeSpPreDec fun s => s.registers.c
  CPU.modify fun s => s.setCyclesToWait 16

/-- Instruction `ADD A, d8`. -/
def opcodeC6h : CPU μ Unit := do
  let v ← fetch
  CPU.modify fun s => ADD_A v s
  CPU.modify fun s => s.setCyclesToWait (s.cyclesToWait + 4)

/-- Instruction `RST 00H`. -/
def opcodeC7h : CPU μ Unit := do
  writeSpPreDec fun s => s.registers.pc >>> 8
  writeSpPreDec fun s => s.registers.pc
  CPU.modify fun s => s.setPc 0x00
  CPU.modify fun s => s.setCyclesToWait 16

/-- Instruction `RET Z`. -/
def opcodeC8h : CPU μ Unit := do
  let s ← CPU.get
  if !s.registers.f.z then
    CPU.modify fun s => s.setCyclesToWait 8
  else
    let lo ← readSpPostInc
    let hi ← readSpPostInc
    CPU.modify fun s => s.setPc (lo ||| (hi <<< 8))
    CPU.modify fun s => s.setCyclesToWait 20

/-- Instruction `RET`. -/
def opcodeC9h : CPU μ Unit := do
  let lo ← readSpPostInc
  let hi ← readSpPostInc
  CPU.modify fun s => s.setPc (lo ||| (hi <<< 8))
  CPU.modify fun s => s.setCyclesToWait 16

/-- Instruction `JP Z, a16`. -/
def opcodeCAh : CPU μ Unit := do
  let lo ← fetch
  let hi ← fetch
  let val := (lo ||| (hi <<< 8)) % 65536
  let s ← CPU.get
  if !s.registers.f.z then
    CPU.modify fun s => s.setCyclesToWait 12
  else
    CPU.modify fun s => s.setPc val
    CPU.modify fun s => s.setCyclesToWait 16

/-- The lambda `getRegisterByLowerBits` of `opcodeCBh`, read through: the content of
the register selected by `lowerBits`, or of `defaultDest`. -/
def getRegisterByLowerBits (lowerBits : Nat) (defaultDest : Nat) (s : LR35902 μ) : Nat :=
  match lowerBits with
  | 0x00 => s.registers.b
  | 0x01 => s.registers.c
  | 0x02 => s.registers.d
  | 0x03 => s.registers.e
  | 0x04 => s.registers.h
  | 0x05 => s.registers.l
  | 0x07 => s.registers.a
  | _ => defaultDest

/-- An assignment of `v` through the reference returned by `getRegisterByLowerBits`:
the new content of `defaultDest` (the local `memValue`) and of the registers. -/
def assignRegisterByLowerBits (lowerBits : Nat) (v : Nat) (defaultDest : Nat)
    (s : LR35902 μ) : Nat × LR35902 μ :=
  match lowerBits with
  | 0x00 => (defaultDest, s.setB v)
  | 0x01 => (defaultDest, s.setC v)
  | 0x02 => (defaultDest, s.setD v)
  | 0x03 => (defaultDest, s.setE v)
  | 0x04 => (defaultDest, s.setH v)
  | 0x05 => (defaultDest, s.setL v)
  | 0x07 => (defaultDest, s.setA v)
  | _ => (v % 256, s)

/-- The `if` / `else if` chain of `opcodeCBh` ("Apply the right operation") on
`dest = getRegisterByLowerBits(lowOpcode, memValue)`: the new content of `memValue`
and the new state. -/
def opcodeCBh_operation (opcode lowOpcode memValue : Nat) (s : LR35902 μ) : Nat × LR35902 μ :=
  let dest := getRegisterByLowerBits lowOpcode memValue s
  if 0x00 ≤ opcode ∧ opcode ≤ 0x07 then
    let (dest, s) := RLC dest s
    assignRegisterByLowerBits lowOpcode dest memValue s
  else if 0x08 ≤ opcode ∧ opcode ≤ 0x0F then
    let (dest, s) := RRC dest s
    assignRegisterByLowerBits lowOpcode dest memValue s
  else if 0x10 ≤ opcode ∧ opcode ≤ 0x17 then
    let (dest, s) := RL dest s
    assignRegisterByLowerBits lowOpcode dest memValue s
  else if 0x18 ≤ opcode ∧ opcode ≤ 0x1F then
    let (dest, s) := RR dest s
    assignRegisterByLowerBits lowOpcode dest memValue s
  else if 0x20 ≤ opcode ∧ opcode ≤ 0x27 then
    let (dest, s) := SLA dest s
    assignRegisterByLowerBits lowOpcode dest memValue s
  else if 0x28 ≤ opcode ∧ opcode ≤ 0x2F then
    let (dest, s) := SRA dest s
    assignRegisterByLowerBits lowOpcode dest memValue s
  else if 0x30 ≤ opcode ∧ opcode ≤ 0x37 then
    let (dest, s) := SWAP dest s
    assignRegisterByLowerBits lowOpcode dest memValue s
  else if 0x38 ≤ opcode ∧ opcode ≤ 0x3F then
    let (dest, s) := SRL dest s
    assignRegisterByLowerBits lowOpcode dest memValue s
  else if 0x40 ≤ opcode ∧ opcode ≤ 0x7F then
    (memValue, BIT ((opcode - 0x40) / 0x8) dest s)
  else if 0x80 ≤ opcode ∧ opcode ≤ 0xBF then
    let (dest, s) := RES ((opcode - 0x80) / 0x8) dest s
    assignRegisterByLowerBits lowOpcode dest memValue s
  else if 0xC0 ≤ opcode ∧ opcode ≤ 0xFF then
    let (dest, s) := SET ((opcode - 0xC0) / 0x8) dest s
    assignRegisterByLowerBits lowOpcode dest memValue s
  else (memValue, s)

/-- Prefixed instructions. `m_bus.read(m_registers.hl)` is executed for every
operand, before the operation is selected. -/
def opcodeCBh : CPU μ Unit := do
  let opcode ← fetch
  let lowOpcode := (opcode &&& 0x7) % 256
  let s ← CPU.get
  let memValue ← busRead s.registers.hl
  let memValue ← CPU.modifyGet (opcodeCBh_operation opcode lowOpcode memValue)
  if lowOpcode = 0x06 then
    if opcode < 0x40 ∨ opcode > 0x7F then
      let s ← CPU.get
      busWrite s.registers.hl memValue
    CPU.modify fun s => s.setCyclesToWait (s.cyclesToWait + 8)

/-- Instruction `CALL Z, a16`. -/
def opcodeCCh : CPU μ Unit := do
  let lo ← fetch
  let hi ← fetch
  let val := (lo ||| (hi <<< 8)) % 65536
  let s ← CPU.get
  if !s.registers.f.z then
    CPU.modify fun s => s.setCyclesToWait 12
  else
    writeSpPreDec fun s => s.registers.pc >>> 8
    writeSpPreDec fun s => s.registers.pc
    CPU.modify fun s => s.setPc val
    CPU.modify fun s => s.setCyclesToWait 24

/-- Instruction `CALL a16`. -/
def opcodeCDh : CPU μ Unit := do
  let lo ← fetch
  let hi ← fetch
  let val := (lo ||| (hi <<< 8)) % 65536
  writeSpPreDec fun s => s.registers.pc >>> 8
  writeSpPreDec fun s => s.registers.pc
  CPU.modify fun s => s.setPc val
  CPU.modify fun s => s.setCyclesToWait 24

/-- Instruction `ADC A, d8`. -/
def opcodeCEh : CPU μ Unit := do
  let v ← fetch
  CPU.modify fun s => ADC_A v s
  CPU.modify fun s => s.setCyclesToWait (s.cyclesToWait + 4)

/-- Instruction `RST 08H`. -/
def opcodeCFh : CPU μ Unit := do
  writeSpPreDec fun s => s.registers.pc >>> 8
  writeSpPreDec fun s => s.registers.pc
  CPU.modify fun s => s.setPc 0x08
  CPU.modify fun s => s.setCyclesToWait 16

/-- Instruction `RET NC`. -/
def opcodeD0h : CPU μ Unit := do
  let s ← CPU.get
  if s.registers.f.c then
    CPU.modify fun s => s.setCyclesToWait 8
  else
    let lo ← readSpPostInc
    let hi ← readSpPostInc
    CPU.modify fun s => s.setPc (lo ||| (hi <<< 8))
    CPU.modify fun s => s.setCyclesToWait 20

/-- Instruction `POP DE`. -/
def opcodeD1h : CPU μ Unit := do
  let lo ← readSpPostInc
  let hi ← readSpPostInc
  CPU.modify fun s => s.setDe (lo ||| (hi <<< 8))
  CPU.modify fun s => s.setCyclesToWait 12

/-- Instruction `JP NC, a16`. -/
def opcodeD2h : CPU μ Unit := do
  let lo ← fetch
  let hi ← fetch
  let val := (lo ||| (hi <<< 8)) % 65536
  let s ← CPU.get
  if s.registers.f.c then
    CPU.modify fun s => s.setCyclesToWait 12
  else
    CPU.modify fun s => s.setPc val
    CPU.modify fun s => s.setCyclesToWait 16

/-- Handler `opcodeD3h`: `throw std::runtime_error("Opcode not implemented!")`. -/
def opcodeD3h : LR35902 μ → Except Exception Unit × LR35902 μ :=
  fun s => (.error Exception.runtime_error, s)

/-- Instruction `CALL NC, a16`. -/
def opcodeD4h : CPU μ Unit := do
  let lo ← fetch
  let hi ← fetch
  let val := (lo ||| (hi <<< 8)) % 65536
  let s ← CPU.get
  if s.registers.f.c then
    CPU.modify fun s => s.setCyclesToWait 12
  else
    writeSpPreDec fun s => s.registers.pc >>> 8
    writeSpPreDec fun s => s.registers.pc
    CPU.modify fun s => s.setPc val
    CPU.modify fun s => s.setCyclesToWait 24

/-- Instruction `PUSH DE`. -/
def opcodeD5h : CPU μ Unit := do
  writeSpPreDec fun s => s.registers.d
  writeSpPreDec fun s => s.registers.e
  CPU.modify fun s => s.setCyclesToWait 16

/-- Instruction `SUB A, d8`. -/
def opcodeD6h : CPU μ Unit := do
  let v ← fetch
  CPU.modify fun s => SUB_A v s
  CPU.modify fun s => s.setCyclesToWait (s.cyclesToWait + 4)

/-- Instruction `RST 10H`. -/
def opcodeD7h : CPU μ Unit := do
  writeSpPreDec fun s => s.registers.pc >>> 8
  writeSpPreDec fun s => s.registers.pc
  CPU.modify fun s => s.setPc 0x10
  CPU.modify fun s => s.setCyclesToWait 16

/-- Instruction `RET C`. -/
def opcodeD8h : CPU μ Unit := do
  let s ← CPU.get
  if !s.registers.f.c then
    CPU.modify fun s => s.setCyclesToWait 8
  else
    let lo ← readSpPostInc
    let hi ← readSpPostInc
    CPU.modify fun s => s.setPc (lo ||| (hi <<< 8))
    CPU.modify fun s => s.setCyclesToWait 20

/-- Instruction `RETI`. -/
def opcodeD9h : CPU μ Unit := do
  CPU.modify fun s => s.setInterruptController (s.interruptController.setInterruptMasterEnable true)
  let lo ← readSpPostInc
  let hi ← readSpPostInc
  CPU.modify fun s => s.setPc (lo ||| (hi <<< 8))
  CPU.modify fun s => s.setCyclesToWait 16

/-- Instruction `JP C, a16`. -/
def opcodeDAh : CPU μ Unit := do
  let lo ← fetch
  let hi ← fetch
  let val := (lo ||| (hi <<< 8)) % 65536
  let s ← CPU.get
  if !s.registers.f.c then
    CPU.modify fun s => s.setCyclesToWait 12
  else
    CPU.modify fun s => s.setPc val
    CPU.modify fun s => s.setCyclesToWait 16

/-- Handler `opcodeDBh`: `throw std::runtime_error("Opcode not implemented!")`. -/
def opcodeDBh : LR35902 μ → Except Exception Unit × LR35902 μ :=
  fun s => (.error Exception.runtime_error, s)

/-- Instruction `CALL C, a16`. -/
def opcodeDCh : CPU μ Unit := do
  let lo ← fetch
  let hi ← fetch
  let val := (lo ||| (hi <<< 8)) % 65536
  let s ← CPU.get
  if !s.registers.f.c then
    CPU.modify fun s => s.setCyclesToWait 12
  else
    writeSpPreDec fun s => s.registers.pc >>> 8
    writeSpPreDec fun s => s.registers.pc
    CPU.modify fun s => s.setPc val
    CPU.modify fun s => s.setCyclesToWait 24

/-- Handler `opcodeDDh`: `throw std::runtime_error("Opcode not implemented!")`. -/
def opcodeDDh : LR35902 μ → Except Exception Unit × LR35902 μ :=
  fun s => (.error Exception.runtime_error, s)

/-- Instruction `SBC A, d8`. -/
def opcodeDEh : CPU μ Unit := do
  let v ← fetch
  CPU.modify fun s => SBC_A v s
  CPU.modify fun s => s.setCyclesToWait (s.cyclesToWait + 4)

/-- Instruction `RST 18H`. -/
def opcodeDFh : CPU μ Unit := do
  writeSpPreDec fun s => s.registers.pc >>> 8
  writeSpPreDec fun s => s.registers.pc
  CPU.modify fun s => s.setPc 0x18
  CPU.modify fun s => s.setCyclesToWait 16

/-- Instruction `LDH (a8), A`. -/
def opcodeE0h : CPU μ Unit := do
  let v ← fetch
  let s ← CPU.get
  busWrite (0xFF00 ||| v) s.registers.a
  CPU.modify fun s => s.setCyclesToWait 12

/-- Instruction `POP HL`. -/
def opcodeE1h : CPU μ Unit := do
  let lo ← readSpPostInc
  let hi ← readSpPostInc
  CPU.modify fun s => s.setHl (lo ||| (hi <<< 8))
  CPU.modify fun s => s.setCyclesToWait 12

/-- Instruction `LD (C), A`. -/
def opcodeE2h : CPU μ Unit := do
  let s ← CPU.get
  busWrite (0xFF00 + s.registers.c) s.registers.a
  CPU.modify fun s => s.setCyclesToWait 8

/-- Handler `opcodeE3h`: `throw std::runtime_error("Opcode not implemented!")`. -/
def opcodeE3h : LR35902 μ → Except Exception Unit × LR35902 μ :=
  fun s => (.error Exception.runtime_error, s)

/-- Handler `opcodeE4h`: `throw std::runtime_error("Opcode not implemented!")`. -/
def opcodeE4h : LR35902 μ → Except Exception Unit × LR35902 μ :=
  fun s => (.error Exception.runtime_error, s)

/-- Instruction `PUSH HL`. -/
def opcodeE5h : CPU μ Unit := do
  writeSpPreDec fun s => s.registers.h
  writeSpPreDec fun s => s.registers.l
  CPU.modify fun s => s.setCyclesToWait 16

/-- Instruction `AND A, d8`. -/
def opcodeE6h : CPU μ Unit := do
  let v ← fetch
  CPU.modify fun s => s.setA (s.registers.a &&& v)
  CPU.modify fun s => s.setFz (decide (s.registers.a = 0))
  CPU.modify fun s => s.setFn false
  CPU.modify fun s => s.setFh true
  CPU.modify fun s => s.setFc false
  CPU.modify fun s => s.setCyclesToWait 8

/-- Instruction `RST 20H`. -/
def opcodeE7h : CPU μ Unit := do
  writeSpPreDec fun s => s.registers.pc >>> 8
  writeSpPreDec fun s => s.registers.pc
  CPU.modify fun s => s.setPc 0x20
  CPU.modify fun s => s.setCyclesToWait 16

/-- Instruction `ADD SP, r8`. -/
def opcodeE8h : CPU μ Unit := do
  let immediateValue ← fetch
  let s ← CPU.get
  let res := addInt8 s.registers.sp immediateValue
  CPU.modify fun s => s.setFh (decide ((((s.registers.sp &&& 0x000F) + (immediateValue &&& 0x0F)) &&& 0x0010) = 0x0010))
  CPU.modify fun s => s.setFc (decide ((((s.registers.sp &&& 0x00FF) + (immediateValue &&& 0xFF)) &&& 0x0100) = 0x0100))
  CPU.modify fun s => s.setSp (res &&& 0xFFFF)
  CPU.modify fun s => s.setFz false
  CPU.modify fun s => s.setFn false
  CPU.modify fun s => s.setCyclesToWait 4

/-- Instruction `JP HL`. -/
def opcodeE9h : CPU μ Unit := do
  CPU.modify fun s => s.setPc s.registers.hl
  CPU.modify fun s => s.setCyclesToWait 4

/-- Instruction `LD (a16), A`. -/
def opcodeEAh : CPU μ Unit := do
  let lo ← fetch
  let hi ← fetch
  let s ← CPU.get
  busWrite (lo ||| (hi <<< 8)) s.registers.a
  CPU.modify fun s => s.setCyclesToWait 16

/-- Handler `opcodeEBh`: `throw std::runtime_error("Opcode not implemented!")`. -/
def opcodeEBh : LR35902 μ → Except Exception Unit × LR35902 μ :=
  fun s => (.error Exception.runtime_error, s)

/-- Handler `opcodeECh`: `throw std::runtime_error("Opcode not implemented!")`. -/
def opcodeECh : LR35902 μ → Except Exception Unit × LR35902 μ :=
  fun s => (.error Exception.runtime_error, s)

/-- Handler `opcodeEDh`: `throw std::runtime_error("Opcode not implemented!")`. -/
def opcodeEDh : LR35902 μ → Except Exception Unit × LR35902 μ :=
  fun s => (.error Exception.runtime_error, s)

/-- Instruction `XOR A, d8`. -/
def opcodeEEh : CPU μ Unit := do
  let v ← fetch
  CPU.modify fun s => s.setA (s.registers.a ^^^ v)
  CPU.modify fun s => s.setFz (decide (s.registers.a = 0))
  CPU.modify fun s => s.setFn false
  CPU.modify fun s => s.setFh false
  CPU.modify fun s => s.setFc false
  CPU.modify fun s => s.setCyclesToWait 8

/-- Instruction `RST 28H`. -/
def opcodeEFh : CPU μ Unit := do
  writeSpPreDec fun s => s.registers.pc >>> 8
  writeSpPreDec fun s => s.registers.pc
  CPU.modify fun s => s.setPc 0x28
  CPU.modify fun s => s.setCyclesToWait 16

/-- Instruction `LDH A, (a8)`. -/
def opcodeF0h : CPU μ Unit := do
  let v ← fetch
  let v ← busRead (0xFF00 ||| v)
  CPU.modify fun s => s.setA v
  CPU.modify fun s => s.setCyclesToWait 12

/-- Instruction `POP AF`. -/
def opcodeF1h : CPU μ Unit := do
  let lo ← readSpPostInc
  let hi ← readSpPostInc
  CPU.modify fun s => s.setAf ((lo &&& 0xF0) ||| (hi <<< 8))
  CPU.modify fun s => s.setCyclesToWait 12

/-- Instruction `LD A, (C)`. -/
def opcodeF2h : CPU μ Unit := do
  let s ← CPU.get
  let v ← busRead (0xFF00 + s.registers.c)
  CPU.modify fun s => s.setA v
  CPU.modify fun s => s.setCyclesToWait 8

/-- Instruction `DI`. -/
def opcodeF3h : CPU μ Unit := do
  CPU.modify fun s => s.setInterruptController (s.interruptController.setInterruptMasterEnable false)
  CPU.modify fun s => s.setCyclesToWait 4

/-- Handler `opcodeF4h`: `throw std::runtime_error("Opcode not implemented!")`. -/
def opcodeF4h : LR35902 μ → Except Exception Unit × LR35902 μ :=
  fun s => (.error Exception.runtime_error, s)

/-- Instruction `PUSH AF`. -/
def opcodeF5h : CPU μ Unit := do
  writeSpPreDec fun s => s.registers.af >>> 8
  writeSpPreDec fun s => s.registers.af
  CPU.modify fun s => s.setCyclesToWait 16

/-- Instruction `OR A, d8`. -/
def opcodeF6h : CPU μ Unit := do
  let v ← fetch
  CPU.modify fun s => s.setA (s.registers.a ||| v)
  CPU.modify fun s => s.setFz (decide (s.registers.a = 0))
  CPU.modify fun s => s.setFn false
  CPU.modify fun s => s.setFh false
  CPU.modify fun s => s.setFc false
  CPU.modify fun s => s.setCyclesToWait 8

/-- Instruction `RST 30H`. -/
def opcodeF7h : CPU μ Unit := do
  writeSpPreDec fun s => s.registers.pc >>> 8
  writeSpPreDec fun s => s.registers.pc
  CPU.modify fun s => s.setPc 0x30
  CPU.modify fun s => s.setCyclesToWait 16

/-- Instruction `LD HL, SP + r8`. -/
def opcodeF8h : CPU μ Unit := do
  let a ← fetch
  CPU.modify fun s => s.setHl (addInt8 s.registers.sp a)
  CPU.modify fun s => s.setFz false
  CPU.modify fun s => s.setFn false
  CPU.modify fun s => s.setFh (decide ((((s.registers.sp &&& 0xF) + (a &&& 0xF)) &&& 0x10) = 0x10))
  CPU.modify fun s => s.setFc (decide ((((s.registers.sp &&& 0xFF) + (a &&& 0xFF)) &&& 0x100) = 0x100))
  CPU.modify fun s => s.setCyclesToWait 12

/-- Instruction `LD SP, HL`. -/
def opcodeF9h : CPU μ Unit := do
  CPU.modify fun s => s.setSp s.registers.hl
  CPU.modify fun s => s.setCyclesToWait 8

/-- Instruction `LD A, (a16)`. -/
def opcodeFAh : CPU μ Unit := do
  let lo ← fetch
  let hi ← fetch
  let v ← busRead (lo ||| (hi <<< 8))
  CPU.modify fun s => s.setA v
  CPU.modify fun s => s.setCyclesToWait 16

/-- Instruction `EI`. -/
def opcodeFBh : CPU μ Unit := do
  CPU.modify fun s => s.setInterruptController (s.interruptController.setDelayedInterruptEnableCountdown 2)
  CPU.modify fun s => s.setCyclesToWait 4

/-- Handler `opcodeFCh`: `throw std::runtime_error("Opcode not implemented!")`. -/
def opcodeFCh : LR35902 μ → Except Exception Unit × LR35902 μ :=
  fun s => (.error Exception.runtime_error, s)

/-- Handler `opcodeFDh`: `throw std::runtime_error("Opcode not implemented!")`. -/
def opcodeFDh : LR35902 μ → Except Exception Unit × LR35902 μ :=
  fun s => (.error Exception.runtime_error, s)

/-- Instruction `CP A, d8`. -/
def opcodeFEh : CPU μ Unit := do
  let val ← fetch
  CPU.modify fun s => CP_A val s
  CPU.modify fun s => s.setCyclesToWait (s.cyclesToWait + 4)

/-- Instruction `RST 38H`. -/
def opcodeFFh : CPU μ Unit := do
  writeSpPreDec fun s => s.registers.pc >>> 8
  writeSpPreDec fun s => s.registers.pc
  CPU.modify fun s => s.setPc 0x38
  CPU.modify fun s => s.setCyclesToWait 16


/-- A handler that contains no `throw`, seen from `lookUp`: only the exception of a
bus access can leave it. -/
def liftCPU (m : CPU μ Unit) : LR35902 μ → Except Exception Unit × LR35902 μ := fun s =>
  match m s with
  | (.ok (), s1) => (.ok (), s1)
  | (.error e, s1) => (.error (Exception.busNoHandler e), s1)

set_option maxRecDepth 4000 in
/-- `LR35902::lookUp(uint8_t code)`: the 256-way `switch`, one line per `case`; the
`switch` has no `default`. -/
def lookUp (code : Nat) (s : LR35902 μ) : Except Exception Unit × LR35902 μ :=
  if code = 0 then liftCPU opcode00h s else
  if code = 1 then liftCPU opcode01h s else
  if code = 2 then liftCPU opcode02h s else
  if code = 3 then liftCPU opcode03h s else
  if code = 4 then liftCPU opcode04h s else
  if code = 5 then liftCPU opcode05h s else
  if code = 6 then liftCPU opcode06h s else
  if code = 7 then liftCPU opcode07h s else
  if code = 8 then liftCPU opcode08h s else
  if code = 9 then liftCPU opcode09h s else
  if code = 10 then liftCPU opcode0Ah s else
  if code = 11 then liftCPU opcode0Bh s else
  if code = 12 then liftCPU opcode0Ch s else
  if code = 13 then liftCPU opcode0Dh s else
  if code = 14 then liftCPU opcode0Eh s else
  if code = 15 then liftCPU opcode0Fh s else
  if code = 16 then liftCPU opcode10h s else
  if code = 17 then liftCPU opcode11h s else
  if code = 18 then liftCPU opcode12h s else
  if code = 19 then liftCPU opcode13h s else
  if code = 20 then liftCPU opcode14h s else
  if code = 21 then liftCPU opcode15h s else
  if code = 22 then liftCPU opcode16h s else
  if code = 23 then liftCPU opcode17h s else
  if code = 24 then liftCPU opcode18h s else
  if code = 25 then liftCPU opcode19h s else
  if code = 26 then liftCPU opcode1Ah s else
  if code = 27 then liftCPU opcode1Bh s else
  if code = 28 then liftCPU opcode1Ch s else
  if code = 29 then liftCPU opcode1Dh s else
  if code = 30 then liftCPU opcode1Eh s else
  if code = 31 then liftCPU opcode1Fh s else
  if code = 32 then liftCPU opcode20h s else
  if code = 33 then liftCPU opcode21h s else
  if code = 34 then liftCPU opcode22h s else
  if code = 35 then liftCPU opcode23h s else
  if code = 36 then liftCPU opcode24h s else
  if code = 37 then liftCPU opcode25h s else
  if code = 38 then liftCPU opcode26h s else
  if code = 39 then liftCPU opcode27h s else
  if code = 40 then liftCPU opcode28h s else
  if code = 41 then liftCPU opcode29h s else
  if code = 42 then liftCPU opcode2Ah s else
  if code = 43 then liftCPU opcode2Bh s else
  if code = 44 then liftCPU opcode2Ch s else
  if code = 45 then liftCPU opcode2Dh s else
  if code = 46 then liftCPU opcode2Eh s else
  if code = 47 then liftCPU opcode2Fh s else
  if code = 48 then liftCPU opcode30h s else
  if code = 49 then liftCPU opcode31h s else
  if code = 50 then liftCPU opcode32h s else
  if code = 51 then liftCPU opcode33h s else
  if code = 52 then liftCPU opcode34h s else
  if code = 53 then liftCPU opcode35h s else
  if code = 54 then liftCPU opcode36h s else
  if code = 55 then liftCPU opcode37h s else
  if code = 56 then liftCPU opcode38h s else
  if code = 57 then liftCPU opcode39h s else
  if code = 58 then liftCPU opcode3Ah s else
  if code = 59 then liftCPU opcode3Bh s else
  if code = 60 then liftCPU opcode3Ch s else
  if code = 61 then liftCPU opcode3Dh s else
  if code = 62 then liftCPU opcode3Eh s else
  if code = 63 then liftCPU opcode3Fh s else
  if code = 64 then liftCPU opcode40h s else
  if code = 65 then liftCPU opcode41h s else
  if code = 66 then liftCPU opcode42h s else
  if code = 67 then liftCPU opcode43h s else
  if code = 68 then liftCPU opcode44h s else
  if code = 69 then liftCPU opcode45h s else
  if code = 70 then liftCPU opcode46h s else
  if code = 71 then liftCPU opcode47h s else
  if code = 72 then liftCPU opcode48h s else
  if code = 73 then liftCPU opcode49h s else
  if code = 74 then liftCPU opcode4Ah s else
  if code = 75 then liftCPU opcode4Bh s else
  if code = 76 then liftCPU opcode4Ch s else
  if code = 77 then liftCPU opcode4Dh s else
  if code = 78 then liftCPU opcode4Eh s else
  if code = 79 then liftCPU opcode4Fh s else
  if code = 80 then liftCPU opcode50h s else
  if code = 81 then liftCPU opcode51h s else
  if code = 82 then liftCPU opcode52h s else
  if code = 83 then liftCPU opcode53h s else
  if code = 84 then liftCPU opcode54h s else
  if code = 85 then liftCPU opcode55h s else
  if code = 86 then liftCPU opcode56h s else
  if code = 87 then liftCPU opcode57h s else
  if code = 88 then liftCPU opcode58h s else
  if code = 89 then liftCPU opcode59h s else
  if code = 90 then liftCPU opcode5Ah s else
  if code = 91 then liftCPU opcode5Bh s else
  if code = 92 then liftCPU opcode5Ch s else
  if code = 93 then liftCPU opcode5Dh s else
  if code = 94 then liftCPU opcode5Eh s else
  if code = 95 then liftCPU opcode5Fh s else
  if code = 96 then liftCPU opcode60h s else
  if code = 97 then liftCPU opcode61h s else
  if code = 98 then liftCPU opcode62h s else
  if code = 99 then liftCPU opcode63h s else
  if code = 100 then liftCPU opcode64h s else
  if code = 101 then liftCPU opcode65h s else
  if code = 102 then liftCPU opcode66h s else
  if code = 103 then liftCPU opcode67h s else
  if code = 104 then liftCPU opcode68h s else
  if code = 105 then liftCPU opcode69h s else
  if code = 106 then liftCPU opcode6Ah s else
  if code = 107 then liftCPU opcode6Bh s else
  if code = 108 then liftCPU opcode6Ch s else
  if code = 109 then liftCPU opcode6Dh s else
  if code = 110 then liftCPU opcode6Eh s else
  if code = 111 then liftCPU opcode6Fh s else
  if code = 112 then liftCPU opcode70h s else
  if code = 113 then liftCPU opcode71h s else
  if code = 114 then liftCPU opcode72h s else
  if code = 115 then liftCPU opcode73h s else
  if code = 116 then liftCPU opcode74h s else
  if code = 117 then liftCPU opcode75h s else
  if code = 118 then liftCPU opcode76h s else
  if code = 119 then liftCPU opcode77h s else
  if code = 120 then liftCPU opcode78h s else
  if code = 121 then liftCPU opcode79h s else
  if code = 122 then liftCPU opcode7Ah s else
  if code = 123 then liftCPU opcode7Bh s else
  if code = 124 then liftCPU opcode7Ch s else
  if code = 125 then liftCPU opcode7Dh s else
  if code = 126 then liftCPU opcode7Eh s else
  if code = 127 then liftCPU opcode7Fh s else
  if code = 128 then liftCPU opcode80h s else
  if code = 129 then liftCPU opcode81h s else
  if code = 130 then liftCPU opcode82h s else
  if code = 131 then liftCPU opcode83h s else
  if code = 132 then liftCPU opcode84h s else
  if code = 133 then liftCPU opcode85h s else
  if code = 134 then liftCPU opcode86h s else
  if code = 135 then liftCPU opcode87h s else
  if code = 136 then liftCPU opcode88h s else
  if code = 137 then liftCPU opcode89h s else
  if code = 138 then liftCPU opcode8Ah s else
  if code = 139 then liftCPU opcode8Bh s else
  if code = 140 then liftCPU opcode8Ch s else
  if code = 141 then liftCPU opcode8Dh s else
  if code = 142 then liftCPU opcode8Eh s else
  if code = 143 then liftCPU opcode8Fh s else
  if code = 144 then liftCPU opcode90h s else
  if code = 145 then liftCPU opcode91h s else
  if code = 146 then liftCPU opcode92h s else
  if code = 147 then liftCPU opcode93h s else
  if code = 148 then liftCPU opcode94h s else
  if code = 149 then liftCPU opcode95h s else
  if code = 150 then liftCPU opcode96h s else
  if code = 151 then liftCPU opcode97h s else
  if code = 152 then liftCPU opcode98h s else
  if code = 153 then liftCPU opcode99h s else
  if code = 154 then liftCPU opcode9Ah s else
  if code = 155 then liftCPU opcode9Bh s else
  if code = 156 then liftCPU opcode9Ch s else
  if code = 157 then liftCPU opcode9Dh s else
  if code = 158 then liftCPU opcode9Eh s else
  if code = 159 then liftCPU opcode9Fh s else
  if code = 160 then liftCPU opcodeA0h s else
  if code = 161 then liftCPU opcodeA1h s else
  if code = 162 then liftCPU opcodeA2h s else
  if code = 163 then liftCPU opcodeA3h s else
  if code = 164 then liftCPU opcodeA4h s else
  if code = 165 then liftCPU opcodeA5h s else
  if code = 166 then liftCPU opcodeA6h s else
  if code = 167 then liftCPU opcodeA7h s else
  if code = 168 then liftCPU opcodeA8h s else
  if code = 169 then liftCPU opcodeA9h s else
  if code = 170 then liftCPU opcodeAAh s else
  if code = 171 then liftCPU opcodeABh s else
  if code = 172 then liftCPU opcodeACh s else
  if code = 173 then liftCPU opcodeADh s else
  if code = 174 then liftCPU opcodeAEh s else
  if code = 175 then liftCPU opcodeAFh s else
  if code = 176 then liftCPU opcodeB0h s else
  if code = 177 then liftCPU opcodeB1h s else
  if code = 178 then liftCPU opcodeB2h s else
  if code = 179 then liftCPU opcodeB3h s else
  if code = 180 then liftCPU opcodeB4h s else
  if code = 181 then liftCPU opcodeB5h s else
  if code = 182 then liftCPU opcodeB6h s else
  if code = 183 then liftCPU opcodeB7h s else
  if code = 184 then liftCPU opcodeB8h s else
  if code = 185 then liftCPU opcodeB9h s else
  if code = 186 then liftCPU opcodeBAh s else
  if code = 187 then liftCPU opcodeBBh s else
  if code = 188 then liftCPU opcodeBCh s else
  if code = 189 then liftCPU opcodeBDh s else
  if code = 190 then liftCPU opcodeBEh s else
  if code = 191 then liftCPU opcodeBFh s else
  if code = 192 then liftCPU opcodeC0h s else
  if code = 193 then liftCPU opcodeC1h s else
  if code = 194 then liftCPU opcodeC2h s else
  if code = 195 then liftCPU opcodeC3h s else
  if code = 196 then liftCPU opcodeC4h s else
  if code = 197 then liftCPU opcodeC5h s else
  if code = 198 then liftCPU opcodeC6h s else
  if code = 199 then liftCPU opcodeC7h s else
  if code = 200 then liftCPU opcodeC8h s else
  if code = 201 then liftCPU opcodeC9h s else
  if code = 202 then liftCPU opcodeCAh s else
  if code = 203 then liftCPU opcodeCBh s else
  if code = 204 then liftCPU opcodeCCh s else
  if code = 205 then liftCPU opcodeCDh s else
  if code = 206 then liftCPU opcodeCEh s else
  if code = 207 then liftCPU opcodeCFh s else
  if code = 208 then liftCPU opcodeD0h s else
  if code = 209 then liftCPU opcodeD1h s else
  if code = 210 then liftCPU opcodeD2h s else
  if code = 211 then opcodeD3h s else
  if code = 212 then liftCPU opcodeD4h s else
  if code = 213 then liftCPU opcodeD5h s else
  if code = 214 then liftCPU opcodeD6h s else
  if code = 215 then liftCPU opcodeD7h s else
  if code = 216 then liftCPU opcodeD8h s else
  if code = 217 then liftCPU opcodeD9h s else
  if code = 218 then liftCPU opcodeDAh s else
  if code = 219 then opcodeDBh s else
  if code = 220 then liftCPU opcodeDCh s else
  if code = 221 then opcodeDDh s else
  if code = 222 then liftCPU opcodeDEh s else
  if code = 223 then liftCPU opcodeDFh s else
  if code = 224 then liftCPU opcodeE0h s else
  if code = 225 then liftCPU opcodeE1h s else
  if code = 226 then liftCPU opcodeE2h s else
  if code = 227 then opcodeE3h s else
  if code = 228 then opcodeE4h s else
  if code = 229 then liftCPU opcodeE5h s else
  if code = 230 then liftCPU opcodeE6h s else
  if code = 231 then liftCPU opcodeE7h s else
  if code = 232 then liftCPU opcodeE8h s else
  if code = 233 then liftCPU opcodeE9h s else
  if code = 234 then liftCPU opcodeEAh s else
  if code = 235 then opcodeEBh s else
  if code = 236 then opcodeECh s else
  if code = 237 then opcodeEDh s else
  if code = 238 then liftCPU opcodeEEh s else
  if code = 239 then liftCPU opcodeEFh s else
  if code = 240 then liftCPU opcodeF0h s else
  if code = 241 then liftCPU opcodeF1h s else
  if code = 242 then liftCPU opcodeF2h s else
  if code = 243 then liftCPU opcodeF3h s else
  if code = 244 then opcodeF4h s else
  if code = 245 then liftCPU opcodeF5h s else
  if code = 246 then liftCPU opcodeF6h s else
  if code = 247 then liftCPU opcodeF7h s else
  if code = 248 then liftCPU opcodeF8h s else
  if code = 249 then liftCPU opcodeF9h s else
  if code = 250 then liftCPU opcodeFAh s else
  if code = 251 then liftCPU opcodeFBh s else
  if code = 252 then opcodeFCh s else
  if code = 253 then opcodeFDh s else
  if code = 254 then liftCPU opcodeFEh s else
  if code = 255 then liftCPU opcodeFFh s else
  (.ok (), s)

/-- The `while (i < 5)` loop of `handleInterrupt`, started at `i`: the value of `i`
when the loop is left, by `break` at the first `i` with
`(requestedInterrupts & (1 << i)) != 0` or at `i = 5`. The first argument bounds
the number of iterations left. -/
def handleInterrupt_loop (requestedInterrupts : Nat) : Nat → Nat → Nat
  | 0, i => i
  | n + 1, i =>
    if i < 5 then
      if requestedInterrupts &&& (1 <<< i) ≠ 0 then i
      else handleInterrupt_loop requestedInterrupts n (i + 1)
    else i

/-- `LR35902::handleInterrupt`. -/
def handleInterrupt : CPU μ Unit := do
  let s ← CPU.get
  if !s.interruptController.isInterruptMasterEnabled then
    pure ()
  else
    let requestedInterrupts :=
      (s.interruptController.getInterruptRequest &&& s.interruptController.getInterruptEnable) % 256
    if requestedInterrupts = 0x00 then
      pure ()
    else
      let i := handleInterrupt_loop requestedInterrupts 5 0
      let vectorAddress := (0x0040 + (8 * i)) % 65536
      if i = 5 then
        pure ()
      else
        CPU.modify fun s => s.setInterruptController
          (s.interruptController.setInterruptRequested (1 <<< i) false)
        CPU.modify fun s => s.setInterruptController
          (s.interruptController.setInterruptMasterEnable false)
        writeSpPreDec fun s => s.registers.pc >>> 8
        writeSpPreDec fun s => s.registers.pc
        CPU.modify fun s => s.setPc vectorAddress
        CPU.modify fun s => s.setCyclesToWait 20

/-- The `try { lookUp(opcode); } catch (const std::runtime_error& e) { ... }` of
`tick`: a `std::runtime_error` is caught (the handler only writes to `std::cerr`)
and execution goes on; any other exception leaves `tick`. -/
def lookUpCaught (opcode : Nat) : CPU μ Unit := fun s =>
  match lookUp opcode s with
  | (.ok (), s1) => (.ok (), s1)
  | (.error Exception.runtime_error, s1) => (.ok (), s1)
  | (.error (Exception.busNoHandler e), s1) => (.error e, s1)

/-- `LR35902::tick`. -/
def tick : CPU μ Unit := do
  CPU.modify fun s => s.setInterruptController s.interruptController.tick
  let s ← CPU.get
  if s.cyclesToWait = 0 then
    handleInterrupt
    let opcode ← fetch
    lookUpCaught opcode
    CPU.modify fun s => s.setInterruptController s.interruptController.handleDelayedInterrupt
  CPU.modify fun s => { s with tickCounter := (s.tickCounter + 1) % 4294967296 }
  CPU.modify fun s => s.setCyclesToWait (s.cyclesToWait + 255)

/-- `LR35902::step`. -/
def step : CPU μ Unit := do
  let s ← CPU.get
  if s.cyclesToWait > 0 then
    CPU.modify fun s => { s with tickCounter := (s.tickCounter + (s.cyclesToWait - 1)) % 4294967296 }
    CPU.modify fun s => s.setCyclesToWait 0
  tick

/-- The effect of `n` consecutive calls of `tick()`; an exception ends the sequence. -/
def ticks : Nat → CPU μ Unit
  | 0 => pure ()
  | n + 1 => do
    tick
    ticks n

end LR35902

/-! ## Concrete machines used to evaluate the code -/

/-- The register values after boot: `A=0x01, F=0xB0, BC=0x0013, DE=0x00D8, HL=0x014D,
SP=0xFFFE, PC=0x0100`. -/
def bootRegisters : LR35902Registers :=
  { a := 0x01, f := Flags.ofRaw 0xB0, b := 0x00, c := 0x13, d := 0x00, e := 0xD8,
    h := 0x01, l := 0x4D, sp := 0xFFFE, pc := 0x0100 }

/-- A CPU at an instruction boundary with the boot registers, interrupts disabled
(`IME = false`, `IF = IE = 0`), on a bus made of the flat memory `m`. -/
def bootState (m : Nat → Nat) : LR35902 (Nat → Nat) :=
  { bus := ramBus m
    registers := bootRegisters
    interruptController :=
      { interruptMasterEnable := false, delayedInterruptEnableCountdown := 0,
        interruptRequest := 0x00, interruptEnable := 0x00 }
    cyclesToWait := 0
    halted := false
    stopped := false
    tickCounter := 0 }

/-- The interrupt scenario of the spec: `IME=true, IE=0x01, IF=0x01, SP=0xFFFE,
PC=0x1234` at an instruction boundary, with `INC A` (0x3C) at the VBlank vector
0x0040 and `NOP` everywhere else. -/
def interruptScenario : LR35902 (Nat → Nat) :=
  { bootState (fun a => if a = 0x0040 then 0x3C else 0x00) with
    registers := { bootRegisters with pc := 0x1234 }
    interruptController :=
      { interruptMasterEnable := true, delayedInterruptEnableCountdown := 0,
        interruptRequest := 0x01, interruptEnable := 0x01 } }

/-- The program `HALT; INC A` at 0x0100, run from the boot state. -/
def haltScenario : LR35902 (Nat → Nat) :=
  bootState (fun a => if a = 0x0100 then 0x76 else if a = 0x0101 then 0x3C else 0x00)

/-- The instruction `DAA` (0x27) at 0x0100, run from the boot state. -/
def daaScenario : LR35902 (Nat → Nat) :=
  bootState (fun a => if a = 0x0100 then 0x27 else 0x00)

/-- The instruction `RES 0, B` (0xCB 0x80) at 0x0100, run from the boot state. -/
def resScenario : LR35902 (Nat → Nat) :=
  bootState (fun a => if a = 0x0100 then 0xCB else if a = 0x0101 then 0x80 else 0x00)

/-- The instruction `SET 0, B` (0xCB 0xC0) at 0x0100, run from the boot state. -/
def setScenario : LR35902 (Nat → Nat) :=
  bootState (fun a => if a = 0x0100 then 0xCB else if a = 0x0101 then 0xC0 else 0x00)

/-- The undefined primary opcodes listed by the spec. -/
def illegalOpcodes : List Nat :=
  [0xD3, 0xDB, 0xDD, 0xE3, 0xE4, 0xEB, 0xEC, 0xED, 0xF4, 0xFC, 0xFD]

/-! ## Provider registration (`src/platform/bus/Bus.cpp`, lines 47-57) -/

/-- `Bus::registerBusProvider`: `m_busProviders.push_back(busProvider)`. The vector
holds `BusProvider*`; `π` is the type of these pointers. -/
def Bus.registerBusProvider {π : Type} (busProviders : List π) (busProvider : π) : List π :=
  busProviders ++ [busProvider]

/-- `std::remove(first, last, value)` followed by `erase(newEnd, last)` (the call of
`Bus::unregisterBusProvider`): the elements that do not compare equal to `value` are
moved to the front in their order and the rest is erased. -/
def Bus.eraseRemove {π : Type} [DecidableEq π] : List π → π → List π
  | [], _ => []
  | q :: qs, value => if q = value then Bus.eraseRemove qs value else q :: Bus.eraseRemove qs value

/-- `Bus::unregisterBusProvider`. -/
def Bus.unregisterBusProvider {π : Type} [DecidableEq π] (busProviders : List π)
    (busProvider : π) : List π :=
  Bus.eraseRemove busProviders busProvider

/-- The bus whose `m_busProviders` holds the pointers `busProviders`, `deref` giving
the provider a pointer refers to. -/
def Bus.ofPointers {π μ : Type} (deref : π → BusProvider μ) (busProviders : List π)
    (store : μ) : Bus μ :=
  { busProviders := busProviders.map deref, store := store }

/-- A provider that owns the single address `a0`: its overrides intercept every read
of `a0`, answered with `v0`, and every write to `a0`, which is dropped; it handles no
normal access. -/
def lockedAddress (a0 v0 : Nat) : BusProvider (Nat → Nat) where
  busRead := fun _ _ val _ => (false, val)
  busWrite := fun m _ _ _ => (false, m)
  busReadOverride := fun _ addr val _ => if addr = a0 then (true, v0) else (false, val)
  busWriteOverride := fun m addr _ _ => (decide (addr = a0), m)

/-- A provider that handles the normal accesses of the addresses below `limit` on the
flat memory and nothing else. -/
def memoryBelow (limit : Nat) : BusProvider (Nat → Nat) where
  busRead := fun m addr val _ => if addr < limit then (true, m addr) else (false, val)
  busWrite := fun m addr val _ =>
    if addr < limit then (true, fun a => if a = addr then val else m a) else (false, m)
  busReadOverride := fun _ _ val _ => (false, val)
  busWriteOverride := fun m _ _ _ => (false, m)
/-! ## The guarded part of the CPU state -/

/-- The two members that only `POP AF`, `DI`, `EI`, `RETI` and the interrupt service
assign: the unused low nibble of `F` and the interrupt controller. -/
def LR35902.guarded {μ : Type} (s : LR35902 μ) : Nat × InterruptController :=
  (s.registers.f.unused, s.interruptController)

/-- The member function `m` of `LR35902` leaves the guarded members as it found them,
also when an exception leaves it. -/
def CPU.Keeps {μ α : Type} (m : CPU μ α) : Prop :=
  ∀ s : LR35902 μ, (m s).2.guarded = s.guarded

/-- The computation `m` keeps the invariant of the spec, `F & 0x0F == 0`: run from a
state where the low nibble of the byte view of `F` is 0, it ends (normally or with an
exception) in a state where it is 0. -/
def CPU.KeepsLowNibble {μ α : Type} (m : CPU μ α) : Prop :=
  ∀ s : LR35902 μ, s.registers.f.raw &&& 0x0F = 0 → (m s).2.registers.f.raw &&& 0x0F = 0

/-! ## Machines for the interrupt-enable and `step` scenarios -/

/-- The boot state with a VBlank interrupt pending (`IF = IE = 0x01`, `IME` false). -/
def pendingState (m : Nat → Nat) : LR35902 (Nat → Nat) :=
  { bootState m with
    interruptController :=
      { interruptMasterEnable := false, delayedInterruptEnableCountdown := 0,
        interruptRequest := 0x01, interruptEnable := 0x01 } }

/-- The program `EI; NOP; NOP; ...`: `EI` (0xFB) at 0x0100 and `NOP` everywhere else,
run from the boot state with a VBlank interrupt pending. -/
def eiScenario : LR35902 (Nat → Nat) :=
  pendingState (fun a => if a = 0x0100 then 0xFB else 0x00)

/-- The program `EI; EI; NOP; ...`: `EI` (0xFB) at 0x0100 and at 0x0101 and `NOP`
everywhere else, run from the boot state with a VBlank interrupt pending. -/
def eiEiScenario : LR35902 (Nat → Nat) :=
  pendingState (fun a => if a = 0x0100 then 0xFB else if a = 0x0101 then 0xFB else 0x00)

/-- The program `EI; DI; NOP; ...`: `EI` (0xFB) at 0x0100, `DI` (0xF3) at 0x0101 and
`NOP` everywhere else, run from the boot state with a VBlank interrupt pending. -/
def eiDiScenario : LR35902 (Nat → Nat) :=
  pendingState (fun a => if a = 0x0100 then 0xFB else if a = 0x0101 then 0xF3 else 0x00)

/-- A CPU in the middle of an instruction: the boot state on a memory of `NOP`s after
the first tick of the `NOP` at 0x0100 (`PC = 0x0101`, three cycles left, one tick
counted). -/
def nopInFlight : LR35902 (Nat → Nat) :=
  { bootState (fun _ => 0x00) with
    registers := { bootRegisters with pc := 0x0101 }
    cyclesToWait := 3
    tickCounter := 1 }

/-! ## PPU mode manager (`src/ppu/modes/PPUModeManager.cpp`) -/

/-- The enumeration `PPUModeType`. -/
inductive PPUModeType where
  | OAM_Search
  | Drawing
  | HBlank
  | VBlank
deriving DecidableEq, Repr

/-- Modelled from the spec: the enumeration `InterruptType` (its header is missing):
the five interrupt sources. -/
inductive InterruptType where
  | VBlank
  | LCDSTAT
  | Timer
  | Serial
  | Joypad
deriving DecidableEq, Repr

/-- The member `m_interruptLines` of `Bus`, a `std::bitset<5>` holding one line per
interrupt source. -/
structure InterruptLines where
  vblank : Bool
  lcdstat : Bool
  timer : Bool
  serial : Bool
  joypad : Bool
deriving DecidableEq, Repr

/-- `Bus::setInterruptLineHigh`: `m_interruptLines.set(static_cast<size_t>(interruptType),
isHigh)`; each interrupt source selects its own line. -/
def Bus.setInterruptLineHigh (lines : InterruptLines) (interruptType : InterruptType)
    (isHigh : Bool) : InterruptLines :=
  match interruptType with
  | .VBlank => { lines with vblank := isHigh }
  | .LCDSTAT => { lines with lcdstat := isHigh }
  | .Timer => { lines with timer := isHigh }
  | .Serial => { lines with serial := isHigh }
  | .Joypad => { lines with joypad := isHigh }

/-- `Bus::isInterruptLineHigh`. -/
def Bus.isInterruptLineHigh (lines : InterruptLines) (interruptType : InterruptType) : Bool :=
  match interruptType with
  | .VBlank => lines.vblank
  | .LCDSTAT => lines.lcdstat
  | .Timer => lines.timer
  | .Serial => lines.serial
  | .Joypad => lines.joypad

/-- Modelled from the spec: the register `STAT` (`PPURegisters.h` is missing), with the
fields that the mode manager reads and writes. -/
structure LCDStatus where
  mode : Nat
  mode0InterruptSource : Bool
  mode1InterruptSource : Bool
  mode2InterruptSource : Bool
  lycEqualsLy : Bool
deriving DecidableEq, Repr

/-- Modelled from the spec: the part of `PPURegisters` (its header is missing) that
the mode manager uses: `lcdPositionAndScrolling.yLcdCoordinate` (`LY`, 8 bits) and
`lcdStatus`. -/
structure PPURegisters where
  yLcdCoordinate : Nat
  lcdStatus : LCDStatus
deriving DecidableEq, Repr

/-- Modelled from the spec: the four mode classes (`OAMSearchPPUMode`,
`DrawingPPUMode`, `HBlankPPUMode`, `VBlankPPUMode`) are missing. The operations that
the manager calls on them, acting on the state `σ` of the four mode instances (and of
what they draw to): `tick`, `isFullyFinished` and `restart` of the instance of a mode,
`m_drawingPpuMode.getTickCounter()` and `m_hblankPpuMode.setBlankingCycleCount(...)`.
The modes read the PPU registers; `LY` and `STAT` are written by the manager ("each
mode exposes a `restart` hook and a `fullyFinished` predicate"). The argument of
`setBlankingCycleCount` is the value of `376 - getTickCounter()` as an integer. -/
structure PPUModes (σ : Type) where
  tick : PPUModeType → PPURegisters → σ → σ
  isFullyFinished : PPUModeType → PPURegisters → σ → Bool
  restart : PPUModeType → PPURegisters → σ → σ
  getTickCounter : σ → Nat
  setBlankingCycleCount : Int → σ → σ

/-- The members of `PPUModeManager`: the four mode instances (`modes`),
`m_currentMode`, and what it reaches through its references: the interrupt lines of
`m_bus`, the number of times `m_framebuffer.notifyReady()` was called, and
`m_ppuRegisters`. -/
structure PPUModeManager (σ : Type) where
  modes : σ
  currentMode : PPUModeType
  interruptLines : InterruptLines
  framebufferReady : Nat
  ppuRegisters : PPURegisters

namespace PPUModeManager

variable {σ : Type}

/-- `PPUModeManager::getCurrentMode`. -/
def getCurrentMode (p : PPUModeManager σ) : PPUModeType := p.currentMode

/-- The assignment to `m_ppuRegisters.lcdStatus.mode`. -/
def setLcdStatusMode (p : PPUModeManager σ) (v : Nat) : PPUModeManager σ :=
  { p with
    ppuRegisters := { p.ppuRegisters with lcdStatus := { p.ppuRegisters.lcdStatus with mode := v } } }

/-- `PPUModeManager::updateLcdStatusModeRegister`. -/
def updateLcdStatusModeRegister (p : PPUModeManager σ) : PPUModeManager σ :=
  match p.currentMode with
  | .OAM_Search => p.setLcdStatusMode 2
  | .Drawing => p.setLcdStatusMode 3
  | .HBlank => p.setLcdStatusMode 0
  | .VBlank => p.setLcdStatusMode 1

/-- `PPUModeManager::updateStatInterrupt`. -/
def updateStatInterrupt (p : PPUModeManager σ) : PPUModeManager σ :=
  let lcdStatus := p.ppuRegisters.lcdStatus
  { p with
    interruptLines := Bus.setInterruptLineHigh p.interruptLines InterruptType.LCDSTAT
      ((lcdStatus.mode0InterruptSource && decide (p.currentMode = PPUModeType.HBlank))
        || (lcdStatus.mode1InterruptSource && decide (p.currentMode = PPUModeType.VBlank))
        || (lcdStatus.mode2InterruptSource && decide (p.currentMode = PPUModeType.OAM_Search))
        || lcdStatus.lycEqualsLy) }

/-- The assignment to `m_ppuRegisters.lcdPositionAndScrolling.yLcdCoordinate`, an
8-bit register. -/
def setYLcdCoordinate (p : PPUModeManager σ) (v : Nat) : PPUModeManager σ :=
  { p with ppuRegisters := { p.ppuRegisters with yLcdCoordinate := v % 256 } }

/-- `PPUModeManager::reset`. -/
def reset (ops : PPUModes σ) (p : PPUModeManager σ) : PPUModeManager σ :=
  let p := p.setYLcdCoordinate 0
  let p := { p with
    interruptLines := Bus.setInterruptLineHigh p.interruptLines InterruptType.VBlank false }
  let p := { p with currentMode := PPUModeType.OAM_Search }
  let p := { p with modes := ops.restart p.currentMode p.ppuRegisters p.modes }
  let p := p.updateLcdStatusModeRegister
  p.updateStatInterrupt

/-- The `switch (m_currentMode)` of `PPUModeManager::tick`, executed when the current
mode instance is fully finished. -/
def tick_switch (ops : PPUModes σ) (p : PPUModeManager σ) : PPUModeManager σ :=
  match p.currentMode with
  | .OAM_Search => { p with currentMode := PPUModeType.Drawing }
  | .Drawing =>
    let p := { p with
      modes := ops.setBlankingCycleCount (376 - (ops.getTickCounter p.modes : Int)) p.modes }
    { p with currentMode := PPUModeType.HBlank }
  | .HBlank =>
    let p := p.setYLcdCoordinate (p.ppuRegisters.yLcdCoordinate + 1)
    if p.ppuRegisters.yLcdCoordinate < 144 then
      { p with currentMode := PPUModeType.OAM_Search }
    else
      let p := { p with
        interruptLines := Bus.setInterruptLineHigh p.interruptLines InterruptType.VBlank true }
      let p := { p with framebufferReady := p.framebufferReady + 1 }
      { p with currentMode := PPUModeType.VBlank }
  | .VBlank =>
    if p.ppuRegisters.yLcdCoordinate < 153 then
      p.setYLcdCoordinate (p.ppuRegisters.yLcdCoordinate + 1)
    else
      let p := p.setYLcdCoordinate 0
      let p := { p with
        interruptLines := Bus.setInterruptLineHigh p.interruptLines InterruptType.VBlank false }
      { p with currentMode := PPUModeType.OAM_Search }

/-- `PPUModeManager::tick`. -/
def tick (ops : PPUModes σ) (p : PPUModeManager σ) : PPUModeManager σ :=
  let currentModeInstance := p.currentMode
  let p := { p with modes := ops.tick currentModeInstance p.ppuRegisters p.modes }
  let p :=
    if ops.isFullyFinished currentModeInstance p.ppuRegisters p.modes then
      let p := tick_switch ops p
      let p := { p with modes := ops.restart p.currentMode p.ppuRegisters p.modes }
      p.updateLcdStatusModeRegister
    else p
  p.updateStatInterrupt

/-- The state after `n` calls of `tick()`. -/
def ticks (ops : PPUModes σ) : Nat → PPUModeManager σ → PPUModeManager σ
  | 0, p => p
  | n + 1, p => tick ops (ticks ops n p)

end PPUModeManager

/-- Modelled from the spec: the mode classes are missing. The dot counters of the four
mode instances, each counting the ticks of its instance since its `restart`, and the
blanking budget of the HBlank instance. -/
structure DotCounters where
  oamSearch : Nat
  drawing : Nat
  hblank : Nat
  vblank : Nat
  blankingCycleCount : Int
deriving DecidableEq, Repr

/-- Modelled from the spec: the mode classes are missing. The dot budgets of the mode
table: OAM search is fully finished after 80 dots, Drawing after `used` dots (variable,
a parameter here), HBlank when its counter has reached its blanking budget, a line of
VBlank after 456 dots. -/
def dotBudgetModes (used : Nat) : PPUModes DotCounters where
  tick := fun t _ c =>
    match t with
    | .OAM_Search => { c with oamSearch := c.oamSearch + 1 }
    | .Drawing => { c with drawing := c.drawing + 1 }
    | .HBlank => { c with hblank := c.hblank + 1 }
    | .VBlank => { c with vblank := c.vblank + 1 }
  isFullyFinished := fun t _ c =>
    match t with
    | .OAM_Search => decide (80 ≤ c.oamSearch)
    | .Drawing => decide (used ≤ c.drawing)
    | .HBlank => decide (c.blankingCycleCount ≤ (c.hblank : Int))
    | .VBlank => decide (456 ≤ c.vblank)
  restart := fun t _ c =>
    match t with
    | .OAM_Search => { c with oamSearch := 0 }
    | .Drawing => { c with drawing := 0 }
    | .HBlank => { c with hblank := 0 }
    | .VBlank => { c with vblank := 0 }
  getTickCounter := fun c => c.drawing
  setBlankingCycleCount := fun v c => { c with blankingCycleCount := v }

/-- The mode manager at the start of the OAM search of line `ly`, as the constructor
and `reset` leave it for `ly = 0`: OAM search restarted, `STAT.mode = 2`, no interrupt
source selected, all lines low. -/
def lineStart (ly : Nat) : PPUModeManager DotCounters :=
  { modes := { oamSearch := 0, drawing := 0, hblank := 0, vblank := 0, blankingCycleCount := 0 }
    currentMode := PPUModeType.OAM_Search
    interruptLines :=
      { vblank := false, lcdstat := false, timer := false, serial := false, joypad := false }
    framebufferReady := 0
    ppuRegisters :=
      { yLcdCoordinate := ly
        lcdStatus :=
          { mode := 2, mode0InterruptSource := false, mode1InterruptSource := false,
            mode2InterruptSource := false, lycEqualsLy := false } } }

/-- Where the mode manager with the dot-budget modes stands `n` dots after the start
of the OAM search of a line whose drawing takes `used` dots: in OAM search during the
first 80 dots, then in Drawing for `used` dots, then in HBlank with the budget
`376 - used`; the counter of the current mode instance tells the dots spent in it. -/
def linePhase (used n : Nat) (q : PPUModeManager DotCounters) : Prop :=
  (n < 80 ∧ q.currentMode = PPUModeType.OAM_Search ∧ q.modes.oamSearch = n) ∨
  (80 ≤ n ∧ n < 80 + used ∧ q.currentMode = PPUModeType.Drawing ∧ q.modes.drawing = n - 80) ∨
  (80 + used ≤ n ∧ q.currentMode = PPUModeType.HBlank ∧ q.modes.hblank = n - (80 + used) ∧
    q.modes.blankingCycleCount = 376 - (used : Int))

instance (used n : Nat) (q : PPUModeManager DotCounters) : Decidable (linePhase used n q) := by
  unfold linePhase
  exact inferInstance

/-! ## VRAM (`src/ppu/vram/VRAM.cpp`) -/

/-- The members of `VRAM`: `m_vramTileData` and `m_vramTileMaps`, whose classes are
missing and whose states are `δ` and `τ`, and `m_readBlocked`. -/
structure VRAM (δ τ : Type) where
  vramTileData : δ
  vramTileMaps : τ
  readBlocked : Bool

/-- Modelled from the spec: the classes `VRAMTileData` and `VRAMTileMaps` are missing.
What `VRAM.cpp` and `BackgroundFetcher.cpp` call on them: their four bus handlers (a
provider each, acting on its own state), `getTileNumberFromTileMap(offset, area)`,
`getTileLineUsingFirstMethod(tileNumber, line)` and
`getTileLineUsingSecondMethod(int8 tileNumber, line)`. -/
structure VRAMParts (δ τ : Type) where
  tileData : BusProvider δ
  tileMaps : BusProvider τ
  getTileNumberFromTileMap : τ → Nat → Nat → Nat
  getTileLineUsingFirstMethod : δ → Nat → Nat → Nat
  getTileLineUsingSecondMethod : δ → Int → Nat → Nat

namespace VRAM

variable {δ τ : Type}

/-- The constructor `VRAM::VRAM()`: `m_readBlocked(false)`. -/
def construct (tileData : δ) (tileMaps : τ) : VRAM δ τ :=
  { vramTileData := tileData, vramTileMaps := tileMaps, readBlocked := false }

/-- `VRAM::getVramTileData`. -/
def getVramTileData (v : VRAM δ τ) : δ := v.vramTileData

/-- `VRAM::getVramTileMaps`. -/
def getVramTileMaps (v : VRAM δ τ) : τ := v.vramTileMaps

/-- `VRAM::setReadBlocked`. -/
def setReadBlocked (v : VRAM δ τ) (readBlocked : Bool) : VRAM δ τ :=
  { v with readBlocked := readBlocked }

/-- `VRAM::isReadBlocked`. -/
def isReadBlocked (v : VRAM δ τ) : Bool := v.readBlocked

/-- `VRAM::busRead`: the request goes to the tile data, then to the tile maps; `val`
is passed by reference to both. -/
def busRead (parts : VRAMParts δ τ) (v : VRAM δ τ) (addr val : Nat)
    (requestSource : BusRequestSource) : Bool × Nat :=
  match parts.tileData.busRead v.vramTileData addr val requestSource with
  | (true, val) => (true, val)
  | (false, val) =>
    match parts.tileMaps.busRead v.vramTileMaps addr val requestSource with
    | (true, val) => (true, val)
    | (false, val) => (false, val)

/-- `VRAM::busWrite`. -/
def busWrite (parts : VRAMParts δ τ) (v : VRAM δ τ) (addr val : Nat)
    (requestSource : BusRequestSource) : Bool × VRAM δ τ :=
  match parts.tileData.busWrite v.vramTileData addr val requestSource with
  | (true, d) => (true, { v with vramTileData := d })
  | (false, d) =>
    match parts.tileMaps.busWrite v.vramTileMaps addr val requestSource with
    | (true, t) => (true, { v with vramTileData := d, vramTileMaps := t })
    | (false, t) => (false, { v with vramTileData := d, vramTileMaps := t })

/-- `VRAM::busReadOverride`. -/
def busReadOverride (parts : VRAMParts δ τ) (v : VRAM δ τ) (addr val : Nat)
    (requestSource : BusRequestSource) : Bool × Nat :=
  match parts.tileData.busReadOverride v.vramTileData addr val requestSource with
  | (true, val) => (true, val)
  | (false, val) =>
    match parts.tileMaps.busReadOverride v.vramTileMaps addr val requestSource with
    | (true, val) => (true, val)
    | (false, val) => (false, val)

/-- `VRAM::busWriteOverride`. -/
def busWriteOverride (parts : VRAMParts δ τ) (v : VRAM δ τ) (addr val : Nat)
    (requestSource : BusRequestSource) : Bool × VRAM δ τ :=
  match parts.tileData.busWriteOverride v.vramTileData addr val requestSource with
  | (true, d) => (true, { v with vramTileData := d })
  | (false, d) =>
    match parts.tileMaps.busWriteOverride v.vramTileMaps addr val requestSource with
    | (true, t) => (true, { v with vramTileData := d, vramTileMaps := t })
    | (false, t) => (false, { v with vramTileData := d, vramTileMaps := t })

/-- The `VRAM` as a bus provider. -/
def provider (parts : VRAMParts δ τ) : BusProvider (VRAM δ τ) where
  busRead := busRead parts
  busWrite := busWrite parts
  busReadOverride := busReadOverride parts
  busWriteOverride := busWriteOverride parts

end VRAM

/-- Modelled from the spec: `VRAMTileData` is missing. "Tile data (0x8000–0x97FF)", a
byte store that handles the normal reads and writes of its range and overrides
nothing. -/
def tileDataStore : BusProvider (Nat → Nat) where
  busRead := fun m addr val _ =>
    if 0x8000 ≤ addr ∧ addr ≤ 0x97FF then (true, m addr) else (false, val)
  busWrite := fun m addr val _ =>
    if 0x8000 ≤ addr ∧ addr ≤ 0x97FF then (true, fun a => if a = addr then val else m a)
    else (false, m)
  busReadOverride := fun _ _ val _ => (false, val)
  busWriteOverride := fun m _ _ _ => (false, m)

/-- Modelled from the spec: `VRAMTileMaps` is missing. "Tile maps (0x9800–0x9FFF, two
32×32 byte maps)", a byte store that handles the normal reads and writes of its range
and overrides nothing. -/
def tileMapsStore : BusProvider (Nat → Nat) where
  busRead := fun m addr val _ =>
    if 0x9800 ≤ addr ∧ addr ≤ 0x9FFF then (true, m addr) else (false, val)
  busWrite := fun m addr val _ =>
    if 0x9800 ≤ addr ∧ addr ≤ 0x9FFF then (true, fun a => if a = addr then val else m a)
    else (false, m)
  busReadOverride := fun _ _ val _ => (false, val)
  busWriteOverride := fun m _ _ _ => (false, m)

/-- Modelled from the spec: `VRAMTileData` and `VRAMTileMaps` are missing. The two byte
stores with the accessors of the fetcher: the tile number at `offset` of the map at
0x9800 (area 0) or 0x9C00 (area 1); the tile line of row `line` (two bytes, "low-bit
plane in the low byte"), indexed from 0x8000 by the unsigned tile number (first
method) or from 0x9000 by the signed tile number (second method). -/
def byteStoreParts : VRAMParts (Nat → Nat) (Nat → Nat) where
  tileData := tileDataStore
  tileMaps := tileMapsStore
  getTileNumberFromTileMap := fun m offset area =>
    m ((if area = 1 then 0x9C00 else 0x9800) + offset)
  getTileLineUsingFirstMethod := fun m tileNumber line =>
    m (0x8000 + 16 * tileNumber + 2 * line) % 256
      + 256 * (m (0x8000 + 16 * tileNumber + 2 * line + 1) % 256)
  getTileLineUsingSecondMethod := fun m tileNumber line =>
    m ((0x9000 + 16 * tileNumber).toNat + 2 * line) % 256
      + 256 * (m ((0x9000 + 16 * tileNumber).toNat + 2 * line + 1) % 256)

/-- A `VRAM` as its constructor leaves it, holding 0x12 at 0x8000 (tile data), 0x56 at
0x9800 (tile maps) and 0x00 elsewhere. -/
def sampleVRAM : VRAM (Nat → Nat) (Nat → Nat) :=
  VRAM.construct (fun a => if a = 0x8000 then 0x12 else 0x00)
    (fun a => if a = 0x9800 then 0x56 else 0x00)

/-- A bus whose only provider is the `VRAM` `v` over the two byte stores. -/
def vramBus (v : VRAM (Nat → Nat) (Nat → Nat)) : Bus (VRAM (Nat → Nat) (Nat → Nat)) :=
  { busProviders := [VRAM.provider byteStoreParts], store := v }

/-! ## Background fetcher (`src/ppu/fifo/BackgroundFetcher.cpp`) -/

/-- Modelled from the spec: the enumeration `FetcherState` (`FetcherState.h` is
missing), "a three-state machine `{FetchTileMap, FetchTileData, PushFIFO}`". -/
inductive FetcherState where
  | FetchTileMap
  | FetchTileData
  | PushFIFO
deriving DecidableEq, Repr

/-- The structure `FIFOPixelData` (`FIFOPixelData.h`). The expression
`FIFOPixelData(colorIndex, 0, 0, false)` of the fetcher passes one value more than the
header declares members; the first is the colour index, the others are constants. -/
structure FIFOPixelData where
  colorIndex : Nat
  palette : Nat
  backgroundPriority : Bool
deriving DecidableEq, Repr

/-- Modelled from the spec: `PixelFIFO` (`PixelFIFO.h` is missing), a "bounded queue of
16 pixels", oldest pixel first. -/
abbrev PixelFIFO : Type := List FIFOPixelData

/-- Modelled from the spec: `PixelFIFO::empty`. -/
def PixelFIFO.empty (q : PixelFIFO) : Bool := q.isEmpty

/-- Modelled from the spec: `PixelFIFO::push`; "producers wait (do not push) when
full". -/
def PixelFIFO.push (q : PixelFIFO) (px : FIFOPixelData) : PixelFIFO :=
  if q.length < 16 then q ++ [px] else q

/-- Modelled from the spec: the member `lcdPositionAndScrolling` of `PPURegisters`
(its header is missing), with the 8-bit registers that the fetcher reads: `SCY`, `SCX`
and `LY`. -/
structure LCDPositionAndScrolling where
  yScroll : Nat
  xScroll : Nat
  yLcdCoordinate : Nat
deriving DecidableEq, Repr

/-- Modelled from the spec: the member `lcdControl` of `PPURegisters` (its header is
missing), with the two bits of `LCDC` that the background fetcher reads. -/
structure LCDControl where
  bgTileMapArea : Nat
  bgAndWindowTileDataArea : Nat
deriving DecidableEq, Repr

/-- The members of `BackgroundFetcher` (`m_currentTileNumber`, `m_currentTileData`,
`m_fetcherX`, `m_scanlineBeginSkip`), those of its base class `Fetcher`
(`m_fetcherState`, `m_paused`, `m_cyclesToWait`) and the pixel FIFO it refers to. -/
structure BackgroundFetcher where
  fetcherState : FetcherState
  paused : Bool
  cyclesToWait : Nat
  pixelFifo : PixelFIFO
  currentTileNumber : Nat
  currentTileData : Nat
  fetcherX : Nat
  scanlineBeginSkip : Bool
deriving DecidableEq, Repr

namespace BackgroundFetcher

/-- The pixel built in the body of the loop of `PushFIFO` for the index `i`. -/
def pixel (currentTileData i : Nat) : FIFOPixelData :=
  let lowBit := ((currentTileData >>> (8 + i)) &&& 0x1) % 256
  let highBit := ((currentTileData >>> i) &&& 0x1) % 256
  { colorIndex := ((highBit <<< 1) ||| lowBit) % 256, palette := 0,
    backgroundPriority := false }

/-- The loop `for (uint8_t i = 8; i-- > 0;)` of `PushFIFO`: with `n` the value of `i`
before the test, the body runs for `i = n - 1, ..., 0`. -/
def pushLoop (currentTileData : Nat) : Nat → PixelFIFO → PixelFIFO
  | 0, q => q
  | i + 1, q => pushLoop currentTileData i (PixelFIFO.push q (pixel currentTileData i))

/-- `BackgroundFetcher::executeState`. -/
def executeState {δ τ : Type} (parts : VRAMParts δ τ)
    (lcdPositionAndScrolling : LCDPositionAndScrolling) (lcdControl : LCDControl)
    (vram : VRAM δ τ) (f : BackgroundFetcher) : BackgroundFetcher :=
  if f.scanlineBeginSkip then
    { f with cyclesToWait := 6, scanlineBeginSkip := false }
  else
    match f.fetcherState with
    | .FetchTileMap =>
      let x := (((lcdPositionAndScrolling.xScroll / 8) + f.fetcherX) &&& 0x1F) % 256
      let y := ((lcdPositionAndScrolling.yScroll + lcdPositionAndScrolling.yLcdCoordinate)
        &&& 0xFF) % 256
      let offset := ((32 * (y / 8)) + x) &&& 0x3FF
      let tileNumber :=
        parts.getTileNumberFromTileMap vram.getVramTileMaps offset lcdControl.bgTileMapArea
      let f :=
        if !vram.isReadBlocked then
          { f with currentTileNumber := tileNumber % 256 }
        else
          { f with currentTileNumber := 0xFF }
      { f with fetcherState := FetcherState.FetchTileData, cyclesToWait := 2 }
    | .FetchTileData =>
      let line :=
        (lcdPositionAndScrolling.yScroll + lcdPositionAndScrolling.yLcdCoordinate) % 8
      let f :=
        if lcdControl.bgAndWindowTileDataArea = 1 then
          let tileLine :=
            parts.getTileLineUsingFirstMethod vram.getVramTileData f.currentTileNumber line
          { f with currentTileData := tileLine % 65536 }
        else
          let tileLine :=
            parts.getTileLineUsingSecondMethod vram.getVramTileData (int8 f.currentTileNumber)
              line
          { f with currentTileData := tileLine % 65536 }
      { f with fetcherState := FetcherState.PushFIFO, cyclesToWait := 4 }
    | .PushFIFO =>
      if f.pixelFifo.empty then
        let f := { f with pixelFifo := pushLoop f.currentTileData 8 f.pixelFifo }
        let f := { f with fetcherX := (f.fetcherX + 1) % 256 }
        { f with fetcherState := FetcherState.FetchTileMap }
      else f

end BackgroundFetcher

/-- A fetcher after the warm-up of its scanline, about to push the tile line `L` into
an empty FIFO. -/
def pushingFetcher (L : Nat) : BackgroundFetcher :=
  { fetcherState := FetcherState.PushFIFO, paused := false, cyclesToWait := 0,
    pixelFifo := [], currentTileNumber := 0, currentTileData := L, fetcherX := 0,
    scanlineBeginSkip := false }

/-! ## States of the mode manager reached from `reset()` -/

/-- What relates `LY`, the mode, the VBlank line and `STAT.mode` in the states of the
mode manager reached from `reset()` by ticks: `LY` is at most 153, the mode is VBlank
exactly on the lines from 144 on, the VBlank line is high exactly in VBlank, and
`STAT.mode` is the number that `updateLcdStatusModeRegister` assigns for the mode. -/
def PPUModeManager.frameInvariant {σ : Type} (p : PPUModeManager σ) : Prop :=
  p.ppuRegisters.yLcdCoordinate ≤ 153 ∧
  (p.currentMode = PPUModeType.VBlank ↔ 144 ≤ p.ppuRegisters.yLcdCoordinate) ∧
  (p.interruptLines.vblank = true ↔ p.currentMode = PPUModeType.VBlank) ∧
  p.ppuRegisters.lcdStatus.mode
    = (match p.currentMode with
       | .HBlank => 0
       | .VBlank => 1
       | .OAM_Search => 2
       | .Drawing => 3)

instance {σ : Type} (p : PPUModeManager σ) : Decidable p.frameInvariant := by
  unfold PPUModeManager.frameInvariant
  exact inferInstance

/-- The value that `updateStatInterrupt` computes for the LCDSTAT line. -/
def PPUModeManager.statLine {σ : Type} (p : PPUModeManager σ) : Bool :=
  (p.ppuRegisters.lcdStatus.mode0InterruptSource && decide (p.currentMode = PPUModeType.HBlank))
    || (p.ppuRegisters.lcdStatus.mode1InterruptSource
      && decide (p.currentMode = PPUModeType.VBlank))
    || (p.ppuRegisters.lcdStatus.mode2InterruptSource
      && decide (p.currentMode = PPUModeType.OAM_Search))
    || p.ppuRegisters.lcdStatus.lycEqualsLy

/-! ## Machine for the prefixed instructions -/

/-- A CPU about to execute `RLC B` (0xCB 0x00, stored at 0x0100) with `HL = 0x9000`, on a
bus whose only provider is a memory that handles the addresses below 0x8000. -/
def cbScenario : LR35902 (Nat → Nat) :=
  { bootState (fun a => if a = 0x0100 then 0xCB else 0x00) with
    bus := { busProviders := [memoryBelow 0x8000],
             store := fun a => if a = 0x0100 then 0xCB else 0x00 }
    registers := { bootRegisters with h := 0x90, l := 0x00 } }

/-- A CPU about to execute the prefixed instruction `0xCB op` (stored at 0x0100 and
0x0101) with `HL = 0x9000`, on a bus whose only provider is a memory that handles the
addresses below 0x8000. -/
def cbUnmappedScenario (op : Nat) : LR35902 (Nat → Nat) :=
  { bootState (fun a => if a = 0x0100 then 0xCB else if a = 0x0101 then op else 0x00) with
    bus := { busProviders := [memoryBelow 0x8000],
             store := fun a => if a = 0x0100 then 0xCB else if a = 0x0101 then op else 0x00 }
    registers := { bootRegisters with h := 0x90, l := 0x00 } }

/-- A flat memory with `SET 3,(HL)` (0xCB 0xDE) at 0x0100 and the byte 0x81 at 0x014D,
the address in `HL` after boot. -/
def setHlMemory : Nat → Nat :=
  fun a => if a = 0x0100 then 0xCB else if a = 0x0101 then 0xDE
    else if a = 0x014D then 0x81 else 0x00

/-- The instruction `SET 3,(HL)` run from the boot state on the flat memory
`setHlMemory`. -/
def setHlScenario : LR35902 (Nat → Nat) := bootState setHlMemory

/-! # Theorems -/

open LR35902

section monad
variable {μ α β : Type}

theorem CPU.bind_eq (m : CPU μ α) (f : α → CPU μ β) (s : LR35902 μ) :
    (m >>= f) s = match m s with
      | (.ok a, s1) => f a s1
      | (.error e, s1) => (.error e, s1) := rfl

theorem CPU.bind_ok (m : CPU μ α) (f : α → CPU μ β) (s s1 : LR35902 μ) (a : α)
    (h : m s = (.ok a, s1)) : (m >>= f) s = f a s1 := by
  rw [CPU.bind_eq, h]

@[simp] theorem CPU.modify_bind (g : LR35902 μ → LR35902 μ) (f : Unit → CPU μ β) (s : LR35902 μ) :
    (CPU.modify g >>= f) s = f () (g s) := rfl

@[simp] theorem CPU.get_bind (f : LR35902 μ → CPU μ β) (s : LR35902 μ) :
    (CPU.get >>= f) s = f s s := rfl

@[simp] theorem CPU.modify_apply (g : LR35902 μ → LR35902 μ) (s : LR35902 μ) :
    CPU.modify g s = (.ok (), g s) := rfl

@[simp] theorem CPU.pure_apply (a : α) (s : LR35902 μ) :
    (Pure.pure a : CPU μ α) s = (.ok a, s) := rfl

@[simp] theorem CPU.pure_bind (a : α) (f : α → CPU μ β) (s : LR35902 μ) :
    (Pure.pure a >>= f) s = f a s := rfl
end monad

theorem Bus.read_ramBus (m : Nat → Nat) (addr : Nat) (src : BusRequestSource) :
    (ramBus m).read addr src = .ok (m (addr % 65536) % 256) := rfl

theorem Bus.write_ramBus (m : Nat → Nat) (addr val : Nat) (src : BusRequestSource) :
    (ramBus m).write addr val src
      = (.ok (), ramBus (fun a => if a = addr % 65536 then val % 256 else m a)) := rfl

theorem tick_wait {μ : Type} (s : LR35902 μ) (h : s.cyclesToWait ≠ 0) :
    tick s = (.ok (), { s with tickCounter := (s.tickCounter + 1) % 4294967296,
                               cyclesToWait := (s.cyclesToWait + 255) % 256 }) := by
  simp [tick, h, setInterruptController, InterruptController.tick, setCyclesToWait]

theorem ticks_wait {μ : Type} (k : Nat) : ∀ s : LR35902 μ, s.cyclesToWait < 256 →
    s.tickCounter < 4294967296 → k ≤ s.cyclesToWait →
    ticks k s = (.ok (), { s with cyclesToWait := s.cyclesToWait - k,
                                  tickCounter := (s.tickCounter + k) % 4294967296 }) := by
  induction k with
  | zero =>
    intro s _ ht _
    simp [ticks, Nat.mod_eq_of_lt ht]
  | succ k ih =>
    intro s hc ht hk
    have hne : s.cyclesToWait ≠ 0 := by omega
    have h1 := tick_wait s hne
    simp only [ticks]
    rw [CPU.bind_ok _ _ _ _ _ h1, ih]
    · simp only [Prod.mk.injEq, true_and]
      have e1 : (s.cyclesToWait + 255) % 256 - k = s.cyclesToWait - (k + 1) := by omega
      have e2 : ((s.tickCounter + 1) % 4294967296 + k) % 4294967296
          = (s.tickCounter + (k + 1)) % 4294967296 := by omega
      simp only [e1, e2]
    · simp only; omega
    · simp only; omega
    · simp only; omega

/-- The tick of an instruction boundary: what `tick` does when `m_cyclesToWait == 0`. -/
theorem tick_boundary {μ : Type} (s : LR35902 μ) (h : s.cyclesToWait = 0) :
    tick s = (do
      handleInterrupt
      let opcode ← fetch
      lookUpCaught opcode
      CPU.modify fun s => s.setInterruptController s.interruptController.handleDelayedInterrupt
      CPU.modify fun s => { s with tickCounter := (s.tickCounter + 1) % 4294967296 }
      CPU.modify fun s => s.setCyclesToWait (s.cyclesToWait + 255) : CPU μ Unit) s := by
  have e : (s.setInterruptController s.interruptController.tick) = s := rfl
  simp only [tick, CPU.modify_bind, CPU.get_bind, e, h, ↓reduceIte]

theorem tick_execute {μ : Type} (s s1 s2 s3 : LR35902 μ) (opcode : Nat)
    (h : s.cyclesToWait = 0)
    (h1 : handleInterrupt s = (.ok (), s1))
    (h2 : fetch s1 = (.ok opcode, s2))
    (h3 : lookUpCaught opcode s2 = (.ok (), s3)) :
    tick s = (.ok (),
      { s3 with
        interruptController := s3.interruptController.handleDelayedInterrupt
        tickCounter := (s3.tickCounter + 1) % 4294967296
        cyclesToWait := (s3.cyclesToWait + 255) % 256 }) := by
  rw [tick_boundary s h, CPU.bind_ok _ _ _ _ _ h1, CPU.bind_ok _ _ _ _ _ h2,
    CPU.bind_ok _ _ _ _ _ h3]
  rfl

theorem ticks_succ {μ : Type} (k : Nat) (s s1 : LR35902 μ) (h : tick s = (.ok (), s1)) :
    ticks (k + 1) s = ticks k s1 := by
  simp only [ticks]
  rw [CPU.bind_ok _ _ _ _ _ h]

theorem handleInterrupt_disabled {μ : Type} (s : LR35902 μ)
    (h : s.interruptController.interruptMasterEnable = false) :
    handleInterrupt s = (.ok (), s) := by
  simp [handleInterrupt, InterruptController.isInterruptMasterEnabled, h]

theorem fetch_ramBus (m : Nat → Nat) (s : LR35902 (Nat → Nat)) (h : s.bus = ramBus m) :
    fetch s = (.ok (m (s.registers.pc % 65536) % 256), s.setPc (s.registers.pc + 1)) := by
  simp only [fetch, CPU.get_bind, CPU.modify_bind, busRead, setPc, h, Bus.read_ramBus]

/-- Claim C6: an instruction whose handler leaves `m_cyclesToWait = n` occupies exactly `n`
ticks: the tick of the instruction boundary fetches and executes it, each of the
following `n - 1` ticks changes nothing but `m_cyclesToWait` and `m_tickCounter`, and
after the `n`-th tick `m_cyclesToWait` is 0 again, so that the next tick is a boundary
tick. From the boot registers with `NOP` at 0x0100 and `IME` false, 4 ticks leave
`PC = 0x0101`, `m_cyclesToWait = 0` and every other register unchanged. -/
theorem instruction_occupies_n_ticks {μ : Type} (s s1 s2 s3 : LR35902 μ) (opcode n k : Nat)
    (m : Nat → Nat) (ic : InterruptController)
    (h0 : s.cyclesToWait = 0)
    (h1 : handleInterrupt s = (.ok (), s1))
    (h2 : fetch s1 = (.ok opcode, s2))
    (h3 : lookUpCaught opcode s2 = (.ok (), s3))
    (hn : s3.cyclesToWait = n) (hn1 : 1 ≤ n) (hn2 : n < 256) (hk : k < n)
    (hm : m 0x0100 = 0x00) (hic : ic.interruptMasterEnable = false) :
    ticks (k + 1) s = (.ok (),
      { s3 with
        interruptController := s3.interruptController.handleDelayedInterrupt
        tickCounter := (s3.tickCounter + 1 + k) % 4294967296
        cyclesToWait := n - 1 - k }) ∧
    (ticks n s).2.cyclesToWait = 0 ∧
    (ticks 4 { bootState m with interruptController := ic }).1 = .ok () ∧
    (ticks 4 { bootState m with interruptController := ic }).2.registers
      = { bootRegisters with pc := 0x0101 } ∧
    (ticks 4 { bootState m with interruptController := ic }).2.cyclesToWait = 0 ∧
    (ticks 4 { bootState m with interruptController := ic }).2.bus = ramBus m := by
  have key : ∀ {ν : Type} (t t1 t2 t3 : LR35902 ν) (op c j : Nat), t.cyclesToWait = 0 →
      handleInterrupt t = (.ok (), t1) → fetch t1 = (.ok op, t2) →
      lookUpCaught op t2 = (.ok (), t3) → t3.cyclesToWait = c → 1 ≤ c → c < 256 → j < c →
      ticks (j + 1) t = (.ok (),
        { t3 with
          interruptController := t3.interruptController.handleDelayedInterrupt
          tickCounter := (t3.tickCounter + 1 + j) % 4294967296
          cyclesToWait := c - 1 - j }) := by
    intro ν t t1 t2 t3 op c j g0 g1 g2 g3 gc gc1 gc2 gj
    rw [ticks_succ j _ _ (tick_execute t t1 t2 t3 op g0 g1 g2 g3), ticks_wait]
    · simp only [Prod.mk.injEq, true_and]
      have e1 : (t3.cyclesToWait + 255) % 256 - j = c - 1 - j := by omega
      have e2 : ((t3.tickCounter + 1) % 4294967296 + j) % 4294967296
          = (t3.tickCounter + 1 + j) % 4294967296 := by omega
      simp only [e1, e2]
    · simp only; omega
    · simp only; omega
    · simp only; omega
  have hboot := key { bootState m with interruptController := ic }
    { bootState m with interruptController := ic }
    (LR35902.setPc { bootState m with interruptController := ic } 0x0101)
    (LR35902.setCyclesToWait
      (LR35902.setPc { bootState m with interruptController := ic } 0x0101) 4)
    0 4 3 rfl (handleInterrupt_disabled _ hic)
    (by rw [fetch_ramBus m _ rfl]
        simp [bootState, bootRegisters, hm, setPc])
    rfl rfl (by decide) (by decide) (by decide)
  refine ⟨key s s1 s2 s3 opcode n k h0 h1 h2 h3 hn hn1 hn2 hk, ?_, ?_, ?_, ?_, ?_⟩
  · have hlast := key s s1 s2 s3 opcode n (n - 1) h0 h1 h2 h3 hn hn1 hn2 (by omega)
    have e : n - 1 + 1 = n := by omega
    rw [e] at hlast
    rw [hlast]
    simp only
    omega
  · rw [hboot]
  · rw [hboot]; rfl
  · rw [hboot]
  · rw [hboot]; rfl

theorem instruction_occupies_n_ticks_witness :
    (ticks 4 (bootState (fun _ => 0x00))).2.cyclesToWait = 0 :=
  (instruction_occupies_n_ticks (bootState (fun _ => 0x00)) (bootState (fun _ => 0x00))
    (LR35902.setPc (bootState (fun _ => 0x00)) 0x0101)
    (LR35902.setCyclesToWait (LR35902.setPc (bootState (fun _ => 0x00)) 0x0101) 4)
    0 4 3 (fun _ => 0x00) (bootState (fun _ => 0x00)).interruptController
    rfl rfl rfl rfl rfl (by decide) (by decide) (by decide) rfl rfl).2.1

/-- Claim C8 (what the code does): on a bus made of flat memory, `LD L,(HL)` (0x6E) leaves
`m_cyclesToWait = 4`, the cost of the register form `LD L,L` (0x6D), whereas
`LD r,(HL)` leaves 8 for every other `r`, and so do the eight `A,(HL)` ALU forms. -/
theorem LD_L_HL_charges_4 (s : LR35902 (Nat → Nat)) (m : Nat → Nat) :
    (opcode6Eh { s with bus := ramBus m }).1 = .ok () ∧
    (opcode6Eh { s with bus := ramBus m }).2.registers.l = m (s.registers.hl % 65536) % 256 ∧
    (opcode6Eh { s with bus := ramBus m }).2.cyclesToWait = 4 ∧
    (opcode6Dh { s with bus := ramBus m }).2.cyclesToWait = 4 ∧
    (opcode7Eh { s with bus := ramBus m }).2.cyclesToWait = 8 ∧
    (opcode46h { s with bus := ramBus m }).2.cyclesToWait = 8 ∧
    (opcode4Eh { s with bus := ramBus m }).2.cyclesToWait = 8 ∧
    (opcode56h { s with bus := ramBus m }).2.cyclesToWait = 8 ∧
    (opcode5Eh { s with bus := ramBus m }).2.cyclesToWait = 8 ∧
    (opcode66h { s with bus := ramBus m }).2.cyclesToWait = 8 ∧
    (opcode86h { s with bus := ramBus m }).2.cyclesToWait = 8 ∧
    (opcode8Eh { s with bus := ramBus m }).2.cyclesToWait = 8 ∧
    (opcode96h { s with bus := ramBus m }).2.cyclesToWait = 8 ∧
    (opcode9Eh { s with bus := ramBus m }).2.cyclesToWait = 8 ∧
    (opcodeA6h { s with bus := ramBus m }).2.cyclesToWait = 8 ∧
    (opcodeAEh { s with bus := ramBus m }).2.cyclesToWait = 8 ∧
    (opcodeB6h { s with bus := ramBus m }).2.cyclesToWait = 8 ∧
    (opcodeBEh { s with bus := ramBus m }).2.cyclesToWait = 8 := by
  refine ⟨?_, ?_, ?_, ?_, ?_, ?_, ?_, ?_, ?_, ?_, ?_, ?_, ?_, ?_, ?_, ?_, ?_, ?_⟩ <;>
    first | rfl | exact Nat.mod_mod _ _


set_option maxRecDepth 100000 in
theorem loop_none : ∀ r, r < 256 → r &&& 0x1F = 0 → r = 0 ∨ handleInterrupt_loop r 5 0 = 5 := by
  decide

set_option maxRecDepth 100000 in
theorem loop_some : ∀ r, r < 256 → r &&& 0x1F ≠ 0 → r ≠ 0 ∧ handleInterrupt_loop r 5 0 < 5 := by
  decide

set_option maxRecDepth 100000 in
theorem loop_lowest_aux : ∀ r, r < 256 → ∀ i, i < 5 → ((r &&& 0x1F).testBit i = true ∧
    (∀ j, j < i → (r &&& 0x1F).testBit j = false)) → (r ≠ 0 ∧ handleInterrupt_loop r 5 0 = i) := by
  decide

theorem req_and (x y : Nat) : (x % 256 &&& y % 256) % 256 &&& 0x1F = x &&& y &&& 0x1F := by
  apply Nat.eq_of_testBit_eq
  intro i
  have h256 : (256 : Nat) = 2 ^ 8 := by norm_num
  have h31 : (0x1F : Nat) = 2 ^ 5 - 1 := by norm_num
  simp only [Nat.testBit_and, h256, h31, Nat.testBit_mod_two_pow, Nat.testBit_two_pow_sub_one]
  by_cases h5 : i < 5
  · have h8 : i < 8 := by omega
    simp [h5, h8]
  · simp [h5]

/-- The body of `handleInterrupt` as a cascade on the byte `requestedInterrupts`. -/
theorem handleInterrupt_unfold {μ : Type} (s : LR35902 μ) :
    handleInterrupt s =
      (if s.interruptController.interruptMasterEnable = false then (.ok (), s)
       else if (s.interruptController.interruptRequest % 256
            &&& s.interruptController.interruptEnable % 256) % 256 = 0 then (.ok (), s)
       else if handleInterrupt_loop ((s.interruptController.interruptRequest % 256
            &&& s.interruptController.interruptEnable % 256) % 256) 5 0 = 5 then (.ok (), s)
       else (do
          CPU.modify fun s1 => s1.setInterruptController
            (s1.interruptController.setInterruptRequested
              (1 <<< handleInterrupt_loop ((s.interruptController.interruptRequest % 256
                &&& s.interruptController.interruptEnable % 256) % 256) 5 0) false)
          CPU.modify fun s1 => s1.setInterruptController
            (s1.interruptController.setInterruptMasterEnable false)
          writeSpPreDec fun s1 => s1.registers.pc >>> 8
          writeSpPreDec fun s1 => s1.registers.pc
          CPU.modify fun s1 => s1.setPc ((0x0040 + 8 * handleInterrupt_loop
            ((s.interruptController.interruptRequest % 256
              &&& s.interruptController.interruptEnable % 256) % 256) 5 0) % 65536)
          CPU.modify fun s1 => s1.setCyclesToWait 20 : CPU μ Unit) s) := by
  simp only [handleInterrupt, CPU.get_bind, InterruptController.isInterruptMasterEnabled,
    InterruptController.getInterruptRequest, InterruptController.getInterruptEnable]
  cases s.interruptController.interruptMasterEnable
  · simp
  · simp only [Bool.not_true, Bool.false_eq_true, ↓reduceIte]
    split
    · rfl
    · split
      · rfl
      · rfl

theorem handleInterrupt_idle {μ : Type} (s : LR35902 μ)
    (h : ¬(s.interruptController.interruptMasterEnable = true ∧
      s.interruptController.interruptRequest &&& s.interruptController.interruptEnable
        &&& 0x1F ≠ 0)) :
    handleInterrupt s = (.ok (), s) := by
  rw [handleInterrupt_unfold]
  by_cases hime : s.interruptController.interruptMasterEnable = false
  · simp [hime]
  · have hp : s.interruptController.interruptRequest &&& s.interruptController.interruptEnable
        &&& 0x1F = 0 := by
      by_contra hne
      exact h ⟨by simpa using hime, hne⟩
    rw [← req_and] at hp
    rcases loop_none _ (Nat.mod_lt _ (by decide)) hp with h0 | h5
    · simp [hime, h0]
    · simp [hime, h5]


theorem CPU.bind_interruptController {μ α β : Type} (m : CPU μ α) (f : α → CPU μ β)
    (hm : ∀ s, (m s).2.interruptController = s.interruptController)
    (hf : ∀ a s, (f a s).2.interruptController = s.interruptController) (s : LR35902 μ) :
    ((m >>= f) s).2.interruptController = s.interruptController := by
  rw [CPU.bind_eq]
  have h := hm s
  rcases hms : m s with ⟨r, s1⟩
  rw [hms] at h
  cases r with
  | ok a => simp only; rw [hf a s1]; exact h
  | error e => exact h

theorem writeSpPreDec_interruptController {μ : Type} (f : LR35902 μ → Nat) (s : LR35902 μ) :
    (writeSpPreDec f s).2.interruptController = s.interruptController := by
  simp only [writeSpPreDec, CPU.modify_bind, CPU.get_bind, busWrite, setSp]

/-- The bus accesses and the last two assignments of an interrupt service do not
touch the interrupt controller. -/
theorem push_pc_interruptController {μ : Type} (v : Nat) (s : LR35902 μ) :
    ((do
      writeSpPreDec fun s1 => s1.registers.pc >>> 8
      writeSpPreDec fun s1 => s1.registers.pc
      CPU.modify fun s1 => s1.setPc v
      CPU.modify fun s1 => s1.setCyclesToWait 20 : CPU μ Unit) s).2.interruptController
      = s.interruptController := by
  apply CPU.bind_interruptController _ _ (writeSpPreDec_interruptController _)
  intro _ s1
  apply CPU.bind_interruptController _ _ (writeSpPreDec_interruptController _)
  intro _ s2
  rfl

/-- Claim C2: `handleInterrupt` changes the state exactly when `IME` is true and
`(IF & IE & 0x1F) != 0`; it then resets the master enable (the service sequence has
begun, whatever the bus answers to the two writes); in every other case, bits 5..7 of
`IF & IE` included, it returns normally and leaves the whole state (`PC`, `SP`, `IME`,
`IF`, memory, `m_cyclesToWait`) as it was. -/
theorem handleInterrupt_services_iff {μ : Type} (s : LR35902 μ) :
    ((handleInterrupt s).2 ≠ s ↔
      (s.interruptController.interruptMasterEnable = true ∧
        s.interruptController.interruptRequest &&& s.interruptController.interruptEnable
          &&& 0x1F ≠ 0)) ∧
    ((s.interruptController.interruptMasterEnable = true ∧
        s.interruptController.interruptRequest &&& s.interruptController.interruptEnable
          &&& 0x1F ≠ 0) →
      (handleInterrupt s).2.interruptController.interruptMasterEnable = false) ∧
    (¬(s.interruptController.interruptMasterEnable = true ∧
        s.interruptController.interruptRequest &&& s.interruptController.interruptEnable
          &&& 0x1F ≠ 0) →
      handleInterrupt s = (.ok (), s)) := by
  have hserv : (s.interruptController.interruptMasterEnable = true ∧
        s.interruptController.interruptRequest &&& s.interruptController.interruptEnable
          &&& 0x1F ≠ 0) →
      (handleInterrupt s).2.interruptController.interruptMasterEnable = false := by
    rintro ⟨hime, hp⟩
    rw [← req_and] at hp
    obtain ⟨h0, h5⟩ := loop_some _ (Nat.mod_lt _ (by decide)) hp
    rw [handleInterrupt_unfold]
    simp only [hime, Bool.true_eq_false, ↓reduceIte, h0, Nat.ne_of_lt h5, CPU.modify_bind]
    rw [push_pc_interruptController]
    rfl
  refine ⟨⟨?_, ?_⟩, hserv, handleInterrupt_idle s⟩
  · intro hne
    by_contra hc
    exact hne (by rw [handleInterrupt_idle s hc])
  · intro hc heq
    have h1 := hserv hc
    rw [heq, hc.1] at h1
    exact Bool.noConfusion h1

theorem writeSpPreDec_ramBus (f : LR35902 (Nat → Nat) → Nat) (m : Nat → Nat)
    (s : LR35902 (Nat → Nat)) (val : Nat) (h : s.bus = ramBus m)
    (hf : f (s.setSp (s.registers.sp + 65535)) = val) :
    writeSpPreDec f s = (.ok (),
      { s with
        registers := { s.registers with sp := (s.registers.sp + 65535) % 65536 }
        bus := ramBus (fun a => if a = (s.registers.sp + 65535) % 65536
          then val % 256 else m a) }) := by
  simp only [writeSpPreDec, CPU.modify_bind, CPU.get_bind, busWrite, hf]
  simp only [setSp, h, Bus.write_ramBus, Nat.mod_mod]

/-- The two pushes and the jump of an interrupt service, on flat memory. -/
theorem push_pc_ramBus (t : LR35902 (Nat → Nat)) (m : Nat → Nat) (v : Nat)
    (h : t.bus = ramBus m) :
    ∃ t1, (do
      writeSpPreDec fun s1 => s1.registers.pc >>> 8
      writeSpPreDec fun s1 => s1.registers.pc
      CPU.modify fun s1 => s1.setPc v
      CPU.modify fun s1 => s1.setCyclesToWait 20 : CPU (Nat → Nat) Unit) t = (.ok (), t1) ∧
      t1.interruptController = t.interruptController ∧
      t1.registers.sp = ((t.registers.sp + 65535) % 65536 + 65535) % 65536 ∧
      t1.bus.store ((t.registers.sp + 65535) % 65536) = t.registers.pc / 256 % 256 ∧
      t1.bus.store (((t.registers.sp + 65535) % 65536 + 65535) % 65536)
        = t.registers.pc % 256 ∧
      t1.registers.pc = v % 65536 ∧
      t1.cyclesToWait = 20 := by
  have e1 := writeSpPreDec_ramBus (fun s1 => s1.registers.pc >>> 8) m t
    (t.registers.pc >>> 8) h (by simp only [setSp])
  rw [CPU.bind_ok _ _ _ _ _ e1]
  have e2 := writeSpPreDec_ramBus (fun s1 => s1.registers.pc)
    (fun a => if a = (t.registers.sp + 65535) % 65536
      then (t.registers.pc >>> 8) % 256 else m a)
    { t with
      registers := { t.registers with sp := (t.registers.sp + 65535) % 65536 }
      bus := ramBus (fun a => if a = (t.registers.sp + 65535) % 65536
        then (t.registers.pc >>> 8) % 256 else m a) }
    t.registers.pc rfl (by simp only [setSp])
  rw [CPU.bind_ok _ _ _ _ _ e2]
  refine ⟨_, rfl, rfl, rfl, ?_, ?_, rfl, rfl⟩
  · dsimp only [ramBus, setPc, setCyclesToWait]
    rw [if_neg (by omega), if_pos rfl, Nat.shiftRight_eq_div_pow]
  · dsimp only [ramBus, setPc, setCyclesToWait]
    rw [if_pos rfl]

/-- Claim C3: an interrupt service taken on a bus made of flat memory, `i` being the lowest
set bit of `pending = IF & IE & 0x1F`: `IME` becomes false, `SP` decreases by 2 modulo
2^16, the high byte of the old `PC` is stored at the old `SP - 1` and its low byte at
the old `SP - 2`, and `PC` becomes `0x0040 + 8 * i`; the lowest-numbered pending
interrupt is the one that is served. -/
theorem interrupt_service_sequence (s : LR35902 (Nat → Nat)) (m : Nat → Nat) (i : Nat)
    (hbus : s.bus = ramBus m)
    (hime : s.interruptController.interruptMasterEnable = true)
    (hi : i < 5)
    (hbit : (s.interruptController.interruptRequest &&& s.interruptController.interruptEnable
      &&& 0x1F).testBit i = true)
    (hlow : ∀ j, j < i → (s.interruptController.interruptRequest
      &&& s.interruptController.interruptEnable &&& 0x1F).testBit j = false) :
    (handleInterrupt s).1 = .ok () ∧
    (handleInterrupt s).2.interruptController.interruptMasterEnable = false ∧
    (((handleInterrupt s).2.registers.sp : Nat) : Int) = ((s.registers.sp : Int) - 2) % 65536 ∧
    (handleInterrupt s).2.bus.store ((s.registers.sp + 65535) % 65536)
      = s.registers.pc / 256 % 256 ∧
    (handleInterrupt s).2.bus.store ((s.registers.sp + 65534) % 65536)
      = s.registers.pc % 256 ∧
    (handleInterrupt s).2.registers.pc = 0x0040 + 8 * i ∧
    (handleInterrupt s).2.cyclesToWait = 20 := by
  rw [← req_and] at hbit hlow
  obtain ⟨h0, hl⟩ := loop_lowest_aux _ (Nat.mod_lt _ (by decide)) i hi ⟨hbit, hlow⟩
  have h5 : i ≠ 5 := by omega
  rw [handleInterrupt_unfold]
  simp only [hime, Bool.true_eq_false, ↓reduceIte, h0, hl, h5, CPU.modify_bind]
  obtain ⟨t1, ht, hic, hsp, hhi, hlo, hpc, hcy⟩ := push_pc_ramBus
    ((s.setInterruptController
      (s.interruptController.setInterruptRequested (1 <<< i) false)).setInterruptController
        ((s.setInterruptController
          (s.interruptController.setInterruptRequested (1 <<< i)
            false)).interruptController.setInterruptMasterEnable false))
    m ((0x0040 + 8 * i) % 65536) hbus
  rw [ht]
  have hsp2 : (s.registers.sp + 65534) % 65536
      = ((s.registers.sp + 65535) % 65536 + 65535) % 65536 := by omega
  refine ⟨rfl, ?_, ?_, hhi, ?_, ?_, hcy⟩
  · rw [hic]; rfl
  · show ((t1.registers.sp : Nat) : Int) = _
    rw [hsp]
    show ((((s.registers.sp + 65535) % 65536 + 65535) % 65536 : Nat) : Int) = _
    omega
  · rw [hsp2]; exact hlo
  · show t1.registers.pc = _
    rw [hpc]
    omega

theorem interrupt_service_sequence_witness :
    (handleInterrupt interruptScenario).2.registers.pc = 0x0040 + 8 * 0 :=
  (interrupt_service_sequence interruptScenario
    (fun a => if a = 0x0040 then 0x3C else 0x00) 0 rfl rfl (by decide) (by decide)
    (fun j hj => absurd hj (Nat.not_lt_zero j))).2.2.2.2.2.1

theorem liftCPU_ne_runtime_error {μ : Type} (m : CPU μ Unit) (s : LR35902 μ) :
    (liftCPU m s).1 ≠ .error Exception.runtime_error := by
  unfold liftCPU
  rcases h : m s with ⟨r, s1⟩
  cases r with
  | ok u => simp
  | error e => simp

set_option maxRecDepth 100000 in
theorem lookUp_illegal {μ : Type} (b : Nat) (hb : b ∈ illegalOpcodes) (s : LR35902 μ) :
    lookUp b s = (.error Exception.runtime_error, s) := by
  simp only [illegalOpcodes, List.mem_cons, List.mem_singleton, List.not_mem_nil, or_false] at hb
  rcases hb with rfl | rfl | rfl | rfl | rfl | rfl | rfl | rfl | rfl | rfl | rfl <;> rfl

set_option maxHeartbeats 4000000 in
set_option maxRecDepth 100000 in
theorem lookUp_legal {μ : Type} (b : Nat) (hlt : b < 256) (hb : b ∉ illegalOpcodes)
    (s : LR35902 μ) : (lookUp b s).1 ≠ .error Exception.runtime_error := by
  interval_cases b <;>
    first
    | exact absurd (by decide) hb
    | (simp only [lookUp, ↓reduceIte, Nat.reduceEqDiff]
       exact liftCPU_ne_runtime_error _ s)

theorem fetch_eq {μ : Type} (s : LR35902 μ) :
    fetch s = (s.bus.read s.registers.pc BusRequestSource.CPU,
      s.setPc (s.registers.pc + 1)) := by
  simp only [fetch, CPU.get_bind, CPU.modify_bind, busRead, setPc]

/-- Claim C5: dispatching a primary opcode byte `b` fails with the `std::runtime_error` of an
undefined opcode exactly for the eleven bytes of the spec; when it does, at an
instruction boundary where no interrupt is serviced, the tick returns normally with
`PC` one past the opcode (modulo 2^16) and every other register, `SP` and the bus
devices unchanged. -/
theorem illegal_opcode_dispatch {μ : Type} (b : Nat) (hb : b < 256) (s : LR35902 μ) :
    ((lookUp b s).1 = .error Exception.runtime_error ↔ b ∈ illegalOpcodes) ∧
    (b ∈ illegalOpcodes → s.cyclesToWait = 0 →
      ¬(s.interruptController.interruptMasterEnable = true ∧
        s.interruptController.interruptRequest &&& s.interruptController.interruptEnable
          &&& 0x1F ≠ 0) →
      s.bus.read s.registers.pc BusRequestSource.CPU = .ok b →
      (tick s).1 = .ok () ∧
      (tick s).2.registers = { s.registers with pc := (s.registers.pc + 1) % 65536 } ∧
      (tick s).2.bus = s.bus) := by
  refine ⟨⟨?_, ?_⟩, ?_⟩
  · intro h
    by_contra hn
    exact lookUp_legal b hb hn s h
  · intro h
    rw [lookUp_illegal b h s]
  · intro hill h0 hidle hread
    have h2 : fetch s = (.ok b, s.setPc (s.registers.pc + 1)) := by
      rw [fetch_eq, hread]
    have h3 : lookUpCaught b (s.setPc (s.registers.pc + 1))
        = (.ok (), s.setPc (s.registers.pc + 1)) := by
      simp only [lookUpCaught, lookUp_illegal b hill]
    rw [tick_execute s s _ _ b h0 (handleInterrupt_idle s hidle) h2 h3]
    exact ⟨rfl, rfl, rfl⟩

theorem illegal_opcode_dispatch_witness :
    (tick (bootState (fun a => if a = 0x0100 then 0xD3 else 0x00))).2.registers
      = { bootRegisters with pc := (0x0100 + 1) % 65536 } :=
  ((illegal_opcode_dispatch 0xD3 (by decide)
    (bootState (fun a => if a = 0x0100 then 0xD3 else 0x00))).2
    (by decide) rfl (by decide) rfl).2.1

theorem and_15 (x : Nat) : x &&& 0x0F = x % 16 := Nat.and_pow_two_sub_one_eq_mod x 4

theorem and_16_eq (y : Nat) (h : y < 32) : (y &&& 0x10 = 0x10) ↔ 0x0F < y := by
  revert y; decide

theorem toNat_and_15 (b : Bool) : b.toNat &&& 0x0F = b.toNat := by cases b <;> rfl

theorem toNat_le_one (b : Bool) : b.toNat ≤ 1 := by cases b <;> decide

/-- Claim C9: for every 8-bit `A`, operand `r` and carry-in `c = f.c`, `ADD_A` leaves
`A = (A + r) mod 256`, `Z = (result = 0)`, `N = 0`, `H = ((A & 0x0F) + (r & 0x0F) > 0x0F)`,
`C = (A + r > 0xFF)`, and `ADC_A` leaves `A = (A + r + c) mod 256`, `Z` on the result,
`N = 0`, `H = ((A & 0x0F) + (r & 0x0F) + c > 0x0F)`, `C = (A + r + c > 0xFF)`;
`ADD A,A` (0x87) and `ADC A,A` (0x8F) are these bodies applied to the accumulator. -/
theorem ADD_A_ADC_A_flags {μ : Type} (s : LR35902 μ) (r : Nat)
    (ha : s.registers.a < 256) (hr : r < 256) :
    ((ADD_A r s).registers.a = (s.registers.a + r) % 256 ∧
      (ADD_A r s).registers.f.z = decide ((s.registers.a + r) % 256 = 0) ∧
      (ADD_A r s).registers.f.n = false ∧
      (ADD_A r s).registers.f.h = decide ((s.registers.a &&& 0x0F) + (r &&& 0x0F) > 0x0F) ∧
      (ADD_A r s).registers.f.c = decide (s.registers.a + r > 0xFF)) ∧
    ((ADC_A r s).registers.a = (s.registers.a + r + s.registers.f.c.toNat) % 256 ∧
      (ADC_A r s).registers.f.z = decide ((s.registers.a + r + s.registers.f.c.toNat) % 256 = 0) ∧
      (ADC_A r s).registers.f.n = false ∧
      (ADC_A r s).registers.f.h =
        decide ((s.registers.a &&& 0x0F) + (r &&& 0x0F) + s.registers.f.c.toNat > 0x0F) ∧
      (ADC_A r s).registers.f.c = decide (s.registers.a + r + s.registers.f.c.toNat > 0xFF)) ∧
    opcode87h s = (.ok (), ADD_A s.registers.a s) ∧
    opcode8Fh s = (.ok (), ADC_A s.registers.a s) := by
  have hc := toNat_le_one s.registers.f.c
  have h16 := and_16_eq ((s.registers.a &&& 0x0F) + (r &&& 0x0F)) (by rw [and_15, and_15]; omega)
  have h16c := and_16_eq ((s.registers.a &&& 0x0F) + (r &&& 0x0F) + s.registers.f.c.toNat)
    (by rw [and_15, and_15]; omega)
  refine ⟨?_, ?_, rfl, rfl⟩
  · simp only [ADD_A, setA, setFh, setFz, setFn, setFc, setCyclesToWait]
    refine ⟨by omega, decide_eq_decide.mpr (by omega), trivial, decide_eq_decide.mpr h16,
      decide_eq_decide.mpr (by omega)⟩
  · simp only [ADC_A, setA, setFh, setFz, setFn, setFc, setCyclesToWait, toNat_and_15]
    refine ⟨by omega, decide_eq_decide.mpr (by omega), trivial, decide_eq_decide.mpr h16c,
      decide_eq_decide.mpr (by omega)⟩

theorem ADD_A_ADC_A_flags_witness :
    (ADD_A 0xFF (bootState (fun _ => 0x00))).registers.a = (0x01 + 0xFF) % 256 :=
  (ADD_A_ADC_A_flags (bootState (fun _ => 0x00)) 0xFF (by decide) (by decide)).1.1

/-- Claim C10: for every 8-bit `A`, operand `r` and carry-in `c = f.c`, `SUB_A` leaves
`A = (A - r) mod 256`, `Z = (result = 0)`, `N = 1`, `H = ((r & 0x0F) > (A & 0x0F))`,
`C = (r > A)`; `SBC_A` leaves `A = (A - r - c) mod 256`, `N = 1`,
`H = ((r & 0x0F) + c > (A & 0x0F))`, `C = (r + c > A)`; `CP_A` leaves the flags that
`SUB_A` leaves and does not change `A`; the hard-coded `SUB A,A` (0x97) and `CP A,A`
(0xBF) and the aliased `SBC A,A` (0x9F) are these bodies applied to the accumulator. -/
theorem SUB_A_SBC_A_CP_A_flags {μ : Type} (s : LR35902 μ) (r : Nat)
    (ha : s.registers.a < 256) (hr : r < 256) :
    (((SUB_A r s).registers.a : Int) = ((s.registers.a : Int) - r) % 256 ∧
      (SUB_A r s).registers.f.z = decide (((s.registers.a : Int) - r) % 256 = 0) ∧
      (SUB_A r s).registers.f.n = true ∧
      (SUB_A r s).registers.f.h = decide ((r &&& 0x0F) > (s.registers.a &&& 0x0F)) ∧
      (SUB_A r s).registers.f.c = decide (r > s.registers.a)) ∧
    (((SBC_A r s).registers.a : Int)
        = ((s.registers.a : Int) - r - s.registers.f.c.toNat) % 256 ∧
      (SBC_A r s).registers.f.z
        = decide (((s.registers.a : Int) - r - s.registers.f.c.toNat) % 256 = 0) ∧
      (SBC_A r s).registers.f.n = true ∧
      (SBC_A r s).registers.f.h
        = decide ((r &&& 0x0F) + s.registers.f.c.toNat > (s.registers.a &&& 0x0F)) ∧
      (SBC_A r s).registers.f.c = decide (r + s.registers.f.c.toNat > s.registers.a)) ∧
    ((CP_A r s).registers.f = (SUB_A r s).registers.f ∧
      (CP_A r s).registers.a = s.registers.a) ∧
    opcode97h s = (.ok (), SUB_A s.registers.a s) ∧
    opcodeBFh s = (.ok (), CP_A s.registers.a s) ∧
    opcode9Fh s = (.ok (), SBC_A s.registers.a s) := by
  have hc := toNat_le_one s.registers.f.c
  refine ⟨?_, ?_, ?_, ?_, ?_, rfl⟩
  · simp only [SUB_A, setA, setFh, setFz, setFn, setFc, setCyclesToWait]
    refine ⟨by omega, decide_eq_decide.mpr (by omega), trivial, trivial, trivial⟩
  · simp only [SBC_A, setA, setFh, setFz, setFn, setFc, setCyclesToWait, toNat_and_15]
    refine ⟨by omega, decide_eq_decide.mpr (by omega), trivial, trivial, trivial⟩
  · simp only [CP_A, SUB_A, setA, setFh, setFz, setFn, setFc, setCyclesToWait]
    refine ⟨?_, trivial⟩
    congr 1
    exact decide_eq_decide.mpr (by omega)
  · simp [opcode97h, SUB_A, setA, setFh, setFz, setFn, setFc, setCyclesToWait]
  · simp [opcodeBFh, CP_A, setA, setFh, setFz, setFn, setFc, setCyclesToWait]

theorem SUB_A_SBC_A_CP_A_flags_witness :
    (((SUB_A 0x02 (bootState (fun _ => 0x00))).registers.a : Nat) : Int)
      = ((0x01 : Nat) - (0x02 : Nat) : Int) % 256 :=
  (SUB_A_SBC_A_CP_A_flags (bootState (fun _ => 0x00)) 0x02 (by decide) (by decide)).1.1

/-- Claim C1 (what the code does): in the interrupt scenario of the spec, the tick that
services the VBlank interrupt (`IME` cleared, `IF` cleared, `PC` pushed at 0xFFFD and
0xFFFC, `SP = 0xFFFC`) goes on to fetch and execute the `INC A` stored at the vector
0x0040 in the same tick: it ends with `A = 0x02`, `PC = 0x0041` and
`m_cyclesToWait = 3`, the charge of `INC A`, and not with `PC = 0x0040` and the 20 dots
assigned by `handleInterrupt`. -/
theorem tick_services_interrupt_then_executes :
    (tick interruptScenario).1 = .ok () ∧
    (tick interruptScenario).2.interruptController.interruptMasterEnable = false ∧
    (tick interruptScenario).2.interruptController.interruptRequest = 0x00 ∧
    (tick interruptScenario).2.registers.sp = 0xFFFC ∧
    (tick interruptScenario).2.bus.store 0xFFFD = 0x12 ∧
    (tick interruptScenario).2.bus.store 0xFFFC = 0x34 ∧
    (handleInterrupt interruptScenario).2.cyclesToWait = 20 ∧
    (tick interruptScenario).2.registers.a = 0x02 ∧
    (tick interruptScenario).2.registers.pc = 0x0041 ∧
    (tick interruptScenario).2.cyclesToWait = 3 := by
  refine ⟨?_, ?_, ?_, ?_, ?_, ?_, ?_, ?_, ?_, ?_⟩ <;> rfl

/-- Claim C4 (what the code does): running `HALT; INC A` from the boot state, four ticks
execute `HALT` (`m_halted = true`, `PC = 0x0101`, `m_cyclesToWait = 0`) with no
interrupt pending, and the fifth tick, at that instruction boundary, fetches and
executes `INC A` (`A = 0x02`, `PC = 0x0102`): `tick` never reads `m_halted`. -/
theorem tick_ignores_halted :
    (ticks 4 haltScenario).1 = .ok () ∧
    (ticks 4 haltScenario).2.halted = true ∧
    (ticks 4 haltScenario).2.cyclesToWait = 0 ∧
    (ticks 4 haltScenario).2.registers.pc = 0x0101 ∧
    (ticks 4 haltScenario).2.registers.a = 0x01 ∧
    (ticks 4 haltScenario).2.interruptController.interruptRequest
      &&& (ticks 4 haltScenario).2.interruptController.interruptEnable &&& 0x1F = 0 ∧
    (ticks 5 haltScenario).1 = .ok () ∧
    (ticks 5 haltScenario).2.registers.pc = 0x0102 ∧
    (ticks 5 haltScenario).2.registers.a = 0x02 ∧
    (ticks 5 haltScenario).2.cyclesToWait = 3 := by
  refine ⟨?_, ?_, ?_, ?_, ?_, ?_, ?_, ?_, ?_, ?_⟩ <;> rfl

/-- Claim C7 (what the code does): `DAA` (0x27), `RES 0,B` (0xCB 0x80) and `SET 0,B`
(0xCB 0xC0) do not assign `m_cyclesToWait`; a tick that starts with
`m_cyclesToWait = 0` and executes one of them ends with the 8-bit counter wrapped
around to 255. -/
theorem daa_res_set_leave_cycles_wrapped :
    (tick daaScenario).1 = .ok () ∧ (tick daaScenario).2.registers.pc = 0x0101 ∧
      (tick daaScenario).2.cyclesToWait = 255 ∧
    (tick resScenario).1 = .ok () ∧ (tick resScenario).2.registers.pc = 0x0102 ∧
      (tick resScenario).2.cyclesToWait = 255 ∧
    (tick setScenario).1 = .ok () ∧ (tick setScenario).2.registers.pc = 0x0102 ∧
      (tick setScenario).2.cyclesToWait = 255 := by
  refine ⟨?_, ?_, ?_, ?_, ?_, ?_, ?_, ?_, ?_⟩ <;> rfl

/-! ## Increments, 16-bit additions, decimal adjust, rotates, bit operations, stack -/

set_option maxRecDepth 100000 in
theorem inc_half_carry : ∀ old, old < 256 →
    (decide ((old &&& 0x08) ≠ 0) && !decide (((old + 1) % 256 &&& 0x08) ≠ 0))
      = decide (old &&& 0x0F = 0x0F) := by
  decide

set_option maxRecDepth 100000 in
theorem dec_half_carry : ∀ old, old < 256 →
    decide ((old &&& 0x10) ≠ ((old + 255) % 256 &&& 0x10)) = decide (old &&& 0x0F = 0x00) := by
  decide

/-- Claim C11: for every 8-bit value `old`, `INC_r8` returns `(old + 1) mod 256` with
`Z = (result = 0)`, `N = 0`, `H = ((old & 0x0F) = 0x0F)` and `C` unchanged, and `DEC_r8`
returns `(old - 1) mod 256` with `Z = (result = 0)`, `N = 1`, `H = ((old & 0x0F) = 0x00)`
and `C` unchanged; `INC` of 0xFF gives 0x00 with `Z=1, H=1, N=0` and `DEC` of 0x01 gives
0x00 with `Z=1, N=1, H=0`; the fourteen handlers `INC r` and `DEC r` store that result
in `r`. -/
theorem INC_r8_DEC_r8_flags {μ : Type} (s : LR35902 μ) (old : Nat) (hold : old < 256) :
    ((INC_r8 old s).1 = (old + 1) % 256 ∧
      (INC_r8 old s).2.registers.f.z = decide ((old + 1) % 256 = 0) ∧
      (INC_r8 old s).2.registers.f.n = false ∧
      (INC_r8 old s).2.registers.f.h = decide (old &&& 0x0F = 0x0F) ∧
      (INC_r8 old s).2.registers.f.c = s.registers.f.c) ∧
    ((((DEC_r8 old s).1 : Nat) : Int) = ((old : Int) - 1) % 256 ∧
      (DEC_r8 old s).2.registers.f.z = decide (((old : Int) - 1) % 256 = 0) ∧
      (DEC_r8 old s).2.registers.f.n = true ∧
      (DEC_r8 old s).2.registers.f.h = decide (old &&& 0x0F = 0x00) ∧
      (DEC_r8 old s).2.registers.f.c = s.registers.f.c) ∧
    ((INC_r8 0xFF s).1 = 0x00 ∧ (INC_r8 0xFF s).2.registers.f.z = true ∧
      (INC_r8 0xFF s).2.registers.f.h = true ∧ (INC_r8 0xFF s).2.registers.f.n = false) ∧
    ((DEC_r8 0x01 s).1 = 0x00 ∧ (DEC_r8 0x01 s).2.registers.f.z = true ∧
      (DEC_r8 0x01 s).2.registers.f.n = true ∧ (DEC_r8 0x01 s).2.registers.f.h = false) ∧
    (opcode3Ch s = (.ok (), (INC_r8 s.registers.a s).2.setA (INC_r8 s.registers.a s).1) ∧
      opcode04h s = (.ok (), (INC_r8 s.registers.b s).2.setB (INC_r8 s.registers.b s).1) ∧
      opcode0Ch s = (.ok (), (INC_r8 s.registers.c s).2.setC (INC_r8 s.registers.c s).1) ∧
      opcode14h s = (.ok (), (INC_r8 s.registers.d s).2.setD (INC_r8 s.registers.d s).1) ∧
      opcode1Ch s = (.ok (), (INC_r8 s.registers.e s).2.setE (INC_r8 s.registers.e s).1) ∧
      opcode24h s = (.ok (), (INC_r8 s.registers.h s).2.setH (INC_r8 s.registers.h s).1) ∧
      opcode2Ch s = (.ok (), (INC_r8 s.registers.l s).2.setL (INC_r8 s.registers.l s).1)) ∧
    (opcode3Dh s = (.ok (), (DEC_r8 s.registers.a s).2.setA (DEC_r8 s.registers.a s).1) ∧
      opcode05h s = (.ok (), (DEC_r8 s.registers.b s).2.setB (DEC_r8 s.registers.b s).1) ∧
      opcode0Dh s = (.ok (), (DEC_r8 s.registers.c s).2.setC (DEC_r8 s.registers.c s).1) ∧
      opcode15h s = (.ok (), (DEC_r8 s.registers.d s).2.setD (DEC_r8 s.registers.d s).1) ∧
      opcode1Dh s = (.ok (), (DEC_r8 s.registers.e s).2.setE (DEC_r8 s.registers.e s).1) ∧
      opcode25h s = (.ok (), (DEC_r8 s.registers.h s).2.setH (DEC_r8 s.registers.h s).1) ∧
      opcode2Dh s = (.ok (), (DEC_r8 s.registers.l s).2.setL (DEC_r8 s.registers.l s).1)) := by
  refine ⟨?_, ?_, ?_, ?_, ?_, ?_⟩
  · simp only [INC_r8, setFh, setFz, setFn, setCyclesToWait]
    exact ⟨trivial, trivial, trivial, inc_half_carry old hold, trivial⟩
  · simp only [DEC_r8, setFh, setFz, setFn, setCyclesToWait]
    exact ⟨by omega, decide_eq_decide.mpr (by omega), trivial, dec_half_carry old hold, trivial⟩
  · exact ⟨rfl, rfl, rfl, rfl⟩
  · exact ⟨rfl, rfl, rfl, rfl⟩
  · exact ⟨rfl, rfl, rfl, rfl, rfl, rfl, rfl⟩
  · exact ⟨rfl, rfl, rfl, rfl, rfl, rfl, rfl⟩

theorem INC_r8_DEC_r8_flags_witness :
    (INC_r8 0x0F (bootState (fun _ => 0x00))).2.registers.f.h = decide (0x0F &&& 0x0F = 0x0F) :=
  (INC_r8_DEC_r8_flags (bootState (fun _ => 0x00)) 0x0F (by decide)).1.2.2.2.1

theorem and_two_pow_eq_iff (y k : Nat) : y &&& 2 ^ k = 2 ^ k ↔ y / 2 ^ k % 2 = 1 := by
  rw [← decide_eq_true_iff (p := y / 2 ^ k % 2 = 1), ← Nat.testBit_to_div_mod]
  constructor
  · intro h
    have h1 := congrArg (fun z => Nat.testBit z k) h
    simpa [Nat.testBit_and, Nat.testBit_two_pow] using h1
  · intro h
    apply Nat.eq_of_testBit_eq
    intro j
    by_cases hkj : k = j
    · subst hkj
      simp [Nat.testBit_and, Nat.testBit_two_pow, h]
    · simp [Nat.testBit_and, Nat.testBit_two_pow, hkj]

theorem and_0x1000_eq (y : Nat) (h : y < 0x2000) : (y &&& 0x1000 = 0x1000) ↔ 0x0FFF < y := by
  have e := and_two_pow_eq_iff y 12
  norm_num at e
  rw [e]
  omega

theorem and_0x10000_eq (y : Nat) (h : y < 0x20000) : (y &&& 0x10000 = 0x10000) ↔ 0xFFFF < y := by
  have e := and_two_pow_eq_iff y 16
  norm_num at e
  rw [e]
  omega

theorem and_0x0FFF (x : Nat) : x &&& 0x0FFF = x % 4096 := Nat.and_pow_two_sub_one_eq_mod x 12

theorem and_0xFFFF (x : Nat) : x &&& 0xFFFF = x % 65536 := Nat.and_pow_two_sub_one_eq_mod x 16

theorem hl_lt (r : LR35902Registers) : r.hl < 65536 := by
  simp only [LR35902Registers.hl]; omega

theorem bc_lt (r : LR35902Registers) : r.bc < 65536 := by
  simp only [LR35902Registers.bc]; omega

theorem de_lt (r : LR35902Registers) : r.de < 65536 := by
  simp only [LR35902Registers.de]; omega

theorem setHl_hl (r : LR35902Registers) (v : Nat) :
    (r.setHl (v % 65536)).hl = v % 65536 := by
  simp only [LR35902Registers.setHl, LR35902Registers.hl]; omega

/-- The effect of `ADD_HL_r16` for a 16-bit register `reg` that is neither `HL` nor
`F`. -/
theorem ADD_HL_r16_spec {μ : Type} (reg : LR35902Registers → Nat) (s : LR35902 μ)
    (hreg : ∀ (h l : Nat) (f : Flags),
      reg { s.registers with h := h, l := l, f := f } = reg s.registers)
    (hlt : reg s.registers < 65536) :
    (ADD_HL_r16 reg s).registers.hl = (s.registers.hl + reg s.registers) % 65536 ∧
    reg (ADD_HL_r16 reg s).registers = reg s.registers ∧
    (ADD_HL_r16 reg s).registers.f.n = false ∧
    (ADD_HL_r16 reg s).registers.f.h
      = decide ((s.registers.hl &&& 0x0FFF) + (reg s.registers &&& 0x0FFF) > 0x0FFF) ∧
    (ADD_HL_r16 reg s).registers.f.c = decide (s.registers.hl + reg s.registers > 0xFFFF) ∧
    (ADD_HL_r16 reg s).registers.f.z = s.registers.f.z := by
  have hhl := hl_lt s.registers
  have h12 := and_0x1000_eq ((s.registers.hl &&& 0x0FFF) + (reg s.registers &&& 0x0FFF))
    (by rw [and_0x0FFF, and_0x0FFF]; omega)
  have h16 := and_0x10000_eq ((s.registers.hl &&& 0xFFFF) + (reg s.registers &&& 0xFFFF))
    (by rw [and_0xFFFF, and_0xFFFF]; omega)
  simp only [ADD_HL_r16, setHl, LR35902Registers.setHl, setFn, setFh, setFc, setCyclesToWait,
    hreg]
  refine ⟨?_, trivial, trivial, decide_eq_decide.mpr h12, ?_, trivial⟩
  · simp only [LR35902Registers.hl]; omega
  · refine decide_eq_decide.mpr (h16.trans ?_)
    rw [and_0xFFFF, and_0xFFFF]
    omega

/-- Claim C13: for `rr` in `{BC, DE, SP}` and every `HL` and 16-bit `rr`, `ADD HL,rr`
(0x09, 0x19, 0x39, all `ADD_HL_r16`) leaves `HL = (HL + rr) mod 2^16` and `rr`
unchanged, with `N = 0`, `H = ((HL & 0x0FFF) + (rr & 0x0FFF) > 0x0FFF)`,
`C = (HL + rr > 0xFFFF)` and `Z` unchanged. -/
theorem ADD_HL_rr_flags {μ : Type} (s : LR35902 μ) (hsp : s.registers.sp < 65536) :
    (opcode09h s = (.ok (), ADD_HL_r16 (fun r => r.bc) s) ∧
      (ADD_HL_r16 (fun r => r.bc) s).registers.hl
        = (s.registers.hl + s.registers.bc) % 65536 ∧
      (ADD_HL_r16 (fun r => r.bc) s).registers.bc = s.registers.bc ∧
      (ADD_HL_r16 (fun r => r.bc) s).registers.f.n = false ∧
      (ADD_HL_r16 (fun r => r.bc) s).registers.f.h
        = decide ((s.registers.hl &&& 0x0FFF) + (s.registers.bc &&& 0x0FFF) > 0x0FFF) ∧
      (ADD_HL_r16 (fun r => r.bc) s).registers.f.c
        = decide (s.registers.hl + s.registers.bc > 0xFFFF) ∧
      (ADD_HL_r16 (fun r => r.bc) s).registers.f.z = s.registers.f.z) ∧
    (opcode19h s = (.ok (), ADD_HL_r16 (fun r => r.de) s) ∧
      (ADD_HL_r16 (fun r => r.de) s).registers.hl
        = (s.registers.hl + s.registers.de) % 65536 ∧
      (ADD_HL_r16 (fun r => r.de) s).registers.de = s.registers.de ∧
      (ADD_HL_r16 (fun r => r.de) s).registers.f.n = false ∧
      (ADD_HL_r16 (fun r => r.de) s).registers.f.h
        = decide ((s.registers.hl &&& 0x0FFF) + (s.registers.de &&& 0x0FFF) > 0x0FFF) ∧
      (ADD_HL_r16 (fun r => r.de) s).registers.f.c
        = decide (s.registers.hl + s.registers.de > 0xFFFF) ∧
      (ADD_HL_r16 (fun r => r.de) s).registers.f.z = s.registers.f.z) ∧
    (opcode39h s = (.ok (), ADD_HL_r16 (fun r => r.sp) s) ∧
      (ADD_HL_r16 (fun r => r.sp) s).registers.hl
        = (s.registers.hl + s.registers.sp) % 65536 ∧
      (ADD_HL_r16 (fun r => r.sp) s).registers.sp = s.registers.sp ∧
      (ADD_HL_r16 (fun r => r.sp) s).registers.f.n = false ∧
      (ADD_HL_r16 (fun r => r.sp) s).registers.f.h
        = decide ((s.registers.hl &&& 0x0FFF) + (s.registers.sp &&& 0x0FFF) > 0x0FFF) ∧
      (ADD_HL_r16 (fun r => r.sp) s).registers.f.c
        = decide (s.registers.hl + s.registers.sp > 0xFFFF) ∧
      (ADD_HL_r16 (fun r => r.sp) s).registers.f.z = s.registers.f.z) :=
  ⟨⟨rfl, ADD_HL_r16_spec (fun r => r.bc) s (fun _ _ _ => rfl) (bc_lt s.registers)⟩,
   ⟨rfl, ADD_HL_r16_spec (fun r => r.de) s (fun _ _ _ => rfl) (de_lt s.registers)⟩,
   ⟨rfl, ADD_HL_r16_spec (fun r => r.sp) s (fun _ _ _ => rfl) hsp⟩⟩

theorem ADD_HL_rr_flags_witness :
    (ADD_HL_r16 (fun r => r.sp) (bootState (fun _ => 0x00))).registers.hl
      = ((bootState (fun _ => 0x00)).registers.hl
        + (bootState (fun _ => 0x00)).registers.sp) % 65536 :=
  (ADD_HL_rr_flags (bootState (fun _ => 0x00)) (by decide)).2.2.2.1

/-- Claim C12 (what the code does): `INC (HL)` and `DEC (HL)` store `(old + 1) mod 256`
and `(old - 1) mod 256` but compute `H` from the stored value, as `val == 0x00 ||
val == 0x10` and as `val == 0xF`. With `old = 0x1F` at `HL`, `INC (HL)` stores 0x20 and
leaves `H = 0`, where `INC_r8` on 0x1F leaves `H = 1`; with `old = 0x20`, `DEC (HL)`
stores 0x1F and leaves `H = 0`, where `DEC_r8` on 0x20 leaves `H = 1`. -/
theorem INC_DEC_HL_half_carry_from_result (s : LR35902 (Nat → Nat)) (m : Nat → Nat) :
    ((opcode34h { s with bus := ramBus m }).2.registers.f.h
      = (decide ((m (s.registers.hl % 65536) % 256 + 1) % 256 = 0x00)
        || decide ((m (s.registers.hl % 65536) % 256 + 1) % 256 = 0x10))) ∧
    ((opcode35h { s with bus := ramBus m }).2.registers.f.h
      = decide ((m (s.registers.hl % 65536) % 256 + 255) % 256 = 0xF)) ∧
    ((opcode34h (bootState (fun _ => 0x1F))).1 = .ok () ∧
      (opcode34h (bootState (fun _ => 0x1F))).2.bus.store 0x014D = 0x20 ∧
      (opcode34h (bootState (fun _ => 0x1F))).2.registers.f.h = false ∧
      (INC_r8 0x1F (bootState (fun _ => 0x1F))).2.registers.f.h = true) ∧
    ((opcode35h (bootState (fun _ => 0x20))).1 = .ok () ∧
      (opcode35h (bootState (fun _ => 0x20))).2.bus.store 0x014D = 0x1F ∧
      (opcode35h (bootState (fun _ => 0x20))).2.registers.f.h = false ∧
      (DEC_r8 0x20 (bootState (fun _ => 0x20))).2.registers.f.h = true) := by
  refine ⟨rfl, rfl, ⟨rfl, rfl, rfl, rfl⟩, ⟨rfl, rfl, rfl, rfl⟩⟩

/-- Claim C14 (what the code does): `ADD HL,HL` (0x29) passes `m_registers.hl` by
reference to `ADD_HL_r16`, which reads it again after `m_registers.hl += reg`, so the
flags come from `v + (2v mod 2^16)`. `HL = 0x8000` yields `HL = 0x0000` with `C = 0`
and `H = 0`; `HL = 0x0800` yields `HL = 0x1000` with `H = 0`, although `v + v` carries
out of bit 11; `HL = 0x6000` yields `HL = 0xC000` with `C = 1`, although
`2v <= 0xFFFF`. -/
theorem ADD_HL_HL_flags_from_doubled_value :
    ((opcode29h { bootState (fun _ => 0x00) with
        registers := { bootRegisters with h := 0x80, l := 0x00 } }).2.registers.hl = 0x0000 ∧
      (opcode29h { bootState (fun _ => 0x00) with
        registers := { bootRegisters with h := 0x80, l := 0x00 } }).2.registers.f.c = false ∧
      (opcode29h { bootState (fun _ => 0x00) with
        registers := { bootRegisters with h := 0x80, l := 0x00 } }).2.registers.f.h = false) ∧
    ((opcode29h { bootState (fun _ => 0x00) with
        registers := { bootRegisters with h := 0x08, l := 0x00 } }).2.registers.hl = 0x1000 ∧
      (opcode29h { bootState (fun _ => 0x00) with
        registers := { bootRegisters with h := 0x08, l := 0x00 } }).2.registers.f.h = false) ∧
    ((opcode29h { bootState (fun _ => 0x00) with
        registers := { bootRegisters with h := 0x60, l := 0x00 } }).2.registers.hl = 0xC000 ∧
      (opcode29h { bootState (fun _ => 0x00) with
        registers := { bootRegisters with h := 0x60, l := 0x00 } }).2.registers.f.c = true) := by
  refine ⟨⟨rfl, rfl, rfl⟩, ⟨rfl, rfl⟩, ⟨rfl, rfl⟩⟩

theorem and_0x100_eq (y : Nat) (h : y < 0x200) : (y &&& 0x100 = 0x100) ↔ 0xFF < y := by
  have e := and_two_pow_eq_iff y 8
  norm_num at e
  rw [e]
  omega

theorem and_0xFF (x : Nat) : x &&& 0xFF = x % 256 := Nat.and_pow_two_sub_one_eq_mod x 8

theorem int8_of_emod (e : Int) (h1 : -128 ≤ e) (h2 : e ≤ 127) : int8 (e % 256).toNat = e := by
  unfold int8
  split <;> omega

theorem fetch_ramBus_state (s : LR35902 (Nat → Nat)) (m : Nat → Nat) :
    fetch { s with bus := ramBus m }
      = (.ok (m (s.registers.pc % 65536) % 256),
          { s with bus := ramBus m
                   registers := { s.registers with pc := (s.registers.pc + 1) % 65536 } }) := by
  rw [fetch_ramBus m _ rfl]
  rfl

/-- Claim C15: for every `SP` and every signed 8-bit immediate `e`, fetched as the byte
`u = e mod 256` from flat memory, `ADD SP,r8` (0xE8) leaves `SP = (SP + e) mod 2^16` and
`LD HL,SP+r8` (0xF8) leaves `HL = (SP + e) mod 2^16` with `SP` unchanged; both set
`Z = 0`, `N = 0`, `H = ((SP & 0x0F) + (u & 0x0F) > 0x0F)` and
`C = ((SP & 0xFF) + u > 0xFF)`. `ADD SP,-1` with `SP = 0x0000` gives `SP = 0xFFFF` with
`H = 0` and `C = 0`. -/
theorem ADD_SP_r8_LD_HL_SP_r8_flags (s : LR35902 (Nat → Nat)) (m : Nat → Nat) (e : Int)
    (h1 : -128 ≤ e) (h2 : e ≤ 127)
    (hm : m (s.registers.pc % 65536) = (e % 256).toNat) :
    ((opcodeE8h { s with bus := ramBus m }).1 = .ok () ∧
      (((opcodeE8h { s with bus := ramBus m }).2.registers.sp : Nat) : Int)
        = ((s.registers.sp : Int) + e) % 65536 ∧
      (opcodeE8h { s with bus := ramBus m }).2.registers.f.z = false ∧
      (opcodeE8h { s with bus := ramBus m }).2.registers.f.n = false ∧
      (opcodeE8h { s with bus := ramBus m }).2.registers.f.h
        = decide ((s.registers.sp &&& 0x0F) + ((e % 256).toNat &&& 0x0F) > 0x0F) ∧
      (opcodeE8h { s with bus := ramBus m }).2.registers.f.c
        = decide ((s.registers.sp &&& 0xFF) + (e % 256).toNat > 0xFF)) ∧
    ((opcodeF8h { s with bus := ramBus m }).1 = .ok () ∧
      (((opcodeF8h { s with bus := ramBus m }).2.registers.hl : Nat) : Int)
        = ((s.registers.sp : Int) + e) % 65536 ∧
      (opcodeF8h { s with bus := ramBus m }).2.registers.sp = s.registers.sp ∧
      (opcodeF8h { s with bus := ramBus m }).2.registers.f.z = false ∧
      (opcodeF8h { s with bus := ramBus m }).2.registers.f.n = false ∧
      (opcodeF8h { s with bus := ramBus m }).2.registers.f.h
        = decide ((s.registers.sp &&& 0x0F) + ((e % 256).toNat &&& 0x0F) > 0x0F) ∧
      (opcodeF8h { s with bus := ramBus m }).2.registers.f.c
        = decide ((s.registers.sp &&& 0xFF) + (e % 256).toNat > 0xFF)) ∧
    ((opcodeE8h { bootState (fun _ => 0xFF) with
        registers := { bootRegisters with sp := 0x0000 } }).2.registers.sp = 0xFFFF ∧
      (opcodeE8h { bootState (fun _ => 0xFF) with
        registers := { bootRegisters with sp := 0x0000 } }).2.registers.f.h = false ∧
      (opcodeE8h { bootState (fun _ => 0xFF) with
        registers := { bootRegisters with sp := 0x0000 } }).2.registers.f.c = false) := by
  have hu : m (s.registers.pc % 65536) % 256 = (e % 256).toNat := by rw [hm]; omega
  have hult : (e % 256).toNat < 256 := by omega
  have hi8 := int8_of_emod e h1 h2
  have h4 := and_16_eq ((s.registers.sp &&& 0x0F) + ((e % 256).toNat &&& 0x0F))
    (by rw [and_15, and_15]; omega)
  have h8 := and_0x100_eq ((s.registers.sp &&& 0xFF) + ((e % 256).toNat &&& 0xFF))
    (by rw [and_0xFF, and_0xFF]; omega)
  have hff : (e % 256).toNat &&& 0xFF = (e % 256).toNat := by rw [and_0xFF]; omega
  refine ⟨?_, ?_, ⟨rfl, rfl, rfl⟩⟩
  · simp only [opcodeE8h, CPU.bind_ok _ _ _ _ _ (fetch_ramBus_state s m), hu, CPU.get_bind,
      CPU.modify_bind, CPU.modify_apply, setFh, setFc, setSp, setFz, setFn, setCyclesToWait,
      addInt8, hi8, and_0xFFFF]
    refine ⟨trivial, by omega, trivial, trivial, decide_eq_decide.mpr h4, ?_⟩
    rw [hff] at h8
    exact decide_eq_decide.mpr (by rw [hff]; exact h8)
  · simp only [opcodeF8h, CPU.bind_ok _ _ _ _ _ (fetch_ramBus_state s m), hu, CPU.get_bind,
      CPU.modify_bind, CPU.modify_apply, setFh, setFc, setHl, LR35902Registers.setHl, setFz,
      setFn, setCyclesToWait, addInt8, hi8, LR35902Registers.hl]
    refine ⟨trivial, by omega, trivial, trivial, trivial, decide_eq_decide.mpr h4, ?_⟩
    rw [hff] at h8
    exact decide_eq_decide.mpr (by rw [hff]; exact h8)

theorem ADD_SP_r8_LD_HL_SP_r8_flags_witness :
    (((opcodeE8h { bootState (fun _ => 0xFF) with bus := ramBus (fun _ => 0xFF) }).2.registers.sp
      : Nat) : Int) = (((bootState (fun _ => 0xFF)).registers.sp : Int) + (-1)) % 65536 :=
  (ADD_SP_r8_LD_HL_SP_r8_flags (bootState (fun _ => 0xFF)) (fun _ => 0xFF) (-1)
    (by decide) (by decide) (by decide)).1.2.1


/-- The fields left by `DAA` after an addition (`f.n == 0`). -/
theorem opcode27h_after_addition {μ : Type} (t : LR35902 μ) (hn : t.registers.f.n = false) :
    (opcode27h t).1 = .ok () ∧
    (opcode27h t).2.registers.a
      = (if (t.registers.f.h || decide ((if (t.registers.f.c || decide (t.registers.a > 0x99)) = true
            then (t.registers.a + 0x60) % 256 else t.registers.a) &&& 0x0F > 0x09)) = true
          then ((if (t.registers.f.c || decide (t.registers.a > 0x99)) = true
            then (t.registers.a + 0x60) % 256 else t.registers.a) + 0x06) % 256
          else (if (t.registers.f.c || decide (t.registers.a > 0x99)) = true
            then (t.registers.a + 0x60) % 256 else t.registers.a)) ∧
    (opcode27h t).2.registers.f.c = (t.registers.f.c || decide (t.registers.a > 0x99)) ∧
    (opcode27h t).2.registers.f.z = decide ((opcode27h t).2.registers.a = 0) ∧
    (opcode27h t).2.registers.f.h = false := by
  simp only [opcode27h, CPU.get_bind, hn, ↓reduceIte]
  by_cases hc : (t.registers.f.c || decide (t.registers.a > 0x99)) = true
  · simp only [hc, ↓reduceIte, CPU.modify_bind, CPU.get_bind]
    by_cases hh : (t.registers.f.h || decide ((t.registers.a + 0x60) % 256 &&& 0x0F > 0x09)) = true
    · simp [hh, setA, setFc, setFz, setFh]
    · simp [hh, setA, setFc, setFz, setFh]
  · simp only [hc, ↓reduceIte, CPU.pure_bind, CPU.get_bind, Bool.false_eq_true]
    by_cases hh : (t.registers.f.h || decide (t.registers.a &&& 0x0F > 0x09)) = true
    · simp [hh, hc, setA, setFc, setFz, setFh]
      simp only [Bool.or_eq_true, not_or, Bool.not_eq_true] at hc
      exact hc.1
    · simp [hh, hc, setA, setFc, setFz, setFh]
      simp only [Bool.or_eq_true, not_or, Bool.not_eq_true] at hc
      exact hc.1

set_option maxRecDepth 1000000 in
set_option maxHeartbeats 4000000 in
/-- The decimal adjustment of a sum of two packed-BCD bytes, on the digits. -/
theorem daa_digits : ∀ ah, ah < 10 → ∀ al, al < 10 → ∀ bh, bh < 10 → ∀ bl, bl < 10 →
    (if 15 < al + bl ∨
          (if 16 * ah + al + (16 * bh + bl) > 255 ∨ (16 * ah + al + (16 * bh + bl)) % 256 > 153 then
                ((16 * ah + al + (16 * bh + bl)) % 256 + 96) % 256
              else (16 * ah + al + (16 * bh + bl)) % 256) %
              16 >
            9 then
      ((if 16 * ah + al + (16 * bh + bl) > 255 ∨ (16 * ah + al + (16 * bh + bl)) % 256 > 153 then
            ((16 * ah + al + (16 * bh + bl)) % 256 + 96) % 256
          else (16 * ah + al + (16 * bh + bl)) % 256) +
          6) %
        256
    else
      if 16 * ah + al + (16 * bh + bl) > 255 ∨ (16 * ah + al + (16 * bh + bl)) % 256 > 153 then
        ((16 * ah + al + (16 * bh + bl)) % 256 + 96) % 256
      else (16 * ah + al + (16 * bh + bl)) % 256)
    = 16 * ((10 * ah + al + (10 * bh + bl)) % 100 / 10)
      + (10 * ah + al + (10 * bh + bl)) % 100 % 10 := by
  decide

/-- Claim C16: for all packed-BCD bytes `a` and `b` (decimal values `da` and `db`),
`ADD A,b` from `A = a` followed by `DAA` leaves `A` equal to the packed BCD encoding of
`(da + db) mod 100`, `C = 1` iff `da + db >= 100`, `Z = 1` iff `A = 0` and `H = 0`;
`0x15 + 0x27` gives 0x3C then 0x42 with `Z=0, H=0, C=0`, and `0x90 + 0x80` gives 0x10
with `C=1` then 0x70 with `C=1, Z=0`. -/
theorem DAA_after_ADD_packed_BCD {μ : Type} (s : LR35902 μ) (b : Nat)
    (ha1 : s.registers.a / 16 ≤ 9) (ha2 : s.registers.a % 16 ≤ 9)
    (hb1 : b / 16 ≤ 9) (hb2 : b % 16 ≤ 9) :
    ((opcode27h (ADD_A b s)).1 = .ok () ∧
      (opcode27h (ADD_A b s)).2.registers.a
        = 16 * (((10 * (s.registers.a / 16) + s.registers.a % 16
            + (10 * (b / 16) + b % 16)) % 100) / 10)
          + ((10 * (s.registers.a / 16) + s.registers.a % 16
            + (10 * (b / 16) + b % 16)) % 100) % 10 ∧
      (opcode27h (ADD_A b s)).2.registers.f.c
        = decide (10 * (s.registers.a / 16) + s.registers.a % 16
            + (10 * (b / 16) + b % 16) ≥ 100) ∧
      (opcode27h (ADD_A b s)).2.registers.f.z
        = decide ((opcode27h (ADD_A b s)).2.registers.a = 0) ∧
      (opcode27h (ADD_A b s)).2.registers.f.h = false) ∧
    ((ADD_A 0x27 ((bootState (fun _ => 0x00)).setA 0x15)).registers.a = 0x3C ∧
      (ADD_A 0x27 ((bootState (fun _ => 0x00)).setA 0x15)).registers.f.h = false ∧
      (opcode27h (ADD_A 0x27 ((bootState (fun _ => 0x00)).setA 0x15))).2.registers.a = 0x42 ∧
      (opcode27h (ADD_A 0x27 ((bootState (fun _ => 0x00)).setA 0x15))).2.registers.f.z = false ∧
      (opcode27h (ADD_A 0x27 ((bootState (fun _ => 0x00)).setA 0x15))).2.registers.f.h = false ∧
      (opcode27h (ADD_A 0x27 ((bootState (fun _ => 0x00)).setA 0x15))).2.registers.f.c = false) ∧
    ((ADD_A 0x80 ((bootState (fun _ => 0x00)).setA 0x90)).registers.a = 0x10 ∧
      (ADD_A 0x80 ((bootState (fun _ => 0x00)).setA 0x90)).registers.f.c = true ∧
      (opcode27h (ADD_A 0x80 ((bootState (fun _ => 0x00)).setA 0x90))).2.registers.a = 0x70 ∧
      (opcode27h (ADD_A 0x80 ((bootState (fun _ => 0x00)).setA 0x90))).2.registers.f.c = true ∧
      (opcode27h (ADD_A 0x80 ((bootState (fun _ => 0x00)).setA 0x90))).2.registers.f.z = false) := by
  refine ⟨?_, ⟨rfl, rfl, rfl, rfl, rfl, rfl⟩, ⟨rfl, rfl, rfl, rfl, rfl⟩⟩
  obtain ⟨hok, hA, hC, hZ, hH⟩ := opcode27h_after_addition (ADD_A b s) rfl
  have eA : (ADD_A b s).registers.a = (s.registers.a + b) % 65536 % 256 := rfl
  have eH : (ADD_A b s).registers.f.h
      = decide ((((s.registers.a &&& 0x0F) + (b &&& 0x0F)) &&& 0x10) = 0x10) := rfl
  have eC : (ADD_A b s).registers.f.c = decide ((s.registers.a + b) % 65536 > 0xFF) := rfl
  have h16 := and_16_eq (s.registers.a % 16 + b % 16) (by omega)
  have hsum : (s.registers.a + b) % 65536 = s.registers.a + b := Nat.mod_eq_of_lt (by omega)
  rw [eA, eH, eC] at hA
  rw [eA, eC] at hC
  simp only [and_15, h16, hsum, Bool.or_eq_true, decide_eq_true_eq] at hA hC
  clear eA eH eC h16 hsum
  obtain ⟨ah, al, bh, bl, hah, hal, hbh, hbl, ea, eb⟩ :
      ∃ ah al bh bl, ah ≤ 9 ∧ al ≤ 9 ∧ bh ≤ 9 ∧ bl ≤ 9 ∧
        s.registers.a = 16 * ah + al ∧ b = 16 * bh + bl :=
    ⟨s.registers.a / 16, s.registers.a % 16, b / 16, b % 16, ha1, ha2, hb1, hb2,
      by omega, by omega⟩
  have e1 : s.registers.a / 16 = ah := by omega
  have e2 : s.registers.a % 16 = al := by omega
  have e3 : b / 16 = bh := by omega
  have e4 : b % 16 = bl := by omega
  refine ⟨hok, ?_, ?_, hZ, hH⟩
  · generalize (opcode27h (ADD_A b s)).2.registers.a = A at hA ⊢
    rw [e1, e2, e3, e4]
    rw [e2, e4, ea, eb] at hA
    rw [hA]
    clear hA hC hZ hH hok e1 e2 e3 e4 ea eb ha1 ha2 hb1 hb2
    exact daa_digits ah (by omega) al (by omega) bh (by omega) bl (by omega)
  · generalize (opcode27h (ADD_A b s)).2.registers.f.c = c at hC ⊢
    rw [e1, e2, e3, e4]
    rw [ea, eb] at hC
    rw [hC, Bool.eq_iff_iff]
    simp only [Bool.or_eq_true, decide_eq_true_eq]
    omega

theorem DAA_after_ADD_packed_BCD_witness :
    (opcode27h (ADD_A 0x27 ((bootState (fun _ => 0x00)).setA 0x15))).2.registers.f.h = false :=
  (DAA_after_ADD_packed_BCD ((bootState (fun _ => 0x00)).setA 0x15) 0x27
    (by decide) (by decide) (by decide) (by decide)).1.2.2.2.2

set_option maxRecDepth 100000 in
/-- Bit 7 of the results of `SRA` and `SRL` on a byte. -/
theorem sra_srl_bit7 : ∀ v, v < 256 →
    ((v >>> 1) % 256 ||| (((v >>> 1) % 256 &&& 0x40) <<< 1)) % 256 / 128 % 2 = v / 128 % 2 ∧
    (v >>> 1) % 256 / 128 % 2 = 0 := by
  decide

theorem bit1_shift7 (v : Nat) : bit1 ((v >>> 7) &&& 0x1) = v.testBit 7 := by
  rw [Nat.testBit_to_div_mod, Nat.shiftRight_eq_div_pow, Nat.and_one_is_mod]
  simp only [bit1, Nat.mod_mod]
  rcases Nat.mod_two_eq_zero_or_one (v / 2 ^ 7) with h0 | h0 <;> rw [h0] <;> rfl

theorem bit1_and1 (v : Nat) : bit1 (v &&& 0x1) = v.testBit 0 := by
  rw [Nat.testBit_to_div_mod, Nat.and_one_is_mod]
  simp only [bit1, Nat.mod_mod, pow_zero, Nat.div_one]
  rcases Nat.mod_two_eq_zero_or_one v with h0 | h0 <;> rw [h0] <;> rfl

/-- Claim C17: the primary rotates `RLCA`, `RRCA`, `RLA`, `RRA` always leave `Z = 0`
and produce the same `A` and `C` as `RLC A`, `RRC A`, `RL A`, `RR A` under the prefix
0xCB; the prefixed `RLC`, `RRC`, `RL`, `RR`, `SLA`, `SRA`, `SRL` set `Z` iff the 8-bit
result is 0; all of them set `N = 0`, `H = 0` and put the bit shifted out of the operand
(bit 7 for left, bit 0 for right) in `C`; `SRA` keeps bit 7 of the operand and `SRL`
clears it. -/
theorem rotates_and_shifts_flags {μ : Type} (s : LR35902 μ) (v memValue : Nat)
    (hv : v < 256) :
    -- the primary rotates
    ((opcode07h s).1 = .ok () ∧ (opcode0Fh s).1 = .ok () ∧
      (opcode17h s).1 = .ok () ∧ (opcode1Fh s).1 = .ok ()) ∧
    ((opcode07h s).2.registers.f.z = false ∧ (opcode0Fh s).2.registers.f.z = false ∧
      (opcode17h s).2.registers.f.z = false ∧ (opcode1Fh s).2.registers.f.z = false) ∧
    ((opcode07h s).2.registers.f.n = false ∧ (opcode0Fh s).2.registers.f.n = false ∧
      (opcode17h s).2.registers.f.n = false ∧ (opcode1Fh s).2.registers.f.n = false) ∧
    ((opcode07h s).2.registers.f.h = false ∧ (opcode0Fh s).2.registers.f.h = false ∧
      (opcode17h s).2.registers.f.h = false ∧ (opcode1Fh s).2.registers.f.h = false) ∧
    -- the prefixed rotates of `A`, as decoded by `opcodeCBh`
    (opcodeCBh_operation 0x07 0x07 memValue s
        = (memValue, (RLC s.registers.a s).2.setA (RLC s.registers.a s).1) ∧
      opcodeCBh_operation 0x0F 0x07 memValue s
        = (memValue, (RRC s.registers.a s).2.setA (RRC s.registers.a s).1) ∧
      opcodeCBh_operation 0x17 0x07 memValue s
        = (memValue, (RL s.registers.a s).2.setA (RL s.registers.a s).1) ∧
      opcodeCBh_operation 0x1F 0x07 memValue s
        = (memValue, (RR s.registers.a s).2.setA (RR s.registers.a s).1)) ∧
    ((opcode07h s).2.registers.a = (opcodeCBh_operation 0x07 0x07 memValue s).2.registers.a ∧
      (opcode0Fh s).2.registers.a = (opcodeCBh_operation 0x0F 0x07 memValue s).2.registers.a ∧
      (opcode17h s).2.registers.a = (opcodeCBh_operation 0x17 0x07 memValue s).2.registers.a ∧
      (opcode1Fh s).2.registers.a
        = (opcodeCBh_operation 0x1F 0x07 memValue s).2.registers.a) ∧
    ((opcode07h s).2.registers.f.c
        = (opcodeCBh_operation 0x07 0x07 memValue s).2.registers.f.c ∧
      (opcode0Fh s).2.registers.f.c
        = (opcodeCBh_operation 0x0F 0x07 memValue s).2.registers.f.c ∧
      (opcode17h s).2.registers.f.c
        = (opcodeCBh_operation 0x17 0x07 memValue s).2.registers.f.c ∧
      (opcode1Fh s).2.registers.f.c
        = (opcodeCBh_operation 0x1F 0x07 memValue s).2.registers.f.c) ∧
    -- the prefixed operations on an operand `v`
    ((RLC v s).2.registers.f.z = decide ((RLC v s).1 = 0) ∧
      (RRC v s).2.registers.f.z = decide ((RRC v s).1 = 0) ∧
      (RL v s).2.registers.f.z = decide ((RL v s).1 = 0) ∧
      (RR v s).2.registers.f.z = decide ((RR v s).1 = 0) ∧
      (SLA v s).2.registers.f.z = decide ((SLA v s).1 = 0) ∧
      (SRA v s).2.registers.f.z = decide ((SRA v s).1 = 0) ∧
      (SRL v s).2.registers.f.z = decide ((SRL v s).1 = 0)) ∧
    ((RLC v s).2.registers.f.n = false ∧ (RRC v s).2.registers.f.n = false ∧
      (RL v s).2.registers.f.n = false ∧ (RR v s).2.registers.f.n = false ∧
      (SLA v s).2.registers.f.n = false ∧ (SRA v s).2.registers.f.n = false ∧
      (SRL v s).2.registers.f.n = false) ∧
    ((RLC v s).2.registers.f.h = false ∧ (RRC v s).2.registers.f.h = false ∧
      (RL v s).2.registers.f.h = false ∧ (RR v s).2.registers.f.h = false ∧
      (SLA v s).2.registers.f.h = false ∧ (SRA v s).2.registers.f.h = false ∧
      (SRL v s).2.registers.f.h = false) ∧
    ((RLC v s).2.registers.f.c = v.testBit 7 ∧ (RL v s).2.registers.f.c = v.testBit 7 ∧
      (SLA v s).2.registers.f.c = v.testBit 7 ∧
      (RRC v s).2.registers.f.c = v.testBit 0 ∧ (RR v s).2.registers.f.c = v.testBit 0 ∧
      (SRA v s).2.registers.f.c = v.testBit 0 ∧ (SRL v s).2.registers.f.c = v.testBit 0) ∧
    ((opcode07h s).2.registers.f.c = s.registers.a.testBit 7 ∧
      (opcode17h s).2.registers.f.c = s.registers.a.testBit 7 ∧
      (opcode0Fh s).2.registers.f.c = s.registers.a.testBit 0 ∧
      (opcode1Fh s).2.registers.f.c = s.registers.a.testBit 0) ∧
    -- bit 7 of the results of the right shifts
    ((SRA v s).1.testBit 7 = v.testBit 7 ∧ (SRL v s).1.testBit 7 = false) := by
  have e7 : ∀ x : Nat, bit1 (((x >>> 7) &&& 0x1) % 256) = x.testBit 7 := by
    intro x
    rw [Nat.mod_eq_of_lt, bit1_shift7]
    rw [Nat.and_one_is_mod]
    omega
  have e0 : ∀ x : Nat, bit1 ((x &&& 0x1) % 256) = x.testBit 0 := by
    intro x
    rw [Nat.mod_eq_of_lt, bit1_and1]
    rw [Nat.and_one_is_mod]
    omega
  refine ⟨⟨rfl, rfl, rfl, rfl⟩, ⟨rfl, rfl, rfl, rfl⟩, ⟨rfl, rfl, rfl, rfl⟩,
    ⟨rfl, rfl, rfl, rfl⟩, ⟨rfl, rfl, rfl, rfl⟩,
    ⟨(Nat.mod_mod _ 256).symm, (Nat.mod_mod _ 256).symm, ?_,
      (Nat.mod_mod _ 256).symm⟩, ⟨rfl, rfl, rfl, rfl⟩,
    ⟨rfl, rfl, rfl, rfl, rfl, rfl, rfl⟩, ⟨rfl, rfl, rfl, rfl, rfl, rfl, rfl⟩,
    ⟨rfl, rfl, rfl, rfl, rfl, rfl, rfl⟩,
    ⟨bit1_shift7 v, e7 v, bit1_shift7 v, bit1_and1 v, e0 v, bit1_and1 v, bit1_and1 v⟩,
    ⟨bit1_shift7 _, e7 _, bit1_and1 _, e0 _⟩, ?_, ?_⟩
  · have hc1 : s.registers.f.c.toNat &&& 0x1 = s.registers.f.c.toNat := by
      cases s.registers.f.c <;> rfl
    show (s.registers.a <<< 1 ||| s.registers.f.c.toNat) % 256
      = (s.registers.a <<< 1 ||| (s.registers.f.c.toNat &&& 0x1)) % 256 % 256
    rw [hc1, Nat.mod_mod]
  · rw [Nat.testBit_to_div_mod, Nat.testBit_to_div_mod]
    exact congrArg (fun n => decide (n = 1)) (sra_srl_bit7 v hv).1
  · rw [Nat.testBit_to_div_mod]
    exact decide_eq_false (by
      have h := (sra_srl_bit7 v hv).2
      show ¬ ((v >>> 1) % 256 / 2 ^ 7 % 2 = 1)
      norm_num
      omega)

theorem rotates_and_shifts_flags_witness :
    (SRA 0x80 (bootState (fun _ => 0x00))).1.testBit 7 = (0x80).testBit 7 ∧
    (SRL 0x80 (bootState (fun _ => 0x00))).1.testBit 7 = false :=
  (rotates_and_shifts_flags (bootState (fun _ => 0x00)) 0x80 0x00 (by decide)).2.2.2.2.2.2.2.2.2.2.2.2

set_option maxRecDepth 100000 in
/-- The bit operations of `BIT`, `SET` and `RES` on a byte. -/
theorem bit_ops_byte : ∀ n, n < 8 → ∀ r, r < 256 →
    decide (r &&& (1 <<< n) = 0) = !r.testBit n ∧
    (r ||| (1 <<< n)) % 256 % 256 = r ||| (1 <<< n) ∧
    (r &&& bitNot (1 <<< n)) % 256 % 256 = r &&& (0xFF - (1 <<< n)) := by
  decide

set_option maxRecDepth 100000 in
theorem cb_low_bits : ∀ n, n < 8 → ∀ k, k < 8 →
    ((0x40 + 8 * n + k) &&& 0x7) % 256 = k ∧ ((0x80 + 8 * n + k) &&& 0x7) % 256 = k ∧
    ((0xC0 + 8 * n + k) &&& 0x7) % 256 = k := by
  decide

theorem opcodeCBh_operation_BIT {μ : Type} (s : LR35902 μ) (m n k : Nat)
    (hn : n < 8) (hk : k < 8) :
    opcodeCBh_operation (0x40 + 8 * n + k) k m s
      = (m, BIT n (getRegisterByLowerBits k m s) s) := by
  have e : (0x40 + 8 * n + k - 0x40) / 0x8 = n := by omega
  generalize hop : 0x40 + 8 * n + k = op at e ⊢
  have h0 : ¬(0x00 ≤ op ∧ op ≤ 0x07) := by omega
  have h1 : ¬(0x08 ≤ op ∧ op ≤ 0x0F) := by omega
  have h2 : ¬(0x10 ≤ op ∧ op ≤ 0x17) := by omega
  have h3 : ¬(0x18 ≤ op ∧ op ≤ 0x1F) := by omega
  have h4 : ¬(0x20 ≤ op ∧ op ≤ 0x27) := by omega
  have h5 : ¬(0x28 ≤ op ∧ op ≤ 0x2F) := by omega
  have h6 : ¬(0x30 ≤ op ∧ op ≤ 0x37) := by omega
  have h7 : ¬(0x38 ≤ op ∧ op ≤ 0x3F) := by omega
  have h8 : 0x40 ≤ op ∧ op ≤ 0x7F := by omega
  simp only [opcodeCBh_operation]
  rw [if_neg h0, if_neg h1, if_neg h2, if_neg h3, if_neg h4, if_neg h5, if_neg h6, if_neg h7,
    if_pos h8, e]

theorem opcodeCBh_operation_RES {μ : Type} (s : LR35902 μ) (m n k : Nat)
    (hn : n < 8) (hk : k < 8) :
    opcodeCBh_operation (0x80 + 8 * n + k) k m s
      = assignRegisterByLowerBits k
          ((getRegisterByLowerBits k m s &&& bitNot (1 <<< n)) % 256) m s := by
  have e : (0x80 + 8 * n + k - 0x80) / 0x8 = n := by omega
  generalize hop : 0x80 + 8 * n + k = op at e ⊢
  have h0 : ¬(0x00 ≤ op ∧ op ≤ 0x07) := by omega
  have h1 : ¬(0x08 ≤ op ∧ op ≤ 0x0F) := by omega
  have h2 : ¬(0x10 ≤ op ∧ op ≤ 0x17) := by omega
  have h3 : ¬(0x18 ≤ op ∧ op ≤ 0x1F) := by omega
  have h4 : ¬(0x20 ≤ op ∧ op ≤ 0x27) := by omega
  have h5 : ¬(0x28 ≤ op ∧ op ≤ 0x2F) := by omega
  have h6 : ¬(0x30 ≤ op ∧ op ≤ 0x37) := by omega
  have h7 : ¬(0x38 ≤ op ∧ op ≤ 0x3F) := by omega
  have h8 : ¬(0x40 ≤ op ∧ op ≤ 0x7F) := by omega
  have h9 : 0x80 ≤ op ∧ op ≤ 0xBF := by omega
  simp only [opcodeCBh_operation, RES]
  rw [if_neg h0, if_neg h1, if_neg h2, if_neg h3, if_neg h4, if_neg h5, if_neg h6, if_neg h7,
    if_neg h8, if_pos h9, e]

theorem opcodeCBh_operation_SET {μ : Type} (s : LR35902 μ) (m n k : Nat)
    (hn : n < 8) (hk : k < 8) :
    opcodeCBh_operation (0xC0 + 8 * n + k) k m s
      = assignRegisterByLowerBits k
          ((getRegisterByLowerBits k m s ||| (1 <<< n)) % 256) m s := by
  have e : (0xC0 + 8 * n + k - 0xC0) / 0x8 = n := by omega
  generalize hop : 0xC0 + 8 * n + k = op at e ⊢
  have h0 : ¬(0x00 ≤ op ∧ op ≤ 0x07) := by omega
  have h1 : ¬(0x08 ≤ op ∧ op ≤ 0x0F) := by omega
  have h2 : ¬(0x10 ≤ op ∧ op ≤ 0x17) := by omega
  have h3 : ¬(0x18 ≤ op ∧ op ≤ 0x1F) := by omega
  have h4 : ¬(0x20 ≤ op ∧ op ≤ 0x27) := by omega
  have h5 : ¬(0x28 ≤ op ∧ op ≤ 0x2F) := by omega
  have h6 : ¬(0x30 ≤ op ∧ op ≤ 0x37) := by omega
  have h7 : ¬(0x38 ≤ op ∧ op ≤ 0x3F) := by omega
  have h8 : ¬(0x40 ≤ op ∧ op ≤ 0x7F) := by omega
  have h9 : ¬(0x80 ≤ op ∧ op ≤ 0xBF) := by omega
  have h10 : 0xC0 ≤ op ∧ op ≤ 0xFF := by omega
  simp only [opcodeCBh_operation, SET]
  rw [if_neg h0, if_neg h1, if_neg h2, if_neg h3, if_neg h4, if_neg h5, if_neg h6, if_neg h7,
    if_neg h8, if_neg h9, if_pos h10, e]

theorem getRegisterByLowerBits_assign {μ : Type} (s : LR35902 μ) (m v k : Nat) (hk : k < 8) :
    getRegisterByLowerBits k (assignRegisterByLowerBits k v m s).1
      (assignRegisterByLowerBits k v m s).2 = v % 256 := by
  interval_cases k <;> rfl

theorem assignRegisterByLowerBits_f {μ : Type} (s : LR35902 μ) (m v k : Nat) (hk : k < 8) :
    (assignRegisterByLowerBits k v m s).2.registers.f = s.registers.f := by
  interval_cases k <;> rfl

theorem getRegisterByLowerBits_BIT {μ : Type} (s : LR35902 μ) (m n r k : Nat) (hk : k < 8) :
    getRegisterByLowerBits k m (BIT n r s) = getRegisterByLowerBits k m s := by
  interval_cases k <;> rfl

set_option maxRecDepth 100000 in
/-- Round trips of the nibble swap and of the rotates on a byte. -/
theorem rotate_round_trips : ∀ v, v < 256 →
    (((((v >>> 4) ||| (v <<< 4) % 256) % 256) >>> 4)
      ||| ((((v >>> 4) ||| (v <<< 4) % 256) % 256) <<< 4) % 256) % 256 = v ∧
    decide ((((((v >>> 4) ||| (v <<< 4) % 256) % 256) >>> 4)
      ||| ((((v >>> 4) ||| (v <<< 4) % 256) % 256) <<< 4) % 256) % 256 = 0)
      = decide (((v >>> 4) ||| (v <<< 4) % 256) % 256 = 0) ∧
    (((((v <<< 1) ||| (bit1 ((v >>> 7) &&& 0x1)).toNat) % 256) >>> 1)
      ||| ((bit1 ((((v <<< 1) ||| (bit1 ((v >>> 7) &&& 0x1)).toNat) % 256) &&& 0x1)).toNat
        <<< 7)) % 256 = v ∧
    ∀ c : Bool,
      (((((v <<< 1) ||| (c.toNat &&& 0x1)) % 256) >>> 1)
        ||| ((bit1 (((v >>> 7) &&& 0x1) % 256)).toNat <<< 7)) % 256 = v ∧
      bit1 (((((v <<< 1) ||| (c.toNat &&& 0x1)) % 256) &&& 0x1) % 256) = c := by
  decide

/-- Claim C19: for every operand value `v` and carry `c`, `SWAP` applied twice returns
`v` and leaves the same flags as a single `SWAP` of `v`; `RLC` followed by `RRC` returns
`v`; `RL` followed by `RR` (the carry flag untouched in between) returns `v` and
restores the carry flag to `c`. -/
theorem SWAP_and_rotate_round_trips {μ : Type} (s : LR35902 μ) (v : Nat) (hv : v < 256) :
    ((SWAP (SWAP v s).1 (SWAP v s).2).1 = v ∧
      (SWAP (SWAP v s).1 (SWAP v s).2).2.registers.f = (SWAP v s).2.registers.f) ∧
    (RRC (RLC v s).1 (RLC v s).2).1 = v ∧
    ((RR (RL v s).1 (RL v s).2).1 = v ∧
      (RR (RL v s).1 (RL v s).2).2.registers.f.c = s.registers.f.c) := by
  obtain ⟨h1, h2, h3, h4⟩ := rotate_round_trips v hv
  refine ⟨⟨h1, ?_⟩, h3, (h4 s.registers.f.c).1, (h4 s.registers.f.c).2⟩
  exact congrArg
    (fun z => ({ s.registers.f with z := z, n := false, h := false, c := false } : Flags)) h2

theorem SWAP_and_rotate_round_trips_witness :
    (RR (RL 0xA5 (bootState (fun _ => 0x00))).1 (RL 0xA5 (bootState (fun _ => 0x00))).2).1
      = 0xA5 ∧
    (RR (RL 0xA5 (bootState (fun _ => 0x00))).1
        (RL 0xA5 (bootState (fun _ => 0x00))).2).2.registers.f.c
      = (bootState (fun _ => 0x00)).registers.f.c :=
  (SWAP_and_rotate_round_trips (bootState (fun _ => 0x00)) 0xA5 (by decide)).2.2

theorem lor_shiftLeft_8 (lo hi : Nat) (h : lo < 256) : lo ||| (hi <<< 8) = 256 * hi + lo := by
  have e := @Nat.mul_add_lt_is_or 8 lo h hi
  rw [Nat.lor_comm, Nat.shiftLeft_eq, Nat.mul_comm hi]
  exact e.symm

theorem Flags.raw_lt (f : Flags) : f.raw < 256 := by
  have hz := toNat_le_one f.z
  have hn := toNat_le_one f.n
  have hh := toNat_le_one f.h
  have hc := toNat_le_one f.c
  simp only [Flags.raw]
  omega

set_option maxRecDepth 100000 in
/-- The byte `F & 0xF0` written back to `F`. -/
theorem Flags.ofRaw_and_0xF0 : ∀ z n h c : Bool, ∀ u, u < 16 →
    Flags.ofRaw ((z.toNat * 128 + n.toNat * 64 + h.toNat * 32 + c.toNat * 16 + u) &&& 0xF0)
      = { z := z, n := n, h := h, c := c, unused := 0 } ∧
    (z.toNat * 128 + n.toNat * 64 + h.toNat * 32 + c.toNat * 16 + u) &&& 0xF0
      = z.toNat * 128 + n.toNat * 64 + h.toNat * 32 + c.toNat * 16 := by
  decide

theorem readSpPostInc_ramBus (m : Nat → Nat) (s : LR35902 (Nat → Nat)) (h : s.bus = ramBus m) :
    readSpPostInc s
      = (.ok (m (s.registers.sp % 65536) % 256), s.setSp (s.registers.sp + 1)) := by
  simp only [readSpPostInc, CPU.get_bind, CPU.modify_bind, busRead, setSp, h, Bus.read_ramBus]

/-- The statement `m_bus.write(--m_registers.sp, val, CPU)` on flat memory, the new
stack pointer being named `sp1`. -/
theorem writeSpPreDec_ramBus_at (f : LR35902 (Nat → Nat) → Nat) (m : Nat → Nat)
    (s : LR35902 (Nat → Nat)) (val sp1 : Nat) (h : s.bus = ramBus m)
    (h1 : (s.registers.sp + 65535) % 65536 = sp1)
    (hf : f (s.setSp (s.registers.sp + 65535)) = val) :
    writeSpPreDec f s = (.ok (),
      { s with
        registers := { s.registers with sp := sp1 }
        bus := ramBus (fun a => if a = sp1 then val % 256 else m a) }) := by
  subst h1
  exact writeSpPreDec_ramBus f m s val h hf

/-- The two pushes of a `PUSH rr` on flat memory; `sp1` and `sp2` name the two
successive values of the stack pointer. -/
theorem push_ramBus_at (f g : LR35902Registers → Nat)
    (hf : ∀ (r : LR35902Registers) (v : Nat), f { r with sp := v } = f r)
    (hg : ∀ (r : LR35902Registers) (v : Nat), g { r with sp := v } = g r)
    (m : Nat → Nat) (s : LR35902 (Nat → Nat)) (h : s.bus = ramBus m) (n sp1 sp2 : Nat)
    (h1 : (s.registers.sp + 65535) % 65536 = sp1) (h2 : (sp1 + 65535) % 65536 = sp2) :
    (do
      writeSpPreDec fun s1 => f s1.registers
      writeSpPreDec fun s1 => g s1.registers
      CPU.modify fun s1 => s1.setCyclesToWait n : CPU (Nat → Nat) Unit) s
    = (.ok (),
      { s with
        registers := { s.registers with sp := sp2 }
        bus := ramBus (fun a => if a = sp2 then g s.registers % 256
          else if a = sp1 then f s.registers % 256 else m a)
        cyclesToWait := n % 256 }) := by
  have e1 := writeSpPreDec_ramBus_at (fun s1 => f s1.registers) m s (f s.registers) sp1 h h1
    (hf _ _)
  rw [CPU.bind_ok _ _ _ _ _ e1]
  have e2 := writeSpPreDec_ramBus_at (fun s1 => g s1.registers)
    (fun a => if a = sp1 then f s.registers % 256 else m a)
    { s with
      registers := { s.registers with sp := sp1 }
      bus := ramBus (fun a => if a = sp1 then f s.registers % 256 else m a) }
    (g s.registers) sp2 rfl h2 ((hg _ _).trans (hg _ _))
  rw [CPU.bind_ok _ _ _ _ _ e2]
  rfl

/-- The two reads of a `POP rr` on flat memory; `a1` and `a2` name the two addresses
read and `sp2` the final stack pointer. -/
theorem pop_ramBus_at (k : Nat → Nat → CPU (Nat → Nat) Unit)
    (m : Nat → Nat) (s : LR35902 (Nat → Nat)) (h : s.bus = ramBus m) (a1 a2 sp2 : Nat)
    (h1 : s.registers.sp % 65536 = a1) (h2 : (s.registers.sp + 1) % 65536 = a2)
    (h3 : (a2 + 1) % 65536 = sp2) :
    (do
      let lo ← readSpPostInc
      let hi ← readSpPostInc
      k lo hi : CPU (Nat → Nat) Unit) s
    = k (m a1 % 256) (m a2 % 256) { s with registers := { s.registers with sp := sp2 } } := by
  subst h1 h2 h3
  rw [CPU.bind_ok _ _ _ _ _ (readSpPostInc_ramBus m s h)]
  rw [CPU.bind_ok _ _ _ _ _ (readSpPostInc_ramBus m (s.setSp (s.registers.sp + 1)) h)]
  simp only [setSp, Nat.mod_mod]

/-- A `POP` executed right after a `PUSH` on flat memory reads back the two bytes
written and restores `SP`. -/
theorem push_pop_ramBus_at (f g : LR35902Registers → Nat)
    (hf : ∀ (r : LR35902Registers) (v : Nat), f { r with sp := v } = f r)
    (hg : ∀ (r : LR35902Registers) (v : Nat), g { r with sp := v } = g r)
    (k : Nat → Nat → CPU (Nat → Nat) Unit)
    (m : Nat → Nat) (s : LR35902 (Nat → Nat)) (h : s.bus = ramBus m) (n sp1 sp2 : Nat)
    (h1 : (s.registers.sp + 65535) % 65536 = sp1) (h2 : (sp1 + 65535) % 65536 = sp2)
    (hsp : s.registers.sp < 65536) :
    (do
      let lo ← readSpPostInc
      let hi ← readSpPostInc
      k lo hi : CPU (Nat → Nat) Unit)
      ((do
        writeSpPreDec fun s1 => f s1.registers
        writeSpPreDec fun s1 => g s1.registers
        CPU.modify fun s1 => s1.setCyclesToWait n : CPU (Nat → Nat) Unit) s).2
    = k (g s.registers % 256) (f s.registers % 256)
        { s with
          bus := ramBus (fun a => if a = sp2 then g s.registers % 256
            else if a = sp1 then f s.registers % 256 else m a)
          cyclesToWait := n % 256 } := by
  rw [push_ramBus_at f g hf hg m s h n sp1 sp2 h1 h2]
  have e1 : sp2 % 65536 = sp2 := by omega
  have e2 : (sp2 + 1) % 65536 = sp1 := by omega
  have e3 : (sp1 + 1) % 65536 = s.registers.sp := by omega
  have e4 : ¬ (sp1 = sp2) := by omega
  rw [pop_ramBus_at k _ _ rfl sp2 sp1 s.registers.sp e1 e2 e3]
  dsimp only
  rw [if_pos rfl, if_neg e4, if_pos rfl, Nat.mod_mod, Nat.mod_mod]

/-- The results of the two pushes of a `PUSH rr` on flat memory. -/
theorem push_ramBus_facts (f g : LR35902Registers → Nat)
    (hf : ∀ (r : LR35902Registers) (v : Nat), f { r with sp := v } = f r)
    (hg : ∀ (r : LR35902Registers) (v : Nat), g { r with sp := v } = g r)
    (m : Nat → Nat) (s : LR35902 (Nat → Nat)) (h : s.bus = ramBus m) (n : Nat) :
    ((do
      writeSpPreDec fun s1 => f s1.registers
      writeSpPreDec fun s1 => g s1.registers
      CPU.modify fun s1 => s1.setCyclesToWait n : CPU (Nat → Nat) Unit) s).1 = .ok () ∧
    ((do
      writeSpPreDec fun s1 => f s1.registers
      writeSpPreDec fun s1 => g s1.registers
      CPU.modify fun s1 => s1.setCyclesToWait n : CPU (Nat → Nat) Unit) s).2.registers.sp
      = (s.registers.sp + 65534) % 65536 ∧
    ((do
      writeSpPreDec fun s1 => f s1.registers
      writeSpPreDec fun s1 => g s1.registers
      CPU.modify fun s1 => s1.setCyclesToWait n : CPU (Nat → Nat) Unit) s).2.bus.store
        ((s.registers.sp + 65535) % 65536) = f s.registers % 256 ∧
    ((do
      writeSpPreDec fun s1 => f s1.registers
      writeSpPreDec fun s1 => g s1.registers
      CPU.modify fun s1 => s1.setCyclesToWait n : CPU (Nat → Nat) Unit) s).2.bus.store
        ((s.registers.sp + 65534) % 65536) = g s.registers % 256 := by
  obtain ⟨sp1, h1⟩ : ∃ x, (s.registers.sp + 65535) % 65536 = x := ⟨_, rfl⟩
  obtain ⟨sp2, h2⟩ : ∃ x, (sp1 + 65535) % 65536 = x := ⟨_, rfl⟩
  have e2 : (s.registers.sp + 65534) % 65536 = sp2 := by omega
  have e4 : ¬ (sp1 = sp2) := by omega
  rw [push_ramBus_at f g hf hg m s h n sp1 sp2 h1 h2, h1, e2]
  refine ⟨rfl, rfl, ?_, ?_⟩
  · show (if sp1 = sp2 then g s.registers % 256
      else if sp1 = sp1 then f s.registers % 256 else m sp1) = _
    rw [if_neg e4, if_pos rfl]
  · show (if sp2 = sp2 then g s.registers % 256
      else if sp2 = sp1 then f s.registers % 256 else m sp2) = _
    rw [if_pos rfl]

theorem pair_bytes (hi lo : Nat) :
    (hi % 256 * 256 + lo % 256) / 256 = hi % 256 ∧ (hi % 256 * 256 + lo % 256) % 256 = lo % 256 := by
  omega

/-- The pair rebuilt by a `POP rr` from the low byte `lo` and the high byte `hi`. -/
theorem pair_rebuilt (lo hi : Nat) :
    ((lo % 256 ||| (hi % 256) <<< 8) % 65536 / 256 % 256) % 256 * 256
      + ((lo % 256 ||| (hi % 256) <<< 8) % 65536 % 256) % 256 = hi % 256 * 256 + lo % 256 := by
  rw [lor_shiftLeft_8 _ _ (Nat.mod_lt _ (by decide))]
  omega

/-- The register pair `AF` rebuilt by `POP AF` from the two bytes written by `PUSH AF`. -/
theorem setAf_masked (r : LR35902Registers) :
    (r.setAf ((((r.af % 256) &&& 0xF0) ||| (((r.af >>> 8) % 256) <<< 8)) % 65536)).f
      = { r.f with unused := 0 } ∧
    (r.setAf ((((r.af % 256) &&& 0xF0) ||| (((r.af >>> 8) % 256) <<< 8)) % 65536)).a = r.a % 256 ∧
    (r.setAf ((((r.af % 256) &&& 0xF0) ||| (((r.af >>> 8) % 256) <<< 8)) % 65536)).af
      = r.af / 16 * 16 := by
  have hraw := Flags.raw_lt r.f
  have hlo : r.af % 256 = r.f.raw := by
    simp only [LR35902Registers.af]
    omega
  have hhi : (r.af >>> 8) % 256 = r.a % 256 := by
    rw [Nat.shiftRight_eq_div_pow]
    simp only [LR35902Registers.af]
    omega
  obtain ⟨hf, hk⟩ := Flags.ofRaw_and_0xF0 r.f.z r.f.n r.f.h r.f.c (r.f.unused % 16)
    (Nat.mod_lt _ (by decide))
  have hz := toNat_le_one r.f.z
  have hn := toNat_le_one r.f.n
  have hh := toNat_le_one r.f.h
  have hc := toNat_le_one r.f.c
  have hraw2 : r.f.raw = r.f.z.toNat * 128 + r.f.n.toNat * 64 + r.f.h.toNat * 32
      + r.f.c.toNat * 16 + r.f.unused % 16 := rfl
  rw [hlo, hhi, hraw2, hk]
  rw [lor_shiftLeft_8 _ _ (by omega)]
  have hv : (256 * (r.a % 256) + (r.f.z.toNat * 128 + r.f.n.toNat * 64 + r.f.h.toNat * 32
      + r.f.c.toNat * 16)) % 65536 % 256
      = (r.f.z.toNat * 128 + r.f.n.toNat * 64 + r.f.h.toNat * 32 + r.f.c.toNat * 16
        + r.f.unused % 16) &&& 0xF0 := by
    rw [hk]
    omega
  have hfin : (LR35902Registers.setAf r ((256 * (r.a % 256) + (r.f.z.toNat * 128
      + r.f.n.toNat * 64 + r.f.h.toNat * 32 + r.f.c.toNat * 16)) % 65536)).f
      = { r.f with unused := 0 } := by
    simp only [LR35902Registers.setAf]
    rw [hv, hf]
  refine ⟨hfin, ?_, ?_⟩
  · simp only [LR35902Registers.setAf]
    omega
  · have e : (LR35902Registers.setAf r ((256 * (r.a % 256) + (r.f.z.toNat * 128
        + r.f.n.toNat * 64 + r.f.h.toNat * 32 + r.f.c.toNat * 16)) % 65536)).af
        = (LR35902Registers.setAf r ((256 * (r.a % 256) + (r.f.z.toNat * 128
          + r.f.n.toNat * 64 + r.f.h.toNat * 32 + r.f.c.toNat * 16)) % 65536)).a % 256 * 256
          + (LR35902Registers.setAf r ((256 * (r.a % 256) + (r.f.z.toNat * 128
            + r.f.n.toNat * 64 + r.f.h.toNat * 32 + r.f.c.toNat * 16)) % 65536)).f.raw := rfl
    rw [e, hfin]
    simp only [LR35902Registers.setAf, LR35902Registers.af, Flags.raw]
    omega

/-- Claim C20: on flat read/write memory, `PUSH rr` writes the high byte of `rr` at
`SP-1` and the low byte at `SP-2` and leaves `SP = SP-2` (mod 2^16); `POP rr` takes the
low byte from `SP` and the high byte from `SP+1` and leaves `SP = SP+2`; for `rr` in
`BC`, `DE`, `HL`, `PUSH rr` followed by `POP rr` leaves `rr` and `SP` unchanged;
`PUSH AF` followed by `POP AF` leaves `SP` unchanged and `AF` equal to its original
value with the low nibble (bits 3..0 of `F`) cleared. -/
theorem PUSH_POP_round_trip (s : LR35902 (Nat → Nat)) (m : Nat → Nat)
    (h : s.bus = ramBus m) (hsp : s.registers.sp < 65536) :
    -- `PUSH BC`, `PUSH DE`, `PUSH HL`, `PUSH AF`
    ((opcodeC5h s).1 = .ok () ∧
      (opcodeC5h s).2.registers.sp = (s.registers.sp + 65534) % 65536 ∧
      (opcodeC5h s).2.bus.store ((s.registers.sp + 65535) % 65536) = s.registers.bc / 256 ∧
      (opcodeC5h s).2.bus.store ((s.registers.sp + 65534) % 65536) = s.registers.bc % 256) ∧
    ((opcodeD5h s).1 = .ok () ∧
      (opcodeD5h s).2.registers.sp = (s.registers.sp + 65534) % 65536 ∧
      (opcodeD5h s).2.bus.store ((s.registers.sp + 65535) % 65536) = s.registers.de / 256 ∧
      (opcodeD5h s).2.bus.store ((s.registers.sp + 65534) % 65536) = s.registers.de % 256) ∧
    ((opcodeE5h s).1 = .ok () ∧
      (opcodeE5h s).2.registers.sp = (s.registers.sp + 65534) % 65536 ∧
      (opcodeE5h s).2.bus.store ((s.registers.sp + 65535) % 65536) = s.registers.hl / 256 ∧
      (opcodeE5h s).2.bus.store ((s.registers.sp + 65534) % 65536) = s.registers.hl % 256) ∧
    ((opcodeF5h s).1 = .ok () ∧
      (opcodeF5h s).2.registers.sp = (s.registers.sp + 65534) % 65536 ∧
      (opcodeF5h s).2.bus.store ((s.registers.sp + 65535) % 65536) = s.registers.af / 256 ∧
      (opcodeF5h s).2.bus.store ((s.registers.sp + 65534) % 65536) = s.registers.af % 256) ∧
    -- `POP BC`, `POP DE`, `POP HL`, `POP AF`
    ((opcodeC1h s).1 = .ok () ∧
      (opcodeC1h s).2.registers.sp = (s.registers.sp + 2) % 65536 ∧
      (opcodeC1h s).2.registers.bc
        = (m ((s.registers.sp + 1) % 65536) % 256) * 256 + m s.registers.sp % 256) ∧
    ((opcodeD1h s).1 = .ok () ∧
      (opcodeD1h s).2.registers.sp = (s.registers.sp + 2) % 65536 ∧
      (opcodeD1h s).2.registers.de
        = (m ((s.registers.sp + 1) % 65536) % 256) * 256 + m s.registers.sp % 256) ∧
    ((opcodeE1h s).1 = .ok () ∧
      (opcodeE1h s).2.registers.sp = (s.registers.sp + 2) % 65536 ∧
      (opcodeE1h s).2.registers.hl
        = (m ((s.registers.sp + 1) % 65536) % 256) * 256 + m s.registers.sp % 256) ∧
    ((opcodeF1h s).1 = .ok () ∧
      (opcodeF1h s).2.registers.sp = (s.registers.sp + 2) % 65536 ∧
      (opcodeF1h s).2.registers.a = m ((s.registers.sp + 1) % 65536) % 256 ∧
      (opcodeF1h s).2.registers.f = Flags.ofRaw ((m s.registers.sp % 256) &&& 0xF0)) ∧
    -- `PUSH rr` followed by `POP rr`
    ((opcodeC1h (opcodeC5h s).2).1 = .ok () ∧
      (opcodeC1h (opcodeC5h s).2).2.registers.bc = s.registers.bc ∧
      (opcodeC1h (opcodeC5h s).2).2.registers.sp = s.registers.sp) ∧
    ((opcodeD1h (opcodeD5h s).2).1 = .ok () ∧
      (opcodeD1h (opcodeD5h s).2).2.registers.de = s.registers.de ∧
      (opcodeD1h (opcodeD5h s).2).2.registers.sp = s.registers.sp) ∧
    ((opcodeE1h (opcodeE5h s).2).1 = .ok () ∧
      (opcodeE1h (opcodeE5h s).2).2.registers.hl = s.registers.hl ∧
      (opcodeE1h (opcodeE5h s).2).2.registers.sp = s.registers.sp) ∧
    -- `PUSH AF` followed by `POP AF`
    ((opcodeF1h (opcodeF5h s).2).1 = .ok () ∧
      (opcodeF1h (opcodeF5h s).2).2.registers.af = s.registers.af / 16 * 16 ∧
      (opcodeF1h (opcodeF5h s).2).2.registers.f = { s.registers.f with unused := 0 } ∧
      (opcodeF1h (opcodeF5h s).2).2.registers.sp = s.registers.sp) := by
  obtain ⟨sp1, h1⟩ : ∃ x, (s.registers.sp + 65535) % 65536 = x := ⟨_, rfl⟩
  obtain ⟨sp2, h2⟩ : ∃ x, (sp1 + 65535) % 65536 = x := ⟨_, rfl⟩
  obtain ⟨a2, h3⟩ : ∃ x, (s.registers.sp + 1) % 65536 = x := ⟨_, rfl⟩
  obtain ⟨sp3, h4⟩ : ∃ x, (a2 + 1) % 65536 = x := ⟨_, rfl⟩
  have h0 : s.registers.sp % 65536 = s.registers.sp := Nat.mod_eq_of_lt hsp
  have e5 : (s.registers.sp + 2) % 65536 = sp3 := by omega
  have hraw := Flags.raw_lt s.registers.f
  have hafhi : (s.registers.af >>> 8) % 256 = s.registers.af / 256 := by
    rw [Nat.shiftRight_eq_div_pow]
    simp only [LR35902Registers.af]
    omega
  have hafdef : s.registers.af = s.registers.a % 256 * 256 + s.registers.f.raw := rfl
  refine ⟨?_, ?_, ?_, ?_, ?_, ?_, ?_, ?_, ?_, ?_, ?_, ?_⟩
  · have e := push_ramBus_facts (fun r => r.b) (fun r => r.c) (fun _ _ => rfl) (fun _ _ => rfl)
      m s h 16
    exact ⟨e.1, e.2.1, e.2.2.1.trans (pair_bytes _ _).1.symm, e.2.2.2.trans (pair_bytes _ _).2.symm⟩
  · have e := push_ramBus_facts (fun r => r.d) (fun r => r.e) (fun _ _ => rfl) (fun _ _ => rfl)
      m s h 16
    exact ⟨e.1, e.2.1, e.2.2.1.trans (pair_bytes _ _).1.symm, e.2.2.2.trans (pair_bytes _ _).2.symm⟩
  · have e := push_ramBus_facts (fun r => r.h) (fun r => r.l) (fun _ _ => rfl) (fun _ _ => rfl)
      m s h 16
    exact ⟨e.1, e.2.1, e.2.2.1.trans (pair_bytes _ _).1.symm, e.2.2.2.trans (pair_bytes _ _).2.symm⟩
  · have e := push_ramBus_facts (fun r => r.af >>> 8) (fun r => r.af) (fun _ _ => rfl)
      (fun _ _ => rfl) m s h 16
    refine ⟨e.1, e.2.1, e.2.2.1.trans hafhi, e.2.2.2⟩
  · have e : opcodeC1h s = _ := pop_ramBus_at
      (fun lo hi => do
        CPU.modify fun s1 => s1.setBc (lo ||| (hi <<< 8))
        CPU.modify fun s1 => s1.setCyclesToWait 12)
      m s h s.registers.sp a2 sp3 h0 h3 h4
    rw [e, e5, h3]
    exact ⟨rfl, rfl, pair_rebuilt _ _⟩
  · have e : opcodeD1h s = _ := pop_ramBus_at
      (fun lo hi => do
        CPU.modify fun s1 => s1.setDe (lo ||| (hi <<< 8))
        CPU.modify fun s1 => s1.setCyclesToWait 12)
      m s h s.registers.sp a2 sp3 h0 h3 h4
    rw [e, e5, h3]
    exact ⟨rfl, rfl, pair_rebuilt _ _⟩
  · have e : opcodeE1h s = _ := pop_ramBus_at
      (fun lo hi => do
        CPU.modify fun s1 => s1.setHl (lo ||| (hi <<< 8))
        CPU.modify fun s1 => s1.setCyclesToWait 12)
      m s h s.registers.sp a2 sp3 h0 h3 h4
    rw [e, e5, h3]
    exact ⟨rfl, rfl, pair_rebuilt _ _⟩
  · have e : opcodeF1h s = _ := pop_ramBus_at
      (fun lo hi => do
        CPU.modify fun s1 => s1.setAf ((lo &&& 0xF0) ||| (hi <<< 8))
        CPU.modify fun s1 => s1.setCyclesToWait 12)
      m s h s.registers.sp a2 sp3 h0 h3 h4
    have hlt : (m s.registers.sp % 256) &&& 0xF0 < 256 :=
      Nat.lt_of_le_of_lt Nat.and_le_left (Nat.mod_lt _ (by decide))
    have hv := lor_shiftLeft_8 ((m s.registers.sp % 256) &&& 0xF0) (m a2 % 256) hlt
    rw [e, e5, h3]
    refine ⟨rfl, rfl, ?_, ?_⟩
    · show ((((m s.registers.sp % 256) &&& 0xF0) ||| ((m a2 % 256) <<< 8)) % 65536) / 256 % 256 = _
      rw [hv]
      omega
    · show Flags.ofRaw (((((m s.registers.sp % 256) &&& 0xF0) ||| ((m a2 % 256) <<< 8)) % 65536)
        % 256) = _
      rw [hv]
      exact congrArg Flags.ofRaw (by omega)
  · have e : opcodeC1h (opcodeC5h s).2 = _ := push_pop_ramBus_at (fun r => r.b) (fun r => r.c)
      (fun _ _ => rfl) (fun _ _ => rfl)
      (fun lo hi => do
        CPU.modify fun s1 => s1.setBc (lo ||| (hi <<< 8))
        CPU.modify fun s1 => s1.setCyclesToWait 12)
      m s h 16 sp1 sp2 h1 h2 hsp
    rw [e]
    exact ⟨rfl, pair_rebuilt _ _, rfl⟩
  · have e : opcodeD1h (opcodeD5h s).2 = _ := push_pop_ramBus_at (fun r => r.d) (fun r => r.e)
      (fun _ _ => rfl) (fun _ _ => rfl)
      (fun lo hi => do
        CPU.modify fun s1 => s1.setDe (lo ||| (hi <<< 8))
        CPU.modify fun s1 => s1.setCyclesToWait 12)
      m s h 16 sp1 sp2 h1 h2 hsp
    rw [e]
    exact ⟨rfl, pair_rebuilt _ _, rfl⟩
  · have e : opcodeE1h (opcodeE5h s).2 = _ := push_pop_ramBus_at (fun r => r.h) (fun r => r.l)
      (fun _ _ => rfl) (fun _ _ => rfl)
      (fun lo hi => do
        CPU.modify fun s1 => s1.setHl (lo ||| (hi <<< 8))
        CPU.modify fun s1 => s1.setCyclesToWait 12)
      m s h 16 sp1 sp2 h1 h2 hsp
    rw [e]
    exact ⟨rfl, pair_rebuilt _ _, rfl⟩
  · have e : opcodeF1h (opcodeF5h s).2 = _ := push_pop_ramBus_at (fun r => r.af >>> 8)
      (fun r => r.af) (fun _ _ => rfl) (fun _ _ => rfl)
      (fun lo hi => do
        CPU.modify fun s1 => s1.setAf ((lo &&& 0xF0) ||| (hi <<< 8))
        CPU.modify fun s1 => s1.setCyclesToWait 12)
      m s h 16 sp1 sp2 h1 h2 hsp
    obtain ⟨k1, k2, k3⟩ := setAf_masked s.registers
    rw [e]
    exact ⟨rfl, k3, k1, rfl⟩

theorem PUSH_POP_round_trip_witness :
    (opcodeC1h (opcodeC5h (bootState (fun _ => 0x00))).2).1 = .ok () ∧
    (opcodeC1h (opcodeC5h (bootState (fun _ => 0x00))).2).2.registers.bc
      = (bootState (fun _ => 0x00)).registers.bc ∧
    (opcodeC1h (opcodeC5h (bootState (fun _ => 0x00))).2).2.registers.sp
      = (bootState (fun _ => 0x00)).registers.sp :=
  (PUSH_POP_round_trip (bootState (fun _ => 0x00)) (fun _ => 0x00) rfl
    (by decide)).2.2.2.2.2.2.2.2.1

/-! ## The unused bits of `F` and the interrupt controller across the instruction set -/

section keeps
set_option linter.unusedTactic false
set_option linter.unreachableTactic false
variable {μ : Type}

theorem guarded_setA (s : LR35902 μ) (v : Nat) : (s.setA v).guarded = s.guarded := Eq.trans rfl rfl
theorem guarded_setB (s : LR35902 μ) (v : Nat) : (s.setB v).guarded = s.guarded := Eq.trans rfl rfl
theorem guarded_setC (s : LR35902 μ) (v : Nat) : (s.setC v).guarded = s.guarded := Eq.trans rfl rfl
theorem guarded_setD (s : LR35902 μ) (v : Nat) : (s.setD v).guarded = s.guarded := Eq.trans rfl rfl
theorem guarded_setE (s : LR35902 μ) (v : Nat) : (s.setE v).guarded = s.guarded := Eq.trans rfl rfl
theorem guarded_setH (s : LR35902 μ) (v : Nat) : (s.setH v).guarded = s.guarded := Eq.trans rfl rfl
theorem guarded_setL (s : LR35902 μ) (v : Nat) : (s.setL v).guarded = s.guarded := Eq.trans rfl rfl
theorem guarded_setSp (s : LR35902 μ) (v : Nat) : (s.setSp v).guarded = s.guarded := Eq.trans rfl rfl
theorem guarded_setPc (s : LR35902 μ) (v : Nat) : (s.setPc v).guarded = s.guarded := Eq.trans rfl rfl
theorem guarded_setBc (s : LR35902 μ) (v : Nat) : (s.setBc v).guarded = s.guarded := Eq.trans rfl rfl
theorem guarded_setDe (s : LR35902 μ) (v : Nat) : (s.setDe v).guarded = s.guarded := Eq.trans rfl rfl
theorem guarded_setHl (s : LR35902 μ) (v : Nat) : (s.setHl v).guarded = s.guarded := Eq.trans rfl rfl
theorem guarded_setFz (s : LR35902 μ) (v : Bool) : (s.setFz v).guarded = s.guarded := Eq.trans rfl rfl
theorem guarded_setFn (s : LR35902 μ) (v : Bool) : (s.setFn v).guarded = s.guarded := Eq.trans rfl rfl
theorem guarded_setFh (s : LR35902 μ) (v : Bool) : (s.setFh v).guarded = s.guarded := Eq.trans rfl rfl
theorem guarded_setFc (s : LR35902 μ) (v : Bool) : (s.setFc v).guarded = s.guarded := Eq.trans rfl rfl
theorem guarded_setCyclesToWait (s : LR35902 μ) (v : Nat) :
    (s.setCyclesToWait v).guarded = s.guarded := Eq.trans rfl rfl
theorem guarded_setHalted (s : LR35902 μ) (v : Bool) : (s.setHalted v).guarded = s.guarded := Eq.trans rfl rfl
theorem guarded_setStopped (s : LR35902 μ) (v : Bool) :
    (s.setStopped v).guarded = s.guarded := Eq.trans rfl rfl
theorem guarded_bus (s : LR35902 μ) (b : Bus μ) : ({ s with bus := b } : LR35902 μ).guarded
    = s.guarded := Eq.trans rfl rfl

theorem guarded_RLC (d : Nat) (s : LR35902 μ) : (RLC d s).2.guarded = s.guarded := by
  simp only [RLC, guarded_setA, guarded_setB, guarded_setC, guarded_setD, guarded_setE, guarded_setH, guarded_setL, guarded_setSp, guarded_setPc, guarded_setBc, guarded_setDe, guarded_setHl, guarded_setFz, guarded_setFn, guarded_setFh, guarded_setFc, guarded_setCyclesToWait, guarded_setHalted, guarded_setStopped]
theorem guarded_RRC (d : Nat) (s : LR35902 μ) : (RRC d s).2.guarded = s.guarded := by
  simp only [RRC, guarded_setA, guarded_setB, guarded_setC, guarded_setD, guarded_setE, guarded_setH, guarded_setL, guarded_setSp, guarded_setPc, guarded_setBc, guarded_setDe, guarded_setHl, guarded_setFz, guarded_setFn, guarded_setFh, guarded_setFc, guarded_setCyclesToWait, guarded_setHalted, guarded_setStopped]
theorem guarded_RL (d : Nat) (s : LR35902 μ) : (RL d s).2.guarded = s.guarded := by
  simp only [RL, guarded_setA, guarded_setB, guarded_setC, guarded_setD, guarded_setE, guarded_setH, guarded_setL, guarded_setSp, guarded_setPc, guarded_setBc, guarded_setDe, guarded_setHl, guarded_setFz, guarded_setFn, guarded_setFh, guarded_setFc, guarded_setCyclesToWait, guarded_setHalted, guarded_setStopped]
theorem guarded_RR (d : Nat) (s : LR35902 μ) : (RR d s).2.guarded = s.guarded := by
  simp only [RR, guarded_setA, guarded_setB, guarded_setC, guarded_setD, guarded_setE, guarded_setH, guarded_setL, guarded_setSp, guarded_setPc, guarded_setBc, guarded_setDe, guarded_setHl, guarded_setFz, guarded_setFn, guarded_setFh, guarded_setFc, guarded_setCyclesToWait, guarded_setHalted, guarded_setStopped]
theorem guarded_SLA (d : Nat) (s : LR35902 μ) : (SLA d s).2.guarded = s.guarded := by
  simp only [SLA, guarded_setA, guarded_setB, guarded_setC, guarded_setD, guarded_setE, guarded_setH, guarded_setL, guarded_setSp, guarded_setPc, guarded_setBc, guarded_setDe, guarded_setHl, guarded_setFz, guarded_setFn, guarded_setFh, guarded_setFc, guarded_setCyclesToWait, guarded_setHalted, guarded_setStopped]
theorem guarded_SRA (d : Nat) (s : LR35902 μ) : (SRA d s).2.guarded = s.guarded := by
  simp only [SRA, guarded_setA, guarded_setB, guarded_setC, guarded_setD, guarded_setE, guarded_setH, guarded_setL, guarded_setSp, guarded_setPc, guarded_setBc, guarded_setDe, guarded_setHl, guarded_setFz, guarded_setFn, guarded_setFh, guarded_setFc, guarded_setCyclesToWait, guarded_setHalted, guarded_setStopped]
theorem guarded_SWAP (d : Nat) (s : LR35902 μ) : (SWAP d s).2.guarded = s.guarded := by
  simp only [SWAP, guarded_setA, guarded_setB, guarded_setC, guarded_setD, guarded_setE, guarded_setH, guarded_setL, guarded_setSp, guarded_setPc, guarded_setBc, guarded_setDe, guarded_setHl, guarded_setFz, guarded_setFn, guarded_setFh, guarded_setFc, guarded_setCyclesToWait, guarded_setHalted, guarded_setStopped]
theorem guarded_SRL (d : Nat) (s : LR35902 μ) : (SRL d s).2.guarded = s.guarded := by
  simp only [SRL, guarded_setA, guarded_setB, guarded_setC, guarded_setD, guarded_setE, guarded_setH, guarded_setL, guarded_setSp, guarded_setPc, guarded_setBc, guarded_setDe, guarded_setHl, guarded_setFz, guarded_setFn, guarded_setFh, guarded_setFc, guarded_setCyclesToWait, guarded_setHalted, guarded_setStopped]
theorem guarded_BIT (n d : Nat) (s : LR35902 μ) : (BIT n d s).guarded = s.guarded := by
  simp only [BIT, guarded_setA, guarded_setB, guarded_setC, guarded_setD, guarded_setE, guarded_setH, guarded_setL, guarded_setSp, guarded_setPc, guarded_setBc, guarded_setDe, guarded_setHl, guarded_setFz, guarded_setFn, guarded_setFh, guarded_setFc, guarded_setCyclesToWait, guarded_setHalted, guarded_setStopped]
theorem guarded_RES (n d : Nat) (s : LR35902 μ) : (RES n d s).2.guarded = s.guarded := by
  simp only [RES, guarded_setA, guarded_setB, guarded_setC, guarded_setD, guarded_setE, guarded_setH, guarded_setL, guarded_setSp, guarded_setPc, guarded_setBc, guarded_setDe, guarded_setHl, guarded_setFz, guarded_setFn, guarded_setFh, guarded_setFc, guarded_setCyclesToWait, guarded_setHalted, guarded_setStopped]
theorem guarded_SET (n d : Nat) (s : LR35902 μ) : (SET n d s).2.guarded = s.guarded := by
  simp only [SET, guarded_setA, guarded_setB, guarded_setC, guarded_setD, guarded_setE, guarded_setH, guarded_setL, guarded_setSp, guarded_setPc, guarded_setBc, guarded_setDe, guarded_setHl, guarded_setFz, guarded_setFn, guarded_setFh, guarded_setFc, guarded_setCyclesToWait, guarded_setHalted, guarded_setStopped]
theorem guarded_ADD_A (v : Nat) (s : LR35902 μ) : (ADD_A v s).guarded = s.guarded := by
  simp only [ADD_A, guarded_setA, guarded_setB, guarded_setC, guarded_setD, guarded_setE, guarded_setH, guarded_setL, guarded_setSp, guarded_setPc, guarded_setBc, guarded_setDe, guarded_setHl, guarded_setFz, guarded_setFn, guarded_setFh, guarded_setFc, guarded_setCyclesToWait, guarded_setHalted, guarded_setStopped]
theorem guarded_ADC_A (v : Nat) (s : LR35902 μ) : (ADC_A v s).guarded = s.guarded := by
  simp only [ADC_A, guarded_setA, guarded_setB, guarded_setC, guarded_setD, guarded_setE, guarded_setH, guarded_setL, guarded_setSp, guarded_setPc, guarded_setBc, guarded_setDe, guarded_setHl, guarded_setFz, guarded_setFn, guarded_setFh, guarded_setFc, guarded_setCyclesToWait, guarded_setHalted, guarded_setStopped]
theorem guarded_SUB_A (v : Nat) (s : LR35902 μ) : (SUB_A v s).guarded = s.guarded := by
  simp only [SUB_A, guarded_setA, guarded_setB, guarded_setC, guarded_setD, guarded_setE, guarded_setH, guarded_setL, guarded_setSp, guarded_setPc, guarded_setBc, guarded_setDe, guarded_setHl, guarded_setFz, guarded_setFn, guarded_setFh, guarded_setFc, guarded_setCyclesToWait, guarded_setHalted, guarded_setStopped]
theorem guarded_SBC_A (v : Nat) (s : LR35902 μ) : (SBC_A v s).guarded = s.guarded := by
  simp only [SBC_A, guarded_setA, guarded_setB, guarded_setC, guarded_setD, guarded_setE, guarded_setH, guarded_setL, guarded_setSp, guarded_setPc, guarded_setBc, guarded_setDe, guarded_setHl, guarded_setFz, guarded_setFn, guarded_setFh, guarded_setFc, guarded_setCyclesToWait, guarded_setHalted, guarded_setStopped]
theorem guarded_AND_A (v : Nat) (s : LR35902 μ) : (AND_A v s).guarded = s.guarded := by
  simp only [AND_A, guarded_setA, guarded_setB, guarded_setC, guarded_setD, guarded_setE, guarded_setH, guarded_setL, guarded_setSp, guarded_setPc, guarded_setBc, guarded_setDe, guarded_setHl, guarded_setFz, guarded_setFn, guarded_setFh, guarded_setFc, guarded_setCyclesToWait, guarded_setHalted, guarded_setStopped]
theorem guarded_XOR_A (v : Nat) (s : LR35902 μ) : (XOR_A v s).guarded = s.guarded := by
  simp only [XOR_A, guarded_setA, guarded_setB, guarded_setC, guarded_setD, guarded_setE, guarded_setH, guarded_setL, guarded_setSp, guarded_setPc, guarded_setBc, guarded_setDe, guarded_setHl, guarded_setFz, guarded_setFn, guarded_setFh, guarded_setFc, guarded_setCyclesToWait, guarded_setHalted, guarded_setStopped]
theorem guarded_OR_A (v : Nat) (s : LR35902 μ) : (OR_A v s).guarded = s.guarded := by
  simp only [OR_A, guarded_setA, guarded_setB, guarded_setC, guarded_setD, guarded_setE, guarded_setH, guarded_setL, guarded_setSp, guarded_setPc, guarded_setBc, guarded_setDe, guarded_setHl, guarded_setFz, guarded_setFn, guarded_setFh, guarded_setFc, guarded_setCyclesToWait, guarded_setHalted, guarded_setStopped]
theorem guarded_CP_A (v : Nat) (s : LR35902 μ) : (CP_A v s).guarded = s.guarded := by
  simp only [CP_A, guarded_setA, guarded_setB, guarded_setC, guarded_setD, guarded_setE, guarded_setH, guarded_setL, guarded_setSp, guarded_setPc, guarded_setBc, guarded_setDe, guarded_setHl, guarded_setFz, guarded_setFn, guarded_setFh, guarded_setFc, guarded_setCyclesToWait, guarded_setHalted, guarded_setStopped]
theorem guarded_INC_r8 (v : Nat) (s : LR35902 μ) : (INC_r8 v s).2.guarded = s.guarded := by
  simp only [INC_r8, guarded_setA, guarded_setB, guarded_setC, guarded_setD, guarded_setE, guarded_setH, guarded_setL, guarded_setSp, guarded_setPc, guarded_setBc, guarded_setDe, guarded_setHl, guarded_setFz, guarded_setFn, guarded_setFh, guarded_setFc, guarded_setCyclesToWait, guarded_setHalted, guarded_setStopped]
theorem guarded_DEC_r8 (v : Nat) (s : LR35902 μ) : (DEC_r8 v s).2.guarded = s.guarded := by
  simp only [DEC_r8, guarded_setA, guarded_setB, guarded_setC, guarded_setD, guarded_setE, guarded_setH, guarded_setL, guarded_setSp, guarded_setPc, guarded_setBc, guarded_setDe, guarded_setHl, guarded_setFz, guarded_setFn, guarded_setFh, guarded_setFc, guarded_setCyclesToWait, guarded_setHalted, guarded_setStopped]
theorem guarded_ADD_HL_r16 (reg : LR35902Registers → Nat) (s : LR35902 μ) :
    (ADD_HL_r16 reg s).guarded = s.guarded := by
  simp only [ADD_HL_r16, guarded_setA, guarded_setB, guarded_setC, guarded_setD, guarded_setE, guarded_setH, guarded_setL, guarded_setSp, guarded_setPc, guarded_setBc, guarded_setDe, guarded_setHl, guarded_setFz, guarded_setFn, guarded_setFh, guarded_setFc, guarded_setCyclesToWait, guarded_setHalted, guarded_setStopped]

theorem CPU.Keeps.pure {α : Type} (a : α) : CPU.Keeps (Pure.pure a : CPU μ α) := fun _ => rfl

theorem CPU.Keeps.get : CPU.Keeps (CPU.get : CPU μ (LR35902 μ)) := fun _ => rfl

theorem CPU.Keeps.modify (g : LR35902 μ → LR35902 μ) (hg : ∀ s, (g s).guarded = s.guarded) :
    CPU.Keeps (CPU.modify g) := hg

theorem CPU.Keeps.modifyGet {α : Type} (g : LR35902 μ → α × LR35902 μ)
    (hg : ∀ s, (g s).2.guarded = s.guarded) : CPU.Keeps (CPU.modifyGet g) := hg

theorem CPU.Keeps.bind {α β : Type} {m : CPU μ α} {f : α → CPU μ β} (hm : CPU.Keeps m)
    (hf : ∀ a, CPU.Keeps (f a)) : CPU.Keeps (m >>= f) := by
  intro s
  rw [CPU.bind_eq]
  have h := hm s
  rcases hms : m s with ⟨r, s1⟩
  rw [hms] at h
  cases r with
  | ok a => exact (hf a s1).trans h
  | error e => exact h

theorem CPU.Keeps.ite {α : Type} (c : Prop) [Decidable c] {a b : CPU μ α} (ha : CPU.Keeps a)
    (hb : CPU.Keeps b) : CPU.Keeps (if c then a else b) := by
  split <;> assumption

theorem CPU.Keeps.busRead (addr : Nat) : CPU.Keeps (busRead addr : CPU μ Nat) := fun _ => rfl

theorem CPU.Keeps.busWrite (addr val : Nat) : CPU.Keeps (busWrite addr val : CPU μ Unit) :=
  fun _ => rfl

theorem CPU.Keeps.fetch : CPU.Keeps (fetch : CPU μ Nat) :=
  CPU.Keeps.bind CPU.Keeps.get fun _ =>
    CPU.Keeps.bind (CPU.Keeps.modify _ fun s => guarded_setPc s _) fun _ => CPU.Keeps.busRead _

theorem CPU.Keeps.readSpPostInc : CPU.Keeps (readSpPostInc : CPU μ Nat) :=
  CPU.Keeps.bind CPU.Keeps.get fun _ =>
    CPU.Keeps.bind (CPU.Keeps.modify _ fun s => guarded_setSp s _) fun _ => CPU.Keeps.busRead _

theorem CPU.Keeps.writeSpPreDec (val : LR35902 μ → Nat) : CPU.Keeps (writeSpPreDec val) :=
  CPU.Keeps.bind (CPU.Keeps.modify _ fun s => guarded_setSp s _) fun _ =>
    CPU.Keeps.bind CPU.Keeps.get fun _ => CPU.Keeps.busWrite _ _


theorem guarded_ite {β : Type} (c : Prop) [Decidable c] (a b : β × LR35902 μ) (s : LR35902 μ)
    (ha : c → a.2.guarded = s.guarded) (hb : b.2.guarded = s.guarded) :
    (if c then a else b).2.guarded = s.guarded := by
  split
  · exact ha (by assumption)
  · exact hb

theorem guarded_assignRegisterByLowerBits (lowerBits v defaultDest : Nat) (s : LR35902 μ) :
    (assignRegisterByLowerBits lowerBits v defaultDest s).2.guarded = s.guarded := by
  unfold assignRegisterByLowerBits
  split <;> simp only [guarded_setA, guarded_setB, guarded_setC, guarded_setD, guarded_setE,
    guarded_setH, guarded_setL]

theorem guarded_opcodeCBh_operation (opcode lowOpcode memValue : Nat) (s : LR35902 μ) :
    (opcodeCBh_operation opcode lowOpcode memValue s).2.guarded = s.guarded := by
  unfold opcodeCBh_operation
  repeat' with_reducible first
    | (apply guarded_ite; intro _)
    | exact Eq.trans rfl rfl
    | simp only [guarded_assignRegisterByLowerBits, guarded_RLC, guarded_RRC, guarded_RL,
        guarded_RR, guarded_SLA, guarded_SRA, guarded_SWAP, guarded_SRL, guarded_BIT,
        guarded_RES, guarded_SET]

theorem liftCPU_keeps (m : CPU μ Unit) (h : CPU.Keeps m) (s : LR35902 μ) :
    (liftCPU m s).2.guarded = s.guarded := by
  unfold liftCPU
  have hs := h s
  rcases hm : m s with ⟨r, s1⟩
  rw [hm] at hs
  cases r <;> exact hs

set_option maxRecDepth 100000 in
set_option maxHeartbeats 4000000 in
/-- Every primary opcode other than `RETI` (0xD9), `POP AF` (0xF1), `DI` (0xF3) and
`EI` (0xFB), the prefix 0xCB and the undefined opcodes included, leaves the unused
bits of `F` and the interrupt controller as it found them, also when a bus access
fails. -/
theorem lookUp_keeps (code : Nat) (s : LR35902 μ) (hD9 : code ≠ 0xD9) (hF1 : code ≠ 0xF1)
    (hF3 : code ≠ 0xF3) (hFB : code ≠ 0xFB) : (lookUp code s).2.guarded = s.guarded := by
  unfold lookUp
  repeat (
    refine guarded_ite _ _ _ s (fun hc => ?_) ?_
    focus first
      | (exfalso; omega)
      | (apply liftCPU_keeps
         simp only [
    opcode00h, opcode01h, opcode02h, opcode03h, opcode04h, opcode05h, opcode06h, opcode07h,
    opcode08h, opcode09h, opcode0Ah, opcode0Bh, opcode0Ch, opcode0Dh, opcode0Eh, opcode0Fh,
    opcode10h, opcode11h, opcode12h, opcode13h, opcode14h, opcode15h, opcode16h, opcode17h,
    opcode18h, opcode19h, opcode1Ah, opcode1Bh, opcode1Ch, opcode1Dh, opcode1Eh, opcode1Fh,
    opcode20h, opcode21h, opcode22h, opcode23h, opcode24h, opcode25h, opcode26h, opcode27h,
    opcode28h, opcode29h, opcode2Ah, opcode2Bh, opcode2Ch, opcode2Dh, opcode2Eh, opcode2Fh,
    opcode30h, opcode31h, opcode32h, opcode33h, opcode34h, opcode35h, opcode36h, opcode37h,
    opcode38h, opcode39h, opcode3Ah, opcode3Bh, opcode3Ch, opcode3Dh, opcode3Eh, opcode3Fh,
    opcode40h, opcode41h, opcode42h, opcode43h, opcode44h, opcode45h, opcode46h, opcode47h,
    opcode48h, opcode49h, opcode4Ah, opcode4Bh, opcode4Ch, opcode4Dh, opcode4Eh, opcode4Fh,
    opcode50h, opcode51h, opcode52h, opcode53h, opcode54h, opcode55h, opcode56h, opcode57h,
    opcode58h, opcode59h, opcode5Ah, opcode5Bh, opcode5Ch, opcode5Dh, opcode5Eh, opcode5Fh,
    opcode60h, opcode61h, opcode62h, opcode63h, opcode64h, opcode65h, opcode66h, opcode67h,
    opcode68h, opcode69h, opcode6Ah, opcode6Bh, opcode6Ch, opcode6Dh, opcode6Eh, opcode6Fh,
    opcode70h, opcode71h, opcode72h, opcode73h, opcode74h, opcode75h, opcode76h, opcode77h,
    opcode78h, opcode79h, opcode7Ah, opcode7Bh, opcode7Ch, opcode7Dh, opcode7Eh, opcode7Fh,
    opcode80h, opcode81h, opcode82h, opcode83h, opcode84h, opcode85h, opcode86h, opcode87h,
    opcode88h, opcode89h, opcode8Ah, opcode8Bh, opcode8Ch, opcode8Dh, opcode8Eh, opcode8Fh,
    opcode90h, opcode91h, opcode92h, opcode93h, opcode94h, opcode95h, opcode96h, opcode97h,
    opcode98h, opcode99h, opcode9Ah, opcode9Bh, opcode9Ch, opcode9Dh, opcode9Eh, opcode9Fh,
    opcodeA0h, opcodeA1h, opcodeA2h, opcodeA3h, opcodeA4h, opcodeA5h, opcodeA6h, opcodeA7h,
    opcodeA8h, opcodeA9h, opcodeAAh, opcodeABh, opcodeACh, opcodeADh, opcodeAEh, opcodeAFh,
    opcodeB0h, opcodeB1h, opcodeB2h, opcodeB3h, opcodeB4h, opcodeB5h, opcodeB6h, opcodeB7h,
    opcodeB8h, opcodeB9h, opcodeBAh, opcodeBBh, opcodeBCh, opcodeBDh, opcodeBEh, opcodeBFh,
    opcodeC0h, opcodeC1h, opcodeC2h, opcodeC3h, opcodeC4h, opcodeC5h, opcodeC6h, opcodeC7h,
    opcodeC8h, opcodeC9h, opcodeCAh, opcodeCBh, opcodeCCh, opcodeCDh, opcodeCEh, opcodeCFh,
    opcodeD0h, opcodeD1h, opcodeD2h, opcodeD4h, opcodeD5h, opcodeD6h, opcodeD7h, opcodeD8h,
    opcodeDAh, opcodeDCh, opcodeDEh, opcodeDFh, opcodeE0h, opcodeE1h, opcodeE2h, opcodeE5h,
    opcodeE6h, opcodeE7h, opcodeE8h, opcodeE9h, opcodeEAh, opcodeEEh, opcodeEFh, opcodeF0h,
    opcodeF2h, opcodeF5h, opcodeF6h, opcodeF7h, opcodeF8h, opcodeF9h, opcodeFAh, opcodeFEh,
    opcodeFFh]
         repeat' with_reducible first
          | exact CPU.Keeps.fetch
          | exact CPU.Keeps.readSpPostInc
          | exact CPU.Keeps.writeSpPreDec _
          | exact CPU.Keeps.busRead _
          | exact CPU.Keeps.busWrite _ _
          | exact CPU.Keeps.get
          | exact CPU.Keeps.pure _
          | apply CPU.Keeps.bind
          | apply CPU.Keeps.ite
          | (apply CPU.Keeps.modifyGet; intro s1; exact guarded_opcodeCBh_operation _ _ _ s1)
          | (apply CPU.Keeps.modify; intro s1; simp only [guarded_setA, guarded_setB, guarded_setC, guarded_setD, guarded_setE, guarded_setH,
        guarded_setL, guarded_setSp, guarded_setPc, guarded_setBc, guarded_setDe, guarded_setHl,
        guarded_setFz, guarded_setFn, guarded_setFh, guarded_setFc, guarded_setCyclesToWait,
        guarded_setHalted, guarded_setStopped,
        guarded_RLC, guarded_RRC, guarded_RL, guarded_RR, guarded_SLA, guarded_SRA,
        guarded_SWAP, guarded_SRL, guarded_BIT, guarded_RES, guarded_SET, guarded_ADD_A,
        guarded_ADC_A, guarded_SUB_A, guarded_SBC_A, guarded_AND_A, guarded_XOR_A, guarded_OR_A,
        guarded_CP_A, guarded_INC_r8, guarded_DEC_r8, guarded_ADD_HL_r16])
          | intro _
         done)
      | exact rfl)
  exact rfl
end keeps

section lowNibble
set_option linter.unusedTactic false
set_option linter.unreachableTactic false
variable {μ : Type}

theorem Flags.raw_and_0x0F (f : Flags) : f.raw &&& 0x0F = f.unused % 16 := by
  rw [and_15]
  unfold Flags.raw
  have hz := toNat_le_one f.z
  omega

theorem lowNibble_of_guarded (s t : LR35902 μ) (h : t.guarded = s.guarded) :
    t.registers.f.raw &&& 0x0F = s.registers.f.raw &&& 0x0F := by
  rw [Flags.raw_and_0x0F, Flags.raw_and_0x0F]
  exact congrArg (fun g => g.1 % 16) h

theorem CPU.Keeps.keepsLowNibble {α : Type} {m : CPU μ α} (h : CPU.Keeps m) :
    CPU.KeepsLowNibble m := fun s hs => (lowNibble_of_guarded s _ (h s)).trans hs

theorem CPU.keepsLowNibble_bind {α β : Type} {m : CPU μ α} {f : α → CPU μ β}
    (hm : CPU.KeepsLowNibble m) (hf : ∀ a, CPU.KeepsLowNibble (f a)) :
    CPU.KeepsLowNibble (m >>= f) := by
  intro s hs
  rw [CPU.bind_eq]
  have h := hm s hs
  rcases hms : m s with ⟨r, s1⟩
  rw [hms] at h
  cases r with
  | ok a => exact hf a s1 h
  | error e => exact h

theorem CPU.keepsLowNibble_ite {α : Type} (c : Prop) [Decidable c] {a b : CPU μ α}
    (ha : CPU.KeepsLowNibble a) (hb : CPU.KeepsLowNibble b) :
    CPU.KeepsLowNibble (if c then a else b) := by
  split <;> assumption

/-- An assignment that leaves `F` alone keeps the invariant. -/
theorem CPU.keepsLowNibble_modify (g : LR35902 μ → LR35902 μ)
    (hg : ∀ s, (g s).registers.f = s.registers.f) : CPU.KeepsLowNibble (CPU.modify g) := by
  intro s hs
  show (g s).registers.f.raw &&& 0x0F = 0
  rw [hg s]
  exact hs

/-- The low nibble of the byte that `POP AF` writes to `F` is 0. -/
theorem popAf_low_nibble (lo hi : Nat) :
    ((lo &&& 0xF0) ||| (hi <<< 8)) % 65536 % 256 % 16 = 0 := by
  have e : ((lo &&& 0xF0) ||| (hi <<< 8)) % 65536 % 256 % 16
      = ((lo &&& 0xF0) ||| (hi <<< 8)) % 2 ^ 4 := by omega
  rw [e]
  apply Nat.eq_of_testBit_eq
  intro i
  simp only [Nat.testBit_mod_two_pow, Nat.testBit_or, Nat.testBit_and, Nat.testBit_shiftLeft,
    Nat.zero_testBit]
  by_cases h4 : i < 4
  · have h8 : ¬ 8 ≤ i := by omega
    have hF0 : Nat.testBit 0xF0 i = false := by
      interval_cases i <;> rfl
    simp [h4, h8, hF0]
  · simp [h4]

/-- Instruction `POP AF`: when both stack reads succeed the low nibble of `F` is 0
afterwards; when one fails, `F` is as before. -/
theorem opcodeF1h_low_nibble (s : LR35902 μ) :
    (∀ s1, opcodeF1h s = (.ok (), s1) → s1.registers.f.raw &&& 0x0F = 0) ∧
    ((opcodeF1h s).2.registers.f.raw &&& 0x0F = 0 ∨
      (opcodeF1h s).2.registers.f.raw &&& 0x0F = s.registers.f.raw &&& 0x0F) := by
  unfold opcodeF1h
  rw [CPU.bind_eq]
  have h1 := CPU.Keeps.readSpPostInc s
  rcases hr1 : readSpPostInc s with ⟨r1, s1⟩
  rw [hr1] at h1
  cases r1 with
  | error e =>
    exact ⟨fun _ h => (by cases h), Or.inr (lowNibble_of_guarded s s1 h1)⟩
  | ok lo =>
    simp only
    rw [CPU.bind_eq]
    have h2 := CPU.Keeps.readSpPostInc s1
    rcases hr2 : readSpPostInc s1 with ⟨r2, s2⟩
    rw [hr2] at h2
    cases r2 with
    | error e =>
      exact ⟨fun _ h => (by cases h),
        Or.inr ((lowNibble_of_guarded s1 s2 h2).trans (lowNibble_of_guarded s s1 h1))⟩
    | ok hi =>
      have e : (((s2.setAf ((lo &&& 0xF0) ||| (hi <<< 8))).setCyclesToWait 12).registers.f.raw
          &&& 0x0F) = 0 := by
        rw [Flags.raw_and_0x0F]
        show ((lo &&& 0xF0) ||| (hi <<< 8)) % 65536 % 256 % 16 % 16 = 0
        rw [popAf_low_nibble]
      refine ⟨fun t h => ?_, Or.inl e⟩
      have h3 : ((s2.setAf ((lo &&& 0xF0) ||| (hi <<< 8))).setCyclesToWait 12) = t :=
        congrArg Prod.snd h
      rw [← h3]
      exact e

theorem liftCPU_snd (m : CPU μ Unit) (s : LR35902 μ) : (liftCPU m s).2 = (m s).2 := by
  unfold liftCPU
  rcases m s with ⟨r, s1⟩
  cases r <;> rfl

theorem opcodeD9h_keepsLowNibble : CPU.KeepsLowNibble (opcodeD9h : CPU μ Unit) := by
  unfold opcodeD9h
  apply CPU.keepsLowNibble_bind
  · apply CPU.keepsLowNibble_modify
    intro _
    exact Eq.trans rfl rfl
  intro _
  apply CPU.Keeps.keepsLowNibble
  repeat' with_reducible first
    | exact CPU.Keeps.readSpPostInc
    | apply CPU.Keeps.bind
    | (apply CPU.Keeps.modify; intro s; simp only [guarded_setPc, guarded_setCyclesToWait])
    | intro _

/-- Dispatching any primary opcode, the prefix 0xCB included, keeps `F & 0x0F == 0`. -/
theorem lookUp_low_nibble (code : Nat) (s : LR35902 μ) (hs : s.registers.f.raw &&& 0x0F = 0) :
    (lookUp code s).2.registers.f.raw &&& 0x0F = 0 := by
  by_cases hD9 : code = 0xD9
  · subst hD9
    simp only [lookUp, ↓reduceIte, Nat.reduceEqDiff]
    rw [liftCPU_snd]
    exact opcodeD9h_keepsLowNibble s hs
  by_cases hF1 : code = 0xF1
  · subst hF1
    simp only [lookUp, ↓reduceIte, Nat.reduceEqDiff]
    rw [liftCPU_snd]
    rcases (opcodeF1h_low_nibble s).2 with h | h
    · exact h
    · exact h.trans hs
  by_cases hF3 : code = 0xF3
  · subst hF3
    simp only [lookUp, ↓reduceIte, Nat.reduceEqDiff]
    rw [liftCPU_snd]
    exact hs
  by_cases hFB : code = 0xFB
  · subst hFB
    simp only [lookUp, ↓reduceIte, Nat.reduceEqDiff]
    rw [liftCPU_snd]
    exact hs
  exact (lowNibble_of_guarded s _ (lookUp_keeps code s hD9 hF1 hF3 hFB)).trans hs

theorem lookUpCaught_snd (code : Nat) (s : LR35902 μ) :
    (lookUpCaught code s).2 = (lookUp code s).2 := by
  unfold lookUpCaught
  rcases lookUp code s with ⟨r, s1⟩
  rcases r with e | u
  · cases e <;> rfl
  · rfl

theorem lookUpCaught_keepsLowNibble (code : Nat) :
    CPU.KeepsLowNibble (lookUpCaught code : CPU μ Unit) := by
  intro s hs
  rw [lookUpCaught_snd]
  exact lookUp_low_nibble code s hs

theorem handleInterrupt_keepsLowNibble : CPU.KeepsLowNibble (handleInterrupt : CPU μ Unit) := by
  unfold handleInterrupt
  repeat' with_reducible first
    | exact CPU.Keeps.keepsLowNibble (CPU.Keeps.writeSpPreDec _)
    | exact CPU.Keeps.keepsLowNibble CPU.Keeps.get
    | exact CPU.Keeps.keepsLowNibble (CPU.Keeps.pure _)
    | apply CPU.keepsLowNibble_bind
    | apply CPU.keepsLowNibble_ite
    | (apply CPU.keepsLowNibble_modify; intro _; with_unfolding_all exact Eq.trans rfl rfl)
    | intro _

theorem tick_keepsLowNibble : CPU.KeepsLowNibble (tick : CPU μ Unit) := by
  unfold tick
  repeat' with_reducible first
    | exact handleInterrupt_keepsLowNibble
    | exact lookUpCaught_keepsLowNibble _
    | exact CPU.Keeps.keepsLowNibble CPU.Keeps.fetch
    | exact CPU.Keeps.keepsLowNibble CPU.Keeps.get
    | exact CPU.Keeps.keepsLowNibble (CPU.Keeps.pure _)
    | apply CPU.keepsLowNibble_bind
    | apply CPU.keepsLowNibble_ite
    | (apply CPU.keepsLowNibble_modify; intro _; with_unfolding_all exact Eq.trans rfl rfl)
    | intro _

theorem ticks_keepsLowNibble (n : Nat) : CPU.KeepsLowNibble (ticks n : CPU μ Unit) := by
  induction n with
  | zero => exact CPU.Keeps.keepsLowNibble (CPU.Keeps.pure _)
  | succ n ih =>
    unfold ticks
    exact CPU.keepsLowNibble_bind tick_keepsLowNibble fun _ => ih

theorem step_keepsLowNibble : CPU.KeepsLowNibble (step : CPU μ Unit) := by
  unfold step
  repeat' with_reducible first
    | exact tick_keepsLowNibble
    | exact CPU.Keeps.keepsLowNibble CPU.Keeps.get
    | exact CPU.Keeps.keepsLowNibble (CPU.Keeps.pure _)
    | apply CPU.keepsLowNibble_bind
    | apply CPU.keepsLowNibble_ite
    | (apply CPU.keepsLowNibble_modify; intro _; with_unfolding_all exact Eq.trans rfl rfl)
    | intro _

end lowNibble

/-- Claim C21: `F & 0x0F = 0` is an invariant of instruction execution. If the low
nibble of `F` is 0 in a state, it is 0 after dispatching any primary opcode from that
state (0xCB, which fetches and executes a prefixed instruction, included), after a
`tick`, after any number of ticks and after a `step`, whether the instruction ends
normally or with an exception. `POP AF` (0xF1) establishes it: whenever it completes,
the low nibble of `F` is 0, whatever the state before and whatever byte was read; on
flat memory it always completes. -/
theorem F_low_nibble_invariant {μ : Type} (s : LR35902 μ) (code n : Nat) :
    (s.registers.f.raw &&& 0x0F = 0 → (lookUp code s).2.registers.f.raw &&& 0x0F = 0) ∧
    (s.registers.f.raw &&& 0x0F = 0 → (tick s).2.registers.f.raw &&& 0x0F = 0) ∧
    (s.registers.f.raw &&& 0x0F = 0 → (ticks n s).2.registers.f.raw &&& 0x0F = 0) ∧
    (s.registers.f.raw &&& 0x0F = 0 → (step s).2.registers.f.raw &&& 0x0F = 0) ∧
    (∀ s1, lookUp 0xF1 s = (.ok (), s1) → s1.registers.f.raw &&& 0x0F = 0) ∧
    (∀ (t : LR35902 (Nat → Nat)) (m : Nat → Nat), t.bus = ramBus m →
      (lookUp 0xF1 t).1 = .ok () ∧ (lookUp 0xF1 t).2.registers.f.raw &&& 0x0F = 0) := by
  refine ⟨lookUp_low_nibble code s, tick_keepsLowNibble s, ticks_keepsLowNibble n s,
    step_keepsLowNibble s, ?_, ?_⟩
  · intro s1 h
    simp only [lookUp, ↓reduceIte, Nat.reduceEqDiff] at h
    unfold liftCPU at h
    rcases hm : (opcodeF1h s : Except BusNoHandlerException Unit × LR35902 μ) with ⟨r, s2⟩
    rw [hm] at h
    cases r with
    | error e => cases h
    | ok u =>
      have h2 : s2 = s1 := congrArg Prod.snd h
      rw [← h2]
      exact (opcodeF1h_low_nibble s).1 s2 hm
  · intro t m ht
    simp only [lookUp, ↓reduceIte, Nat.reduceEqDiff]
    have hp : opcodeF1h t = (.ok (),
        ((t.setSp (t.registers.sp + 1)).setSp ((t.setSp (t.registers.sp + 1)).registers.sp + 1)
          |>.setAf ((m (t.registers.sp % 65536) % 256 &&& 0xF0) |||
            ((m ((t.setSp (t.registers.sp + 1)).registers.sp % 65536) % 256) <<< 8))
          |>.setCyclesToWait 12)) := by
      unfold opcodeF1h
      rw [CPU.bind_ok _ _ _ _ _ (readSpPostInc_ramBus m t ht)]
      rw [CPU.bind_ok _ _ _ _ _ (readSpPostInc_ramBus m (t.setSp (t.registers.sp + 1)) ht)]
      rfl
    have h1 := (opcodeF1h_low_nibble t).1 _ hp
    unfold liftCPU
    rw [hp]
    exact ⟨rfl, h1⟩

/-! ## Delayed interrupt enable, `DI`, interrupt service, `step` -/

theorem fetch_interruptController {μ : Type} (s : LR35902 μ) :
    (fetch s).2.interruptController = s.interruptController :=
  congrArg Prod.snd (CPU.Keeps.fetch s)

theorem opcodeF1h_interruptController {μ : Type} (s : LR35902 μ) :
    (opcodeF1h s).2.interruptController = s.interruptController := by
  unfold opcodeF1h
  apply CPU.bind_interruptController _ _
    (fun t => congrArg Prod.snd (CPU.Keeps.readSpPostInc t))
  intro _ s1
  apply CPU.bind_interruptController _ _
    (fun t => congrArg Prod.snd (CPU.Keeps.readSpPostInc t))
  intro _ s2
  rfl

/-- `RETI` sets the master enable and touches nothing else of the interrupt
controller, whatever the bus answers to its two reads. -/
theorem opcodeD9h_interruptController {μ : Type} (s : LR35902 μ) :
    (opcodeD9h s).2.interruptController
      = s.interruptController.setInterruptMasterEnable true := by
  unfold opcodeD9h
  rw [CPU.modify_bind]
  have h : ∀ t : LR35902 μ, ((do
      let lo ← readSpPostInc
      let hi ← readSpPostInc
      CPU.modify fun s => s.setPc (lo ||| (hi <<< 8))
      CPU.modify fun s => s.setCyclesToWait 16 : CPU μ Unit) t).2.interruptController
      = t.interruptController := by
    intro t
    apply CPU.bind_interruptController _ _
      (fun t => congrArg Prod.snd (CPU.Keeps.readSpPostInc t))
    intro _ s1
    apply CPU.bind_interruptController _ _
      (fun t => congrArg Prod.snd (CPU.Keeps.readSpPostInc t))
    intro _ s2
    rfl
  rw [h]
  rfl

/-- An instruction other than `RETI`, `DI` and `EI` leaves the interrupt controller
as it found it. -/
theorem lookUpCaught_interruptController {μ : Type} (code : Nat) (s : LR35902 μ)
    (hD9 : code ≠ 0xD9) (hF3 : code ≠ 0xF3) (hFB : code ≠ 0xFB) :
    (lookUpCaught code s).2.interruptController = s.interruptController := by
  rw [lookUpCaught_snd]
  by_cases hF1 : code = 0xF1
  · subst hF1
    simp only [lookUp, ↓reduceIte, Nat.reduceEqDiff]
    rw [liftCPU_snd]
    exact opcodeF1h_interruptController s
  · exact congrArg Prod.snd (lookUp_keeps code s hD9 hF1 hF3 hFB)

theorem lookUpCaught_RETI_interruptController {μ : Type} (s : LR35902 μ) :
    (lookUpCaught 0xD9 s).2.interruptController
      = s.interruptController.setInterruptMasterEnable true := by
  rw [lookUpCaught_snd]
  simp only [lookUp, ↓reduceIte, Nat.reduceEqDiff]
  rw [liftCPU_snd]
  exact opcodeD9h_interruptController s

theorem lookUpCaught_EI {μ : Type} (s : LR35902 μ) :
    lookUpCaught 0xFB s = (.ok (),
      (s.setInterruptController
        (s.interruptController.setDelayedInterruptEnableCountdown 2)).setCyclesToWait 4) := by
  simp only [lookUpCaught, lookUp, ↓reduceIte, Nat.reduceEqDiff]
  rfl

theorem lookUpCaught_DI {μ : Type} (s : LR35902 μ) :
    lookUpCaught 0xF3 s = (.ok (),
      (s.setInterruptController
        (s.interruptController.setInterruptMasterEnable false)).setCyclesToWait 4) := by
  simp only [lookUpCaught, lookUp, ↓reduceIte, Nat.reduceEqDiff]
  rfl

/-- The tick that executes `EI` with `IME` false: the countdown is set to 2 and
decremented to 1 in the same tick, `IME` stays false. -/
theorem tick_EI {μ : Type} (s s2 : LR35902 μ) (h0 : s.cyclesToWait = 0)
    (hime : s.interruptController.interruptMasterEnable = false)
    (hf : fetch s = (.ok 0xFB, s2)) :
    tick s = (.ok (),
      { s2 with
        interruptController :=
          { s.interruptController with delayedInterruptEnableCountdown := 1 }
        tickCounter := (s2.tickCounter + 1) % 4294967296
        cyclesToWait := 3 }) := by
  have hic : s2.interruptController = s.interruptController := by
    have h := fetch_interruptController s
    rw [hf] at h
    exact h
  rw [tick_execute s s s2 _ 0xFB h0 (handleInterrupt_disabled s hime) hf (lookUpCaught_EI s2)]
  simp only [setInterruptController, setCyclesToWait, hic,
    InterruptController.setDelayedInterruptEnableCountdown,
    InterruptController.handleDelayedInterrupt]
  rfl

/-- The delayed enable takes effect: the countdown goes from 1 to 0 and `IME`
becomes true. -/
theorem handleDelayedInterrupt_one (ic : InterruptController)
    (h : ic.delayedInterruptEnableCountdown = 1) :
    ic.handleDelayedInterrupt
      = { ic with delayedInterruptEnableCountdown := 0, interruptMasterEnable := true } := by
  unfold InterruptController.handleDelayedInterrupt
  simp [h]

/-- Claim C22 (amended): `EI` does not enable interrupts when it executes. From an
instruction boundary with `IME` false where `EI` (0xFB) is fetched: the tick that
executes `EI` leaves `IME` false, the countdown at 1 (set to 2, decremented once) and
three waiting cycles; `IME` is false and the countdown 1 after each of the four ticks
of `EI`; at the next instruction boundary `handleInterrupt` does nothing, whatever is
pending in `IF & IE`, so no interrupt is serviced between `EI` and the instruction
that follows it; and the tick that executes that instruction, any opcode other than
`EI`, ends with the countdown at 0 and `IME` true, and `IME` stays true during its
waiting ticks, until it retires. -/
theorem EI_enables_after_next_instruction {μ : Type} (s s2 : LR35902 μ)
    (h0 : s.cyclesToWait = 0)
    (hime : s.interruptController.interruptMasterEnable = false)
    (hf : fetch s = (.ok 0xFB, s2)) :
    ∃ t1 t4 : LR35902 μ,
      tick s = (.ok (), t1) ∧
      t1.interruptController.interruptMasterEnable = false ∧
      t1.interruptController.delayedInterruptEnableCountdown = 1 ∧
      t1.cyclesToWait = 3 ∧
      (∀ j, j ≤ 3 → (ticks (1 + j) s).1 = .ok () ∧
        (ticks (1 + j) s).2.interruptController.interruptMasterEnable = false ∧
        (ticks (1 + j) s).2.interruptController.delayedInterruptEnableCountdown = 1) ∧
      ticks 4 s = (.ok (), t4) ∧
      t4.cyclesToWait = 0 ∧
      t4.registers = s2.registers ∧
      handleInterrupt t4 = (.ok (), t4) ∧
      (∀ (code : Nat) (u2 u3 : LR35902 μ), code ≠ 0xFB →
        fetch t4 = (.ok code, u2) → lookUpCaught code u2 = (.ok (), u3) →
        ∃ t5, tick t4 = (.ok (), t5) ∧
          t5.interruptController.interruptMasterEnable = true ∧
          t5.interruptController.delayedInterruptEnableCountdown = 0 ∧
          ∀ j, j ≤ t5.cyclesToWait → (ticks j t5).1 = .ok () ∧
            (ticks j t5).2.interruptController = t5.interruptController) := by
  have h1 := tick_EI s s2 h0 hime hf
  obtain ⟨t1, ht1⟩ : ∃ t1 : LR35902 μ, t1 = { s2 with
        interruptController :=
          { s.interruptController with delayedInterruptEnableCountdown := 1 }
        tickCounter := (s2.tickCounter + 1) % 4294967296
        cyclesToWait := 3 } := ⟨_, rfl⟩
  rw [← ht1] at h1
  have hc1 : t1.cyclesToWait = 3 := by rw [ht1]
  have htc1 : t1.tickCounter < 4294967296 := by
    rw [ht1]
    exact Nat.mod_lt _ (by decide)
  have hwait : ∀ j, j ≤ 3 → ticks (1 + j) s = (.ok (),
      { t1 with cyclesToWait := t1.cyclesToWait - j,
                tickCounter := (t1.tickCounter + j) % 4294967296 }) := by
    intro j hj
    rw [Nat.add_comm 1 j, ticks_succ j s t1 h1]
    exact ticks_wait j t1 (by omega) htc1 (by omega)
  have hime1 : t1.interruptController.interruptMasterEnable = false := by
    rw [ht1]
    exact hime
  have hcd1 : t1.interruptController.delayedInterruptEnableCountdown = 1 := by rw [ht1]
  refine ⟨t1, { t1 with cyclesToWait := t1.cyclesToWait - 3,
                        tickCounter := (t1.tickCounter + 3) % 4294967296 },
    h1, hime1, hcd1, hc1, ?_, hwait 3 (le_refl 3), ?_, ?_, ?_, ?_⟩
  · intro j hj
    rw [hwait j hj]
    exact ⟨rfl, hime1, hcd1⟩
  · show t1.cyclesToWait - 3 = 0
    omega
  · show t1.registers = s2.registers
    rw [ht1]
  · exact handleInterrupt_disabled _ hime1
  · intro code u2 u3 hFB hfetch hlook
    have hu2 : u2.interruptController = t1.interruptController := by
      have h := fetch_interruptController
        ({ t1 with cyclesToWait := t1.cyclesToWait - 3,
                   tickCounter := (t1.tickCounter + 3) % 4294967296 } : LR35902 μ)
      rw [hfetch] at h
      exact h
    have hu3 : u3.interruptController.handleDelayedInterrupt
        = { t1.interruptController with
            delayedInterruptEnableCountdown := 0, interruptMasterEnable := true } := by
      by_cases hD9 : code = 0xD9
      · subst hD9
        have h := lookUpCaught_RETI_interruptController u2
        rw [hlook, hu2] at h
        have h' : u3.interruptController
            = t1.interruptController.setInterruptMasterEnable true := h
        rw [h', handleDelayedInterrupt_one
          (t1.interruptController.setInterruptMasterEnable true) hcd1]
        rfl
      · by_cases hF3 : code = 0xF3
        · subst hF3
          have h := congrArg (fun r => r.2.interruptController) (lookUpCaught_DI u2)
          simp only [hlook] at h
          have h' : u3.interruptController
              = t1.interruptController.setInterruptMasterEnable false := by
            rw [h, ← hu2]
            rfl
          rw [h', handleDelayedInterrupt_one
            (t1.interruptController.setInterruptMasterEnable false) hcd1]
          rfl
        · have h := lookUpCaught_interruptController code u2 hD9 hF3 hFB
          rw [hlook, hu2] at h
          have h' : u3.interruptController = t1.interruptController := h
          rw [h', handleDelayedInterrupt_one _ hcd1]
    refine ⟨_, tick_execute _ _ u2 u3 code ?_ (handleInterrupt_disabled _ hime1) hfetch hlook,
      ?_, ?_, ?_⟩
    · show t1.cyclesToWait - 3 = 0
      omega
    · show u3.interruptController.handleDelayedInterrupt.interruptMasterEnable = true
      rw [hu3]
    · show u3.interruptController.handleDelayedInterrupt.delayedInterruptEnableCountdown = 0
      rw [hu3]
    · intro j hj
      rw [ticks_wait j _ (Nat.mod_lt _ (by decide)) (Nat.mod_lt _ (by decide)) hj]
      exact ⟨rfl, rfl⟩

theorem EI_enables_after_next_instruction_witness :
    ∃ t1 t4 : LR35902 (Nat → Nat),
      tick eiScenario = (.ok (), t1) ∧
      t1.interruptController.interruptMasterEnable = false ∧
      t1.interruptController.delayedInterruptEnableCountdown = 1 ∧
      t1.cyclesToWait = 3 ∧
      (∀ j, j ≤ 3 → (ticks (1 + j) eiScenario).1 = .ok () ∧
        (ticks (1 + j) eiScenario).2.interruptController.interruptMasterEnable = false ∧
        (ticks (1 + j) eiScenario).2.interruptController.delayedInterruptEnableCountdown
          = 1) ∧
      ticks 4 eiScenario = (.ok (), t4) ∧
      t4.cyclesToWait = 0 ∧
      t4.registers = (eiScenario.setPc 0x0101).registers ∧
      handleInterrupt t4 = (.ok (), t4) ∧
      (∀ (code : Nat) (u2 u3 : LR35902 (Nat → Nat)), code ≠ 0xFB →
        fetch t4 = (.ok code, u2) → lookUpCaught code u2 = (.ok (), u3) →
        ∃ t5, tick t4 = (.ok (), t5) ∧
          t5.interruptController.interruptMasterEnable = true ∧
          t5.interruptController.delayedInterruptEnableCountdown = 0 ∧
          ∀ j, j ≤ t5.cyclesToWait → (ticks j t5).1 = .ok () ∧
            (ticks j t5).2.interruptController = t5.interruptController) :=
  EI_enables_after_next_instruction eiScenario (eiScenario.setPc 0x0101) rfl rfl rfl

/-- Claim C22 as stated fails when the instruction that follows `EI` is `EI` again: in
the program `EI; EI; NOP` run with `IME` false, the second `EI` sets the countdown to 2
again, so `IME` is still false and the countdown 1 when it retires (8 ticks, `PC` =
0x0102); `IME` becomes true in the tick that executes the third instruction. -/
theorem EI_after_EI_retires_with_IME_false :
    (ticks 4 eiEiScenario).1 = .ok () ∧
    (ticks 4 eiEiScenario).2.registers.pc = 0x0101 ∧
    (ticks 4 eiEiScenario).2.cyclesToWait = 0 ∧
    (ticks 8 eiEiScenario).1 = .ok () ∧
    (ticks 8 eiEiScenario).2.registers.pc = 0x0102 ∧
    (ticks 8 eiEiScenario).2.cyclesToWait = 0 ∧
    (ticks 8 eiEiScenario).2.interruptController.interruptMasterEnable = false ∧
    (ticks 8 eiEiScenario).2.interruptController.delayedInterruptEnableCountdown = 1 ∧
    (ticks 9 eiEiScenario).2.interruptController.interruptMasterEnable = true :=
  ⟨rfl, rfl, rfl, rfl, rfl, rfl, rfl, rfl, rfl⟩

/-- The tick that executes `DI` (0xF3) at an instruction boundary where no interrupt
is serviced. -/
theorem tick_DI {μ : Type} (s s2 : LR35902 μ) (h0 : s.cyclesToWait = 0)
    (hi : handleInterrupt s = (.ok (), s)) (hf : fetch s = (.ok 0xF3, s2)) :
    tick s = (.ok (),
      { s2 with
        interruptController :=
          (s.interruptController.setInterruptMasterEnable false).handleDelayedInterrupt
        tickCounter := (s2.tickCounter + 1) % 4294967296
        cyclesToWait := 3 }) := by
  have hic : s2.interruptController = s.interruptController := by
    have h := fetch_interruptController s
    rw [hf] at h
    exact h
  rw [tick_execute s s s2 _ 0xF3 h0 hi hf (lookUpCaught_DI s2)]
  simp only [setInterruptController, setCyclesToWait, hic]

/-- Claim C23 (what the code does): `DI` (0xF3) only calls
`setInterruptMasterEnable(false)`; the countdown armed by `EI` is left as it is. At an
instruction boundary where no interrupt is serviced and `DI` is fetched: if a delayed
enable is pending with the countdown at 1, as it is right after `EI`, the tick that
executes `DI` ends with the countdown at 0 and `IME` true, `handleDelayedInterrupt`
running after the handler; if no delayed enable is pending (countdown 0), it ends with
`IME` false. In the program `EI; DI` run with `IME` false and a VBlank request pending,
`IME` is false and the countdown 1 when `EI` retires, `IME` is true from the tick that
executes `DI` until `DI` retires, and the next tick services the interrupt (`IF`
cleared, return address 0x0102 pushed). -/
theorem DI_leaves_delayed_enable_pending {μ : Type} (s s2 : LR35902 μ)
    (h0 : s.cyclesToWait = 0)
    (hi : handleInterrupt s = (.ok (), s))
    (hf : fetch s = (.ok 0xF3, s2)) :
    (s.interruptController.delayedInterruptEnableCountdown = 1 →
      (tick s).1 = .ok () ∧
      (tick s).2.interruptController.interruptMasterEnable = true ∧
      (tick s).2.interruptController.delayedInterruptEnableCountdown = 0) ∧
    (s.interruptController.delayedInterruptEnableCountdown = 0 →
      (tick s).1 = .ok () ∧
      (tick s).2.interruptController.interruptMasterEnable = false ∧
      (tick s).2.interruptController.delayedInterruptEnableCountdown = 0) ∧
    ((ticks 4 eiDiScenario).1 = .ok () ∧
      (ticks 4 eiDiScenario).2.interruptController.interruptMasterEnable = false ∧
      (ticks 4 eiDiScenario).2.interruptController.delayedInterruptEnableCountdown = 1 ∧
      (ticks 4 eiDiScenario).2.cyclesToWait = 0 ∧
      (ticks 4 eiDiScenario).2.registers.pc = 0x0101) ∧
    ((ticks 5 eiDiScenario).2.interruptController.interruptMasterEnable = true ∧
      (ticks 8 eiDiScenario).1 = .ok () ∧
      (ticks 8 eiDiScenario).2.interruptController.interruptMasterEnable = true ∧
      (ticks 8 eiDiScenario).2.cyclesToWait = 0 ∧
      (ticks 8 eiDiScenario).2.registers.pc = 0x0102) ∧
    ((handleInterrupt (ticks 8 eiDiScenario).2).1 = .ok () ∧
      (handleInterrupt (ticks 8 eiDiScenario).2).2.registers.pc = 0x0040 ∧
      (handleInterrupt (ticks 8 eiDiScenario).2).2.registers.sp = 0xFFFC ∧
      (handleInterrupt (ticks 8 eiDiScenario).2).2.bus.store 0xFFFD = 0x01 ∧
      (handleInterrupt (ticks 8 eiDiScenario).2).2.bus.store 0xFFFC = 0x02 ∧
      (handleInterrupt (ticks 8 eiDiScenario).2).2.interruptController.interruptRequest
        = 0x00 ∧
      (ticks 9 eiDiScenario).2.registers.sp = 0xFFFC) := by
  have ht := tick_DI s s2 h0 hi hf
  refine ⟨?_, ?_, ?_, ?_, ?_⟩
  · intro hcd
    rw [ht]
    have e := handleDelayedInterrupt_one
      (s.interruptController.setInterruptMasterEnable false) hcd
    refine ⟨rfl, ?_, ?_⟩
    · show ((s.interruptController.setInterruptMasterEnable
        false).handleDelayedInterrupt).interruptMasterEnable = true
      rw [e]
    · show ((s.interruptController.setInterruptMasterEnable
        false).handleDelayedInterrupt).delayedInterruptEnableCountdown = 0
      rw [e]
  · intro hcd
    rw [ht]
    have e : (s.interruptController.setInterruptMasterEnable false).handleDelayedInterrupt
        = s.interruptController.setInterruptMasterEnable false := by
      unfold InterruptController.handleDelayedInterrupt
      have hc : (s.interruptController.setInterruptMasterEnable
          false).delayedInterruptEnableCountdown = 0 := hcd
      rw [hc]
      rfl
    refine ⟨rfl, ?_, ?_⟩
    · show ((s.interruptController.setInterruptMasterEnable
        false).handleDelayedInterrupt).interruptMasterEnable = false
      rw [e]
      rfl
    · show ((s.interruptController.setInterruptMasterEnable
        false).handleDelayedInterrupt).delayedInterruptEnableCountdown = 0
      rw [e]
      exact hcd
  · refine ⟨?_, ?_, ?_, ?_, ?_⟩ <;> rfl
  · refine ⟨?_, ?_, ?_, ?_, ?_⟩ <;> rfl
  · refine ⟨?_, ?_, ?_, ?_, ?_, ?_, ?_⟩ <;> rfl

theorem DI_leaves_delayed_enable_pending_witness :
    (ticks 4 eiDiScenario).2.interruptController.delayedInterruptEnableCountdown = 1 ∧
    (tick (ticks 4 eiDiScenario).2).1 = .ok () ∧
    (tick (ticks 4 eiDiScenario).2).2.interruptController.interruptMasterEnable = true ∧
    (tick (ticks 4 eiDiScenario).2).2.interruptController.delayedInterruptEnableCountdown
      = 0 :=
  ⟨rfl, (DI_leaves_delayed_enable_pending (ticks 4 eiDiScenario).2
    ((ticks 4 eiDiScenario).2.setPc 0x0102) rfl rfl rfl).1 rfl⟩

theorem ticks_append {μ : Type} (a b : Nat) : ∀ s s1 : LR35902 μ,
    ticks a s = (.ok (), s1) → ticks (a + b) s = ticks b s1 := by
  induction a with
  | zero =>
    intro s s1 h
    have e : s = s1 := congrArg Prod.snd h
    rw [Nat.zero_add, e]
  | succ a ih =>
    intro s s1 h
    have e : a + 1 + b = (a + b) + 1 := by omega
    rw [e]
    simp only [ticks] at h ⊢
    rw [CPU.bind_eq] at h ⊢
    rcases ht : (tick s : Except BusNoHandlerException Unit × LR35902 μ) with ⟨r, s0⟩
    rw [ht] at h
    cases r with
    | error e => cases h
    | ok u => exact ih s0 s1 h

theorem ticks_one {μ : Type} (s : LR35902 μ) : ticks 1 s = tick s := by
  simp only [ticks]
  rw [CPU.bind_eq]
  rcases (tick s : Except BusNoHandlerException Unit × LR35902 μ) with ⟨r, s0⟩
  cases r <;> rfl

/-- Claim C25 (what the code does): for a CPU state with `m_cyclesToWait = k`, `k > 0`,
`step()` is one `tick()` run from the state with `m_cyclesToWait = 0` and
`m_tickCounter` advanced by `k - 1`, whereas `k + 1` calls of `tick()` are `k` waiting
ticks followed by one `tick()` run from the state with `m_cyclesToWait = 0` and
`m_tickCounter` advanced by `k`: the two start the executing tick from states that
differ by one in `m_tickCounter`. With `k = 0`, `step()` is one `tick()`. For the `NOP`
in flight after its first tick (`k = 3`, `m_tickCounter = 1`), `step()` ends with
`m_tickCounter = 4` and four ticks end with `m_tickCounter = 5`, with the same
registers, bus and `m_cyclesToWait`. -/
theorem step_advances_tickCounter_one_short {μ : Type} (s : LR35902 μ) (k : Nat)
    (hk : s.cyclesToWait = k) (hlt : k < 256) (htc : s.tickCounter < 4294967296) :
    (0 < k → step s = tick { s with tickCounter := (s.tickCounter + (k - 1)) % 4294967296,
                                     cyclesToWait := 0 }) ∧
    (0 < k → ticks (k + 1) s = tick { s with tickCounter := (s.tickCounter + k) % 4294967296,
                                              cyclesToWait := 0 }) ∧
    (k = 0 → step s = tick s) ∧
    ((step nopInFlight).1 = .ok () ∧ (ticks 4 nopInFlight).1 = .ok () ∧
      (step nopInFlight).2.tickCounter = 4 ∧ (ticks 4 nopInFlight).2.tickCounter = 5 ∧
      (step nopInFlight).2.registers = (ticks 4 nopInFlight).2.registers ∧
      (step nopInFlight).2.cyclesToWait = (ticks 4 nopInFlight).2.cyclesToWait ∧
      (step nopInFlight).2.bus = (ticks 4 nopInFlight).2.bus) := by
  subst hk
  refine ⟨?_, ?_, ?_, ?_⟩
  · intro hpos
    have hc : s.cyclesToWait > 0 := hpos
    simp only [step, CPU.get_bind, hc, ↓reduceIte, CPU.modify_bind, setCyclesToWait]
  · intro _
    have hw := ticks_wait s.cyclesToWait s (by omega) htc (le_refl _)
    rw [ticks_append s.cyclesToWait 1 s _ hw, ticks_one]
    have e : s.cyclesToWait - s.cyclesToWait = 0 := by omega
    rw [e]
  · intro hz
    have hc : ¬ (s.cyclesToWait > 0) := by omega
    simp only [step, CPU.get_bind, hc, ↓reduceIte]
    rfl
  · refine ⟨?_, ?_, ?_, ?_, ?_, ?_, ?_⟩ <;> rfl

theorem step_advances_tickCounter_one_short_witness :
    step nopInFlight = tick { nopInFlight with tickCounter := (1 + (3 - 1)) % 4294967296,
                                               cyclesToWait := 0 } ∧
    ticks (3 + 1) nopInFlight
      = tick { nopInFlight with tickCounter := (1 + 3) % 4294967296, cyclesToWait := 0 } :=
  ⟨(step_advances_tickCounter_one_short nopInFlight 3 rfl (by decide) (by decide)).1
      (by decide),
   (step_advances_tickCounter_one_short nopInFlight 3 rfl (by decide) (by decide)).2.1
      (by decide)⟩

/-! ## Bus dispatch and provider registration -/

theorem Bus.readOverridePass_append {μ : Type} (pre : List (BusProvider μ)) :
    ∀ (post : List (BusProvider μ)) (m : μ) (addr val : Nat) (src : BusRequestSource),
    Bus.readOverridePass (pre ++ post) m addr val src
      = if (Bus.readOverridePass pre m addr val src).1 = true
        then Bus.readOverridePass pre m addr val src
        else Bus.readOverridePass post m addr (Bus.readOverridePass pre m addr val src).2 src := by
  induction pre with
  | nil => intro post m addr val src; simp [Bus.readOverridePass]
  | cons p ps ih =>
    intro post m addr val src
    rw [List.cons_append]
    simp only [Bus.readOverridePass]
    rcases hp : p.busReadOverride m addr val src with ⟨b, v⟩
    cases b with
    | true => simp
    | false => simp only; exact ih post m addr (v % 256) src

theorem Bus.readPass_append {μ : Type} (pre : List (BusProvider μ)) :
    ∀ (post : List (BusProvider μ)) (m : μ) (addr val : Nat) (src : BusRequestSource),
    Bus.readPass (pre ++ post) m addr val src
      = if (Bus.readPass pre m addr val src).1 = true
        then Bus.readPass pre m addr val src
        else Bus.readPass post m addr (Bus.readPass pre m addr val src).2 src := by
  induction pre with
  | nil => intro post m addr val src; simp [Bus.readPass]
  | cons p ps ih =>
    intro post m addr val src
    rw [List.cons_append]
    simp only [Bus.readPass]
    rcases hp : p.busRead m addr val src with ⟨b, v⟩
    cases b with
    | true => simp
    | false => simp only; exact ih post m addr (v % 256) src

theorem Bus.writeOverridePass_append {μ : Type} (pre : List (BusProvider μ)) :
    ∀ (post : List (BusProvider μ)) (m : μ) (addr val : Nat) (src : BusRequestSource),
    Bus.writeOverridePass (pre ++ post) m addr val src
      = if (Bus.writeOverridePass pre m addr val src).1 = true
        then Bus.writeOverridePass pre m addr val src
        else Bus.writeOverridePass post (Bus.writeOverridePass pre m addr val src).2 addr val src := by
  induction pre with
  | nil => intro post m addr val src; simp [Bus.writeOverridePass]
  | cons p ps ih =>
    intro post m addr val src
    rw [List.cons_append]
    simp only [Bus.writeOverridePass]
    rcases hp : p.busWriteOverride m addr val src with ⟨b, m1⟩
    cases b with
    | true => simp
    | false => simp only; exact ih post m1 addr val src

theorem Bus.writePass_append {μ : Type} (pre : List (BusProvider μ)) :
    ∀ (post : List (BusProvider μ)) (m : μ) (addr val : Nat) (src : BusRequestSource),
    Bus.writePass (pre ++ post) m addr val src
      = if (Bus.writePass pre m addr val src).1 = true
        then Bus.writePass pre m addr val src
        else Bus.writePass post (Bus.writePass pre m addr val src).2 addr val src := by
  induction pre with
  | nil => intro post m addr val src; simp [Bus.writePass]
  | cons p ps ih =>
    intro post m addr val src
    rw [List.cons_append]
    simp only [Bus.writePass]
    rcases hp : p.busWrite m addr val src with ⟨b, m1⟩
    cases b with
    | true => simp
    | false => simp only; exact ih post m1 addr val src

theorem Bus.readOverridePass_false_iff {μ : Type} (ps : List (BusProvider μ)) :
    ∀ (m : μ) (addr val : Nat) (src : BusRequestSource),
    (Bus.readOverridePass ps m addr val src).1 = false ↔
      ∀ (i : Nat) (h : i < ps.length),
        ((ps.get ⟨i, h⟩).busReadOverride m addr
          (Bus.readOverridePass (ps.take i) m addr val src).2 src).1 = false := by
  induction ps with
  | nil => intro m addr val src; simp [Bus.readOverridePass]
  | cons p ps ih =>
    intro m addr val src
    simp only [Bus.readOverridePass]
    rcases hp : p.busReadOverride m addr val src with ⟨b, v⟩
    cases b with
    | true =>
      simp only [Bool.true_eq_false, false_iff, not_forall]
      exact ⟨0, Nat.succ_pos _, by simp [Bus.readOverridePass, hp]⟩
    | false =>
      simp only
      rw [ih m addr (v % 256) src]
      constructor
      · intro hall i h
        cases i with
        | zero => simp [Bus.readOverridePass, hp]
        | succ j =>
          have hj := hall j (Nat.lt_of_succ_lt_succ h)
          simpa [Bus.readOverridePass, hp] using hj
      · intro hall j h
        have hj := hall (j + 1) (Nat.succ_lt_succ h)
        simpa [Bus.readOverridePass, hp] using hj

theorem Bus.readPass_false_iff {μ : Type} (ps : List (BusProvider μ)) :
    ∀ (m : μ) (addr val : Nat) (src : BusRequestSource),
    (Bus.readPass ps m addr val src).1 = false ↔
      ∀ (i : Nat) (h : i < ps.length),
        ((ps.get ⟨i, h⟩).busRead m addr
          (Bus.readPass (ps.take i) m addr val src).2 src).1 = false := by
  induction ps with
  | nil => intro m addr val src; simp [Bus.readPass]
  | cons p ps ih =>
    intro m addr val src
    simp only [Bus.readPass]
    rcases hp : p.busRead m addr val src with ⟨b, v⟩
    cases b with
    | true =>
      simp only [Bool.true_eq_false, false_iff, not_forall]
      exact ⟨0, Nat.succ_pos _, by simp [Bus.readPass, hp]⟩
    | false =>
      simp only
      rw [ih m addr (v % 256) src]
      constructor
      · intro hall i h
        cases i with
        | zero => simp [Bus.readPass, hp]
        | succ j =>
          have hj := hall j (Nat.lt_of_succ_lt_succ h)
          simpa [Bus.readPass, hp] using hj
      · intro hall j h
        have hj := hall (j + 1) (Nat.succ_lt_succ h)
        simpa [Bus.readPass, hp] using hj

theorem Bus.writeOverridePass_false_iff {μ : Type} (ps : List (BusProvider μ)) :
    ∀ (m : μ) (addr val : Nat) (src : BusRequestSource),
    (Bus.writeOverridePass ps m addr val src).1 = false ↔
      ∀ (i : Nat) (h : i < ps.length),
        ((ps.get ⟨i, h⟩).busWriteOverride
          (Bus.writeOverridePass (ps.take i) m addr val src).2 addr val src).1 = false := by
  induction ps with
  | nil => intro m addr val src; simp [Bus.writeOverridePass]
  | cons p ps ih =>
    intro m addr val src
    simp only [Bus.writeOverridePass]
    rcases hp : p.busWriteOverride m addr val src with ⟨b, m1⟩
    cases b with
    | true =>
      simp only [Bool.true_eq_false, false_iff, not_forall]
      exact ⟨0, Nat.succ_pos _, by simp [Bus.writeOverridePass, hp]⟩
    | false =>
      simp only
      rw [ih m1 addr val src]
      constructor
      · intro hall i h
        cases i with
        | zero => simp [Bus.writeOverridePass, hp]
        | succ j =>
          have hj := hall j (Nat.lt_of_succ_lt_succ h)
          simpa [Bus.writeOverridePass, hp] using hj
      · intro hall j h
        have hj := hall (j + 1) (Nat.succ_lt_succ h)
        simpa [Bus.writeOverridePass, hp] using hj

theorem Bus.writePass_false_iff {μ : Type} (ps : List (BusProvider μ)) :
    ∀ (m : μ) (addr val : Nat) (src : BusRequestSource),
    (Bus.writePass ps m addr val src).1 = false ↔
      ∀ (i : Nat) (h : i < ps.length),
        ((ps.get ⟨i, h⟩).busWrite
          (Bus.writePass (ps.take i) m addr val src).2 addr val src).1 = false := by
  induction ps with
  | nil => intro m addr val src; simp [Bus.writePass]
  | cons p ps ih =>
    intro m addr val src
    simp only [Bus.writePass]
    rcases hp : p.busWrite m addr val src with ⟨b, m1⟩
    cases b with
    | true =>
      simp only [Bool.true_eq_false, false_iff, not_forall]
      exact ⟨0, Nat.succ_pos _, by simp [Bus.writePass, hp]⟩
    | false =>
      simp only
      rw [ih m1 addr val src]
      constructor
      · intro hall i h
        cases i with
        | zero => simp [Bus.writePass, hp]
        | succ j =>
          have hj := hall j (Nat.lt_of_succ_lt_succ h)
          simpa [Bus.writePass, hp] using hj
      · intro hall j h
        have hj := hall (j + 1) (Nat.succ_lt_succ h)
        simpa [Bus.writePass, hp] using hj

/-- Claim C26: `Bus::read` returns the value produced by the first provider, in
registration order, whose read-override reports handled, whatever the normal reads of
the providers registered before it would do; if no override handles, it returns the
value produced by the first provider whose normal read reports handled. In both
cases the result is the same for every list `post` of providers registered after
that provider: none of them is consulted in the pass that answers. -/
theorem Bus_read_first_match {μ : Type} (pre post : List (BusProvider μ)) (p : BusProvider μ)
    (m : μ) (addr v : Nat) (src : BusRequestSource) :
    (∀ val1 : Nat,
      Bus.readOverridePass pre m (addr % 65536) 0 src = (false, val1) →
      p.busReadOverride m (addr % 65536) val1 src = (true, v) →
      Bus.readOverridePass (pre ++ p :: post) m (addr % 65536) 0 src = (true, v % 256) ∧
      Bus.read { busProviders := pre ++ p :: post, store := m } addr src = .ok (v % 256)) ∧
    (∀ val0 val1 : Nat,
      Bus.readOverridePass (pre ++ p :: post) m (addr % 65536) 0 src = (false, val0) →
      Bus.readPass pre m (addr % 65536) val0 src = (false, val1) →
      p.busRead m (addr % 65536) val1 src = (true, v) →
      Bus.readPass (pre ++ p :: post) m (addr % 65536) val0 src = (true, v % 256) ∧
      Bus.read { busProviders := pre ++ p :: post, store := m } addr src = .ok (v % 256)) := by
  constructor
  · intro val1 hpre hp
    have h : Bus.readOverridePass (pre ++ p :: post) m (addr % 65536) 0 src
        = (true, v % 256) := by
      rw [Bus.readOverridePass_append, hpre]
      simp [Bus.readOverridePass, hp]
    exact ⟨h, by simp only [Bus.read, h]⟩
  · intro val0 val1 hov hpre hp
    have h : Bus.readPass (pre ++ p :: post) m (addr % 65536) val0 src = (true, v % 256) := by
      rw [Bus.readPass_append, hpre]
      simp [Bus.readPass, hp]
    exact ⟨h, by simp only [Bus.read, hov, h]⟩

theorem Bus_read_first_match_witness :
    Bus.read { busProviders := [memoryBelow 0x10000, lockedAddress 0xFF46 0xFF, wholeMemory],
               store := fun _ => 0x12 } 0xFF46 BusRequestSource.CPU = .ok 0xFF ∧
    Bus.read { busProviders := [lockedAddress 0xFF46 0xFF, memoryBelow 0x8000, wholeMemory],
               store := fun a => if a < 0x8000 then 0x34 else 0x56 } 0x0100
        BusRequestSource.CPU = .ok 0x34 :=
  ⟨((Bus_read_first_match [memoryBelow 0x10000] [wholeMemory] (lockedAddress 0xFF46 0xFF)
      (fun _ => 0x12) 0xFF46 0xFF BusRequestSource.CPU).1 0 rfl rfl).2,
   ((Bus_read_first_match [lockedAddress 0xFF46 0xFF] [wholeMemory] (memoryBelow 0x8000)
      (fun a => if a < 0x8000 then 0x34 else 0x56) 0x0100 0x34 BusRequestSource.CPU).2 0 0
      rfl rfl rfl).2⟩

/-- Claim C27: `Bus::read(addr)` fails with `NoHandler(addr, false)` if and only if no
provider, called as the two loops call it, handles `addr` in the read-override pass or
in the normal read pass, and it fails with nothing else; `Bus::write(addr, val)` fails
with `NoHandler(addr, true)` if and only if no provider handles it in the
write-override pass or in the normal write pass; when an override handles the write
the devices are left as the override pass left them (no normal write runs). Both fail
on an empty provider list. -/
theorem Bus_NoHandler_iff {μ : Type} (bus : Bus μ) (addr val : Nat) (src : BusRequestSource) :
    (Bus.read bus addr src = .error ⟨addr % 65536, false⟩ ↔
      (∀ (i : Nat) (h : i < bus.busProviders.length),
        ((bus.busProviders.get ⟨i, h⟩).busReadOverride bus.store (addr % 65536)
          (Bus.readOverridePass (bus.busProviders.take i) bus.store (addr % 65536) 0 src).2
          src).1 = false) ∧
      (∀ (i : Nat) (h : i < bus.busProviders.length),
        ((bus.busProviders.get ⟨i, h⟩).busRead bus.store (addr % 65536)
          (Bus.readPass (bus.busProviders.take i) bus.store (addr % 65536)
            (Bus.readOverridePass bus.busProviders bus.store (addr % 65536) 0 src).2 src).2
          src).1 = false)) ∧
    (∀ e, Bus.read bus addr src = .error e → e = ⟨addr % 65536, false⟩) ∧
    ((Bus.write bus addr val src).1 = .error ⟨addr % 65536, true⟩ ↔
      (∀ (i : Nat) (h : i < bus.busProviders.length),
        ((bus.busProviders.get ⟨i, h⟩).busWriteOverride
          (Bus.writeOverridePass (bus.busProviders.take i) bus.store (addr % 65536)
            (val % 256) src).2
          (addr % 65536) (val % 256) src).1 = false) ∧
      (∀ (i : Nat) (h : i < bus.busProviders.length),
        ((bus.busProviders.get ⟨i, h⟩).busWrite
          (Bus.writePass (bus.busProviders.take i)
            (Bus.writeOverridePass bus.busProviders bus.store (addr % 65536) (val % 256) src).2
            (addr % 65536) (val % 256) src).2
          (addr % 65536) (val % 256) src).1 = false)) ∧
    (∀ e, (Bus.write bus addr val src).1 = .error e → e = ⟨addr % 65536, true⟩) ∧
    ((Bus.writeOverridePass bus.busProviders bus.store (addr % 65536) (val % 256) src).1 = true →
      Bus.write bus addr val src = (.ok (), { bus with store :=
        (Bus.writeOverridePass bus.busProviders bus.store (addr % 65536) (val % 256) src).2 })) ∧
    (bus.busProviders = [] →
      Bus.read bus addr src = .error ⟨addr % 65536, false⟩ ∧
      Bus.write bus addr val src = (.error ⟨addr % 65536, true⟩, bus)) := by
  refine ⟨?_, ?_, ?_, ?_, ?_, ?_⟩
  · rw [← Bus.readOverridePass_false_iff, ← Bus.readPass_false_iff]
    simp only [Bus.read]
    rcases h1 : Bus.readOverridePass bus.busProviders bus.store (addr % 65536) 0 src with ⟨b1, v1⟩
    cases b1 with
    | true => simp
    | false =>
      simp only
      rcases h2 : Bus.readPass bus.busProviders bus.store (addr % 65536) v1 src with ⟨b2, v2⟩
      cases b2 <;> simp
  · intro e
    simp only [Bus.read]
    rcases h1 : Bus.readOverridePass bus.busProviders bus.store (addr % 65536) 0 src with ⟨b1, v1⟩
    cases b1 with
    | true => simp
    | false =>
      simp only
      rcases h2 : Bus.readPass bus.busProviders bus.store (addr % 65536) v1 src with ⟨b2, v2⟩
      cases b2 with
      | true => simp
      | false => intro h; injection h with h; exact h.symm
  · rw [← Bus.writeOverridePass_false_iff, ← Bus.writePass_false_iff]
    simp only [Bus.write]
    rcases h1 : Bus.writeOverridePass bus.busProviders bus.store (addr % 65536) (val % 256) src
      with ⟨b1, m1⟩
    cases b1 with
    | true => simp
    | false =>
      simp only
      rcases h2 : Bus.writePass bus.busProviders m1 (addr % 65536) (val % 256) src with ⟨b2, m2⟩
      cases b2 <;> simp
  · intro e
    simp only [Bus.write]
    rcases h1 : Bus.writeOverridePass bus.busProviders bus.store (addr % 65536) (val % 256) src
      with ⟨b1, m1⟩
    cases b1 with
    | true => simp
    | false =>
      simp only
      rcases h2 : Bus.writePass bus.busProviders m1 (addr % 65536) (val % 256) src with ⟨b2, m2⟩
      cases b2 with
      | true => simp
      | false => intro h; injection h with h; exact h.symm
  · intro h
    simp only [Bus.write]
    rcases h1 : Bus.writeOverridePass bus.busProviders bus.store (addr % 65536) (val % 256) src
      with ⟨b1, m1⟩
    rw [h1] at h
    cases b1 with
    | true => rfl
    | false => exact absurd h (by simp)
  · intro h
    rcases bus with ⟨ps, m⟩
    subst h
    exact ⟨rfl, rfl⟩

theorem Bus_NoHandler_iff_witness :
    Bus.read { busProviders := ([] : List (BusProvider (Nat → Nat))), store := fun _ => 0x00 }
        0x1234 BusRequestSource.CPU = .error ⟨0x1234, false⟩ ∧
      Bus.write { busProviders := ([] : List (BusProvider (Nat → Nat))), store := fun _ => 0x00 }
        0x1234 0x56 BusRequestSource.CPU
        = (.error ⟨0x1234, true⟩,
          { busProviders := ([] : List (BusProvider (Nat → Nat))), store := fun _ => 0x00 }) :=
  (Bus_NoHandler_iff
    { busProviders := ([] : List (BusProvider (Nat → Nat))), store := fun _ => 0x00 }
    0x1234 0x56 BusRequestSource.CPU).2.2.2.2.2 rfl

theorem Bus.eraseRemove_eq_filter {π : Type} [DecidableEq π] (ps : List π) (p : π) :
    Bus.eraseRemove ps p = ps.filter (fun q => decide (q ≠ p)) := by
  induction ps with
  | nil => rfl
  | cons q qs ih =>
    simp only [Bus.eraseRemove, List.filter_cons]
    by_cases h : q = p
    · simp [h, ih]
    · simp [h, ih]

theorem Bus.eraseRemove_of_not_mem {π : Type} [DecidableEq π] (ps : List π) (p : π)
    (h : p ∉ ps) : Bus.eraseRemove ps p = ps := by
  rw [Bus.eraseRemove_eq_filter]
  apply List.filter_eq_self.mpr
  intro q hq
  simp only [ne_eq, decide_eq_true_eq]
  intro hqp
  exact h (hqp ▸ hq)

theorem Bus.eraseRemove_append {π : Type} [DecidableEq π] (ps qs : List π) (p : π) :
    Bus.eraseRemove (ps ++ qs) p = Bus.eraseRemove ps p ++ Bus.eraseRemove qs p := by
  simp only [Bus.eraseRemove_eq_filter, List.filter_append]

/-- Claim C28: `registerBusProvider` appends the provider at the end of the provider
list, so that a provider registered earlier keeps its place in the dispatch order
(an override, then a normal read, answered by the earlier providers is not changed by
a registration); `unregisterBusProvider(p)` removes every occurrence of `p` and keeps
all other providers in their relative order; registering a provider that is not yet in
the list and then unregistering it restores the previous list, and unregistering an
absent provider changes nothing. -/
theorem register_unregister_BusProvider {π μ : Type} [DecidableEq π] (ps : List π) (p : π)
    (deref : π → BusProvider μ) (m : μ) (addr : Nat) (src : BusRequestSource) :
    Bus.registerBusProvider ps p = ps ++ [p] ∧
    Bus.unregisterBusProvider ps p = ps.filter (fun q => decide (q ≠ p)) ∧
    p ∉ Bus.unregisterBusProvider ps p ∧
    (∀ q, q ≠ p → (q ∈ Bus.unregisterBusProvider ps p ↔ q ∈ ps)) ∧
    List.Sublist (Bus.unregisterBusProvider ps p) ps ∧
    (p ∉ ps → Bus.unregisterBusProvider (Bus.registerBusProvider ps p) p = ps) ∧
    (p ∉ ps → Bus.unregisterBusProvider ps p = ps) ∧
    ((Bus.readOverridePass (ps.map deref) m (addr % 65536) 0 src).1 = true →
      Bus.read (Bus.ofPointers deref (Bus.registerBusProvider ps p) m) addr src
        = Bus.read (Bus.ofPointers deref ps m) addr src) ∧
    ((Bus.readOverridePass ((Bus.registerBusProvider ps p).map deref) m (addr % 65536) 0 src).1
        = false →
      (Bus.readPass (ps.map deref) m (addr % 65536)
        (Bus.readOverridePass ((Bus.registerBusProvider ps p).map deref) m (addr % 65536) 0
          src).2 src).1 = true →
      Bus.read (Bus.ofPointers deref (Bus.registerBusProvider ps p) m) addr src
        = (Except.ok (Bus.readPass (ps.map deref) m (addr % 65536)
            (Bus.readOverridePass ((Bus.registerBusProvider ps p).map deref) m (addr % 65536) 0
              src).2 src).2 : Except BusNoHandlerException Nat)) := by
  have hf : Bus.unregisterBusProvider ps p = ps.filter (fun q => decide (q ≠ p)) :=
    Bus.eraseRemove_eq_filter ps p
  refine ⟨rfl, hf, ?_, ?_, ?_, ?_, Bus.eraseRemove_of_not_mem ps p, ?_, ?_⟩
  · rw [hf]
    simp [List.mem_filter]
  · intro q hq
    rw [hf]
    simp [List.mem_filter, hq]
  · rw [hf]
    exact List.filter_sublist ps
  · intro h
    simp only [Bus.unregisterBusProvider, Bus.registerBusProvider, Bus.eraseRemove_append,
      Bus.eraseRemove_of_not_mem ps p h, Bus.eraseRemove, ↓reduceIte, List.append_nil]
  · intro h
    simp only [Bus.read, Bus.ofPointers, Bus.registerBusProvider, List.map_append,
      Bus.readOverridePass_append, h, ↓reduceIte]
    rcases h1 : Bus.readOverridePass (List.map deref ps) m (addr % 65536) 0 src with ⟨b1, v1⟩
    rw [h1] at h
    cases b1 with
    | true => rfl
    | false => exact absurd h (by simp)
  · intro h1 h2
    simp only [Bus.registerBusProvider, List.map_append] at h1 h2 ⊢
    simp only [Bus.read, Bus.ofPointers, Bus.registerBusProvider, List.map_append]
    rcases e1 : Bus.readOverridePass (List.map deref ps ++ List.map deref [p]) m (addr % 65536) 0
      src with ⟨b1, v1⟩
    rw [e1] at h1 h2
    cases b1 with
    | true => exact absurd h1 (by simp)
    | false =>
      simp only at h2 ⊢
      rw [Bus.readPass_append, if_pos h2]
      rcases e2 : Bus.readPass (List.map deref ps) m (addr % 65536) v1 src with ⟨b2, v2⟩
      rw [e2] at h2
      cases b2 with
      | true => rfl
      | false => exact absurd h2 (by simp)

theorem register_unregister_BusProvider_witness :
    Bus.unregisterBusProvider (Bus.registerBusProvider [0, 1] 2) 2 = [0, 1] ∧
    Bus.unregisterBusProvider [0, 1] 2 = [0, 1] :=
  ⟨(register_unregister_BusProvider [0, 1] 2
      (fun i : Nat => if i = 0 then memoryBelow 0x8000 else wholeMemory) (fun _ => 0x00) 0x0100
      BusRequestSource.CPU).2.2.2.2.2.1 (by decide),
   (register_unregister_BusProvider [0, 1] 2
      (fun i : Nat => if i = 0 then memoryBelow 0x8000 else wholeMemory) (fun _ => 0x00) 0x0100
      BusRequestSource.CPU).2.2.2.2.2.2.1 (by decide)⟩

/-! ## PPU mode manager -/

/-- Claim C29: the transition function of the PPU mode manager. `tick` ticks the
instance of the current mode. If that instance is not fully finished, the mode and
`LY` are unchanged (and the mode instances are as the tick of the instance left
them). If it is, the next mode is: `OAM_Search` to `Drawing`; `Drawing` to `HBlank`
(after the blanking budget `376 - getTickCounter()` is handed to the HBlank
instance); `HBlank` increments the 8-bit `LY` and goes to `OAM_Search` if the new `LY`
is below 144, otherwise to `VBlank`; `VBlank` with `LY < 153` increments `LY` and stays
in `VBlank`, and otherwise sets `LY = 0` and goes to `OAM_Search`; the instance of the
mode entered is restarted. -/
theorem PPUModeManager_tick_transition {σ : Type} (ops : PPUModes σ) (p : PPUModeManager σ) :
    (ops.isFullyFinished p.currentMode p.ppuRegisters
        (ops.tick p.currentMode p.ppuRegisters p.modes) = false →
      (PPUModeManager.tick ops p).currentMode = p.currentMode ∧
      (PPUModeManager.tick ops p).ppuRegisters = p.ppuRegisters ∧
      (PPUModeManager.tick ops p).modes = ops.tick p.currentMode p.ppuRegisters p.modes) ∧
    (ops.isFullyFinished p.currentMode p.ppuRegisters
        (ops.tick p.currentMode p.ppuRegisters p.modes) = true →
      (p.currentMode = PPUModeType.OAM_Search →
        (PPUModeManager.tick ops p).currentMode = PPUModeType.Drawing ∧
        (PPUModeManager.tick ops p).ppuRegisters.yLcdCoordinate
          = p.ppuRegisters.yLcdCoordinate ∧
        (PPUModeManager.tick ops p).modes
          = ops.restart PPUModeType.Drawing p.ppuRegisters
              (ops.tick PPUModeType.OAM_Search p.ppuRegisters p.modes)) ∧
      (p.currentMode = PPUModeType.Drawing →
        (PPUModeManager.tick ops p).currentMode = PPUModeType.HBlank ∧
        (PPUModeManager.tick ops p).ppuRegisters.yLcdCoordinate
          = p.ppuRegisters.yLcdCoordinate ∧
        (PPUModeManager.tick ops p).modes
          = ops.restart PPUModeType.HBlank p.ppuRegisters
              (ops.setBlankingCycleCount
                (376 - (ops.getTickCounter
                  (ops.tick PPUModeType.Drawing p.ppuRegisters p.modes) : Int))
                (ops.tick PPUModeType.Drawing p.ppuRegisters p.modes))) ∧
      (p.currentMode = PPUModeType.HBlank →
        (PPUModeManager.tick ops p).ppuRegisters.yLcdCoordinate
          = (p.ppuRegisters.yLcdCoordinate + 1) % 256 ∧
        (PPUModeManager.tick ops p).currentMode
          = (if (p.ppuRegisters.yLcdCoordinate + 1) % 256 < 144 then PPUModeType.OAM_Search
             else PPUModeType.VBlank) ∧
        (PPUModeManager.tick ops p).modes
          = ops.restart (PPUModeManager.tick ops p).currentMode
              { p.ppuRegisters with yLcdCoordinate := (p.ppuRegisters.yLcdCoordinate + 1) % 256 }
              (ops.tick PPUModeType.HBlank p.ppuRegisters p.modes)) ∧
      (p.currentMode = PPUModeType.VBlank → p.ppuRegisters.yLcdCoordinate < 153 →
        (PPUModeManager.tick ops p).ppuRegisters.yLcdCoordinate
          = p.ppuRegisters.yLcdCoordinate + 1 ∧
        (PPUModeManager.tick ops p).currentMode = PPUModeType.VBlank ∧
        (PPUModeManager.tick ops p).modes
          = ops.restart PPUModeType.VBlank
              { p.ppuRegisters with yLcdCoordinate := p.ppuRegisters.yLcdCoordinate + 1 }
              (ops.tick PPUModeType.VBlank p.ppuRegisters p.modes)) ∧
      (p.currentMode = PPUModeType.VBlank → ¬ p.ppuRegisters.yLcdCoordinate < 153 →
        (PPUModeManager.tick ops p).ppuRegisters.yLcdCoordinate = 0 ∧
        (PPUModeManager.tick ops p).currentMode = PPUModeType.OAM_Search ∧
        (PPUModeManager.tick ops p).modes
          = ops.restart PPUModeType.OAM_Search
              { p.ppuRegisters with yLcdCoordinate := 0 }
              (ops.tick PPUModeType.VBlank p.ppuRegisters p.modes))) := by
  refine ⟨?_, ?_⟩
  · intro hfin
    simp only [PPUModeManager.tick, hfin, Bool.false_eq_true, ↓reduceIte,
      PPUModeManager.updateStatInterrupt]
    refine ⟨?_, ?_, ?_⟩ <;> first | rfl | trivial
  · intro hfin
    refine ⟨?_, ?_, ?_, ?_, ?_⟩
    · intro hm
      rw [hm] at hfin
      simp only [PPUModeManager.tick, hm, hfin, ↓reduceIte, PPUModeManager.tick_switch,
        PPUModeManager.updateStatInterrupt, PPUModeManager.updateLcdStatusModeRegister,
        PPUModeManager.setLcdStatusMode]
      refine ⟨?_, ?_, ?_⟩ <;> first | rfl | trivial
    · intro hm
      rw [hm] at hfin
      simp only [PPUModeManager.tick, hm, hfin, ↓reduceIte, PPUModeManager.tick_switch,
        PPUModeManager.updateStatInterrupt, PPUModeManager.updateLcdStatusModeRegister,
        PPUModeManager.setLcdStatusMode]
      refine ⟨?_, ?_, ?_⟩ <;> first | rfl | trivial
    · intro hm
      rw [hm] at hfin
      by_cases hly : (p.ppuRegisters.yLcdCoordinate + 1) % 256 < 144
      · simp only [PPUModeManager.tick, hm, hfin, ↓reduceIte, PPUModeManager.tick_switch,
          PPUModeManager.updateStatInterrupt, PPUModeManager.updateLcdStatusModeRegister,
          PPUModeManager.setLcdStatusMode, PPUModeManager.setYLcdCoordinate, hly]
        refine ⟨?_, ?_, ?_⟩ <;> first | rfl | trivial
      · simp only [PPUModeManager.tick, hm, hfin, ↓reduceIte, PPUModeManager.tick_switch,
          PPUModeManager.updateStatInterrupt, PPUModeManager.updateLcdStatusModeRegister,
          PPUModeManager.setLcdStatusMode, PPUModeManager.setYLcdCoordinate, hly]
        refine ⟨?_, ?_, ?_⟩ <;> first | rfl | trivial
    · intro hm hly
      rw [hm] at hfin
      have e : (p.ppuRegisters.yLcdCoordinate + 1) % 256 = p.ppuRegisters.yLcdCoordinate + 1 :=
        Nat.mod_eq_of_lt (by omega)
      simp only [PPUModeManager.tick, hm, hfin, ↓reduceIte, PPUModeManager.tick_switch,
        PPUModeManager.updateStatInterrupt, PPUModeManager.updateLcdStatusModeRegister,
        PPUModeManager.setLcdStatusMode, PPUModeManager.setYLcdCoordinate, hly, e]
      refine ⟨?_, ?_, ?_⟩ <;> first | rfl | trivial
    · intro hm hly
      rw [hm] at hfin
      simp only [PPUModeManager.tick, hm, hfin, ↓reduceIte, PPUModeManager.tick_switch,
        PPUModeManager.updateStatInterrupt, PPUModeManager.updateLcdStatusModeRegister,
        PPUModeManager.setLcdStatusMode, PPUModeManager.setYLcdCoordinate, hly]
      refine ⟨?_, ?_, ?_⟩ <;> first | rfl | trivial

/-- One dot of a scanline in the dot-budget model; `E` is the number of the dot that
ends the line, 456 or, when the drawing took 376 dots, 457. Before dot `E` the phase
advances and `LY` stays; dot `E` increments `LY`. -/
theorem linePhase_tick (used n E : Nat) (h1 : 1 ≤ used)
    (hE1 : E = 456 ∨ E = 81 + used) (hE2 : 456 ≤ E) (hE3 : 81 + used ≤ E)
    (q : PPUModeManager DotCounters) (hq : linePhase used n q) (hn : n < E) :
    (n + 1 < E →
      linePhase used (n + 1) (PPUModeManager.tick (dotBudgetModes used) q) ∧
      (PPUModeManager.tick (dotBudgetModes used) q).ppuRegisters.yLcdCoordinate
        = q.ppuRegisters.yLcdCoordinate) ∧
    (n + 1 = E →
      (PPUModeManager.tick (dotBudgetModes used) q).ppuRegisters.yLcdCoordinate
        = (q.ppuRegisters.yLcdCoordinate + 1) % 256) := by
  obtain ⟨⟨o, d, h, v, b⟩, mode, lines, ready, ⟨y, stat⟩⟩ := q
  unfold linePhase at hq
  simp only at hq
  rcases hq with ⟨hlt, hm, hc⟩ | ⟨hge, hlt, hm, hc⟩ | ⟨hge, hm, hc, hb⟩
  · subst hm hc
    refine ⟨fun _ => ?_, fun h => absurd h (by omega)⟩
    by_cases hfin : 80 ≤ o + 1
    · have ho : o + 1 = 80 := by omega
      simp [PPUModeManager.tick, dotBudgetModes, hfin, PPUModeManager.tick_switch,
        PPUModeManager.updateStatInterrupt, PPUModeManager.updateLcdStatusModeRegister,
        PPUModeManager.setLcdStatusMode, linePhase, ho]
      omega
    · simp [PPUModeManager.tick, dotBudgetModes, hfin, PPUModeManager.updateStatInterrupt,
        linePhase]
      omega
  · subst hm hc
    refine ⟨fun _ => ?_, fun h => absurd h (by omega)⟩
    by_cases hfin : used ≤ n - 80 + 1
    · have ho : n + 1 = 80 + used := by omega
      have hu : ((n - 80 + 1 : Nat) : Int) = (used : Int) := by omega
      simp [PPUModeManager.tick, dotBudgetModes, hfin, PPUModeManager.tick_switch,
        PPUModeManager.updateStatInterrupt, PPUModeManager.updateLcdStatusModeRegister,
        PPUModeManager.setLcdStatusMode, linePhase, ho]
      omega
    · simp [PPUModeManager.tick, dotBudgetModes, hfin, PPUModeManager.updateStatInterrupt,
        linePhase]
      omega
  · obtain ⟨k, hk⟩ : ∃ k, n = 80 + used + k := ⟨n - (80 + used), by omega⟩
    have hk2 : n - (80 + used) = k := by omega
    rw [hk2] at hc
    subst hm hc hb
    refine ⟨fun hlt => ?_, fun heq => ?_⟩
    · have hfin : ¬ ((376 : Int) ≤ (h : Int) + 1 + (used : Int)) := by omega
      simp [PPUModeManager.tick, dotBudgetModes, hfin, PPUModeManager.updateStatInterrupt,
        linePhase]
      omega
    · have hfin : (376 : Int) ≤ (h : Int) + 1 + (used : Int) := by omega
      by_cases hy : (y + 1) % 256 < 144
      · simp [PPUModeManager.tick, dotBudgetModes, hfin, PPUModeManager.tick_switch,
          PPUModeManager.updateStatInterrupt, PPUModeManager.updateLcdStatusModeRegister,
          PPUModeManager.setLcdStatusMode, PPUModeManager.setYLcdCoordinate, hy]
      · simp [PPUModeManager.tick, dotBudgetModes, hfin, PPUModeManager.tick_switch,
          PPUModeManager.updateStatInterrupt, PPUModeManager.updateLcdStatusModeRegister,
          PPUModeManager.setLcdStatusMode, PPUModeManager.setYLcdCoordinate, hy]

/-- Before the dot that ends the line, `LY` has its initial value. -/
theorem linePhase_ticks (used ly E : Nat) (h1 : 1 ≤ used)
    (hE1 : E = 456 ∨ E = 81 + used) (hE2 : 456 ≤ E) (hE3 : 81 + used ≤ E) :
    ∀ n, n < E →
      linePhase used n (PPUModeManager.ticks (dotBudgetModes used) n (lineStart ly)) ∧
      (PPUModeManager.ticks (dotBudgetModes used) n (lineStart ly)).ppuRegisters.yLcdCoordinate
        = ly := by
  intro n
  induction n with
  | zero =>
    intro _
    exact ⟨Or.inl ⟨by decide, rfl, rfl⟩, rfl⟩
  | succ n ih =>
    intro hn
    obtain ⟨hp, hly⟩ := ih (by omega)
    obtain ⟨hq, he⟩ := (linePhase_tick used n E h1 hE1 hE2 hE3 _ hp (by omega)).1 hn
    exact ⟨hq, he.trans hly⟩

/-- The dot that ends the line increments `LY`. -/
theorem linePhase_line_end (used ly E : Nat) (h1 : 1 ≤ used)
    (hE1 : E = 456 ∨ E = 81 + used) (hE2 : 456 ≤ E) (hE3 : 81 + used ≤ E) :
    (PPUModeManager.ticks (dotBudgetModes used) E (lineStart ly)).ppuRegisters.yLcdCoordinate
      = (ly + 1) % 256 := by
  obtain ⟨k, hk⟩ : ∃ k, E = k + 1 := ⟨E - 1, by omega⟩
  subst hk
  obtain ⟨hp, hly⟩ := linePhase_ticks used ly (k + 1) h1 hE1 hE2 hE3 k (by omega)
  have h := (linePhase_tick used k (k + 1) h1 hE1 hE2 hE3 _ hp (by omega)).2 rfl
  rw [hly] at h
  exact h

/-- Counterexample to claim C30 as stated: `used = 376` lies in the range of the
claim, and the budget `376 - used` is then 0; the HBlank instance is ticked once
before the manager asks whether it is finished, so 456 dots after the start of the OAM
search the manager is in HBlank and `LY` has not been incremented; the increment
comes with dot 457. -/
theorem scanline_of_376_drawing_dots_takes_457 :
    (172 ≤ 376 ∧ 376 ≤ 376) ∧
    (PPUModeManager.ticks (dotBudgetModes 376) 456 (lineStart 0)).modes.blankingCycleCount
      = 0 ∧
    (PPUModeManager.ticks (dotBudgetModes 376) 456 (lineStart 0)).currentMode
      = PPUModeType.HBlank ∧
    (PPUModeManager.ticks (dotBudgetModes 376) 456 (lineStart 0)).ppuRegisters.yLcdCoordinate
      = 0 ∧
    (PPUModeManager.ticks (dotBudgetModes 376) 456 (lineStart 0)).ppuRegisters.yLcdCoordinate
      ≠ (0 + 1) % 256 ∧
    (PPUModeManager.ticks (dotBudgetModes 376) 457 (lineStart 0)).ppuRegisters.yLcdCoordinate
      = 1 := by
  obtain ⟨hp, hly⟩ := linePhase_ticks 376 0 457 (by decide) (Or.inr rfl) (by decide)
    (by decide) 456 (by decide)
  have hend := linePhase_line_end 376 0 457 (by decide) (Or.inr rfl) (by decide) (by decide)
  rcases hp with ⟨hlt, _⟩ | ⟨_, hlt, _⟩ | ⟨_, hm, _, hb⟩
  · exact absurd hlt (by decide)
  · exact absurd hlt (by decide)
  · refine ⟨by decide, ?_, hm, hly, ?_, hend⟩
    · rw [hb]
      rfl
    · rw [hly]
      decide

/-- Claim C30 (amended): when Drawing finishes, the manager hands the HBlank instance
the budget `376 - getTickCounter()`, which is not negative when the drawing took at
most 376 dots. With the dot budgets of the mode table, for every `used` with
`172 <= used <= 375` a scanline takes exactly 456 dots from the start of the OAM
search to the increment of `LY`: `LY` has its initial value after each of the first
455 dots, the HBlank budget being `376 - used` once Drawing has finished, and dot 456
increments `LY`. -/
theorem scanline_takes_456_dots {σ : Type} (ops : PPUModes σ) (p : PPUModeManager σ)
    (used ly : Nat) (hlo : 172 ≤ used) (hhi : used ≤ 375) :
    (p.currentMode = PPUModeType.Drawing →
      ops.isFullyFinished PPUModeType.Drawing p.ppuRegisters
        (ops.tick PPUModeType.Drawing p.ppuRegisters p.modes) = true →
      (PPUModeManager.tick ops p).modes
        = ops.restart PPUModeType.HBlank p.ppuRegisters
            (ops.setBlankingCycleCount
              (376 - (ops.getTickCounter
                (ops.tick PPUModeType.Drawing p.ppuRegisters p.modes) : Int))
              (ops.tick PPUModeType.Drawing p.ppuRegisters p.modes))) ∧
    (0 : Int) ≤ 376 - (used : Int) ∧
    (∀ n, n ≤ 455 →
      (PPUModeManager.ticks (dotBudgetModes used) n
        (lineStart ly)).ppuRegisters.yLcdCoordinate = ly) ∧
    (∀ n, 80 + used ≤ n → n ≤ 455 →
      (PPUModeManager.ticks (dotBudgetModes used) n (lineStart ly)).currentMode
        = PPUModeType.HBlank ∧
      (PPUModeManager.ticks (dotBudgetModes used) n (lineStart ly)).modes.blankingCycleCount
        = 376 - (used : Int)) ∧
    (PPUModeManager.ticks (dotBudgetModes used) 456
      (lineStart ly)).ppuRegisters.yLcdCoordinate = (ly + 1) % 256 := by
  have h1 : 1 ≤ used := by omega
  refine ⟨?_, by omega, ?_, ?_, ?_⟩
  · intro hm hfin
    simp only [PPUModeManager.tick, hm, hfin, ↓reduceIte, PPUModeManager.tick_switch,
      PPUModeManager.updateStatInterrupt, PPUModeManager.updateLcdStatusModeRegister,
      PPUModeManager.setLcdStatusMode]
  · intro n hn
    exact (linePhase_ticks used ly 456 h1 (Or.inl rfl) (le_refl _) (by omega) n (by omega)).2
  · intro n hge hn
    rcases (linePhase_ticks used ly 456 h1 (Or.inl rfl) (le_refl _) (by omega) n
      (by omega)).1 with ⟨hlt, _⟩ | ⟨_, hlt, _⟩ | ⟨_, hm, _, hb⟩
    · omega
    · omega
    · exact ⟨hm, hb⟩
  · exact linePhase_line_end used ly 456 h1 (Or.inl rfl) (le_refl _) (by omega)

theorem scanline_takes_456_dots_witness :
    (PPUModeManager.ticks (dotBudgetModes 172) 455
      (lineStart 0)).ppuRegisters.yLcdCoordinate = 0 ∧
    (PPUModeManager.ticks (dotBudgetModes 172) 456
      (lineStart 0)).ppuRegisters.yLcdCoordinate = (0 + 1) % 256 :=
  ⟨(scanline_takes_456_dots (dotBudgetModes 172) (lineStart 0) 172 0 (by decide)
      (by decide)).2.2.1 455 (le_refl _),
   (scanline_takes_456_dots (dotBudgetModes 172) (lineStart 0) 172 0 (by decide)
      (by decide)).2.2.2.2⟩

/-! ## The mode manager from `reset()` on: VBlank line, LCDSTAT line, `STAT.mode`, `LY` -/

theorem frameInvariant_reset {σ : Type} (ops : PPUModes σ) (p : PPUModeManager σ) :
    (PPUModeManager.reset ops p).frameInvariant := by
  simp [PPUModeManager.frameInvariant, PPUModeManager.reset, PPUModeManager.setYLcdCoordinate,
    PPUModeManager.updateLcdStatusModeRegister, PPUModeManager.setLcdStatusMode,
    PPUModeManager.updateStatInterrupt, Bus.setInterruptLineHigh]

theorem frameInvariant_tick {σ : Type} (ops : PPUModes σ) (p : PPUModeManager σ)
    (h : p.frameInvariant) : (PPUModeManager.tick ops p).frameInvariant := by
  obtain ⟨modes, mode, lines, ready, ⟨ly, stat⟩⟩ := p
  obtain ⟨h1, h2, h3, h4⟩ := h
  simp only at h1 h2 h3 h4
  by_cases hfin : ops.isFullyFinished mode ⟨ly, stat⟩ (ops.tick mode ⟨ly, stat⟩ modes) = true
  · cases mode
    · simp [PPUModeManager.frameInvariant, PPUModeManager.tick, hfin,
        PPUModeManager.tick_switch, PPUModeManager.updateLcdStatusModeRegister,
        PPUModeManager.setLcdStatusMode, PPUModeManager.updateStatInterrupt,
        Bus.setInterruptLineHigh] at h2 h3 ⊢
      exact ⟨h1, by omega, h3⟩
    · simp [PPUModeManager.frameInvariant, PPUModeManager.tick, hfin,
        PPUModeManager.tick_switch, PPUModeManager.updateLcdStatusModeRegister,
        PPUModeManager.setLcdStatusMode, PPUModeManager.updateStatInterrupt,
        Bus.setInterruptLineHigh] at h2 h3 ⊢
      exact ⟨h1, by omega, h3⟩
    · simp at h2 h3
      have e : (ly + 1) % 256 = ly + 1 := Nat.mod_eq_of_lt (by omega)
      by_cases hly : ly + 1 < 144
      · simp [PPUModeManager.frameInvariant, PPUModeManager.tick, hfin,
          PPUModeManager.tick_switch, PPUModeManager.updateLcdStatusModeRegister,
          PPUModeManager.setLcdStatusMode, PPUModeManager.updateStatInterrupt,
          PPUModeManager.setYLcdCoordinate, Bus.setInterruptLineHigh, e, hly]
        exact ⟨by omega, by omega, h3⟩
      · simp [PPUModeManager.frameInvariant, PPUModeManager.tick, hfin,
          PPUModeManager.tick_switch, PPUModeManager.updateLcdStatusModeRegister,
          PPUModeManager.setLcdStatusMode, PPUModeManager.updateStatInterrupt,
          PPUModeManager.setYLcdCoordinate, Bus.setInterruptLineHigh, e, hly]
        omega
    · simp at h2 h3
      by_cases hly : ly < 153
      · have e : (ly + 1) % 256 = ly + 1 := Nat.mod_eq_of_lt (by omega)
        simp [PPUModeManager.frameInvariant, PPUModeManager.tick, hfin,
          PPUModeManager.tick_switch, PPUModeManager.updateLcdStatusModeRegister,
          PPUModeManager.setLcdStatusMode, PPUModeManager.updateStatInterrupt,
          PPUModeManager.setYLcdCoordinate, Bus.setInterruptLineHigh, e, hly]
        exact ⟨by omega, by omega, h3⟩
      · simp [PPUModeManager.frameInvariant, PPUModeManager.tick, hfin,
          PPUModeManager.tick_switch, PPUModeManager.updateLcdStatusModeRegister,
          PPUModeManager.setLcdStatusMode, PPUModeManager.updateStatInterrupt,
          PPUModeManager.setYLcdCoordinate, Bus.setInterruptLineHigh, hly]
  · simp [PPUModeManager.frameInvariant, PPUModeManager.tick, hfin,
      PPUModeManager.updateStatInterrupt, Bus.setInterruptLineHigh]
    exact ⟨h1, h2, h3, h4⟩

theorem frameInvariant_ticks {σ : Type} (ops : PPUModes σ) (p : PPUModeManager σ) (n : Nat) :
    (PPUModeManager.ticks ops n (PPUModeManager.reset ops p)).frameInvariant := by
  induction n with
  | zero => exact frameInvariant_reset ops p
  | succ n ih => exact frameInvariant_tick ops _ ih
/-- Claim C31: the VBlank interrupt line and the frame buffer. For any state of the mode
manager: a tick in which the HBlank instance finishes and the incremented `LY` is not
below 144 raises the VBlank line, notifies the frame buffer once and enters VBlank,
and no other tick notifies the frame buffer; a tick in which the VBlank instance
finishes with `LY` not below 153 lowers the line and enters OAM search; every other
tick leaves the line as it is; `reset()` lowers it. Hence in every state reached from
`reset()` by ticks the VBlank line is high if and only if the current mode is VBlank,
and from such a state in HBlank a finishing tick enters VBlank exactly when `LY`
becomes 144. -/
theorem VBlank_line_follows_mode {σ : Type} (ops : PPUModes σ) (p : PPUModeManager σ)
    (n : Nat) :
    (p.currentMode = PPUModeType.HBlank →
      ops.isFullyFinished p.currentMode p.ppuRegisters
        (ops.tick p.currentMode p.ppuRegisters p.modes) = true →
      ¬ (p.ppuRegisters.yLcdCoordinate + 1) % 256 < 144 →
      (PPUModeManager.tick ops p).interruptLines.vblank = true ∧
      (PPUModeManager.tick ops p).framebufferReady = p.framebufferReady + 1 ∧
      (PPUModeManager.tick ops p).currentMode = PPUModeType.VBlank) ∧
    (¬ (p.currentMode = PPUModeType.HBlank ∧
        ops.isFullyFinished p.currentMode p.ppuRegisters
          (ops.tick p.currentMode p.ppuRegisters p.modes) = true ∧
        ¬ (p.ppuRegisters.yLcdCoordinate + 1) % 256 < 144) →
      (PPUModeManager.tick ops p).framebufferReady = p.framebufferReady) ∧
    (p.currentMode = PPUModeType.VBlank →
      ops.isFullyFinished p.currentMode p.ppuRegisters
        (ops.tick p.currentMode p.ppuRegisters p.modes) = true →
      ¬ p.ppuRegisters.yLcdCoordinate < 153 →
      (PPUModeManager.tick ops p).interruptLines.vblank = false ∧
      (PPUModeManager.tick ops p).currentMode = PPUModeType.OAM_Search) ∧
    (¬ (p.currentMode = PPUModeType.HBlank ∧
        ops.isFullyFinished p.currentMode p.ppuRegisters
          (ops.tick p.currentMode p.ppuRegisters p.modes) = true ∧
        ¬ (p.ppuRegisters.yLcdCoordinate + 1) % 256 < 144) →
      ¬ (p.currentMode = PPUModeType.VBlank ∧
        ops.isFullyFinished p.currentMode p.ppuRegisters
          (ops.tick p.currentMode p.ppuRegisters p.modes) = true ∧
        ¬ p.ppuRegisters.yLcdCoordinate < 153) →
      (PPUModeManager.tick ops p).interruptLines.vblank = p.interruptLines.vblank) ∧
    (PPUModeManager.reset ops p).interruptLines.vblank = false ∧
    (PPUModeManager.reset ops p).framebufferReady = p.framebufferReady ∧
    ((PPUModeManager.ticks ops n (PPUModeManager.reset ops p)).interruptLines.vblank = true ↔
      (PPUModeManager.ticks ops n (PPUModeManager.reset ops p)).currentMode
        = PPUModeType.VBlank) ∧
    ((PPUModeManager.ticks ops n (PPUModeManager.reset ops p)).currentMode
        = PPUModeType.HBlank →
      ops.isFullyFinished PPUModeType.HBlank
        (PPUModeManager.ticks ops n (PPUModeManager.reset ops p)).ppuRegisters
        (ops.tick PPUModeType.HBlank
          (PPUModeManager.ticks ops n (PPUModeManager.reset ops p)).ppuRegisters
          (PPUModeManager.ticks ops n (PPUModeManager.reset ops p)).modes) = true →
      ((PPUModeManager.ticks ops (n + 1) (PPUModeManager.reset ops p)).currentMode
          = PPUModeType.VBlank ↔
        (PPUModeManager.ticks ops (n + 1)
          (PPUModeManager.reset ops p)).ppuRegisters.yLcdCoordinate = 144)) := by
  refine ⟨?_, ?_, ?_, ?_, ?_, ?_, (frameInvariant_ticks ops p n).2.2.1, ?_⟩
  · intro hm hfin hly
    rw [hm] at hfin
    simp [PPUModeManager.tick, hm, hfin, PPUModeManager.tick_switch,
      PPUModeManager.updateLcdStatusModeRegister, PPUModeManager.setLcdStatusMode,
      PPUModeManager.updateStatInterrupt, PPUModeManager.setYLcdCoordinate,
      Bus.setInterruptLineHigh, hly]
  · intro hno
    by_cases hfin : ops.isFullyFinished p.currentMode p.ppuRegisters
        (ops.tick p.currentMode p.ppuRegisters p.modes) = true
    · rcases hm : p.currentMode with _ | _ | _ | _
      · rw [hm] at hfin
        simp [PPUModeManager.tick, hm, hfin, PPUModeManager.tick_switch,
          PPUModeManager.updateLcdStatusModeRegister, PPUModeManager.setLcdStatusMode,
          PPUModeManager.updateStatInterrupt]
      · rw [hm] at hfin
        simp [PPUModeManager.tick, hm, hfin, PPUModeManager.tick_switch,
          PPUModeManager.updateLcdStatusModeRegister, PPUModeManager.setLcdStatusMode,
          PPUModeManager.updateStatInterrupt]
      · have hly : (p.ppuRegisters.yLcdCoordinate + 1) % 256 < 144 := by
          by_contra hc
          exact hno ⟨hm, hfin, hc⟩
        rw [hm] at hfin
        simp [PPUModeManager.tick, hm, hfin, PPUModeManager.tick_switch,
          PPUModeManager.updateLcdStatusModeRegister, PPUModeManager.setLcdStatusMode,
          PPUModeManager.updateStatInterrupt, PPUModeManager.setYLcdCoordinate, hly]
      · rw [hm] at hfin
        by_cases hly : p.ppuRegisters.yLcdCoordinate < 153
        · simp [PPUModeManager.tick, hm, hfin, PPUModeManager.tick_switch,
            PPUModeManager.updateLcdStatusModeRegister, PPUModeManager.setLcdStatusMode,
            PPUModeManager.updateStatInterrupt, PPUModeManager.setYLcdCoordinate, hly]
        · simp [PPUModeManager.tick, hm, hfin, PPUModeManager.tick_switch,
            PPUModeManager.updateLcdStatusModeRegister, PPUModeManager.setLcdStatusMode,
            PPUModeManager.updateStatInterrupt, PPUModeManager.setYLcdCoordinate, hly]
    · simp [PPUModeManager.tick, hfin, PPUModeManager.updateStatInterrupt]
  · intro hm hfin hly
    rw [hm] at hfin
    simp [PPUModeManager.tick, hm, hfin, PPUModeManager.tick_switch,
      PPUModeManager.updateLcdStatusModeRegister, PPUModeManager.setLcdStatusMode,
      PPUModeManager.updateStatInterrupt, PPUModeManager.setYLcdCoordinate,
      Bus.setInterruptLineHigh, hly]
  · intro hno1 hno2
    by_cases hfin : ops.isFullyFinished p.currentMode p.ppuRegisters
        (ops.tick p.currentMode p.ppuRegisters p.modes) = true
    · rcases hm : p.currentMode with _ | _ | _ | _
      · rw [hm] at hfin
        simp [PPUModeManager.tick, hm, hfin, PPUModeManager.tick_switch,
          PPUModeManager.updateLcdStatusModeRegister, PPUModeManager.setLcdStatusMode,
          PPUModeManager.updateStatInterrupt, Bus.setInterruptLineHigh]
      · rw [hm] at hfin
        simp [PPUModeManager.tick, hm, hfin, PPUModeManager.tick_switch,
          PPUModeManager.updateLcdStatusModeRegister, PPUModeManager.setLcdStatusMode,
          PPUModeManager.updateStatInterrupt, Bus.setInterruptLineHigh]
      · have hly : (p.ppuRegisters.yLcdCoordinate + 1) % 256 < 144 := by
          by_contra hc
          exact hno1 ⟨hm, hfin, hc⟩
        rw [hm] at hfin
        simp [PPUModeManager.tick, hm, hfin, PPUModeManager.tick_switch,
          PPUModeManager.updateLcdStatusModeRegister, PPUModeManager.setLcdStatusMode,
          PPUModeManager.updateStatInterrupt, PPUModeManager.setYLcdCoordinate,
          Bus.setInterruptLineHigh, hly]
      · have hly : p.ppuRegisters.yLcdCoordinate < 153 := by
          by_contra hc
          exact hno2 ⟨hm, hfin, hc⟩
        rw [hm] at hfin
        simp [PPUModeManager.tick, hm, hfin, PPUModeManager.tick_switch,
          PPUModeManager.updateLcdStatusModeRegister, PPUModeManager.setLcdStatusMode,
          PPUModeManager.updateStatInterrupt, PPUModeManager.setYLcdCoordinate,
          Bus.setInterruptLineHigh, hly]
    · simp [PPUModeManager.tick, hfin, PPUModeManager.updateStatInterrupt,
        Bus.setInterruptLineHigh]
  · simp [PPUModeManager.reset, PPUModeManager.setYLcdCoordinate,
      PPUModeManager.updateLcdStatusModeRegister, PPUModeManager.setLcdStatusMode,
      PPUModeManager.updateStatInterrupt, Bus.setInterruptLineHigh]
  · simp [PPUModeManager.reset, PPUModeManager.setYLcdCoordinate,
      PPUModeManager.updateLcdStatusModeRegister, PPUModeManager.setLcdStatusMode,
      PPUModeManager.updateStatInterrupt]
  · intro hm hfin
    obtain ⟨h1, h2, _, _⟩ := frameInvariant_ticks ops p n
    obtain ⟨g1, g2, _, _⟩ := frameInvariant_ticks ops p (n + 1)
    have hlt : (PPUModeManager.ticks ops n
        (PPUModeManager.reset ops p)).ppuRegisters.yLcdCoordinate < 144 := by
      by_contra hc
      have := h2.2 (by omega)
      rw [hm] at this
      exact PPUModeType.noConfusion this
    have hly : (PPUModeManager.ticks ops (n + 1)
        (PPUModeManager.reset ops p)).ppuRegisters.yLcdCoordinate
        = (PPUModeManager.ticks ops n
            (PPUModeManager.reset ops p)).ppuRegisters.yLcdCoordinate + 1 := by
      show (PPUModeManager.tick ops (PPUModeManager.ticks ops n
        (PPUModeManager.reset ops p))).ppuRegisters.yLcdCoordinate = _
      have e : ((PPUModeManager.ticks ops n
          (PPUModeManager.reset ops p)).ppuRegisters.yLcdCoordinate + 1) % 256
          = (PPUModeManager.ticks ops n
            (PPUModeManager.reset ops p)).ppuRegisters.yLcdCoordinate + 1 :=
        Nat.mod_eq_of_lt (by omega)
      by_cases hl : (PPUModeManager.ticks ops n
          (PPUModeManager.reset ops p)).ppuRegisters.yLcdCoordinate + 1 < 144
      · simp [PPUModeManager.tick, hm, hfin, PPUModeManager.tick_switch,
          PPUModeManager.updateLcdStatusModeRegister, PPUModeManager.setLcdStatusMode,
          PPUModeManager.updateStatInterrupt, PPUModeManager.setYLcdCoordinate, e, hl]
      · simp [PPUModeManager.tick, hm, hfin, PPUModeManager.tick_switch,
          PPUModeManager.updateLcdStatusModeRegister, PPUModeManager.setLcdStatusMode,
          PPUModeManager.updateStatInterrupt, PPUModeManager.setYLcdCoordinate, e, hl]
    rw [g2]
    omega

/-- Claim C32: `updateStatInterrupt()` is the last statement of `reset()` and of
`tick()`: after either call the LCDSTAT line equals
`(mode0Src && mode == HBlank) || (mode1Src && mode == VBlank) ||
(mode2Src && mode == OAM_Search) || lycEqualsLy`, evaluated on the mode and the `STAT`
bits of the state in which the call ends, and so it does in every state reached from
`reset()` by ticks; `updateStatInterrupt()` changes the LCDSTAT line only, leaving the
four other lines, the mode and the registers as they are. -/
theorem LCDSTAT_line_after_reset_and_tick {σ : Type} (ops : PPUModes σ)
    (p : PPUModeManager σ) (n : Nat) :
    (∀ q, q = PPUModeManager.reset ops p ∨ q = PPUModeManager.tick ops p ∨
        q = PPUModeManager.ticks ops n (PPUModeManager.reset ops p) →
      q.interruptLines.lcdstat
        = ((q.ppuRegisters.lcdStatus.mode0InterruptSource
              && decide (q.currentMode = PPUModeType.HBlank))
            || (q.ppuRegisters.lcdStatus.mode1InterruptSource
              && decide (q.currentMode = PPUModeType.VBlank))
            || (q.ppuRegisters.lcdStatus.mode2InterruptSource
              && decide (q.currentMode = PPUModeType.OAM_Search))
            || q.ppuRegisters.lcdStatus.lycEqualsLy)) ∧
    (p.updateStatInterrupt.interruptLines.vblank = p.interruptLines.vblank ∧
      p.updateStatInterrupt.interruptLines.timer = p.interruptLines.timer ∧
      p.updateStatInterrupt.interruptLines.serial = p.interruptLines.serial ∧
      p.updateStatInterrupt.interruptLines.joypad = p.interruptLines.joypad ∧
      p.updateStatInterrupt.currentMode = p.currentMode ∧
      p.updateStatInterrupt.ppuRegisters = p.ppuRegisters ∧
      p.updateStatInterrupt.modes = p.modes ∧
      p.updateStatInterrupt.framebufferReady = p.framebufferReady) ∧
    (∀ lines : InterruptLines, ∀ v : Bool,
      Bus.isInterruptLineHigh (Bus.setInterruptLineHigh lines InterruptType.LCDSTAT v)
        InterruptType.LCDSTAT = v ∧
      ∀ t, t ≠ InterruptType.LCDSTAT →
        Bus.isInterruptLineHigh (Bus.setInterruptLineHigh lines InterruptType.LCDSTAT v) t
          = Bus.isInterruptLineHigh lines t) := by
  have hupd : ∀ r : PPUModeManager σ, r.updateStatInterrupt.interruptLines.lcdstat
      = ((r.updateStatInterrupt.ppuRegisters.lcdStatus.mode0InterruptSource
              && decide (r.updateStatInterrupt.currentMode = PPUModeType.HBlank))
            || (r.updateStatInterrupt.ppuRegisters.lcdStatus.mode1InterruptSource
              && decide (r.updateStatInterrupt.currentMode = PPUModeType.VBlank))
            || (r.updateStatInterrupt.ppuRegisters.lcdStatus.mode2InterruptSource
              && decide (r.updateStatInterrupt.currentMode = PPUModeType.OAM_Search))
            || r.updateStatInterrupt.ppuRegisters.lcdStatus.lycEqualsLy) := fun _ => rfl
  have hreset : ∃ r : PPUModeManager σ, PPUModeManager.reset ops p = r.updateStatInterrupt :=
    ⟨_, rfl⟩
  have htick : ∀ r0 : PPUModeManager σ, ∃ r : PPUModeManager σ,
      PPUModeManager.tick ops r0 = r.updateStatInterrupt := fun _ => ⟨_, rfl⟩
  refine ⟨?_, ⟨rfl, rfl, rfl, rfl, rfl, rfl, rfl, rfl⟩, ?_⟩
  · intro q hq
    rcases hq with hq | hq | hq
    · obtain ⟨r, hr⟩ := hreset
      rw [hq, hr]
      exact hupd r
    · obtain ⟨r, hr⟩ := htick p
      rw [hq, hr]
      exact hupd r
    · cases n with
      | zero =>
        obtain ⟨r, hr⟩ := hreset
        have e : PPUModeManager.ticks ops 0 (PPUModeManager.reset ops p)
            = PPUModeManager.reset ops p := rfl
        rw [hq, e, hr]
        exact hupd r
      | succ n =>
        obtain ⟨r, hr⟩ := htick (PPUModeManager.ticks ops n (PPUModeManager.reset ops p))
        have e : PPUModeManager.ticks ops (n + 1) (PPUModeManager.reset ops p)
            = PPUModeManager.tick ops
                (PPUModeManager.ticks ops n (PPUModeManager.reset ops p)) := rfl
        rw [hq, e, hr]
        exact hupd r
  · intro lines v
    refine ⟨rfl, ?_⟩
    intro t ht
    cases t
    · rfl
    · exact absurd rfl ht
    · rfl
    · rfl
    · rfl

/-- Claim C33: after `reset()` and after every subsequent tick of the mode manager
`STAT.mode` is the encoding of the current mode: 0 in HBlank, 1 in VBlank, 2 in OAM
search and 3 in Drawing. -/
theorem STAT_mode_mirrors_current_mode {σ : Type} (ops : PPUModes σ) (p : PPUModeManager σ)
    (n : Nat) :
    ((PPUModeManager.ticks ops n (PPUModeManager.reset ops p)).currentMode
        = PPUModeType.HBlank →
      (PPUModeManager.ticks ops n (PPUModeManager.reset ops p)).ppuRegisters.lcdStatus.mode
        = 0) ∧
    ((PPUModeManager.ticks ops n (PPUModeManager.reset ops p)).currentMode
        = PPUModeType.VBlank →
      (PPUModeManager.ticks ops n (PPUModeManager.reset ops p)).ppuRegisters.lcdStatus.mode
        = 1) ∧
    ((PPUModeManager.ticks ops n (PPUModeManager.reset ops p)).currentMode
        = PPUModeType.OAM_Search →
      (PPUModeManager.ticks ops n (PPUModeManager.reset ops p)).ppuRegisters.lcdStatus.mode
        = 2) ∧
    ((PPUModeManager.ticks ops n (PPUModeManager.reset ops p)).currentMode
        = PPUModeType.Drawing →
      (PPUModeManager.ticks ops n (PPUModeManager.reset ops p)).ppuRegisters.lcdStatus.mode
        = 3) ∧
    (PPUModeManager.reset ops p).currentMode = PPUModeType.OAM_Search ∧
    (PPUModeManager.reset ops p).ppuRegisters.lcdStatus.mode = 2 := by
  have h := (frameInvariant_ticks ops p n).2.2.2
  have h0 := (frameInvariant_ticks ops p 0).2.2.2
  refine ⟨?_, ?_, ?_, ?_, rfl, ?_⟩
  · intro hm
    rw [h, hm]
  · intro hm
    rw [h, hm]
  · intro hm
    rw [h, hm]
  · intro hm
    rw [h, hm]
  · exact h0

/-- Claim C39: in every state reached from `reset()` by ticks of the mode manager `LY`
is at most 153 and the current mode is VBlank if and only if `LY >= 144`, so VBlank
covers exactly the ten lines 144..153. From such a state in VBlank, a tick in which
the VBlank instance finishes goes to the next line of VBlank when `LY < 153`, and from
`LY = 153` to `LY = 0` in OAM search; a tick in which the current instance does not
finish keeps `LY`. -/
theorem LY_range_and_VBlank_lines {σ : Type} (ops : PPUModes σ) (p : PPUModeManager σ)
    (n : Nat) :
    (PPUModeManager.ticks ops n (PPUModeManager.reset ops p)).ppuRegisters.yLcdCoordinate
      ≤ 153 ∧
    ((PPUModeManager.ticks ops n (PPUModeManager.reset ops p)).currentMode
        = PPUModeType.VBlank ↔
      144 ≤ (PPUModeManager.ticks ops n
        (PPUModeManager.reset ops p)).ppuRegisters.yLcdCoordinate) ∧
    (PPUModeManager.reset ops p).ppuRegisters.yLcdCoordinate = 0 ∧
    (∀ q, q = PPUModeManager.ticks ops n (PPUModeManager.reset ops p) →
      q.currentMode = PPUModeType.VBlank →
      ops.isFullyFinished PPUModeType.VBlank q.ppuRegisters
        (ops.tick PPUModeType.VBlank q.ppuRegisters q.modes) = true →
      (q.ppuRegisters.yLcdCoordinate < 153 →
        (PPUModeManager.tick ops q).ppuRegisters.yLcdCoordinate
          = q.ppuRegisters.yLcdCoordinate + 1 ∧
        (PPUModeManager.tick ops q).currentMode = PPUModeType.VBlank) ∧
      (q.ppuRegisters.yLcdCoordinate = 153 →
        (PPUModeManager.tick ops q).ppuRegisters.yLcdCoordinate = 0 ∧
        (PPUModeManager.tick ops q).currentMode = PPUModeType.OAM_Search)) ∧
    (∀ q, q = PPUModeManager.ticks ops n (PPUModeManager.reset ops p) →
      ops.isFullyFinished q.currentMode q.ppuRegisters
        (ops.tick q.currentMode q.ppuRegisters q.modes) = false →
      (PPUModeManager.tick ops q).ppuRegisters.yLcdCoordinate
        = q.ppuRegisters.yLcdCoordinate) := by
  obtain ⟨h1, h2, _, _⟩ := frameInvariant_ticks ops p n
  refine ⟨h1, h2, ?_, ?_, ?_⟩
  · simp [PPUModeManager.reset, PPUModeManager.setYLcdCoordinate,
      PPUModeManager.updateLcdStatusModeRegister, PPUModeManager.setLcdStatusMode,
      PPUModeManager.updateStatInterrupt]
  · intro q _ hm hfin
    refine ⟨?_, ?_⟩
    · intro hly
      have e : (q.ppuRegisters.yLcdCoordinate + 1) % 256 = q.ppuRegisters.yLcdCoordinate + 1 :=
        Nat.mod_eq_of_lt (by omega)
      simp [PPUModeManager.tick, hm, hfin, PPUModeManager.tick_switch,
        PPUModeManager.updateLcdStatusModeRegister, PPUModeManager.setLcdStatusMode,
        PPUModeManager.updateStatInterrupt, PPUModeManager.setYLcdCoordinate, e, hly]
    · intro hly
      simp [PPUModeManager.tick, hm, hfin, PPUModeManager.tick_switch,
        PPUModeManager.updateLcdStatusModeRegister, PPUModeManager.setLcdStatusMode,
        PPUModeManager.updateStatInterrupt, PPUModeManager.setYLcdCoordinate, hly]
  · intro q _ hfin
    simp [PPUModeManager.tick, hfin, PPUModeManager.updateStatInterrupt]
/-! ## VRAM read blocking -/

/-- Claim C34 (what the code does): `VRAM::busRead` and `VRAM::busWrite` hand the request
to the tile data and to the tile maps and never read `m_readBlocked`, which
`setReadBlocked` only stores: a read answers the same, and a write stores the same,
whether the flag is set or not. On the byte stores of the spec with 0x12 at 0x8000 and
0x56 at 0x9800, a read-blocked `VRAM` answers a CPU read of 0x8000 with 0x12 and of
0x9800 with 0x56, not with 0xFF, and a write of 0x34 to 0x8000 is stored and read
back; with the flag clear the reads return the stored bytes as well. -/
theorem VRAM_bus_access_ignores_readBlocked {δ τ : Type} (parts : VRAMParts δ τ)
    (v : VRAM δ τ) (b : Bool) (addr val : Nat) (src : BusRequestSource) :
    VRAM.busRead parts (v.setReadBlocked b) addr val src = VRAM.busRead parts v addr val src ∧
    VRAM.busWrite parts (v.setReadBlocked b) addr val src
      = ((VRAM.busWrite parts v addr val src).1,
         (VRAM.busWrite parts v addr val src).2.setReadBlocked b) ∧
    (v.setReadBlocked b).isReadBlocked = b ∧
    ((sampleVRAM.setReadBlocked true).isReadBlocked = true ∧
      Bus.read (vramBus (sampleVRAM.setReadBlocked true)) 0x8000 BusRequestSource.CPU
        = .ok 0x12 ∧
      Bus.read (vramBus (sampleVRAM.setReadBlocked true)) 0x9800 BusRequestSource.CPU
        = .ok 0x56) ∧
    ((Bus.write (vramBus (sampleVRAM.setReadBlocked true)) 0x8000 0x34
        BusRequestSource.CPU).1 = .ok () ∧
      (Bus.write (vramBus (sampleVRAM.setReadBlocked true)) 0x8000 0x34
        BusRequestSource.CPU).2.store.vramTileData 0x8000 = 0x34 ∧
      Bus.read (Bus.write (vramBus (sampleVRAM.setReadBlocked true)) 0x8000 0x34
        BusRequestSource.CPU).2 0x8000 BusRequestSource.CPU = .ok 0x34) ∧
    (sampleVRAM.isReadBlocked = false ∧
      Bus.read (vramBus sampleVRAM) 0x8000 BusRequestSource.CPU = .ok 0x12 ∧
      Bus.read (vramBus sampleVRAM) 0x9800 BusRequestSource.CPU = .ok 0x56) := by
  refine ⟨rfl, ?_, rfl, ⟨rfl, rfl, rfl⟩, ⟨rfl, rfl, rfl⟩, ⟨rfl, rfl, rfl⟩⟩
  simp only [VRAM.busWrite, VRAM.setReadBlocked]
  rcases parts.tileData.busWrite v.vramTileData addr val src with ⟨b1, d⟩
  cases b1
  · simp only
    rcases parts.tileMaps.busWrite v.vramTileMaps addr val src with ⟨b2, t⟩
    cases b2 <;> rfl
  · rfl

/-- Claim C35 (what the code does): `PPUModeManager::reset` and `PPUModeManager::tick`
act on the mode instances, `m_currentMode`, the interrupt lines, the frame buffer and
the PPU registers; the `VRAM`, which the constructor receives as `const VRAM&`, is no
part of what they change, and no call of `setReadBlocked` exists. With the dot budgets
of the mode table, 80 ticks after `reset()` the manager is in Drawing, and the `VRAM`
is as its constructor left it: `isReadBlocked()` is false and a CPU read of 0x8000
returns the stored byte 0x12; it would return it with the flag set as well. -/
theorem Drawing_leaves_VRAM_unblocked :
    PPUModeManager.reset (dotBudgetModes 172) (lineStart 0) = lineStart 0 ∧
    (PPUModeManager.ticks (dotBudgetModes 172) 80
      (PPUModeManager.reset (dotBudgetModes 172) (lineStart 0))).currentMode
      = PPUModeType.Drawing ∧
    (PPUModeManager.ticks (dotBudgetModes 172) 80
      (PPUModeManager.reset (dotBudgetModes 172) (lineStart 0))).ppuRegisters.lcdStatus.mode
      = 3 ∧
    sampleVRAM.isReadBlocked = false ∧
    Bus.read (vramBus sampleVRAM) 0x8000 BusRequestSource.CPU = .ok 0x12 ∧
    Bus.read (vramBus (sampleVRAM.setReadBlocked true)) 0x8000 BusRequestSource.CPU
      = .ok 0x12 := by
  have hreset : PPUModeManager.reset (dotBudgetModes 172) (lineStart 0) = lineStart 0 := rfl
  have hp := (linePhase_ticks 172 0 456 (by decide) (Or.inl rfl) (le_refl _) (by decide)
    80 (by decide)).1
  have hinv := (frameInvariant_ticks (dotBudgetModes 172) (lineStart 0) 80).2.2.2
  rw [hreset] at hinv ⊢
  have hm : (PPUModeManager.ticks (dotBudgetModes 172) 80 (lineStart 0)).currentMode
      = PPUModeType.Drawing := by
    rcases hp with ⟨hlt, _⟩ | ⟨_, _, hm, _⟩ | ⟨hge, _⟩
    · exact absurd hlt (by decide)
    · exact hm
    · exact absurd hge (by decide)
  refine ⟨rfl, hm, ?_, rfl, rfl, rfl⟩
  rw [hinv, hm]
/-! ## Background fetcher -/

theorem and_0x1F (x : Nat) : x &&& 0x1F = x % 32 := Nat.and_pow_two_sub_one_eq_mod x 5

theorem and_0x3FF (x : Nat) : x &&& 0x3FF = x % 1024 := Nat.and_pow_two_sub_one_eq_mod x 10

/-- Claim C36: in the state `FetchTileMap`, the warm-up of the scanline being over, for
all `SCX`, `SCY`, `LY` and `fetcherX` the fetcher addresses the tile map at the offset
`((32 * (((SCY + LY) mod 256) / 8)) + ((SCX / 8 + fetcherX) mod 32)) mod 1024`, which
is below 1024 (the last `mod` never cuts); when the VRAM is not read-blocked
`m_currentTileNumber` becomes the byte that `getTileNumberFromTileMap` returns for
that offset and `LCDC.bgTileMapArea`, and when it is read-blocked it becomes 0xFF; the
fetcher then is in `FetchTileData` with `m_cyclesToWait = 2`, the FIFO, `fetcherX` and
the tile line being as before. -/
theorem FetchTileMap_reads_tile_number {δ τ : Type} (parts : VRAMParts δ τ)
    (regs : LCDPositionAndScrolling) (lcdControl : LCDControl) (vram : VRAM δ τ)
    (f : BackgroundFetcher) (hskip : f.scanlineBeginSkip = false)
    (hstate : f.fetcherState = FetcherState.FetchTileMap) :
    ((32 * (((regs.yScroll + regs.yLcdCoordinate) % 256) / 8))
        + ((regs.xScroll / 8 + f.fetcherX) % 32)) % 1024 < 1024 ∧
    ((32 * (((regs.yScroll + regs.yLcdCoordinate) % 256) / 8))
        + ((regs.xScroll / 8 + f.fetcherX) % 32)) % 1024
      = (32 * (((regs.yScroll + regs.yLcdCoordinate) % 256) / 8))
        + ((regs.xScroll / 8 + f.fetcherX) % 32) ∧
    (vram.isReadBlocked = false →
      (BackgroundFetcher.executeState parts regs lcdControl vram f).currentTileNumber
        = parts.getTileNumberFromTileMap vram.vramTileMaps
            (((32 * (((regs.yScroll + regs.yLcdCoordinate) % 256) / 8))
              + ((regs.xScroll / 8 + f.fetcherX) % 32)) % 1024)
            lcdControl.bgTileMapArea % 256) ∧
    (vram.isReadBlocked = true →
      (BackgroundFetcher.executeState parts regs lcdControl vram f).currentTileNumber
        = 0xFF) ∧
    (BackgroundFetcher.executeState parts regs lcdControl vram f).fetcherState
      = FetcherState.FetchTileData ∧
    (BackgroundFetcher.executeState parts regs lcdControl vram f).cyclesToWait = 2 ∧
    (BackgroundFetcher.executeState parts regs lcdControl vram f).pixelFifo = f.pixelFifo ∧
    (BackgroundFetcher.executeState parts regs lcdControl vram f).fetcherX = f.fetcherX ∧
    (BackgroundFetcher.executeState parts regs lcdControl vram f).currentTileData
      = f.currentTileData := by
  have hx : ((regs.xScroll / 8 + f.fetcherX) &&& 0x1F) % 256
      = (regs.xScroll / 8 + f.fetcherX) % 32 := by
    rw [and_0x1F]
    omega
  have hy : ((regs.yScroll + regs.yLcdCoordinate) &&& 0xFF) % 256
      = (regs.yScroll + regs.yLcdCoordinate) % 256 := by
    rw [and_0xFF]
    omega
  refine ⟨Nat.mod_lt _ (by decide), Nat.mod_eq_of_lt (by omega), ?_, ?_, ?_, ?_, ?_, ?_, ?_⟩
  · intro hb
    simp only [BackgroundFetcher.executeState, hskip, hstate, hb, Bool.false_eq_true,
      ↓reduceIte, Bool.not_false, hx, hy, and_0x3FF, VRAM.getVramTileMaps]
  · intro hb
    simp only [BackgroundFetcher.executeState, hskip, hstate, hb, Bool.false_eq_true,
      ↓reduceIte, Bool.not_true]
  · simp only [BackgroundFetcher.executeState, hskip, hstate, Bool.false_eq_true, ↓reduceIte]
  · simp only [BackgroundFetcher.executeState, hskip, hstate, Bool.false_eq_true, ↓reduceIte]
  · simp only [BackgroundFetcher.executeState, hskip, hstate, Bool.false_eq_true, ↓reduceIte]
    split <;> rfl
  · simp only [BackgroundFetcher.executeState, hskip, hstate, Bool.false_eq_true, ↓reduceIte]
    split <;> rfl
  · simp only [BackgroundFetcher.executeState, hskip, hstate, Bool.false_eq_true, ↓reduceIte]
    split <;> rfl

theorem FetchTileMap_reads_tile_number_witness :
    (BackgroundFetcher.executeState byteStoreParts
      { yScroll := 0, xScroll := 0, yLcdCoordinate := 0 }
      { bgTileMapArea := 0, bgAndWindowTileDataArea := 1 } sampleVRAM
      { pushingFetcher 0 with fetcherState := FetcherState.FetchTileMap }).currentTileNumber
      = byteStoreParts.getTileNumberFromTileMap sampleVRAM.vramTileMaps
          (((32 * (((0 + 0) % 256) / 8)) + ((0 / 8 + 0) % 32)) % 1024) 0 % 256 :=
  (FetchTileMap_reads_tile_number byteStoreParts
    { yScroll := 0, xScroll := 0, yLcdCoordinate := 0 }
    { bgTileMapArea := 0, bgAndWindowTileDataArea := 1 } sampleVRAM
    { pushingFetcher 0 with fetcherState := FetcherState.FetchTileMap } rfl rfl).2.2.1 rfl

/-- The eight pixels that the loop of `PushFIFO` appends to an empty FIFO, in the order
in which they are pushed: the indices 7 down to 0. -/
theorem pushLoop_empty (L : Nat) :
    BackgroundFetcher.pushLoop L 8 []
      = [BackgroundFetcher.pixel L 7, BackgroundFetcher.pixel L 6, BackgroundFetcher.pixel L 5,
         BackgroundFetcher.pixel L 4, BackgroundFetcher.pixel L 3, BackgroundFetcher.pixel L 2,
         BackgroundFetcher.pixel L 1, BackgroundFetcher.pixel L 0] := by
  simp [BackgroundFetcher.pushLoop, PixelFIFO.push]

theorem bit_or_bit (a b : Nat) (ha : a < 2) (hb : b < 2) : ((a <<< 1) ||| b) = a * 2 + b := by
  interval_cases a <;> interval_cases b <;> rfl

/-- The colour index of the pixel built for the index `i`: twice bit `i` of the low
byte of the tile line plus bit `i` of its high byte. -/
theorem pixel_colorIndex (L i : Nat) (hi : i < 8) :
    (BackgroundFetcher.pixel L i).colorIndex
      = ((L &&& 0xFF) / 2 ^ i % 2) * 2 + ((L >>> 8) / 2 ^ i % 2) := by
  have h1 : ((L >>> (8 + i)) &&& 0x1) % 256 = (L >>> 8) / 2 ^ i % 2 := by
    rw [Nat.and_one_is_mod, Nat.shiftRight_add, Nat.shiftRight_eq_div_pow (L >>> 8) i]
    omega
  have h2 : ((L >>> i) &&& 0x1) % 256 = (L &&& 0xFF) / 2 ^ i % 2 := by
    rw [Nat.and_one_is_mod, Nat.shiftRight_eq_div_pow, and_0xFF]
    have e : (L % 256) / 2 ^ i % 2 = L / 2 ^ i % 2 := by
      interval_cases i <;> omega
    rw [e]
    omega
  show (((((L >>> i) &&& 0x1) % 256) <<< 1) ||| (((L >>> (8 + i)) &&& 0x1) % 256)) % 256 = _
  rw [h1, h2, bit_or_bit _ _ (Nat.mod_lt _ (by decide)) (Nat.mod_lt _ (by decide))]
  omega

/-- Counterexample to claim C37 as stated: for the tile line `L = 0x00FF`, whose low
byte is 0xFF and whose high byte is 0x00, the rule of the claim gives every pixel the
colour index `0 * 2 + 1 = 1`; the fetcher pushes eight pixels of colour index 2. -/
theorem PushFIFO_of_0x00FF_pushes_colour_2 :
    ((0x00FF >>> 8) / 2 ^ (7 - 0) % 2) * 2 + ((0x00FF &&& 0xFF) / 2 ^ (7 - 0) % 2) = 1 ∧
    ((BackgroundFetcher.executeState byteStoreParts
      { yScroll := 0, xScroll := 0, yLcdCoordinate := 0 }
      { bgTileMapArea := 0, bgAndWindowTileDataArea := 1 } sampleVRAM
      (pushingFetcher 0x00FF)).pixelFifo.map fun px => px.colorIndex)
      = [2, 2, 2, 2, 2, 2, 2, 2] ∧
    ((BackgroundFetcher.executeState byteStoreParts
      { yScroll := 0, xScroll := 0, yLcdCoordinate := 0 }
      { bgTileMapArea := 0, bgAndWindowTileDataArea := 1 } sampleVRAM
      (pushingFetcher 0x00FF)).pixelFifo.get? 0).map (fun px => px.colorIndex) ≠ some 1 := by
  refine ⟨by decide, by decide, by decide⟩

/-- Claim C37 (amended): `PushFIFO` decodes the fetched 16-bit tile line with the low
bit plane in its high byte and the high bit plane in its low byte, from MSB to LSB:
for every tile line `L`, with `lowPlane = L >> 8` and `highPlane = L & 0xFF`, the
`k`-th pixel pushed (`k = 0..7`) into the empty FIFO has
`colorIndex = (bit (7-k) of highPlane) * 2 + (bit (7-k) of lowPlane)`. -/
theorem PushFIFO_decodes_tile_line {δ τ : Type} (parts : VRAMParts δ τ)
    (regs : LCDPositionAndScrolling) (lcdControl : LCDControl) (vram : VRAM δ τ)
    (f : BackgroundFetcher) (k : Nat) (hskip : f.scanlineBeginSkip = false)
    (hstate : f.fetcherState = FetcherState.PushFIFO) (hempty : f.pixelFifo = [])
    (hk : k < 8) :
    ((BackgroundFetcher.executeState parts regs lcdControl vram f).pixelFifo.get? k).map
        (fun px => px.colorIndex)
      = some (((f.currentTileData &&& 0xFF) / 2 ^ (7 - k) % 2) * 2
          + ((f.currentTileData >>> 8) / 2 ^ (7 - k) % 2)) ∧
    (BackgroundFetcher.executeState parts regs lcdControl vram f).pixelFifo.length = 8 := by
  have hq : (BackgroundFetcher.executeState parts regs lcdControl vram f).pixelFifo
      = BackgroundFetcher.pushLoop f.currentTileData 8 [] := by
    simp [BackgroundFetcher.executeState, hskip, hstate, hempty, PixelFIFO.empty]
  rw [hq, pushLoop_empty]
  refine ⟨?_, rfl⟩
  interval_cases k
  · exact congrArg some (pixel_colorIndex f.currentTileData 7 (by decide))
  · exact congrArg some (pixel_colorIndex f.currentTileData 6 (by decide))
  · exact congrArg some (pixel_colorIndex f.currentTileData 5 (by decide))
  · exact congrArg some (pixel_colorIndex f.currentTileData 4 (by decide))
  · exact congrArg some (pixel_colorIndex f.currentTileData 3 (by decide))
  · exact congrArg some (pixel_colorIndex f.currentTileData 2 (by decide))
  · exact congrArg some (pixel_colorIndex f.currentTileData 1 (by decide))
  · exact congrArg some (pixel_colorIndex f.currentTileData 0 (by decide))

theorem PushFIFO_decodes_tile_line_witness :
    ((BackgroundFetcher.executeState byteStoreParts
      { yScroll := 0, xScroll := 0, yLcdCoordinate := 0 }
      { bgTileMapArea := 0, bgAndWindowTileDataArea := 1 } sampleVRAM
      (pushingFetcher 0x00FF)).pixelFifo.get? 0).map (fun px => px.colorIndex)
      = some (((0x00FF &&& 0xFF) / 2 ^ (7 - 0) % 2) * 2 + ((0x00FF >>> 8) / 2 ^ (7 - 0) % 2)) :=
  (PushFIFO_decodes_tile_line byteStoreParts
    { yScroll := 0, xScroll := 0, yLcdCoordinate := 0 }
    { bgTileMapArea := 0, bgAndWindowTileDataArea := 1 } sampleVRAM
    (pushingFetcher 0x00FF) 0 rfl rfl rfl (by decide)).1

theorem pixel_colorIndex_le (L i : Nat) : (BackgroundFetcher.pixel L i).colorIndex ≤ 3 := by
  have h1 : ((L >>> (8 + i)) &&& 0x1) % 256 < 2 := by
    rw [Nat.and_one_is_mod]
    omega
  have h2 : ((L >>> i) &&& 0x1) % 256 < 2 := by
    rw [Nat.and_one_is_mod]
    omega
  show (((((L >>> i) &&& 0x1) % 256) <<< 1) ||| (((L >>> (8 + i)) &&& 0x1) % 256)) % 256 ≤ 3
  rw [bit_or_bit _ _ h2 h1]
  omega

/-- Claim C38: in the state `PushFIFO` the fetcher proceeds only when the pixel FIFO is
empty. If the FIFO is not empty, `executeState` leaves the FIFO, `fetcherX` and the
fetcher state unchanged. If it is empty (the warm-up of the scanline being over), it
pushes exactly 8 pixels, each with a colour index in 0..3, increments the 8-bit
`fetcherX` by 1 and returns to `FetchTileMap`; the FIFO holds 8 pixels right after the
push, within the bound of 16. -/
theorem PushFIFO_proceeds_only_when_empty {δ τ : Type} (parts : VRAMParts δ τ)
    (regs : LCDPositionAndScrolling) (lcdControl : LCDControl) (vram : VRAM δ τ)
    (f : BackgroundFetcher) (hstate : f.fetcherState = FetcherState.PushFIFO) :
    (f.pixelFifo ≠ [] →
      (BackgroundFetcher.executeState parts regs lcdControl vram f).pixelFifo = f.pixelFifo ∧
      (BackgroundFetcher.executeState parts regs lcdControl vram f).fetcherX = f.fetcherX ∧
      (BackgroundFetcher.executeState parts regs lcdControl vram f).fetcherState
        = FetcherState.PushFIFO) ∧
    (f.pixelFifo ≠ [] → f.scanlineBeginSkip = false →
      BackgroundFetcher.executeState parts regs lcdControl vram f = f) ∧
    (f.pixelFifo = [] → f.scanlineBeginSkip = false →
      (BackgroundFetcher.executeState parts regs lcdControl vram f).pixelFifo.length = 8 ∧
      (∀ px ∈ (BackgroundFetcher.executeState parts regs lcdControl vram f).pixelFifo,
        px.colorIndex ≤ 3) ∧
      (BackgroundFetcher.executeState parts regs lcdControl vram f).fetcherX
        = (f.fetcherX + 1) % 256 ∧
      (BackgroundFetcher.executeState parts regs lcdControl vram f).fetcherState
        = FetcherState.FetchTileMap ∧
      (BackgroundFetcher.executeState parts regs lcdControl vram f).pixelFifo.length ≤ 16) := by
  refine ⟨?_, ?_, ?_⟩
  · intro hne
    have he : PixelFIFO.empty f.pixelFifo = false := by
      cases hq : f.pixelFifo with
      | nil => exact absurd hq hne
      | cons a l => rfl
    cases hskip : f.scanlineBeginSkip
    · simp [BackgroundFetcher.executeState, hskip, hstate, he]
    · simp [BackgroundFetcher.executeState, hskip, hstate]
  · intro hne hskip
    have he : PixelFIFO.empty f.pixelFifo = false := by
      cases hq : f.pixelFifo with
      | nil => exact absurd hq hne
      | cons a l => rfl
    simp [BackgroundFetcher.executeState, hskip, hstate, he]
  · intro hempty hskip
    have hq : (BackgroundFetcher.executeState parts regs lcdControl vram f).pixelFifo
        = BackgroundFetcher.pushLoop f.currentTileData 8 [] := by
      simp [BackgroundFetcher.executeState, hskip, hstate, hempty, PixelFIFO.empty]
    refine ⟨?_, ?_, ?_, ?_, ?_⟩
    · rw [hq, pushLoop_empty]
      rfl
    · intro px hpx
      rw [hq, pushLoop_empty] at hpx
      simp only [List.mem_cons, List.mem_singleton, List.not_mem_nil, or_false] at hpx
      rcases hpx with h | h | h | h | h | h | h | h <;> rw [h] <;>
        exact pixel_colorIndex_le _ _
    · simp [BackgroundFetcher.executeState, hskip, hstate, hempty, PixelFIFO.empty]
    · simp [BackgroundFetcher.executeState, hskip, hstate, hempty, PixelFIFO.empty]
    · rw [hq, pushLoop_empty]
      show 8 ≤ 16
      decide

theorem PushFIFO_proceeds_only_when_empty_witness :
    (BackgroundFetcher.executeState byteStoreParts
      { yScroll := 0, xScroll := 0, yLcdCoordinate := 0 }
      { bgTileMapArea := 0, bgAndWindowTileDataArea := 1 } sampleVRAM
      (pushingFetcher 0x1234)).pixelFifo.length = 8 :=
  ((PushFIFO_proceeds_only_when_empty byteStoreParts
    { yScroll := 0, xScroll := 0, yLcdCoordinate := 0 }
    { bgTileMapArea := 0, bgAndWindowTileDataArea := 1 } sampleVRAM
    (pushingFetcher 0x1234) rfl).2.2 rfl rfl).1
/-! ## Prefixed instructions with a register operand -/

section prefixed
set_option linter.unusedTactic false
set_option linter.unreachableTactic false

theorem getRegisterByLowerBits_register {μ : Type} (s : LR35902 μ) (k m m1 : Nat) (hk : k < 8)
    (h6 : k ≠ 6) : getRegisterByLowerBits k m s = getRegisterByLowerBits k m1 s := by
  interval_cases k <;> first | rfl | exact absurd rfl h6

theorem assignRegisterByLowerBits_register {μ : Type} (s : LR35902 μ) (k v m m1 : Nat)
    (hk : k < 8) (h6 : k ≠ 6) :
    (assignRegisterByLowerBits k v m s).2 = (assignRegisterByLowerBits k v m1 s).2 := by
  interval_cases k <;> first | rfl | exact absurd rfl h6

theorem ite_snd_congr {β γ : Type} (c : Prop) [Decidable c] (a a1 b b1 : β × γ)
    (h1 : a.2 = a1.2) (h2 : b.2 = b1.2) :
    (if c then a else b).2 = (if c then a1 else b1).2 := by
  split
  · exact h1
  · exact h2

/-- The operation of a prefixed instruction with a register operand leaves the same
CPU state whatever byte was read at `HL`. -/
theorem opcodeCBh_operation_register {μ : Type} (s : LR35902 μ) (opcode k m m1 : Nat)
    (hk : k < 8) (h6 : k ≠ 6) :
    (opcodeCBh_operation opcode k m s).2 = (opcodeCBh_operation opcode k m1 s).2 := by
  unfold opcodeCBh_operation
  rw [getRegisterByLowerBits_register s k m m1 hk h6]
  dsimp only
  repeat' first
    | apply ite_snd_congr
    | exact assignRegisterByLowerBits_register _ k _ m m1 hk h6
    | rfl

theorem assignRegisterByLowerBits_bus {μ : Type} (s : LR35902 μ) (k v m : Nat) :
    (assignRegisterByLowerBits k v m s).2.bus = s.bus := by
  unfold assignRegisterByLowerBits
  split <;> rfl

theorem ite_snd_bus {μ : Type} (c : Prop) [Decidable c] (a b : Nat × LR35902 μ)
    (s : LR35902 μ) (h1 : a.2.bus = s.bus) (h2 : b.2.bus = s.bus) :
    (if c then a else b).2.bus = s.bus := by
  split
  · exact h1
  · exact h2

/-- The operation of a prefixed instruction does not touch the bus. -/
theorem opcodeCBh_operation_bus {μ : Type} (opcode k m : Nat) (s : LR35902 μ) :
    (opcodeCBh_operation opcode k m s).2.bus = s.bus := by
  unfold opcodeCBh_operation
  dsimp only
  repeat' first
    | apply ite_snd_bus
    | exact (assignRegisterByLowerBits_bus _ k _ m).trans rfl
    | rfl

/-- Claim C40 (what the code does): `opcodeCBh` executes `m_bus.read(m_registers.hl)`
for every prefixed opcode, before it looks at the operand. For an opcode with a
register operand (low three bits other than 6), `opcode` being the byte fetched: if
the read at `HL` fails, the instruction ends with that `NoHandler` error, no register
changed but `PC`; if it succeeds, the instruction completes, writes nothing to the
bus, and the state it leaves does not depend on the byte read. With `HL = 0x9000` on
a bus that handles only the addresses below 0x8000, `RLC B` (0xCB 0x00) fails with
`NoHandler(0x9000, false)` and leaves `B` as it was. -/
theorem CB_register_operand_reads_HL {μ : Type} (s s2 : LR35902 μ) (opcode : Nat)
    (hf : fetch s = (.ok opcode, s2)) (hlo : (opcode &&& 0x7) % 256 ≠ 6) :
    (∀ e, s2.bus.read s2.registers.hl BusRequestSource.CPU = .error e →
      opcodeCBh s = (.error e, s2)) ∧
    (∀ v, s2.bus.read s2.registers.hl BusRequestSource.CPU = .ok v →
      opcodeCBh s = (.ok (), (opcodeCBh_operation opcode ((opcode &&& 0x7) % 256) v s2).2) ∧
      (opcodeCBh s).2.bus = s2.bus ∧
      ∀ v1, (opcodeCBh_operation opcode ((opcode &&& 0x7) % 256) v1 s2).2
        = (opcodeCBh_operation opcode ((opcode &&& 0x7) % 256) v s2).2) ∧
    ((tick cbScenario).1 = .error ⟨0x9000, false⟩ ∧
      (tick cbScenario).2.registers.b = cbScenario.registers.b ∧
      (tick cbScenario).2.registers.pc = 0x0102 ∧
      (lookUp 0xCB (cbScenario.setPc 0x0101)).1
        = .error (Exception.busNoHandler ⟨0x9000, false⟩)) := by
  have hk : (opcode &&& 0x7) % 256 < 8 := by
    have e : opcode &&& 0x7 = opcode % 8 := Nat.and_pow_two_sub_one_eq_mod opcode 3
    rw [e]
    omega
  refine ⟨?_, ?_, ⟨rfl, rfl, rfl, rfl⟩⟩
  · intro e he
    unfold opcodeCBh
    rw [CPU.bind_ok _ _ _ _ _ hf, CPU.get_bind, CPU.bind_eq]
    simp only [busRead, he]
  · intro v hv
    have hres : opcodeCBh s
        = (.ok (), (opcodeCBh_operation opcode ((opcode &&& 0x7) % 256) v s2).2) := by
      unfold opcodeCBh
      rw [CPU.bind_ok _ _ _ _ _ hf, CPU.get_bind, CPU.bind_eq]
      simp only [busRead, hv, CPU.bind_eq, CPU.modifyGet, if_neg hlo]
      rfl
    refine ⟨hres, ?_, ?_⟩
    · rw [hres]
      exact opcodeCBh_operation_bus opcode _ v s2
    · intro v1
      exact opcodeCBh_operation_register s2 opcode _ v1 v hk hlo

theorem CB_register_operand_reads_HL_witness :
    opcodeCBh (cbScenario.setPc 0x0101) = (.error ⟨0x9000, false⟩, cbScenario.setPc 0x0102) :=
  (CB_register_operand_reads_HL (cbScenario.setPc 0x0101) (cbScenario.setPc 0x0102) 0x00 rfl
    (by decide)).1 ⟨0x9000, false⟩ rfl

theorem getRegisterByLowerBits_setPc {μ : Type} (s : LR35902 μ) (p k v : Nat) :
    getRegisterByLowerBits k v (s.setPc p) = getRegisterByLowerBits k v s := by
  unfold getRegisterByLowerBits
  split <;> rfl

/-- A prefixed instruction whose read at `HL` fails ends with that error, whatever its
operand. -/
theorem opcodeCBh_read_error {μ : Type} (s s2 : LR35902 μ) (opcode : Nat)
    (e : BusNoHandlerException) (hf : fetch s = (.ok opcode, s2))
    (he : s2.bus.read s2.registers.hl BusRequestSource.CPU = .error e) :
    opcodeCBh s = (.error e, s2) := by
  unfold opcodeCBh
  rw [CPU.bind_ok _ _ _ _ _ hf, CPU.get_bind, CPU.bind_eq]
  simp only [busRead, he]

/-- A prefixed instruction with a register operand, when the read at `HL` succeeds. -/
theorem opcodeCBh_register {μ : Type} (s s2 : LR35902 μ) (opcode v : Nat)
    (hf : fetch s = (.ok opcode, s2)) (hlo : (opcode &&& 0x7) % 256 ≠ 6)
    (hv : s2.bus.read s2.registers.hl BusRequestSource.CPU = .ok v) :
    opcodeCBh s = (.ok (), (opcodeCBh_operation opcode ((opcode &&& 0x7) % 256) v s2).2) := by
  unfold opcodeCBh
  rw [CPU.bind_ok _ _ _ _ _ hf, CPU.get_bind, CPU.bind_eq]
  simp only [busRead, hv, CPU.bind_eq, CPU.modifyGet, if_neg hlo]
  rfl

/-- `BIT n,(HL)`: no write-back, 8 cycles added. -/
theorem opcodeCBh_HL_test {μ : Type} (s s2 : LR35902 μ) (opcode v : Nat)
    (hf : fetch s = (.ok opcode, s2)) (hlo : (opcode &&& 0x7) % 256 = 6)
    (hop : ¬(opcode < 0x40 ∨ opcode > 0x7F))
    (hv : s2.bus.read s2.registers.hl BusRequestSource.CPU = .ok v) :
    opcodeCBh s = (.ok (),
      (opcodeCBh_operation opcode 6 v s2).2.setCyclesToWait
        ((opcodeCBh_operation opcode 6 v s2).2.cyclesToWait + 8)) := by
  unfold opcodeCBh
  rw [CPU.bind_ok _ _ _ _ _ hf, CPU.get_bind, CPU.bind_eq]
  simp only [busRead, hv, CPU.bind_eq, CPU.modifyGet, hlo, if_true, if_neg hop]
  rfl

/-- A prefixed instruction on `(HL)` other than `BIT`: the new byte is written back to
`HL`, then 8 cycles are added. -/
theorem opcodeCBh_HL_write {μ : Type} (s s2 : LR35902 μ) (opcode v : Nat)
    (hf : fetch s = (.ok opcode, s2)) (hlo : (opcode &&& 0x7) % 256 = 6)
    (hop : opcode < 0x40 ∨ opcode > 0x7F)
    (hv : s2.bus.read s2.registers.hl BusRequestSource.CPU = .ok v) :
    opcodeCBh s =
      ((busWrite (opcodeCBh_operation opcode 6 v s2).2.registers.hl
          (opcodeCBh_operation opcode 6 v s2).1 >>= fun _ =>
        CPU.modify fun t => t.setCyclesToWait (t.cyclesToWait + 8))
        (opcodeCBh_operation opcode 6 v s2).2) := by
  unfold opcodeCBh
  rw [CPU.bind_ok _ _ _ _ _ hf, CPU.get_bind, CPU.bind_eq]
  simp only [busRead, hv, CPU.bind_eq, CPU.modifyGet, hlo, if_true, if_pos hop]
  rfl

/-- The write-back of `opcodeCBh` followed by its cycle charge: the result and the bus
are those of the bus write, the registers are unchanged. -/
theorem busWrite_then_cycles {μ : Type} (t : LR35902 μ) (a val : Nat) :
    ((busWrite a val >>= fun _ =>
        CPU.modify fun t => t.setCyclesToWait (t.cyclesToWait + 8)) t).1
      = (t.bus.write a val BusRequestSource.CPU).1 ∧
    ((busWrite a val >>= fun _ =>
        CPU.modify fun t => t.setCyclesToWait (t.cyclesToWait + 8)) t).2.bus
      = (t.bus.write a val BusRequestSource.CPU).2 ∧
    ((busWrite a val >>= fun _ =>
        CPU.modify fun t => t.setCyclesToWait (t.cyclesToWait + 8)) t).2.registers
      = t.registers := by
  simp only [CPU.bind_eq, busWrite]
  generalize t.bus.write a val BusRequestSource.CPU = w
  obtain ⟨r, b⟩ := w
  cases r <;> exact ⟨rfl, rfl, rfl⟩

/-- The instruction `BIT n,r` when the read at `HL` succeeds. -/
theorem opcodeCBh_BIT {μ : Type} (s : LR35902 μ) (v n k : Nat) (hn : n < 8) (hk : k < 8)
    (hp : s.bus.read s.registers.pc BusRequestSource.CPU = .ok (0x40 + 8 * n + k))
    (hv : s.bus.read s.registers.hl BusRequestSource.CPU = .ok v)
    (hr : getRegisterByLowerBits k v s < 256) :
    (opcodeCBh s).1 = .ok () ∧
    (opcodeCBh s).2.registers.f.z = !(getRegisterByLowerBits k v s).testBit n ∧
    (opcodeCBh s).2.registers.f.n = false ∧
    (opcodeCBh s).2.registers.f.h = true ∧
    (opcodeCBh s).2.registers.f.c = s.registers.f.c ∧
    getRegisterByLowerBits k v (opcodeCBh s).2 = getRegisterByLowerBits k v s ∧
    (opcodeCBh s).2.bus = s.bus := by
  obtain ⟨hz, -, -⟩ := bit_ops_byte n hn _ hr
  have hf : fetch s = (.ok (0x40 + 8 * n + k), s.setPc (s.registers.pc + 1)) := by
    rw [fetch_eq, hp]
  have hlo := (cb_low_bits n hn k hk).1
  have hop := opcodeCBh_operation_BIT (s.setPc (s.registers.pc + 1)) v n k hn hk
  have hg := getRegisterByLowerBits_setPc s (s.registers.pc + 1) k v
  rw [hg] at hop
  by_cases h6 : k = 6
  · subst h6
    have hnot : ¬(0x40 + 8 * n + 6 < 0x40 ∨ 0x40 + 8 * n + 6 > 0x7F) := by omega
    rw [opcodeCBh_HL_test s _ _ v hf hlo hnot hv, hop]
    exact ⟨rfl, hz, rfl, rfl, rfl, rfl, rfl⟩
  · have hlo6 : ((0x40 + 8 * n + k) &&& 0x7) % 256 ≠ 6 := by rw [hlo]; exact h6
    rw [opcodeCBh_register s _ _ v hf hlo6 hv, hlo, hop]
    exact ⟨rfl, hz, rfl, rfl, rfl, (getRegisterByLowerBits_BIT _ v n _ k hk).trans hg, rfl⟩

/-- The instruction `SET n,r` when the read at `HL` succeeds. -/
theorem opcodeCBh_SET {μ : Type} (s : LR35902 μ) (v n k : Nat) (hn : n < 8) (hk : k < 8)
    (hp : s.bus.read s.registers.pc BusRequestSource.CPU = .ok (0xC0 + 8 * n + k))
    (hv : s.bus.read s.registers.hl BusRequestSource.CPU = .ok v)
    (hr : getRegisterByLowerBits k v s < 256) :
    (opcodeCBh s).2.registers.f = s.registers.f ∧
    (k ≠ 6 → (opcodeCBh s).1 = .ok () ∧
      getRegisterByLowerBits k v (opcodeCBh s).2
        = getRegisterByLowerBits k v s ||| (1 <<< n) ∧
      (opcodeCBh s).2.bus = s.bus) ∧
    (k = 6 →
      (opcodeCBh s).1
        = (s.bus.write s.registers.hl (v ||| (1 <<< n)) BusRequestSource.CPU).1 ∧
      (opcodeCBh s).2.bus
        = (s.bus.write s.registers.hl (v ||| (1 <<< n)) BusRequestSource.CPU).2) := by
  obtain ⟨-, hset, -⟩ := bit_ops_byte n hn _ hr
  have hf : fetch s = (.ok (0xC0 + 8 * n + k), s.setPc (s.registers.pc + 1)) := by
    rw [fetch_eq, hp]
  have hlo := (cb_low_bits n hn k hk).2.2
  have hop := opcodeCBh_operation_SET (s.setPc (s.registers.pc + 1)) v n k hn hk
  have hg := getRegisterByLowerBits_setPc s (s.registers.pc + 1) k v
  rw [hg] at hop
  by_cases h6 : k = 6
  · subst h6
    have hyes : 0xC0 + 8 * n + 6 < 0x40 ∨ 0xC0 + 8 * n + 6 > 0x7F := by omega
    have hw := opcodeCBh_HL_write s _ _ v hf hlo hyes hv
    rw [hop] at hw
    have hset1 : (v ||| (1 <<< n)) % 256 % 256 = v ||| (1 <<< n) := hset
    have e1 : (assignRegisterByLowerBits 6
        ((getRegisterByLowerBits 6 v s ||| (1 <<< n)) % 256) v (s.setPc (s.registers.pc + 1)))
        = (v ||| (1 <<< n), s.setPc (s.registers.pc + 1)) := by
      show ((v ||| (1 <<< n)) % 256 % 256, s.setPc (s.registers.pc + 1)) = _
      rw [hset1]
    rw [e1] at hw
    rw [hw]
    obtain ⟨w1, w2, w3⟩ := busWrite_then_cycles (s.setPc (s.registers.pc + 1))
      (s.setPc (s.registers.pc + 1)).registers.hl (v ||| (1 <<< n))
    exact ⟨(congrArg LR35902Registers.f w3).trans rfl, fun h => absurd rfl h,
      fun _ => ⟨w1, w2⟩⟩
  · have hlo6 : ((0xC0 + 8 * n + k) &&& 0x7) % 256 ≠ 6 := by rw [hlo]; exact h6
    rw [opcodeCBh_register s _ _ v hf hlo6 hv, hlo, hop]
    refine ⟨assignRegisterByLowerBits_f _ v _ k hk, fun _ => ⟨rfl, ?_, ?_⟩,
      fun h => absurd h h6⟩
    · rw [getRegisterByLowerBits_register _ k v
        (assignRegisterByLowerBits k ((getRegisterByLowerBits k v s ||| (1 <<< n)) % 256) v
          (s.setPc (s.registers.pc + 1))).1 hk h6]
      exact (getRegisterByLowerBits_assign _ v _ k hk).trans hset
    · exact assignRegisterByLowerBits_bus _ k _ v

/-- The instruction `RES n,r` when the read at `HL` succeeds. -/
theorem opcodeCBh_RES {μ : Type} (s : LR35902 μ) (v n k : Nat) (hn : n < 8) (hk : k < 8)
    (hp : s.bus.read s.registers.pc BusRequestSource.CPU = .ok (0x80 + 8 * n + k))
    (hv : s.bus.read s.registers.hl BusRequestSource.CPU = .ok v)
    (hr : getRegisterByLowerBits k v s < 256) :
    (opcodeCBh s).2.registers.f = s.registers.f ∧
    (k ≠ 6 → (opcodeCBh s).1 = .ok () ∧
      getRegisterByLowerBits k v (opcodeCBh s).2
        = getRegisterByLowerBits k v s &&& (0xFF - (1 <<< n)) ∧
      (opcodeCBh s).2.bus = s.bus) ∧
    (k = 6 →
      (opcodeCBh s).1
        = (s.bus.write s.registers.hl (v &&& (0xFF - (1 <<< n))) BusRequestSource.CPU).1 ∧
      (opcodeCBh s).2.bus
        = (s.bus.write s.registers.hl (v &&& (0xFF - (1 <<< n))) BusRequestSource.CPU).2) := by
  obtain ⟨-, -, hset⟩ := bit_ops_byte n hn _ hr
  have hf : fetch s = (.ok (0x80 + 8 * n + k), s.setPc (s.registers.pc + 1)) := by
    rw [fetch_eq, hp]
  have hlo := (cb_low_bits n hn k hk).2.1
  have hop := opcodeCBh_operation_RES (s.setPc (s.registers.pc + 1)) v n k hn hk
  have hg := getRegisterByLowerBits_setPc s (s.registers.pc + 1) k v
  rw [hg] at hop
  by_cases h6 : k = 6
  · subst h6
    have hyes : 0x80 + 8 * n + 6 < 0x40 ∨ 0x80 + 8 * n + 6 > 0x7F := by omega
    have hw := opcodeCBh_HL_write s _ _ v hf hlo hyes hv
    rw [hop] at hw
    have hset1 : (v &&& bitNot (1 <<< n)) % 256 % 256 = v &&& (0xFF - (1 <<< n)) := hset
    have e1 : (assignRegisterByLowerBits 6
        ((getRegisterByLowerBits 6 v s &&& bitNot (1 <<< n)) % 256) v
        (s.setPc (s.registers.pc + 1)))
        = (v &&& (0xFF - (1 <<< n)), s.setPc (s.registers.pc + 1)) := by
      show ((v &&& bitNot (1 <<< n)) % 256 % 256, s.setPc (s.registers.pc + 1)) = _
      rw [hset1]
    rw [e1] at hw
    rw [hw]
    obtain ⟨w1, w2, w3⟩ := busWrite_then_cycles (s.setPc (s.registers.pc + 1))
      (s.setPc (s.registers.pc + 1)).registers.hl (v &&& (0xFF - (1 <<< n)))
    exact ⟨(congrArg LR35902Registers.f w3).trans rfl, fun h => absurd rfl h,
      fun _ => ⟨w1, w2⟩⟩
  · have hlo6 : ((0x80 + 8 * n + k) &&& 0x7) % 256 ≠ 6 := by rw [hlo]; exact h6
    rw [opcodeCBh_register s _ _ v hf hlo6 hv, hlo, hop]
    refine ⟨assignRegisterByLowerBits_f _ v _ k hk, fun _ => ⟨rfl, ?_, ?_⟩,
      fun h => absurd h h6⟩
    · rw [getRegisterByLowerBits_register _ k v
        (assignRegisterByLowerBits k
          ((getRegisterByLowerBits k v s &&& bitNot (1 <<< n)) % 256) v
          (s.setPc (s.registers.pc + 1))).1 hk h6]
      exact (getRegisterByLowerBits_assign _ v _ k hk).trans hset
    · exact assignRegisterByLowerBits_bus _ k _ v


/-- The instructions `BIT n,(HL)`, `SET n,(HL)` and `RES n,(HL)` on flat memory. -/
theorem opcodeCBh_HL_ramBus (m : Nat → Nat) (u : LR35902 (Nat → Nat)) (n : Nat) (hn : n < 8)
    (hu : u.bus = ramBus m) :
    (m (u.registers.pc % 65536) % 256 = 0x40 + 8 * n + 6 →
      (opcodeCBh u).1 = .ok () ∧ (opcodeCBh u).2.bus = ramBus m ∧
      (opcodeCBh u).2.registers.f.z = !(m (u.registers.hl % 65536) % 256).testBit n) ∧
    (m (u.registers.pc % 65536) % 256 = 0xC0 + 8 * n + 6 →
      (opcodeCBh u).1 = .ok () ∧
      (opcodeCBh u).2.bus = ramBus (fun a =>
        if a = u.registers.hl % 65536 then m (u.registers.hl % 65536) % 256 ||| (1 <<< n)
        else m a)) ∧
    (m (u.registers.pc % 65536) % 256 = 0x80 + 8 * n + 6 →
      (opcodeCBh u).1 = .ok () ∧
      (opcodeCBh u).2.bus = ramBus (fun a =>
        if a = u.registers.hl % 65536
        then m (u.registers.hl % 65536) % 256 &&& (0xFF - (1 <<< n))
        else m a)) := by
  have hv : u.bus.read u.registers.hl BusRequestSource.CPU
      = .ok (m (u.registers.hl % 65536) % 256) := by rw [hu, Bus.read_ramBus]
  have hr : getRegisterByLowerBits 6 (m (u.registers.hl % 65536) % 256) u < 256 :=
    Nat.mod_lt _ (by decide)
  have hr1 : m (u.registers.hl % 65536) % 256 < 256 := Nat.mod_lt _ (by decide)
  obtain ⟨-, hset, hres⟩ := bit_ops_byte n hn _ hr1
  rw [Nat.mod_mod] at hset hres
  have hres1 : (m (u.registers.hl % 65536) % 256 &&& (0xFF - (1 <<< n))) % 256
      = m (u.registers.hl % 65536) % 256 &&& (0xFF - (1 <<< n)) := by
    rw [← hres, Nat.mod_mod]
  refine ⟨fun hm => ?_, fun hm => ?_, fun hm => ?_⟩
  · have hp : u.bus.read u.registers.pc BusRequestSource.CPU = .ok (0x40 + 8 * n + 6) := by
      rw [hu, Bus.read_ramBus, hm]
    obtain ⟨h1, h2, -, -, -, -, h7⟩ := opcodeCBh_BIT u _ n 6 hn (by decide) hp hv hr
    exact ⟨h1, h7.trans hu, h2⟩
  · have hp : u.bus.read u.registers.pc BusRequestSource.CPU = .ok (0xC0 + 8 * n + 6) := by
      rw [hu, Bus.read_ramBus, hm]
    obtain ⟨-, -, h3⟩ := opcodeCBh_SET u _ n 6 hn (by decide) hp hv hr
    obtain ⟨h4, h5⟩ := h3 rfl
    rw [hu, Bus.write_ramBus, hset] at h4 h5
    exact ⟨h4, h5⟩
  · have hp : u.bus.read u.registers.pc BusRequestSource.CPU = .ok (0x80 + 8 * n + 6) := by
      rw [hu, Bus.read_ramBus, hm]
    obtain ⟨-, -, h3⟩ := opcodeCBh_RES u _ n 6 hn (by decide) hp hv hr
    obtain ⟨h4, h5⟩ := h3 rfl
    rw [hu, Bus.write_ramBus, hres1] at h4 h5
    exact ⟨h4, h5⟩

/-- Claim C18 (what the code does): `BIT n,r`, `SET n,r` and `RES n,r` as instructions,
that is `opcodeCBh` run on a state whose byte at `PC` is the second opcode byte
`0x40 + 8n + k`, `0xC0 + 8n + k` or `0x80 + 8n + k`, for every bit index `n` and every
operand selector `k` in 0..7. The operand `r` is the register selected by `k`, or for
`k = 6` the byte `v` that the read at `HL` returns. Whenever the read at `HL`
succeeds: `BIT` returns normally with `Z = 1` iff bit `n` of `r` is 0, `N = 0`, `H = 1`,
and `C`, the operand and the bus unchanged; `SET` and `RES` leave the four flags
unchanged, put `r | (1 << n)`, respectively `r & ~(1 << n)`, into a register operand
without touching the bus, and for the operand `(HL)` write that byte back to `HL`
through the bus, so that on flat memory the byte at `HL` becomes `r | (1 << n)`,
respectively `r & ~(1 << n)`, and every other byte stays. The read at `HL` is executed
for every operand: when it fails, the instruction ends with that error and changes
nothing but `PC`, also for a register operand. With `HL = 0x9000` on a bus that handles
only the addresses below 0x8000, `SET 0,B` (0xCB 0xC0) ends with `NoHandler(0x9000,
false)` and `B = 0x00`, and `BIT 0,A` (0xCB 0x47) leaves `Z = 1` although bit 0 of
`A = 0x01` is set. -/
theorem BIT_SET_RES_instruction {μ : Type} (n k : Nat) (hn : n < 8) (hk : k < 8) :
    -- `BIT n,r`
    (∀ (s : LR35902 μ) (v : Nat),
      s.bus.read s.registers.pc BusRequestSource.CPU = .ok (0x40 + 8 * n + k) →
      s.bus.read s.registers.hl BusRequestSource.CPU = .ok v →
      getRegisterByLowerBits k v s < 256 →
      (opcodeCBh s).1 = .ok () ∧
      (opcodeCBh s).2.registers.f.z = !(getRegisterByLowerBits k v s).testBit n ∧
      (opcodeCBh s).2.registers.f.n = false ∧
      (opcodeCBh s).2.registers.f.h = true ∧
      (opcodeCBh s).2.registers.f.c = s.registers.f.c ∧
      getRegisterByLowerBits k v (opcodeCBh s).2 = getRegisterByLowerBits k v s ∧
      (opcodeCBh s).2.bus = s.bus) ∧
    -- `SET n,r`
    (∀ (s : LR35902 μ) (v : Nat),
      s.bus.read s.registers.pc BusRequestSource.CPU = .ok (0xC0 + 8 * n + k) →
      s.bus.read s.registers.hl BusRequestSource.CPU = .ok v →
      getRegisterByLowerBits k v s < 256 →
      (opcodeCBh s).2.registers.f = s.registers.f ∧
      (k ≠ 6 → (opcodeCBh s).1 = .ok () ∧
        getRegisterByLowerBits k v (opcodeCBh s).2
          = getRegisterByLowerBits k v s ||| (1 <<< n) ∧
        (opcodeCBh s).2.bus = s.bus) ∧
      (k = 6 →
        (opcodeCBh s).1
          = (s.bus.write s.registers.hl (v ||| (1 <<< n)) BusRequestSource.CPU).1 ∧
        (opcodeCBh s).2.bus
          = (s.bus.write s.registers.hl (v ||| (1 <<< n)) BusRequestSource.CPU).2)) ∧
    -- `RES n,r`
    (∀ (s : LR35902 μ) (v : Nat),
      s.bus.read s.registers.pc BusRequestSource.CPU = .ok (0x80 + 8 * n + k) →
      s.bus.read s.registers.hl BusRequestSource.CPU = .ok v →
      getRegisterByLowerBits k v s < 256 →
      (opcodeCBh s).2.registers.f = s.registers.f ∧
      (k ≠ 6 → (opcodeCBh s).1 = .ok () ∧
        getRegisterByLowerBits k v (opcodeCBh s).2
          = getRegisterByLowerBits k v s &&& (0xFF - (1 <<< n)) ∧
        (opcodeCBh s).2.bus = s.bus) ∧
      (k = 6 →
        (opcodeCBh s).1
          = (s.bus.write s.registers.hl (v &&& (0xFF - (1 <<< n))) BusRequestSource.CPU).1 ∧
        (opcodeCBh s).2.bus
          = (s.bus.write s.registers.hl (v &&& (0xFF - (1 <<< n)))
              BusRequestSource.CPU).2)) ∧
    -- the operand `(HL)` on flat memory
    (∀ (m : Nat → Nat) (u : LR35902 (Nat → Nat)), u.bus = ramBus m →
      (m (u.registers.pc % 65536) % 256 = 0x40 + 8 * n + 6 →
        (opcodeCBh u).1 = .ok () ∧ (opcodeCBh u).2.bus = ramBus m ∧
        (opcodeCBh u).2.registers.f.z = !(m (u.registers.hl % 65536) % 256).testBit n) ∧
      (m (u.registers.pc % 65536) % 256 = 0xC0 + 8 * n + 6 →
        (opcodeCBh u).1 = .ok () ∧
        (opcodeCBh u).2.bus = ramBus (fun a =>
          if a = u.registers.hl % 65536 then m (u.registers.hl % 65536) % 256 ||| (1 <<< n)
          else m a)) ∧
      (m (u.registers.pc % 65536) % 256 = 0x80 + 8 * n + 6 →
        (opcodeCBh u).1 = .ok () ∧
        (opcodeCBh u).2.bus = ramBus (fun a =>
          if a = u.registers.hl % 65536
          then m (u.registers.hl % 65536) % 256 &&& (0xFF - (1 <<< n))
          else m a))) ∧
    -- the read at `HL` fails: the instruction ends there, whatever the operand
    (∀ (s : LR35902 μ) (opcode : Nat) (e : BusNoHandlerException),
      s.bus.read s.registers.pc BusRequestSource.CPU = .ok opcode →
      s.bus.read s.registers.hl BusRequestSource.CPU = .error e →
      opcodeCBh s = (.error e, s.setPc (s.registers.pc + 1))) ∧
    ((tick (cbUnmappedScenario 0xC0)).1 = .error ⟨0x9000, false⟩ ∧
      (cbUnmappedScenario 0xC0).registers.b = 0x00 ∧
      (tick (cbUnmappedScenario 0xC0)).2.registers.b = 0x00 ∧
      (tick (cbUnmappedScenario 0x47)).1 = .error ⟨0x9000, false⟩ ∧
      (cbUnmappedScenario 0x47).registers.a = 0x01 ∧
      (tick (cbUnmappedScenario 0x47)).2.registers.f.z = true) := by
  refine ⟨fun s v hp hv hr => opcodeCBh_BIT s v n k hn hk hp hv hr,
    fun s v hp hv hr => opcodeCBh_SET s v n k hn hk hp hv hr,
    fun s v hp hv hr => opcodeCBh_RES s v n k hn hk hp hv hr,
    fun m u hu => opcodeCBh_HL_ramBus m u n hn hu,
    fun s opcode e hp he => ?_, ⟨rfl, rfl, rfl, rfl, rfl, rfl⟩⟩
  exact opcodeCBh_read_error s _ opcode e (by rw [fetch_eq, hp]) he

theorem BIT_SET_RES_instruction_witness :
    (opcodeCBh (setHlScenario.setPc 0x0101)).1 = .ok () ∧
    (opcodeCBh (setHlScenario.setPc 0x0101)).2.bus
      = ramBus (fun a => if a = 0x014D then 0x89 else setHlMemory a) :=
  (((BIT_SET_RES_instruction 3 6 (by decide) (by decide)).2.1
    (setHlScenario.setPc 0x0101) 0x81 rfl rfl (by decide)).2.2 rfl)

end prefixed

end gbtest
